import Mathlib

/-!
# GATT interface functions (stack/gatt/gatt_api.cc): handle registry and application registry

A shallow embedding of the server-side service management functions of
`gatt_api.cc` (`compute_service_size`, `is_gatt_attr_type`,
`gatt_add_an_item_to_list`, `GATTS_AddService`, `GATTS_DeleteService`,
`GATTS_StopService`, `GATTS_AddHandleRange`), of `GATT_Register` and `GATT_Deregister`, of the
client functions (`GATTC_ConfigureMTU`, `GATTC_TryMtuRequest`,
`GATTC_GetAndRemoveListOfConnIdsWaitingForMtuRequest`, `GATTC_UpdateUserAttMtuIfNeeded`,
`GATTC_Discover`, `GATTC_Read`, `GATTC_Write`, `GATTC_ExecuteWrite`) and of the server
messaging functions (`GATTS_HandleValueIndication`, `GATTS_HandleValueNotification`,
`GATTS_MultiHandleValueNotifications`, `GATTS_CheckStatusForApp`), followed by theorems about
them.

Conventions of the embedding

* `gatt_cb` is an explicit value of type `tGATT_CB` that every function takes and returns.
* `uint8_t` / `uint16_t` values are `Nat`; a result stored into a 16-bit variable is reduced
  `% 65536` at the place where the C code stores it, and a 16-bit constant cast to the
  one-byte `tGATT_STATUS` is reduced `% 256` at the place of the cast.
* `std::list` iterators are positions (`Nat`) in a `List`; `end()` is `none`.
* Constants and collaborators that `gatt_api.cc` takes from headers and other translation
  units are the fields of `Platform` and of its extensions `ClientPlatform` and
  `ServerPlatform`; the theorems hold for every platform unless they say otherwise, and
  `stockPlatform`, `stockClientPlatform` and `stockServerPlatform` are concrete platforms used
  at concrete inputs.
* Calls into collaborators that only have an outside effect (NV save callback, SDP record
  deletion, service-changed indication) are recorded in log fields of `tGATT_CB`.
-/

namespace Gatt

/-! ## Data model -/

/-- A 128-bit UUID value (`bluetooth::Uuid`); `==` is equality of the value. -/
structure Uuid where
  val : Nat := 0
  deriving DecidableEq, Repr

instance : Inhabited Uuid := ⟨{}⟩

/-- The element kinds of `bt_gatt_db_attribute_type_t`; `unknown` stands for every other
value the enum-typed field can hold. -/
inductive bt_gatt_db_attribute_type_t where
  | BTGATT_DB_PRIMARY_SERVICE
  | BTGATT_DB_SECONDARY_SERVICE
  | BTGATT_DB_INCLUDED_SERVICE
  | BTGATT_DB_CHARACTERISTIC
  | BTGATT_DB_DESCRIPTOR
  | unknown (code : Nat)
  deriving DecidableEq, Repr

open bt_gatt_db_attribute_type_t

/-- One element of the service description (`btgatt_db_element_t`), with the fields that
`gatt_api.cc` reads or writes. -/
structure btgatt_db_element_t where
  uuid : Uuid := {}
  type : bt_gatt_db_attribute_type_t := BTGATT_DB_PRIMARY_SERVICE
  attribute_handle : Nat := 0
  properties : Nat := 0
  extended_properties : Nat := 0
  permissions : Nat := 0
  deriving DecidableEq, Repr

/-- One call made on an attribute database (`tGATT_SVC_DB`) by `GATTS_AddService`. -/
inductive DbCall where
  | gatts_init_service_db (svc_uuid : Uuid) (is_pri : Bool) (s_hdl num_handles : Nat)
  | gatts_add_characteristic (perm property : Nat) (char_uuid : Uuid)
  | gatts_add_char_ext_prop_descr (extended_properties : Nat)
  | gatts_add_char_descr (perm : Nat) (descr_uuid : Uuid)
  | gatts_add_included_service (s_handle e_handle : Nat) (service : Uuid)
  deriving DecidableEq, Repr

/-- The attribute database of one service. Its content is built by `gatt_db.cc`, which is
not part of this development: the database is represented by the calls made on it, in order. -/
structure tGATT_SVC_DB where
  calls : List DbCall := []
  deriving DecidableEq, Repr

/-- An allocated handle range (`tGATTS_HNDL_RANGE`). -/
structure tGATTS_HNDL_RANGE where
  app_uuid128 : Uuid := {}
  svc_uuid : Uuid := {}
  s_handle : Nat := 0
  e_handle : Nat := 0
  is_primary : Bool := false
  deriving DecidableEq, Repr

/-- An element of `gatt_cb.hdl_list_info` (`tGATT_HDL_LIST_ELEM`). -/
structure tGATT_HDL_LIST_ELEM where
  asgn_range : tGATTS_HNDL_RANGE := {}
  svc_db : tGATT_SVC_DB := {}
  deriving DecidableEq, Repr

/-- An element of `gatt_cb.srv_list_info` (`tGATT_SRV_LIST_ELEM`). `p_db` points at the
`svc_db` of the handle list element of the service; that database is not written after the
entry is created, so the entry carries its value. -/
structure tGATT_SRV_LIST_ELEM where
  p_db : tGATT_SVC_DB := {}
  app_uuid : Uuid := {}
  gatt_if : Nat := 0
  s_hdl : Nat := 0
  e_hdl : Nat := 0
  type : Nat := 0
  sdp_handle : Nat := 0
  is_primary : Bool := false
  deriving DecidableEq, Repr

/-- The handle configuration `gatt_cb.hdl_cfg` (`tGATT_HDL_CFG`). -/
structure tGATT_HDL_CFG where
  gatt_start_hdl : Nat := 0
  gap_start_hdl : Nat := 0
  app_start_hdl : Nat := 0
  deriving DecidableEq, Repr

/-- The callback set of an application (`tGATT_CBACK`), identified by a number. -/
structure tGATT_CBACK where
  id : Nat := 0
  deriving DecidableEq, Repr

/-- A registration slot (`tGATT_REG`); the default value is the zeroed slot. -/
structure tGATT_REG where
  app_uuid128 : Uuid := {}
  app_cb : tGATT_CBACK := {}
  gatt_if : Nat := 0
  in_use : Bool := false
  eatt_support : Bool := false
  deriving DecidableEq, Repr

/-- A link record (`tGATT_TCB`), with the fields the embedded functions touch. `peer_bda` is
the peer address as a number, `app_hold_link` the set of applications holding the link,
`pending_enc_clcb` the queue of transaction records (positions in `gatt_cb.clcb`) waiting for
the security check, `indicate_handle` the handle of the indication awaiting confirmation on
the link itself (0 when there is none). -/
structure tGATT_TCB where
  in_use : Bool := false
  is_robust_cache_change_aware : Bool := true
  tcb_idx : Nat := 0
  peer_bda : Nat := 0
  transport : Nat := 0
  att_lcid : Nat := 0
  ch_state : Nat := 0
  payload_size : Nat := 0
  max_user_mtu : Nat := 0
  pending_user_mtu_exchange_value : Nat := 0
  conn_ids_waiting_for_mtu_exchange : List Nat := []
  is_eatt_supported : Bool := false
  app_hold_link : List Nat := []
  pending_enc_clcb : List Nat := []
  indicate_handle : Nat := 0
  deriving DecidableEq, Repr

/-- An attribute value (`tGATT_VALUE`): the value of a write, an indication or a
notification. -/
structure tGATT_VALUE where
  conn_id : Nat := 0
  handle : Nat := 0
  offset : Nat := 0
  len : Nat := 0
  auth_req : Nat := 0
  value : List Nat := []
  read_sub_type : Nat := 0
  deriving DecidableEq, Repr

/-- The read parameters (`tGATT_READ_PARAM`). The members of the union are kept as separate
fields (`service`, `read_multiple`, `by_handle`, `partial`), with the `auth_req` they all
start with kept once; the caller fills the member that goes with the read type. -/
structure tGATT_READ_PARAM where
  auth_req : Nat := 0
  service_s_handle : Nat := 0
  service_e_handle : Nat := 0
  service_uuid : Uuid := {}
  read_multiple : List Nat := []
  by_handle_handle : Nat := 0
  partial_read_offset : Nat := 0
  deriving DecidableEq, Repr

/-- The buffer attached to a transaction record (`p_attr_buf`): the copy of the handles of a
multiple read, or the copy of the value of a write. -/
inductive tGATT_ATTR_BUF where
  | read_multi (read_multiple : List Nat)
  | value (p_write : tGATT_VALUE)
  deriving DecidableEq, Repr

/-- A transaction record (`tGATT_CLCB`); the default value is the zeroed record. `p_reg` and
`p_tcb` are pointers into `gatt_cb.cl_rcb` and `gatt_cb.tcb`: positions, `none` for NULL. -/
structure tGATT_CLCB where
  in_use : Bool := false
  conn_id : Nat := 0
  p_reg : Option Nat := none
  p_tcb : Option Nat := none
  operation : Nat := 0
  op_subtype : Nat := 0
  s_handle : Nat := 0
  e_handle : Nat := 0
  uuid : Uuid := {}
  auth_req : Nat := 0
  counter : Nat := 0
  read_req_current_mtu : Nat := 0
  start_offset : Nat := 0
  p_attr_buf : Option tGATT_ATTR_BUF := none
  deriving DecidableEq, Repr

/-- An enhanced bearer (`tGATT_EBCB`): its channel id, the link it is multiplexed on,
the connection identifiers bound to it, its negotiated payload size, the handle of the
indication awaiting confirmation on it (0 when there is none), its no-credits flag, and the
connection identifiers blocked on notification and on indication credits. -/
structure tGATT_EBCB where
  cid : Nat := 0
  tcb_idx : Nat := 0
  conn_ids : List Nat := []
  payload_size : Nat := 0
  indicate_handle : Nat := 0
  no_credits : Bool := false
  notif_no_credits_apps : List Nat := []
  ind_no_credits_apps : List Nat := []
  deriving DecidableEq, Repr

/-- The parameters of a multiple-handle-value notification (`tGATT_MULTI_NOTIF`). -/
structure tGATT_MULTI_NOTIF where
  conn_id : Nat := 0
  auth_req : Nat := 0
  num_attr : Nat := 0
  handles : List Nat := []
  lens : List Nat := []
  values : List (List Nat) := []
  deriving DecidableEq, Repr

/-- A server message handed to the transport by `attp_send_sr_msg`, with the link and the
channel it is sent on: a message built by `attp_build_sr_msg` from an opcode and an attribute
value, or one built by `attp_build_multi_ntf_cmd` from a payload size and the parameters of a
multiple-handle-value notification. -/
inductive tATT_SR_SENT where
  | sr_msg (tcb_idx lcid op_code : Nat) (attr_value : tGATT_VALUE)
  | multi_ntf_cmd (tcb_idx lcid payload_size : Nat) (multi_ntf : tGATT_MULTI_NOTIF)
  deriving DecidableEq, Repr

/-- A client message handed to the transport by `attp_send_cl_msg`: the link, the transaction
record, the channel, the opcode and, for an MTU request, the MTU in the message. -/
structure tATT_CL_SENT where
  tcb_idx : Nat := 0
  clcb_idx : Nat := 0
  lcid : Nat := 0
  op_code : Nat := 0
  mtu : Nat := 0
  deriving DecidableEq, Repr

/-- A call that starts a client procedure in a collaborator, with the position of the
transaction record it is given. -/
inductive tGATT_CL_ACTION where
  | gatt_act_discovery (clcb_idx : Nat)
  | gatt_security_check_start (clcb_idx : Nat)
  | gatt_send_queue_write_cancel (tcb_idx clcb_idx flag : Nat)
  deriving DecidableEq, Repr

/-- The result of `GATTC_TryMtuRequest` (`tGATTC_TryMtuRequestResult`). -/
inductive tGATTC_TryMtuRequestResult where
  | MTU_EXCHANGE_DEVICE_DISCONNECTED
  | MTU_EXCHANGE_NOT_ALLOWED
  | MTU_EXCHANGE_NOT_DONE_YET
  | MTU_EXCHANGE_IN_PROGRESS
  | MTU_EXCHANGE_ALREADY_DONE
  deriving DecidableEq, Repr

/-- The control block `gatt_cb` (`tGATT_CB`), with the fields used by the embedded functions.
`cl_rcb` is the array `cl_rcb[GATT_MAX_APPS]`: its length is `GATT_MAX_APPS`.
`clcb` is the pool `clcb[GATT_CL_MAX_LCB]` and `tcb` the array `tcb[GATT_MAX_PHY_CHANNEL]`.
The fields from `nv_save_calls` on record calls to collaborators: the NV save callback
(`is_add`, range), `gatt_add_sdp_record`, `SDP_DeleteRecord`, `gatt_proc_srv_chg`,
`attp_send_cl_msg`, the client procedures started, `gatt_disconnect` (link, channel),
`alarm_cancel` of the response timer of a transaction record,
`connection_manager::on_app_deregistered`, `attp_send_sr_msg`, `gatt_start_conf_timer` (link,
channel) and `BTM_SetBleDataLength` (peer, length). `pending_ind_q` and `notif_q` are the
pending-indication and pending-notification queues, each entry with the link and the channel
whose queue it is on. -/
structure tGATT_CB where
  hdl_list_info : List tGATT_HDL_LIST_ELEM := []
  srv_list_info : List tGATT_SRV_LIST_ELEM := []
  hdl_cfg : tGATT_HDL_CFG := {}
  cl_rcb : List tGATT_REG := []
  tcb : List tGATT_TCB := []
  database_hash : Nat := 0
  last_service_handle : Nat := 0
  over_br_enabled : Bool := false
  p_nv_save_callback : Bool := false
  nv_save_calls : List (Bool × tGATTS_HNDL_RANGE) := []
  sdp_added : List (Uuid × Nat × Nat) := []
  sdp_deleted : List Nat := []
  srv_chg_indications : Nat := 0
  clcb : List tGATT_CLCB := []
  eatt_bcb : List tGATT_EBCB := []
  att_cl_sent : List tATT_CL_SENT := []
  cl_actions : List tGATT_CL_ACTION := []
  disconnect_requests : List (Nat × Nat) := []
  alarm_cancelled : List Nat := []
  app_deregistered : List Nat := []
  att_sr_sent : List tATT_SR_SENT := []
  conf_timer_started : List (Nat × Nat) := []
  ble_data_length_requests : List (Nat × Nat) := []
  pending_ind_q : List (Nat × Nat × tGATT_VALUE) := []
  notif_q : List (Nat × Nat × tGATT_VALUE) := []
  deriving DecidableEq, Repr

/-- What `gatt_api.cc` takes from headers and from other translation units: status codes
and bit masks of `gatt_api.h`, attribute-type and service-class UUID numbers, the two `Uuid`
conversions, and the collaborators whose results the embedded functions use. -/
structure Platform where
  GATT_INTERNAL_ERROR : Nat
  GATT_SERVICE_STARTED : Nat
  GATT_CHAR_PROP_BIT_AUTH : Nat
  GATT_CHAR_PROP_BIT_EXT_PROP : Nat
  GATT_WRITE_SIGNED_PERM : Nat
  GATT_UUID_PRI_SERVICE : Nat
  GATT_UUID_SEC_SERVICE : Nat
  GATT_UUID_INCLUDE_SERVICE : Nat
  GATT_UUID_CHAR_DECLARE : Nat
  UUID_SERVCLASS_GATT_SERVER : Nat
  UUID_SERVCLASS_GAP_SERVER : Nat
  From16Bit : Nat → Uuid
  As16Bit : Uuid → Nat
  gatts_calculate_database_hash : List tGATT_SRV_LIST_ELEM → Nat
  gatts_get_service_uuid : tGATT_SVC_DB → Option Uuid
  gatts_attribute_handle : tGATT_SVC_DB → Nat
  gatt_add_sdp_record : Uuid → Nat → Nat → Nat
  get_pts_service_chg_indication_disable : Bool

/-! ## Sizing and attribute-type test -/

/-- The `for` loop of `compute_service_size`: `db_size` is the running `int`; an element of
unknown kind sets it to 0 and leaves the loop. -/
def compute_service_size_loop (P : Platform) : List btgatt_db_element_t → Nat → Nat
  | [], db_size => db_size
  | el :: els, db_size =>
    if el.type = BTGATT_DB_PRIMARY_SERVICE ∨ el.type = BTGATT_DB_SECONDARY_SERVICE ∨
        el.type = BTGATT_DB_DESCRIPTOR ∨ el.type = BTGATT_DB_INCLUDED_SERVICE then
      compute_service_size_loop P els (db_size + 1)
    else if el.type = BTGATT_DB_CHARACTERISTIC then
      if el.properties &&& P.GATT_CHAR_PROP_BIT_EXT_PROP ≠ 0 then
        compute_service_size_loop P els (db_size + 2 + 1)
      else
        compute_service_size_loop P els (db_size + 2)
    else 0

/-- `compute_service_size(service, count)` with `count = service.length`: the `int` total is
returned as `uint16_t`. -/
def compute_service_size (P : Platform) (service : List btgatt_db_element_t) : Nat :=
  compute_service_size_loop P service 0 % 65536

/-- `is_gatt_attr_type(uuid)`. -/
def is_gatt_attr_type (P : Platform) (uuid : Uuid) : Bool :=
  if uuid = P.From16Bit P.GATT_UUID_PRI_SERVICE ∨ uuid = P.From16Bit P.GATT_UUID_SEC_SERVICE ∨
      uuid = P.From16Bit P.GATT_UUID_INCLUDE_SERVICE ∨
      uuid = P.From16Bit P.GATT_UUID_CHAR_DECLARE then true
  else false

/-! ## Helpers of the handle registry -/

/-- Modelled from the spec: `gatt_get_regcb` (gatt_utils.cc) is not part of this development.
The registration slot of the 1-based application id `gatt_if`; `none` (NULL) when the id is 0
or above `GATT_MAX_APPS`, or when its slot is not in use. -/
def gatt_get_regcb (cb : tGATT_CB) (gatt_if : Nat) : Option tGATT_REG :=
  if gatt_if < 1 ∨ gatt_if > cb.cl_rcb.length then none
  else
    match cb.cl_rcb[gatt_if - 1]? with
    | none => none
    | some p_reg => if p_reg.in_use then some p_reg else none

/-- The position of the first element of a list that satisfies `p`: the iterator a search
loop returns, `none` for `end()`. -/
def find_first {α : Type} (p : α → Bool) : List α → Option Nat
  | [] => none
  | x :: xs => if p x then some 0 else (find_first p xs).map (· + 1)

/-- Modelled from the spec: `gatt_find_hdl_buffer_by_app_id` (gatt_utils.cc) is not part of
this development. It looks up the owning range by (app_uuid, service_uuid, start_handle):
the position of the first such element of the handle list, `none` for `end()`. -/
def gatt_find_hdl_buffer_by_app_id (cb : tGATT_CB) (app_uuid128 : Uuid) (p_svc_uuid : Uuid)
    (start_handle : Nat) : Option Nat :=
  find_first (fun it => decide (app_uuid128 = it.asgn_range.app_uuid128) &&
    decide (p_svc_uuid = it.asgn_range.svc_uuid) &&
    decide (start_handle = it.asgn_range.s_handle)) cb.hdl_list_info

/-- Modelled from the spec: `gatt_find_hdl_buffer_by_handle` (gatt_utils.cc) is not part of
this development. The allocated range whose start handle is `handle`, or `none` (nullptr)
when that handle is not the start of an allocated range. -/
def gatt_find_hdl_buffer_by_handle (hdl_list_info : List tGATT_HDL_LIST_ELEM) (handle : Nat) :
    Option tGATT_HDL_LIST_ELEM :=
  hdl_list_info.find? (fun it => decide (it.asgn_range.s_handle = handle))

/-- Modelled from the spec: `gatt_sr_find_i_rcb_by_handle` (gatt_utils.cc) is not part of this
development. The position of the started-service entry whose start handle is `handle` (the
first one), `none` for `end()`. -/
def gatt_sr_find_i_rcb_by_handle (cb : tGATT_CB) (handle : Nat) : Option Nat :=
  find_first (fun it => decide (it.s_hdl = handle)) cb.srv_list_info

/-- Modelled from the spec: `gatt_sr_update_cl_status` (gatt_sr.cc) is not part of this
development. With `chg_aware = false` it invalidates the peer's change-aware status. -/
def gatt_sr_update_cl_status (tcb : tGATT_TCB) (chg_aware : Bool) : tGATT_TCB :=
  { tcb with is_robust_cache_change_aware := chg_aware }

/-- `gatt_add_an_item_to_list(s_handle)`: walks the handle list to the first element whose
start handle is below `s_handle` and emplaces a value-initialised element there. The result
is the position of the new element and the list with it. -/
def gatt_add_an_item_to_list : List tGATT_HDL_LIST_ELEM → Nat → Nat × List tGATT_HDL_LIST_ELEM
  | [], _ => (0, [{}])
  | it :: rest, s_handle =>
    if s_handle > it.asgn_range.s_handle then (0, {} :: it :: rest)
    else
      let r := gatt_add_an_item_to_list rest s_handle
      (r.1 + 1, it :: r.2)

/-- `GATTS_AddHandleRange(p_hndl_range)`. -/
def GATTS_AddHandleRange (cb : tGATT_CB) (p_hndl_range : tGATTS_HNDL_RANGE) : tGATT_CB :=
  { cb with hdl_list_info := (gatt_add_an_item_to_list cb.hdl_list_info p_hndl_range.s_handle).2 }

/-- `gatt_update_last_srv_info()`: the watermark is the start handle of the last entry of the
started-service list, 0 for the empty list. -/
def gatt_update_last_srv_info (cb : tGATT_CB) : tGATT_CB :=
  { cb with last_service_handle :=
      cb.srv_list_info.foldl (fun _ el => el.s_hdl) 0 }

/-- `gatt_update_for_database_change()`. -/
def gatt_update_for_database_change (P : Platform) (cb : tGATT_CB) : tGATT_CB :=
  { cb with
    database_hash := P.gatts_calculate_database_hash cb.srv_list_info
    tcb := cb.tcb.map (fun tcb => if tcb.in_use then gatt_sr_update_cl_status tcb false else tcb) }

/-- `is_uuid_le_only_transport(uuid)`. -/
def is_uuid_le_only_transport (P : Platform) (uuid : Uuid) : Bool :=
  let uuid_val := P.As16Bit uuid
  if uuid_val = 0x1849 ∨ uuid_val = 0x184C then true else false

/-- The closing step of `GATTS_AddService` and `GATTS_DeleteService`: the service-changed
indication, unless the stack configuration disables it. -/
def gatt_proc_srv_chg_unless_disabled (P : Platform) (cb : tGATT_CB) : tGATT_CB :=
  if !P.get_pts_service_chg_indication_disable then
    { cb with srv_chg_indications := cb.srv_chg_indications + 1 }
  else cb

/-! ## GATTS_AddService -/

/-- Lines 218-231 of `GATTS_AddService`: the start handle `s_hdl` (a `uint16_t`) and the flag
`save_hdl`. -/
def select_s_hdl (P : Platform) (cb : tGATT_CB) (svc_uuid : Uuid) : Nat × Bool :=
  if svc_uuid = P.From16Bit P.UUID_SERVCLASS_GATT_SERVER then (cb.hdl_cfg.gatt_start_hdl, false)
  else if svc_uuid = P.From16Bit P.UUID_SERVCLASS_GAP_SERVER then (cb.hdl_cfg.gap_start_hdl, false)
  else
    let s_hdl := match cb.hdl_list_info with
      | [] => 0
      | front :: _ => (front.asgn_range.e_handle + 1) % 65536
    let s_hdl := if s_hdl < cb.hdl_cfg.app_start_hdl then cb.hdl_cfg.app_start_hdl else s_hdl
    (s_hdl, true)

/-- One pass of the element loop of `GATTS_AddService` (lines 264-315) on the element `el`:
`none` is the `return GATT_INTERNAL_ERROR` of the pass, otherwise the database and the
element after the pass. -/
def add_service_element (P : Platform) (hdl_list_info : List tGATT_HDL_LIST_ELEM)
    (svc_db : tGATT_SVC_DB) (el : btgatt_db_element_t) :
    Option (tGATT_SVC_DB × btgatt_db_element_t) :=
  let uuid := el.uuid
  if el.type = BTGATT_DB_CHARACTERISTIC then
    if (el.properties &&& P.GATT_CHAR_PROP_BIT_AUTH ≠ 0 ∧
          ¬ (el.permissions &&& P.GATT_WRITE_SIGNED_PERM ≠ 0)) ∨
        (el.permissions &&& P.GATT_WRITE_SIGNED_PERM ≠ 0 ∧
          ¬ (el.properties &&& P.GATT_CHAR_PROP_BIT_AUTH ≠ 0)) then none
    else if is_gatt_attr_type P uuid then none
    else
      let db1 : tGATT_SVC_DB :=
        { calls := svc_db.calls ++ [DbCall.gatts_add_characteristic el.permissions el.properties uuid] }
      let el1 := { el with attribute_handle := P.gatts_attribute_handle db1 }
      if el.properties &&& P.GATT_CHAR_PROP_BIT_EXT_PROP ≠ 0 then
        some ({ calls := db1.calls ++ [DbCall.gatts_add_char_ext_prop_descr el.extended_properties] }, el1)
      else some (db1, el1)
  else if el.type = BTGATT_DB_DESCRIPTOR then
    if is_gatt_attr_type P uuid then none
    else
      let db1 : tGATT_SVC_DB :=
        { calls := svc_db.calls ++ [DbCall.gatts_add_char_descr el.permissions uuid] }
      some (db1, { el with attribute_handle := P.gatts_attribute_handle db1 })
  else if el.type = BTGATT_DB_INCLUDED_SERVICE then
    match gatt_find_hdl_buffer_by_handle hdl_list_info el.attribute_handle with
    | none => none
    | some p_incl_decl =>
      let db1 : tGATT_SVC_DB :=
        { calls := svc_db.calls ++ [DbCall.gatts_add_included_service
            p_incl_decl.asgn_range.s_handle p_incl_decl.asgn_range.e_handle
            p_incl_decl.asgn_range.svc_uuid] }
      some (db1, { el with attribute_handle := P.gatts_attribute_handle db1 })
  else some (svc_db, el)

/-- The element loop of `GATTS_AddService` over the elements after the first one. The
boolean is false when a pass returned `GATT_INTERNAL_ERROR`; the database and the elements
are as the loop left them. -/
def add_service_elements (P : Platform) (hdl_list_info : List tGATT_HDL_LIST_ELEM) :
    tGATT_SVC_DB → List btgatt_db_element_t → Bool × tGATT_SVC_DB × List btgatt_db_element_t
  | svc_db, [] => (true, svc_db, [])
  | svc_db, el :: els =>
    match add_service_element P hdl_list_info svc_db el with
    | none => (false, svc_db, el :: els)
    | some (db1, el1) =>
      let r := add_service_elements P hdl_list_info db1 els
      (r.1, r.2.1, el1 :: r.2.2)

/-- Lines 323-328 of `GATTS_AddService`: the new entry goes before the first started service
whose start handle is above `s_handle`. -/
def srv_list_emplace (elem : tGATT_SRV_LIST_ELEM) : List tGATT_SRV_LIST_ELEM → List tGATT_SRV_LIST_ELEM
  | [] => [elem]
  | it :: rest => if elem.s_hdl < it.s_hdl then elem :: it :: rest else it :: srv_list_emplace elem rest

/-- `GATTS_AddService(gatt_if, service, count)` with `count = service.length`. The result is
the returned status, the element array as the function leaves it, and `gatt_cb`. -/
def GATTS_AddService (P : Platform) (cb : tGATT_CB) (gatt_if : Nat)
    (service : List btgatt_db_element_t) : Nat × List btgatt_db_element_t × tGATT_CB :=
  match gatt_get_regcb cb gatt_if with
  | none => (P.GATT_INTERNAL_ERROR, service, cb)
  | some p_reg =>
    let num_handles := compute_service_size P service
    if num_handles = 0 then (P.GATT_INTERNAL_ERROR, service, cb)
    else
      match service with
      | [] => (P.GATT_INTERNAL_ERROR, service, cb)
      | first :: others =>
        let is_pri := decide (first.type = BTGATT_DB_PRIMARY_SERVICE)
        let svc_uuid := first.uuid
        let s_hdl := (select_s_hdl P cb svc_uuid).1
        let save_hdl := (select_s_hdl P cb svc_uuid).2
        if num_handles > 0xFFFF - s_hdl + 1 then (P.GATT_INTERNAL_ERROR, service, cb)
        else
          let added := gatt_add_an_item_to_list cb.hdl_list_info s_hdl
          let asgn_range : tGATTS_HNDL_RANGE :=
            { app_uuid128 := p_reg.app_uuid128, svc_uuid := svc_uuid, s_handle := s_hdl,
              e_handle := (s_hdl + num_handles - 1) % 65536, is_primary := is_pri }
          let nv_save_calls :=
            if save_hdl ∧ cb.p_nv_save_callback then cb.nv_save_calls ++ [(true, asgn_range)]
            else cb.nv_save_calls
          let db0 : tGATT_SVC_DB :=
            { calls := [DbCall.gatts_init_service_db svc_uuid is_pri s_hdl num_handles] }
          let first1 := { first with attribute_handle := s_hdl }
          let looped := add_service_elements P
            (added.2.set added.1 { asgn_range := asgn_range, svc_db := db0 }) db0 others
          let list : tGATT_HDL_LIST_ELEM := { asgn_range := asgn_range, svc_db := looped.2.1 }
          let cb1 := { cb with hdl_list_info := added.2.set added.1 list,
                               nv_save_calls := nv_save_calls }
          if !looped.1 then (P.GATT_INTERNAL_ERROR, first1 :: looped.2.2, cb1)
          else
            let type := if list.asgn_range.is_primary then P.GATT_UUID_PRI_SERVICE
              else P.GATT_UUID_SEC_SERVICE
            let sdp_uuid : Option Uuid :=
              if type = P.GATT_UUID_PRI_SERVICE ∧ cb.over_br_enabled then
                match P.gatts_get_service_uuid list.svc_db with
                | some p_uuid => if !is_uuid_le_only_transport P p_uuid then some p_uuid else none
                | none => none
              else none
            let elem : tGATT_SRV_LIST_ELEM :=
              { gatt_if := gatt_if, s_hdl := list.asgn_range.s_handle,
                e_hdl := list.asgn_range.e_handle, p_db := list.svc_db,
                is_primary := list.asgn_range.is_primary,
                app_uuid := list.asgn_range.app_uuid128, type := type,
                sdp_handle := match sdp_uuid with
                  | some p_uuid => P.gatt_add_sdp_record p_uuid list.asgn_range.s_handle
                      list.asgn_range.e_handle
                  | none => 0 }
            let cb2 := { cb1 with
              srv_list_info := srv_list_emplace elem cb1.srv_list_info,
              sdp_added := match sdp_uuid with
                | some p_uuid => cb1.sdp_added ++
                    [(p_uuid, list.asgn_range.s_handle, list.asgn_range.e_handle)]
                | none => cb1.sdp_added }
            let cb3 := gatt_update_last_srv_info cb2
            let cb4 := gatt_update_for_database_change P cb3
            (P.GATT_SERVICE_STARTED, first1 :: looped.2.2, gatt_proc_srv_chg_unless_disabled P cb4)

/-! ## GATTS_StopService and GATTS_DeleteService -/

/-- `is_active_service(app_uuid128, p_svc_uuid, start_handle)`. -/
def is_active_service (P : Platform) (cb : tGATT_CB) (app_uuid128 : Uuid) (p_svc_uuid : Uuid)
    (start_handle : Nat) : Bool :=
  cb.srv_list_info.any (fun info =>
    match P.gatts_get_service_uuid info.p_db with
    | some p_this_uuid =>
      decide (app_uuid128 = info.app_uuid) && decide (p_svc_uuid = p_this_uuid) &&
        decide (start_handle = info.s_hdl)
    | none => false)

/-- `GATTS_StopService(service_handle)`. When no started service has that start handle the
code logs an error and goes on to dereference and erase the `end()` iterator, which has no
defined result: `none`. -/
def GATTS_StopService (cb : tGATT_CB) (service_handle : Nat) : Option tGATT_CB :=
  match gatt_sr_find_i_rcb_by_handle cb service_handle with
  | none => none
  | some it =>
    match cb.srv_list_info[it]? with
    | none => none
    | some el =>
      let cb1 := if el.sdp_handle ≠ 0 then
          { cb with sdp_deleted := cb.sdp_deleted ++ [el.sdp_handle] }
        else cb
      some (gatt_update_last_srv_info { cb1 with srv_list_info := cb1.srv_list_info.eraseIdx it })

/-- `GATTS_DeleteService(gatt_if, p_svc_uuid, svc_inst)`: the returned boolean and `gatt_cb`;
`none` only if the call of `GATTS_StopService` has no defined result. -/
def GATTS_DeleteService (P : Platform) (cb : tGATT_CB) (gatt_if : Nat) (p_svc_uuid : Uuid)
    (svc_inst : Nat) : Option (Bool × tGATT_CB) :=
  match gatt_get_regcb cb gatt_if with
  | none => some (false, cb)
  | some p_reg =>
    match gatt_find_hdl_buffer_by_app_id cb p_reg.app_uuid128 p_svc_uuid svc_inst with
    | none => some (false, cb)
    | some it =>
      match cb.hdl_list_info[it]? with
      | none => none
      | some range =>
        let stopped :=
          if is_active_service P cb p_reg.app_uuid128 p_svc_uuid svc_inst then
            GATTS_StopService cb range.asgn_range.s_handle
          else some cb
        match stopped with
        | none => none
        | some cb1 =>
          let cb2 := gatt_proc_srv_chg_unless_disabled P (gatt_update_for_database_change P cb1)
          let cb3 :=
            if range.asgn_range.s_handle ≥ cb2.hdl_cfg.app_start_hdl ∧ cb2.p_nv_save_callback then
              { cb2 with nv_save_calls := cb2.nv_save_calls ++ [(false, range.asgn_range)] }
            else cb2
          some (true, { cb3 with hdl_list_info := cb3.hdl_list_info.eraseIdx it })

/-! ## GATT_Register -/

/-- `GATT_Register(app_uuid128, p_cb_info, eatt_support)`: the returned id and `gatt_cb`.
The loop counter `i_gatt_if` and the id are `uint8_t`. -/
def GATT_Register (cb : tGATT_CB) (app_uuid128 : Uuid) (p_cb_info : tGATT_CBACK)
    (eatt_support : Bool) : Nat × tGATT_CB :=
  if cb.cl_rcb.any (fun p_reg => p_reg.in_use && decide (p_reg.app_uuid128 = app_uuid128)) then
    (0, cb)
  else
    match find_first (fun p_reg => !p_reg.in_use) cb.cl_rcb with
    | some i_gatt_if =>
      let gatt_if := (i_gatt_if + 1) % 256
      let p_reg : tGATT_REG :=
        { app_uuid128 := app_uuid128, gatt_if := gatt_if, app_cb := p_cb_info, in_use := true,
          eatt_support := eatt_support }
      (gatt_if, { cb with cl_rcb := cb.cl_rcb.set i_gatt_if p_reg })
    | none => (0, cb)

/-! ## Client and connection functions: constants, collaborators and helpers -/

/-- What the client and connection functions of `gatt_api.cc` take from headers and from other
translation units, beyond `Platform`: status codes, MTU bounds, transports, channel constants,
opcodes, operation, discovery, read and write types, and three collaborators whose answers
the functions use: the status the transport returns for a client message (given the messages
handed over before), whether the security check defers a transaction, and whether an MTU
exchange is pending on a link. -/
structure ClientPlatform extends Platform where
  GATT_SUCCESS : Nat
  GATT_ILLEGAL_PARAMETER : Nat
  GATT_NO_RESOURCES : Nat
  GATT_ERROR : Nat
  GATT_CMD_STARTED : Nat
  GATT_BUSY : Nat
  GATT_DEF_BLE_MTU_SIZE : Nat
  GATT_MAX_MTU_SIZE : Nat
  BT_TRANSPORT_BR_EDR : Nat
  BT_TRANSPORT_LE : Nat
  L2CAP_ATT_CID : Nat
  GATT_CH_CLOSE : Nat
  GATT_REQ_MTU : Nat
  GATTC_OPTYPE_DISCOVERY : Nat
  GATTC_OPTYPE_READ : Nat
  GATTC_OPTYPE_WRITE : Nat
  GATTC_OPTYPE_EXE_WRITE : Nat
  GATTC_OPTYPE_CONFIG : Nat
  GATT_DISC_SRVC_BY_UUID : Nat
  GATT_DISC_MAX : Nat
  GATT_READ_BY_TYPE : Nat
  GATT_READ_BY_HANDLE : Nat
  GATT_READ_MULTIPLE : Nat
  GATT_READ_MULTIPLE_VARIABLE : Nat
  GATT_READ_CHAR_VALUE : Nat
  GATT_READ_PARTIAL : Nat
  GATT_READ_MAX : Nat
  GATT_WRITE_NO_RSP : Nat
  GATT_WRITE : Nat
  GATT_WRITE_PREPARE : Nat
  GATT_PREP_WRITE_CANCEL : Nat
  GATT_PREP_WRITE_EXEC : Nat
  attp_send_cl_msg_status : List tATT_CL_SENT → tATT_CL_SENT → Nat
  gatt_security_check_start_deferred : tGATT_CLCB → Bool
  gatt_is_pending_mtu_exchange : tGATT_TCB → Bool

/-- `SYSTEM_APP_GATT_IF`, defined at the top of `gatt_api.cc`. -/
def SYSTEM_APP_GATT_IF : Nat := 3

/-- `Uuid::kEmpty`: the all-zero UUID. -/
def Uuid.kEmpty : Uuid := { val := 0 }

/-- `uuid.IsEmpty()`. -/
def Uuid.IsEmpty (uuid : Uuid) : Bool := decide (uuid = Uuid.kEmpty)

/-- `GATT_HANDLE_IS_VALID(x)`: the handle is not 0. -/
def GATT_HANDLE_IS_VALID (x : Nat) : Bool := decide (x ≠ 0)

/-- Modelled from the spec: the macro `GATT_GET_GATT_IF` (gatt_int.h) is not part of this
development. The connection identifier packs the link index and the application id into
disjoint bit fields; the application id is the low byte. -/
def GATT_GET_GATT_IF (conn_id : Nat) : Nat := conn_id % 256

/-- Modelled from the spec: the macro `GATT_GET_TCB_IDX` (gatt_int.h) is not part of this
development. The link index is the second byte of the connection identifier. -/
def GATT_GET_TCB_IDX (conn_id : Nat) : Nat := (conn_id / 256) % 256

/-- Modelled from the spec: the macro `GATT_CREATE_CONN_ID` (gatt_int.h) is not part of this
development. The 16-bit connection identifier of a link index and an application id. -/
def GATT_CREATE_CONN_ID (tcb_idx gatt_if : Nat) : Nat := (tcb_idx % 256) * 256 + gatt_if % 256

/-- Modelled from the spec: `gatt_get_tcb_by_idx` (gatt_utils.cc) is not part of this
development. The link record at a link index; `none` (NULL) when the index is outside the
array or the record is not in use. The pointer it returns is the position `tcb_idx`. -/
def gatt_get_tcb_by_idx (cb : tGATT_CB) (tcb_idx : Nat) : Option tGATT_TCB :=
  match cb.tcb[tcb_idx]? with
  | none => none
  | some p_tcb => if p_tcb.in_use then some p_tcb else none

/-- Modelled from the spec: `gatt_find_tcb_by_addr` (gatt_utils.cc) is not part of this
development. The position of the link record in use for a peer address and a transport (the
first one), `none` (NULL) when the peer has no link record on that transport. -/
def gatt_find_tcb_by_addr (cb : tGATT_CB) (bda : Nat) (transport : Nat) : Option Nat :=
  find_first (fun p_tcb => p_tcb.in_use && decide (p_tcb.peer_bda = bda) &&
    decide (p_tcb.transport = transport)) cb.tcb

/-- Modelled from the spec: `gatt_get_ch_state` (gatt_utils.cc) is not part of this
development. The channel state of a link record. -/
def gatt_get_ch_state (p_tcb : tGATT_TCB) : Nat := p_tcb.ch_state

/-- Modelled from the spec: `gatt_is_clcb_allocated` (gatt_utils.cc) is not part of this
development. A live transaction record exists for the connection identifier. -/
def gatt_is_clcb_allocated (cb : tGATT_CB) (conn_id : Nat) : Bool :=
  cb.clcb.any (fun p_clcb => p_clcb.in_use && decide (p_clcb.conn_id = conn_id))

/-- Modelled from the spec: `gatt_clcb_alloc` (gatt_utils.cc) is not part of this development.
It takes the first record of the pool that is not in use and makes it the live transaction
record of `conn_id`, with the pointers to the registration and the link record of `conn_id`;
`none` (NULL) when the pool is exhausted. The result is the position of the record, the
record, and `gatt_cb`. -/
def gatt_clcb_alloc (cb : tGATT_CB) (conn_id : Nat) : Option (Nat × tGATT_CLCB × tGATT_CB) :=
  match find_first (fun p_clcb : tGATT_CLCB => !p_clcb.in_use) cb.clcb with
  | none => none
  | some i =>
    match cb.clcb[i]? with
    | none => none
    | some free =>
      let p_clcb : tGATT_CLCB :=
        { free with
          in_use := true
          conn_id := conn_id
          p_reg := (gatt_get_regcb cb (GATT_GET_GATT_IF conn_id)).map
            (fun _ => GATT_GET_GATT_IF conn_id - 1)
          p_tcb := (gatt_get_tcb_by_idx cb (GATT_GET_TCB_IDX conn_id)).map
            (fun _ => GATT_GET_TCB_IDX conn_id) }
      some (i, p_clcb, { cb with clcb := cb.clcb.set i p_clcb })

/-- Modelled from the spec: `gatt_clcb_dealloc` (gatt_utils.cc) is not part of this
development. It discards the transaction record at a position: the record is zeroed. -/
def gatt_clcb_dealloc (cb : tGATT_CB) (i : Nat) : tGATT_CB :=
  { cb with clcb := cb.clcb.set i {} }

/-- Modelled from the spec: `attp_send_cl_msg` (att_protocol.cc) is not part of this
development. It hands the message to the transport and returns the status the transport
answers; the link record is not written. -/
def attp_send_cl_msg (P : ClientPlatform) (cb : tGATT_CB) (msg : tATT_CL_SENT) : Nat × tGATT_CB :=
  (P.attp_send_cl_msg_status cb.att_cl_sent msg, { cb with att_cl_sent := cb.att_cl_sent ++ [msg] })

/-- Modelled from the spec: `gatt_act_discovery` (gatt_cl.cc) is not part of this development.
It starts the discovery procedure of a transaction record; what the procedure does arrives as
later events. -/
def gatt_act_discovery (cb : tGATT_CB) (clcb_idx : Nat) : tGATT_CB :=
  { cb with cl_actions := cb.cl_actions ++ [tGATT_CL_ACTION.gatt_act_discovery clcb_idx] }

/-- Modelled from the spec: `gatt_security_check_start` (gatt_auth.cc) is not part of this
development. It starts the security check of a transaction record and answers true when the
transaction is deferred pending encryption (the caller must queue it). -/
def gatt_security_check_start (P : ClientPlatform) (cb : tGATT_CB) (clcb_idx : Nat)
    (p_clcb : tGATT_CLCB) : Bool × tGATT_CB :=
  (P.gatt_security_check_start_deferred p_clcb,
   { cb with cl_actions := cb.cl_actions ++ [tGATT_CL_ACTION.gatt_security_check_start clcb_idx] })

/-- Modelled from the spec: `gatt_send_queue_write_cancel` (gatt_cl.cc) is not part of this
development. It starts the execute-write procedure of a transaction record with the flag. -/
def gatt_send_queue_write_cancel (cb : tGATT_CB) (tcb_idx clcb_idx flag : Nat) : tGATT_CB :=
  { cb with cl_actions := cb.cl_actions ++
      [tGATT_CL_ACTION.gatt_send_queue_write_cancel tcb_idx clcb_idx flag] }

/-- The link record at a position rewritten by `f`: a write through the pointer `p_tcb`. -/
def tcb_write (cb : tGATT_CB) (tcb_idx : Nat) (f : tGATT_TCB → tGATT_TCB) : tGATT_CB :=
  match cb.tcb[tcb_idx]? with
  | none => cb
  | some p_tcb => { cb with tcb := cb.tcb.set tcb_idx (f p_tcb) }

/-- Modelled from the spec: `is_gatt_conn_id_found` (eatt_utils.cc) is not part of this
development. A bearer already exists for the connection identifier. -/
def is_gatt_conn_id_found (cb : tGATT_CB) (conn_id : Nat) : Bool :=
  cb.eatt_bcb.any (fun p_eatt_bcb => decide (conn_id ∈ p_eatt_bcb.conn_ids))

/-- Modelled from the spec: `gatt_get_cid_by_conn_id` (eatt_utils.cc) is not part of this
development. The channel of the bearer of the connection identifier; the single non-enhanced
channel `L2CAP_ATT_CID` when it has none. -/
def gatt_get_cid_by_conn_id (P : ClientPlatform) (cb : tGATT_CB) (conn_id : Nat) : Nat :=
  match cb.eatt_bcb.find? (fun p_eatt_bcb => decide (conn_id ∈ p_eatt_bcb.conn_ids)) with
  | some p_eatt_bcb => p_eatt_bcb.cid
  | none => P.L2CAP_ATT_CID

/-- Modelled from the spec: `gatt_get_payload_size` (eatt_utils.cc) is not part of this
development. The negotiated payload size of the bearer with the channel `lcid` on the link,
or of the link itself when no bearer of the link has that channel. -/
def gatt_get_payload_size (cb : tGATT_CB) (tcb_idx : Nat) (p_tcb : tGATT_TCB) (lcid : Nat) : Nat :=
  match cb.eatt_bcb.find? (fun p_eatt_bcb => decide (p_eatt_bcb.tcb_idx = tcb_idx) &&
      decide (p_eatt_bcb.cid = lcid)) with
  | some p_eatt_bcb => p_eatt_bcb.payload_size
  | none => p_tcb.payload_size

/-- Modelled from the spec: `gatt_find_eatt_bcb_by_gatt_if` (eatt_utils.cc) is not part of this
development. The bearer, on a link of the peer, that a connection identifier of the
application is bound to; `none` (NULL) when there is none. -/
def gatt_find_eatt_bcb_by_gatt_if (cb : tGATT_CB) (gatt_if : Nat) (bda : Nat) : Option tGATT_EBCB :=
  cb.eatt_bcb.find? (fun p_eatt_bcb =>
    (match cb.tcb[p_eatt_bcb.tcb_idx]? with
     | some p_tcb => decide (p_tcb.peer_bda = bda)
     | none => false) &&
    p_eatt_bcb.conn_ids.any (fun conn_id => decide (GATT_GET_GATT_IF conn_id = gatt_if)))

/-- Modelled from the spec: `gatt_remove_conn` (eatt_utils.cc) is not part of this development.
It removes the binding of the connection identifier to the bearer with the channel `lcid`. -/
def gatt_remove_conn (cb : tGATT_CB) (conn_id lcid : Nat) : tGATT_CB :=
  { cb with eatt_bcb := cb.eatt_bcb.map (fun p_eatt_bcb =>
      if p_eatt_bcb.cid = lcid then
        { p_eatt_bcb with conn_ids := p_eatt_bcb.conn_ids.filter (fun c => decide (c ≠ conn_id)) }
      else p_eatt_bcb) }

/-- Modelled from the spec: `gatt_is_app_holding_link` (gatt_utils.cc) is not part of this
development. The application is one of those holding the link open. -/
def gatt_is_app_holding_link (gatt_if : Nat) (p_tcb : tGATT_TCB) : Bool :=
  decide (gatt_if ∈ p_tcb.app_hold_link)

/-- Modelled from the spec: `gatt_update_app_use_link_flag` (gatt_utils.cc) is not part of
this development. With `is_add = false` it releases the hold of the application on the link;
with `is_add = true` it records the hold. The idle timeout it may ask the transport for is
not recorded. -/
def gatt_update_app_use_link_flag (cb : tGATT_CB) (gatt_if tcb_idx : Nat) (is_add : Bool)
    (_check_acl_link : Bool) : tGATT_CB :=
  tcb_write cb tcb_idx (fun p_tcb =>
    if is_add then
      { p_tcb with app_hold_link :=
          if gatt_if ∈ p_tcb.app_hold_link then p_tcb.app_hold_link
          else p_tcb.app_hold_link ++ [gatt_if] }
    else { p_tcb with app_hold_link := p_tcb.app_hold_link.filter (fun g => decide (g ≠ gatt_if)) })

/-- Modelled from the spec: `gatt_disconnect` (gatt_main.cc) is not part of this development.
It asks the transport to disconnect the channel of the link; what the transport does arrives
as later events. -/
def gatt_disconnect (cb : tGATT_CB) (tcb_idx lcid : Nat) : tGATT_CB :=
  { cb with disconnect_requests := cb.disconnect_requests ++ [(tcb_idx, lcid)] }

/-- Modelled from the spec: `gatt_free_srvc_db_buffer_app_id` (gatt_utils.cc) is not part of
this development. It releases the attribute-table buffers of the application: the handle
ranges owned by the application leave the handle list. -/
def gatt_free_srvc_db_buffer_app_id (cb : tGATT_CB) (app_id : Uuid) : tGATT_CB :=
  { cb with hdl_list_info :=
      cb.hdl_list_info.filter (fun it => decide (it.asgn_range.app_uuid128 ≠ app_id)) }

/-- Modelled from the spec: `gatt_set_conn_id_waiting_for_mtu_exchange` (gatt_utils.cc) is not
part of this development. It enqueues the connection identifier on the waiter list of the
link. -/
def gatt_set_conn_id_waiting_for_mtu_exchange (cb : tGATT_CB) (tcb_idx conn_id : Nat) : tGATT_CB :=
  tcb_write cb tcb_idx (fun p_tcb =>
    { p_tcb with conn_ids_waiting_for_mtu_exchange :=
        p_tcb.conn_ids_waiting_for_mtu_exchange ++ [conn_id] })

/-- Modelled from the spec: `gatt_get_mtu` (gatt_utils.cc) is not part of this development.
The current negotiated payload size of the link of the peer on the transport, 0 when the peer
has no link record. -/
def gatt_get_mtu (cb : tGATT_CB) (bda : Nat) (transport : Nat) : Nat :=
  match gatt_find_tcb_by_addr cb bda transport with
  | none => 0
  | some tcb_idx =>
    match cb.tcb[tcb_idx]? with
    | none => 0
    | some p_tcb => p_tcb.payload_size

/-! ## GATTC_ConfigureMTU, GATTC_TryMtuRequest and the waiter list -/

/-- `GATTC_ConfigureMTU(conn_id, mtu)`: the returned status and `gatt_cb`. -/
def GATTC_ConfigureMTU (P : ClientPlatform) (cb : tGATT_CB) (conn_id mtu : Nat) : Nat × tGATT_CB :=
  let gatt_if := GATT_GET_GATT_IF conn_id
  let tcb_idx := GATT_GET_TCB_IDX conn_id
  match gatt_get_tcb_by_idx cb tcb_idx with
  | none => (P.GATT_ILLEGAL_PARAMETER, cb)
  | some p_tcb =>
    match gatt_get_regcb cb gatt_if with
    | none => (P.GATT_ILLEGAL_PARAMETER, cb)
    | some _ =>
      if mtu < P.GATT_DEF_BLE_MTU_SIZE ∨ mtu > P.GATT_MAX_MTU_SIZE then
        (P.GATT_ILLEGAL_PARAMETER, cb)
      else if p_tcb.transport ≠ P.BT_TRANSPORT_LE then (P.GATT_ERROR, cb)
      else if gatt_is_clcb_allocated cb conn_id then (P.GATT_BUSY, cb)
      else
        match gatt_clcb_alloc cb conn_id with
        | none => (P.GATT_NO_RESOURCES, cb)
        | some (clcb_idx, p_clcb, cb1) =>
          let p_clcb1 := { p_clcb with operation := P.GATTC_OPTYPE_CONFIG }
          let cb2 := { cb1 with clcb := cb1.clcb.set clcb_idx p_clcb1 }
          let lcid := p_tcb.att_lcid
          match p_clcb1.p_tcb with
          | none => (P.GATT_ERROR, cb2)
          | some clcb_tcb =>
            let sent := attp_send_cl_msg P cb2
              { tcb_idx := clcb_tcb, clcb_idx := clcb_idx, lcid := lcid,
                op_code := P.GATT_REQ_MTU, mtu := P.GATT_MAX_MTU_SIZE }
            if sent.1 = P.GATT_SUCCESS ∨ sent.1 = P.GATT_CMD_STARTED then
              (sent.1, tcb_write sent.2 clcb_tcb
                (fun t => { t with pending_user_mtu_exchange_value := mtu }))
            else (sent.1, sent.2)

/-- `GATTC_TryMtuRequest(remote_bda, transport, conn_id, current_mtu)`: the returned result,
the value left in `*current_mtu`, and `gatt_cb`. -/
def GATTC_TryMtuRequest (P : ClientPlatform) (cb : tGATT_CB) (remote_bda transport conn_id : Nat) :
    tGATTC_TryMtuRequestResult × Nat × tGATT_CB :=
  let current_mtu := P.GATT_DEF_BLE_MTU_SIZE
  if transport = P.BT_TRANSPORT_BR_EDR then
    (tGATTC_TryMtuRequestResult.MTU_EXCHANGE_NOT_ALLOWED, current_mtu, cb)
  else
    match gatt_find_tcb_by_addr cb remote_bda transport with
    | none => (tGATTC_TryMtuRequestResult.MTU_EXCHANGE_DEVICE_DISCONNECTED, current_mtu, cb)
    | some tcb_idx =>
      match cb.tcb[tcb_idx]? with
      | none => (tGATTC_TryMtuRequestResult.MTU_EXCHANGE_DEVICE_DISCONNECTED, current_mtu, cb)
      | some p_tcb =>
        if P.gatt_is_pending_mtu_exchange p_tcb then
          (tGATTC_TryMtuRequestResult.MTU_EXCHANGE_IN_PROGRESS, current_mtu,
            gatt_set_conn_id_waiting_for_mtu_exchange cb tcb_idx conn_id)
        else
          let mtu := gatt_get_mtu cb remote_bda transport
          if mtu = P.GATT_DEF_BLE_MTU_SIZE ∨ mtu = 0 then
            (tGATTC_TryMtuRequestResult.MTU_EXCHANGE_NOT_DONE_YET, current_mtu, cb)
          else (tGATTC_TryMtuRequestResult.MTU_EXCHANGE_ALREADY_DONE, mtu, cb)

/-- `GATTC_GetAndRemoveListOfConnIdsWaitingForMtuRequest(remote_bda)`: the returned list and
`gatt_cb`. The `swap` leaves the empty `result` in the link record. -/
def GATTC_GetAndRemoveListOfConnIdsWaitingForMtuRequest (P : ClientPlatform) (cb : tGATT_CB)
    (remote_bda : Nat) : List Nat × tGATT_CB :=
  let result : List Nat := []
  match gatt_find_tcb_by_addr cb remote_bda P.BT_TRANSPORT_LE with
  | none => (result, cb)
  | some tcb_idx =>
    match cb.tcb[tcb_idx]? with
    | none => (result, cb)
    | some p_tcb =>
      if p_tcb.conn_ids_waiting_for_mtu_exchange.isEmpty then (result, cb)
      else
        (p_tcb.conn_ids_waiting_for_mtu_exchange,
          tcb_write cb tcb_idx (fun t => { t with conn_ids_waiting_for_mtu_exchange := result }))

/-! ## GATTC_Discover, GATTC_Read, GATTC_Write, GATTC_ExecuteWrite -/

/-- `GATTC_Discover(conn_id, disc_type, start_handle, end_handle, uuid)`: the returned status
and `gatt_cb`. -/
def GATTC_Discover (P : ClientPlatform) (cb : tGATT_CB) (conn_id disc_type start_handle
    end_handle : Nat) (uuid : Uuid) : Nat × tGATT_CB :=
  let gatt_if := GATT_GET_GATT_IF conn_id
  let tcb_idx := GATT_GET_TCB_IDX conn_id
  match gatt_get_tcb_by_idx cb tcb_idx with
  | none => (P.GATT_ILLEGAL_PARAMETER, cb)
  | some _ =>
    match gatt_get_regcb cb gatt_if with
    | none => (P.GATT_ILLEGAL_PARAMETER, cb)
    | some _ =>
      if disc_type ≥ P.GATT_DISC_MAX then (P.GATT_ILLEGAL_PARAMETER, cb)
      else if !GATT_HANDLE_IS_VALID start_handle ∨ !GATT_HANDLE_IS_VALID end_handle ∨
          (disc_type = P.GATT_DISC_SRVC_BY_UUID ∧ uuid.IsEmpty) then
        (P.GATT_ILLEGAL_PARAMETER, cb)
      else if gatt_is_clcb_allocated cb conn_id then (P.GATT_BUSY, cb)
      else
        match gatt_clcb_alloc cb conn_id with
        | none => (P.GATT_NO_RESOURCES, cb)
        | some (clcb_idx, p_clcb, cb1) =>
          let p_clcb1 :=
            { p_clcb with
              operation := P.GATTC_OPTYPE_DISCOVERY
              op_subtype := disc_type
              s_handle := start_handle
              e_handle := end_handle
              uuid := uuid }
          (P.GATT_SUCCESS,
            gatt_act_discovery { cb1 with clcb := cb1.clcb.set clcb_idx p_clcb1 } clcb_idx)

/-- The four-argument `GATTC_Discover(conn_id, disc_type, start_handle, end_handle)`. -/
def GATTC_Discover_no_uuid (P : ClientPlatform) (cb : tGATT_CB) (conn_id disc_type start_handle
    end_handle : Nat) : Nat × tGATT_CB :=
  GATTC_Discover P cb conn_id disc_type start_handle end_handle Uuid.kEmpty

/-- The `switch (type)` of `GATTC_Read` on the transaction record. -/
def gattc_read_fill (P : ClientPlatform) (type : Nat) (p_read : tGATT_READ_PARAM)
    (p_clcb : tGATT_CLCB) : tGATT_CLCB :=
  if type = P.GATT_READ_BY_TYPE ∨ type = P.GATT_READ_CHAR_VALUE then
    { p_clcb with
      s_handle := p_read.service_s_handle
      e_handle := p_read.service_e_handle
      uuid := p_read.service_uuid }
  else if type = P.GATT_READ_MULTIPLE ∨ type = P.GATT_READ_MULTIPLE_VARIABLE then
    { p_clcb with
      s_handle := 0
      p_attr_buf := some (tGATT_ATTR_BUF.read_multi p_read.read_multiple) }
  else if type = P.GATT_READ_BY_HANDLE ∨ type = P.GATT_READ_PARTIAL then
    { p_clcb with
      uuid := Uuid.kEmpty
      s_handle := p_read.by_handle_handle
      counter := if type = P.GATT_READ_PARTIAL then p_read.partial_read_offset else p_clcb.counter }
  else p_clcb

/-- The closing step of `GATTC_Read` and `GATTC_Write`: the security check is started and a
deferred transaction is pushed on the queue of the link. -/
def gattc_start_security_check (P : ClientPlatform) (cb : tGATT_CB) (tcb_idx clcb_idx : Nat)
    (p_clcb : tGATT_CLCB) : tGATT_CB :=
  let checked := gatt_security_check_start P cb clcb_idx p_clcb
  if checked.1 then
    tcb_write checked.2 tcb_idx
      (fun t => { t with pending_enc_clcb := t.pending_enc_clcb ++ [clcb_idx] })
  else checked.2

/-- `GATTC_Read(conn_id, type, p_read)`: the returned status and `gatt_cb`; `p_read = none`
is the NULL pointer. -/
def GATTC_Read (P : ClientPlatform) (cb : tGATT_CB) (conn_id type : Nat)
    (p_read : Option tGATT_READ_PARAM) : Nat × tGATT_CB :=
  let gatt_if := GATT_GET_GATT_IF conn_id
  let tcb_idx := GATT_GET_TCB_IDX conn_id
  match gatt_get_tcb_by_idx cb tcb_idx with
  | none => (P.GATT_ILLEGAL_PARAMETER, cb)
  | some p_tcb =>
    match gatt_get_regcb cb gatt_if with
    | none => (P.GATT_ILLEGAL_PARAMETER, cb)
    | some _ =>
      match p_read with
      | none => (P.GATT_ILLEGAL_PARAMETER, cb)
      | some read =>
        if type ≥ P.GATT_READ_MAX ∨ type = 0 then (P.GATT_ILLEGAL_PARAMETER, cb)
        else if gatt_is_clcb_allocated cb conn_id then (P.GATT_BUSY, cb)
        else
          match gatt_clcb_alloc cb conn_id with
          | none => (P.GATT_NO_RESOURCES, cb)
          | some (clcb_idx, p_clcb, cb1) =>
            let lcid := gatt_get_cid_by_conn_id P cb1 conn_id
            let payload_size := gatt_get_payload_size cb1 tcb_idx p_tcb lcid
            let p_clcb1 :=
              { p_clcb with
                operation := P.GATTC_OPTYPE_READ
                op_subtype := type
                auth_req := read.auth_req
                counter := 0
                read_req_current_mtu := payload_size }
            let p_clcb2 := gattc_read_fill P type read p_clcb1
            (P.GATT_SUCCESS,
              gattc_start_security_check P { cb1 with clcb := cb1.clcb.set clcb_idx p_clcb2 }
                tcb_idx clcb_idx p_clcb2)

/-- `GATTC_Write(conn_id, type, p_write)`: the returned status and `gatt_cb`; `p_write = none`
is the NULL pointer. -/
def GATTC_Write (P : ClientPlatform) (cb : tGATT_CB) (conn_id type : Nat)
    (p_write : Option tGATT_VALUE) : Nat × tGATT_CB :=
  let gatt_if := GATT_GET_GATT_IF conn_id
  let tcb_idx := GATT_GET_TCB_IDX conn_id
  match gatt_get_tcb_by_idx cb tcb_idx with
  | none => (P.GATT_ILLEGAL_PARAMETER, cb)
  | some _ =>
    match gatt_get_regcb cb gatt_if with
    | none => (P.GATT_ILLEGAL_PARAMETER, cb)
    | some _ =>
      match p_write with
      | none => (P.GATT_ILLEGAL_PARAMETER, cb)
      | some write =>
        if type ≠ P.GATT_WRITE ∧ type ≠ P.GATT_WRITE_PREPARE ∧ type ≠ P.GATT_WRITE_NO_RSP then
          (P.GATT_ILLEGAL_PARAMETER, cb)
        else if gatt_is_clcb_allocated cb conn_id then (P.GATT_BUSY, cb)
        else
          match gatt_clcb_alloc cb conn_id with
          | none => (P.GATT_NO_RESOURCES, cb)
          | some (clcb_idx, p_clcb, cb1) =>
            let p_clcb1 :=
              { p_clcb with
                operation := P.GATTC_OPTYPE_WRITE
                op_subtype := type
                auth_req := write.auth_req
                p_attr_buf := some (tGATT_ATTR_BUF.value write) }
            let p_clcb2 :=
              if type = P.GATT_WRITE_PREPARE then
                { p_clcb1 with
                  start_offset := write.offset
                  p_attr_buf := some (tGATT_ATTR_BUF.value { write with offset := 0 }) }
              else p_clcb1
            (P.GATT_SUCCESS,
              gattc_start_security_check P { cb1 with clcb := cb1.clcb.set clcb_idx p_clcb2 }
                tcb_idx clcb_idx p_clcb2)

/-- `GATTC_ExecuteWrite(conn_id, is_execute)`: the returned status and `gatt_cb`. -/
def GATTC_ExecuteWrite (P : ClientPlatform) (cb : tGATT_CB) (conn_id : Nat) (is_execute : Bool) :
    Nat × tGATT_CB :=
  let gatt_if := GATT_GET_GATT_IF conn_id
  let tcb_idx := GATT_GET_TCB_IDX conn_id
  match gatt_get_tcb_by_idx cb tcb_idx with
  | none => (P.GATT_ILLEGAL_PARAMETER, cb)
  | some _ =>
    match gatt_get_regcb cb gatt_if with
    | none => (P.GATT_ILLEGAL_PARAMETER, cb)
    | some _ =>
      if gatt_is_clcb_allocated cb conn_id then (P.GATT_BUSY, cb)
      else
        match gatt_clcb_alloc cb conn_id with
        | none => (P.GATT_NO_RESOURCES, cb)
        | some (clcb_idx, p_clcb, cb1) =>
          let p_clcb1 := { p_clcb with operation := P.GATTC_OPTYPE_EXE_WRITE }
          let cb2 := { cb1 with clcb := cb1.clcb.set clcb_idx p_clcb1 }
          let flag := if is_execute then P.GATT_PREP_WRITE_EXEC else P.GATT_PREP_WRITE_CANCEL
          match p_clcb1.p_tcb with
          | none => (P.GATT_SUCCESS, cb2)
          | some clcb_tcb =>
            (P.GATT_SUCCESS, gatt_send_queue_write_cancel cb2 clcb_tcb clcb_idx flag)

/-! ## GATT_Deregister -/

/-- The loop of `GATT_Deregister` that stops the services of the application (lines
1468-1475). `n` is the number of entries from the iterator `it` to `end()`; an entry that
`GATTS_StopService` erases lies at or before the one `it++` has just left, so the erase
leaves that number as it is. `none` when `GATTS_StopService` has no defined result. -/
def deregister_stop_services (gatt_if : Nat) : Nat → tGATT_CB → Option tGATT_CB
  | 0, cb => some cb
  | n + 1, cb =>
    match cb.srv_list_info[cb.srv_list_info.length - (n + 1)]? with
    | none => some cb
    | some it =>
      if it.gatt_if = gatt_if then
        match GATTS_StopService cb it.s_hdl with
        | none => none
        | some cb1 => deregister_stop_services gatt_if n cb1
      else deregister_stop_services gatt_if n cb

/-- The test of the transaction record loop of `GATT_Deregister` (lines 1513-1514) on one
record, for the link with index value `tcb_idx`: `none` when it dereferences a NULL or
dangling `p_reg` or `p_tcb`. -/
def deregister_clcb_matches (cb : tGATT_CB) (gatt_if tcb_idx : Nat) (p_clcb : tGATT_CLCB) :
    Option Bool :=
  if !p_clcb.in_use then some false
  else
    match p_clcb.p_reg.bind (fun r => cb.cl_rcb[r]?) with
    | none => none
    | some p_reg =>
      if p_reg.gatt_if ≠ gatt_if then some false
      else
        match p_clcb.p_tcb.bind (fun t => cb.tcb[t]?) with
        | none => none
        | some p_tcb => some (decide (p_tcb.tcb_idx = tcb_idx))

/-- The transaction record loop of `GATT_Deregister`: the position `j` of the first record
that passes the test, where the loop cancels the timer, discards the record and breaks;
`some none` when the loop runs through the pool; `none` when the test has no defined
result. -/
def deregister_find_clcb (cb : tGATT_CB) (gatt_if tcb_idx : Nat) :
    List tGATT_CLCB → Nat → Option (Option Nat)
  | [], _ => some none
  | p_clcb :: rest, j =>
    match deregister_clcb_matches cb gatt_if tcb_idx p_clcb with
    | none => none
    | some true => some (some j)
    | some false => deregister_find_clcb cb gatt_if tcb_idx rest (j + 1)

/-- One pass of the link loop of `GATT_Deregister` (lines 1484-1520), for the link at
position `i`. -/
def deregister_link (P : ClientPlatform) (gatt_if : Nat) (cb : tGATT_CB) (i : Nat) :
    Option tGATT_CB :=
  match cb.tcb[i]? with
  | none => some cb
  | some p_tcb =>
    if !p_tcb.in_use then some cb
    else
      let cb1 :=
        if gatt_get_ch_state p_tcb ≠ P.GATT_CH_CLOSE then
          let lcid :=
            if p_tcb.is_eatt_supported then
              match gatt_find_eatt_bcb_by_gatt_if cb gatt_if p_tcb.peer_bda with
              | some p_eatt_bcb => p_eatt_bcb.cid
              | none => p_tcb.att_lcid
            else p_tcb.att_lcid
          let is_gatt_connected := gatt_is_app_holding_link gatt_if p_tcb
          let released := gatt_update_app_use_link_flag cb gatt_if i false true
          let holders_empty :=
            match released.tcb[i]? with
            | some t => t.app_hold_link.isEmpty
            | none => false
          let disconnected :=
            if is_gatt_connected && decide (gatt_if > SYSTEM_APP_GATT_IF) && holders_empty then
              gatt_disconnect released i lcid
            else released
          let conn_id := GATT_CREATE_CONN_ID p_tcb.tcb_idx gatt_if
          gatt_remove_conn disconnected conn_id lcid
        else cb
      match deregister_find_clcb cb1 gatt_if p_tcb.tcb_idx cb1.clcb 0 with
      | none => none
      | some none => some cb1
      | some (some j) =>
        some (gatt_clcb_dealloc { cb1 with alarm_cancelled := cb1.alarm_cancelled ++ [j] } j)

/-- The link loop of `GATT_Deregister` over the positions of the link array. -/
def deregister_links (P : ClientPlatform) (gatt_if : Nat) : List Nat → tGATT_CB → Option tGATT_CB
  | [], cb => some cb
  | i :: rest, cb =>
    match deregister_link P gatt_if cb i with
    | none => none
    | some cb1 => deregister_links P gatt_if rest cb1

/-- `GATT_Deregister(gatt_if)`: `gatt_cb` after the call; `none` when the call has no defined
result (a NULL pointer of a live transaction record is dereferenced). -/
def GATT_Deregister (P : ClientPlatform) (cb : tGATT_CB) (gatt_if : Nat) : Option tGATT_CB :=
  match gatt_get_regcb cb gatt_if with
  | none => some cb
  | some p_reg =>
    if gatt_if = 0 then some cb
    else if cb.srv_list_info.isEmpty then some cb
    else
      match deregister_stop_services gatt_if cb.srv_list_info.length cb with
      | none => none
      | some cb1 =>
        let cb2 := gatt_free_srvc_db_buffer_app_id cb1 p_reg.app_uuid128
        match deregister_links P gatt_if (List.range cb2.tcb.length) cb2 with
        | none => none
        | some cb3 =>
          let cb4 := { cb3 with app_deregistered := cb3.app_deregistered ++ [gatt_if] }
          some { cb4 with cl_rcb := cb4.cl_rcb.set (gatt_if - 1) {} }

/-! ## GATTC_UpdateUserAttMtuIfNeeded -/

/-- Modelled from the spec: `BTM_SetBleDataLength` (btm_ble.cc) is not part of this
development. It instructs the controller to extend the link-layer data length for the peer;
the request is recorded. -/
def BTM_SetBleDataLength (cb : tGATT_CB) (bd_addr tx_pdu_length : Nat) : tGATT_CB :=
  { cb with ble_data_length_requests := cb.ble_data_length_requests ++ [(bd_addr, tx_pdu_length)] }

/-- `GATTC_UpdateUserAttMtuIfNeeded(remote_bda, transport, user_mtu)`: `gatt_cb` after the
call. -/
def GATTC_UpdateUserAttMtuIfNeeded (cb : tGATT_CB) (remote_bda transport user_mtu : Nat) :
    tGATT_CB :=
  match gatt_find_tcb_by_addr cb remote_bda transport with
  | none => cb
  | some tcb_idx =>
    match cb.tcb[tcb_idx]? with
    | none => cb
    | some p_tcb =>
      let user_mtu := if p_tcb.payload_size < user_mtu then p_tcb.payload_size else user_mtu
      if p_tcb.max_user_mtu ≥ user_mtu then cb
      else
        BTM_SetBleDataLength
          (tcb_write cb tcb_idx (fun t => { t with max_user_mtu := user_mtu })) remote_bda user_mtu

/-! ## Server messaging: constants, collaborators and helpers -/

/-- What the indication and notification functions of `gatt_api.cc` take from headers and from
other translation units, beyond `ClientPlatform`: status codes, opcodes, the authentication
requirement `GATT_AUTH_REQ_NONE`, the multi-notification bit of the client supported
features, and the collaborators whose answers the functions use: whether a message buffer is
built (not NULL), the status the transport returns for a server message (given the messages
handed over before), the least burdened bearer of a link for an application (a position in
`gatt_cb.eatt_bcb`), and the stored client supported features of a peer. -/
structure ServerPlatform extends ClientPlatform where
  GATT_INVALID_CONN_ID : Nat
  GATT_CONGESTED : Nat
  GATT_NO_CREDITS : Nat
  GATT_REQ_NOT_SUPPORTED : Nat
  GATT_HANDLE_VALUE_IND : Nat
  GATT_HANDLE_VALUE_NOTIF : Nat
  GATT_AUTH_REQ_NONE : Nat
  CL_MULTI_NOTIF_SUPPORTED : Nat
  attp_build_sr_msg_built : tGATT_TCB → Nat → Nat → tGATT_VALUE → Bool
  attp_build_multi_ntf_cmd_built : Nat → tGATT_MULTI_NOTIF → Bool
  attp_send_sr_msg_status : List tATT_SR_SENT → tATT_SR_SENT → Nat
  least_burdened_eatt_bcb : tGATT_CB → Nat → Nat → Option Nat
  btif_storage_get_cl_supp_feat : Nat → Nat

/-- Modelled from the spec: `gatt_find_eatt_bcb_by_cid` (eatt_utils.cc) is not part of this
development. The bearer of the link with the channel `lcid`: its position in
`gatt_cb.eatt_bcb` (the first one), `none` (NULL) when the link has no bearer with that
channel. -/
def gatt_find_eatt_bcb_by_cid (cb : tGATT_CB) (tcb_idx lcid : Nat) : Option Nat :=
  find_first (fun p_eatt_bcb : tGATT_EBCB => decide (p_eatt_bcb.tcb_idx = tcb_idx) &&
    decide (p_eatt_bcb.cid = lcid)) cb.eatt_bcb

/-- Modelled from the spec: `gatt_find_best_eatt_bcb` (eatt_utils.cc) is not part of this
development. It selects the least burdened bearer among those multiplexed on the link; which
bearer that is, is the answer of the platform, taken when it is a bearer of the link and
`none` (NULL) otherwise. -/
def gatt_find_best_eatt_bcb (P : ServerPlatform) (cb : tGATT_CB) (tcb_idx gatt_if : Nat) :
    Option Nat :=
  match P.least_burdened_eatt_bcb cb tcb_idx gatt_if with
  | none => none
  | some k =>
    match cb.eatt_bcb[k]? with
    | none => none
    | some p_eatt_bcb => if p_eatt_bcb.tcb_idx = tcb_idx then some k else none

/-- Modelled from the spec: `gatt_add_pending_ind` (gatt_utils.cc) is not part of this
development. It puts a copy of the indication at the end of the pending-indication queue of
the channel `lcid` of the link. -/
def gatt_add_pending_ind (cb : tGATT_CB) (tcb_idx lcid : Nat) (p_ind : tGATT_VALUE) : tGATT_CB :=
  { cb with pending_ind_q := cb.pending_ind_q ++ [(tcb_idx, lcid, p_ind)] }

/-- Modelled from the spec: `gatt_notif_enq` (eatt_utils.cc) is not part of this development.
It puts a copy of the notification at the end of the pending-notification queue of the
channel `lcid` of the link. -/
def gatt_notif_enq (cb : tGATT_CB) (tcb_idx lcid : Nat) (p_notif : tGATT_VALUE) : tGATT_CB :=
  { cb with notif_q := cb.notif_q ++ [(tcb_idx, lcid, p_notif)] }

/-- Modelled from the spec: `gatt_start_conf_timer` (gatt_utils.cc) is not part of this
development. It starts the confirmation timer of the channel `lcid` of the link; the start is
recorded. -/
def gatt_start_conf_timer (cb : tGATT_CB) (tcb_idx lcid : Nat) : tGATT_CB :=
  { cb with conf_timer_started := cb.conf_timer_started ++ [(tcb_idx, lcid)] }

/-- Modelled from the spec: `attp_send_sr_msg` (att_protocol.cc) is not part of this
development. It hands the message to the transport and returns the status the transport
answers; the link and bearer records are not written. -/
def attp_send_sr_msg (P : ServerPlatform) (cb : tGATT_CB) (msg : tATT_SR_SENT) : Nat × tGATT_CB :=
  (P.attp_send_sr_msg_status cb.att_sr_sent msg, { cb with att_sr_sent := cb.att_sr_sent ++ [msg] })

/-- The bearer at a position rewritten by `f`: a write through the pointer `p_eatt_bcb`. -/
def ebcb_write (cb : tGATT_CB) (k : Nat) (f : tGATT_EBCB → tGATT_EBCB) : tGATT_CB :=
  match cb.eatt_bcb[k]? with
  | none => cb
  | some p_eatt_bcb => { cb with eatt_bcb := cb.eatt_bcb.set k (f p_eatt_bcb) }

/-- The value of `p_eatt_bcb->indicate_handle` for a bearer pointer that is not NULL. -/
def ebcb_indicate_handle (cb : tGATT_CB) (k : Nat) : Nat :=
  match cb.eatt_bcb[k]? with
  | none => 0
  | some p_eatt_bcb => p_eatt_bcb.indicate_handle

/-! ## GATTS_HandleValueIndication, GATTS_HandleValueNotification,
GATTS_MultiHandleValueNotifications, GATTS_CheckStatusForApp -/

/-- Lines 501-523 of `GATTS_HandleValueIndication`: the channel `lcid`, the bearer pointer
`p_eatt_bcb` (a position, `none` for NULL) and the outstanding `indicate_handle` that the
call goes on with. -/
def indication_bearer (P : ServerPlatform) (cb : tGATT_CB) (conn_id : Nat) (p_reg : tGATT_REG)
    (p_tcb : tGATT_TCB) : Nat × Option Nat × Nat :=
  let gatt_if := GATT_GET_GATT_IF conn_id
  let tcb_idx := GATT_GET_TCB_IDX conn_id
  let lcid := p_tcb.att_lcid
  let indicate_handle := p_tcb.indicate_handle
  if p_tcb.is_eatt_supported && p_reg.eatt_support then
    if is_gatt_conn_id_found cb conn_id then
      let lcid := gatt_get_cid_by_conn_id P.toClientPlatform cb conn_id
      match gatt_find_eatt_bcb_by_cid cb tcb_idx lcid with
      | some k => (lcid, some k, ebcb_indicate_handle cb k)
      | none => (lcid, none, indicate_handle)
    else
      match gatt_find_best_eatt_bcb P cb tcb_idx gatt_if with
      | some k =>
        (match cb.eatt_bcb[k]? with
         | some p_eatt_bcb => p_eatt_bcb.cid
         | none => lcid, some k, ebcb_indicate_handle cb k)
      | none => (lcid, none, indicate_handle)
  else if p_tcb.is_eatt_supported && !p_reg.eatt_support then
    match gatt_find_eatt_bcb_by_cid cb tcb_idx P.L2CAP_ATT_CID with
    | some k => (lcid, some k, ebcb_indicate_handle cb k)
    | none => (lcid, none, indicate_handle)
  else (lcid, none, indicate_handle)

/-- The `tGATT_VALUE` that `GATTS_HandleValueIndication` fills in (lines 492-499). -/
def indication_value (P : ServerPlatform) (conn_id attr_handle val_len : Nat)
    (p_val : List Nat) : tGATT_VALUE :=
  { conn_id := conn_id, handle := attr_handle, len := val_len, value := p_val.take val_len,
    auth_req := P.GATT_AUTH_REQ_NONE, read_sub_type := 0, offset := 0 }

/-- `GATTS_HandleValueIndication(conn_id, attr_handle, val_len, p_val)`: the returned status
and `gatt_cb`. The status is a `tGATT_STATUS`, one byte: the cast
`(tGATT_STATUS)GATT_INVALID_CONN_ID` of line 487 keeps the low byte of the 16-bit constant. -/
def GATTS_HandleValueIndication (P : ServerPlatform) (cb : tGATT_CB)
    (conn_id attr_handle val_len : Nat) (p_val : List Nat) : Nat × tGATT_CB :=
  let gatt_if := GATT_GET_GATT_IF conn_id
  let tcb_idx := GATT_GET_TCB_IDX conn_id
  match gatt_get_regcb cb gatt_if with
  | none => (P.GATT_INVALID_CONN_ID % 256, cb)
  | some p_reg =>
    match gatt_get_tcb_by_idx cb tcb_idx with
    | none => (P.GATT_INVALID_CONN_ID % 256, cb)
    | some p_tcb =>
      if !GATT_HANDLE_IS_VALID attr_handle then (P.GATT_ILLEGAL_PARAMETER, cb)
      else
        let indication := indication_value P conn_id attr_handle val_len p_val
        let lcid := (indication_bearer P cb conn_id p_reg p_tcb).1
        let p_eatt_bcb := (indication_bearer P cb conn_id p_reg p_tcb).2.1
        let indicate_handle := (indication_bearer P cb conn_id p_reg p_tcb).2.2
        if GATT_HANDLE_IS_VALID indicate_handle then
          (P.GATT_SUCCESS, gatt_add_pending_ind cb tcb_idx lcid indication)
        else if !P.attp_build_sr_msg_built p_tcb lcid P.GATT_HANDLE_VALUE_IND indication then
          (P.GATT_NO_RESOURCES, cb)
        else
          let sent := attp_send_sr_msg P cb
            (tATT_SR_SENT.sr_msg tcb_idx lcid P.GATT_HANDLE_VALUE_IND indication)
          let cmd_status := sent.1
          if cmd_status = P.GATT_SUCCESS ∨ cmd_status = P.GATT_CONGESTED then
            let cb1 :=
              match p_eatt_bcb with
              | some k =>
                if p_tcb.is_eatt_supported then
                  ebcb_write sent.2 k (fun b => { b with indicate_handle := indication.handle })
                else
                  tcb_write sent.2 tcb_idx (fun t => { t with indicate_handle := indication.handle })
              | none =>
                tcb_write sent.2 tcb_idx (fun t => { t with indicate_handle := indication.handle })
            (cmd_status, gatt_start_conf_timer cb1 tcb_idx lcid)
          else if cmd_status = P.GATT_NO_CREDITS then
            match p_eatt_bcb with
            | some k =>
              match sent.2.eatt_bcb[k]? with
              | some b =>
                if p_tcb.is_eatt_supported &&
                    (b.ind_no_credits_apps.isEmpty || !b.ind_no_credits_apps.contains conn_id) then
                  let cb1 := ebcb_write sent.2 k
                    (fun b => { b with indicate_handle := indication.handle })
                  let cb2 := gatt_add_pending_ind cb1 tcb_idx lcid indication
                  let cb3 := ebcb_write cb2 k
                    (fun b => { b with ind_no_credits_apps := b.ind_no_credits_apps ++ [conn_id] })
                  (P.GATT_CONGESTED, cb3)
                else (cmd_status, sent.2)
              | none => (cmd_status, sent.2)
            | none => (cmd_status, sent.2)
          else (cmd_status, sent.2)

/-- Lines 603-614 of `GATTS_HandleValueNotification`: the channel `lcid` and the bearer
pointer `p_eatt_bcb` (a position, `none` for NULL). -/
def notification_bearer (P : ServerPlatform) (cb : tGATT_CB) (conn_id : Nat) (p_reg : tGATT_REG)
    (p_tcb : tGATT_TCB) : Nat × Option Nat :=
  let gatt_if := GATT_GET_GATT_IF conn_id
  let tcb_idx := GATT_GET_TCB_IDX conn_id
  let lcid := p_tcb.att_lcid
  if p_tcb.is_eatt_supported && p_reg.eatt_support then
    if is_gatt_conn_id_found cb conn_id then
      let lcid := gatt_get_cid_by_conn_id P.toClientPlatform cb conn_id
      (lcid, gatt_find_eatt_bcb_by_cid cb tcb_idx lcid)
    else
      match gatt_find_best_eatt_bcb P cb tcb_idx gatt_if with
      | some k =>
        (match cb.eatt_bcb[k]? with
         | some p_eatt_bcb => p_eatt_bcb.cid
         | none => lcid, some k)
      | none => (lcid, none)
  else (lcid, none)

/-- The `tGATT_VALUE` that `GATTS_HandleValueNotification` fills in (lines 597-601); the
fields the function leaves unset are taken as 0. -/
def notification_value (P : ServerPlatform) (conn_id attr_handle val_len : Nat)
    (p_val : List Nat) : tGATT_VALUE :=
  { handle := attr_handle, len := val_len, value := p_val.take val_len,
    auth_req := P.GATT_AUTH_REQ_NONE, conn_id := conn_id }

/-- `GATTS_HandleValueNotification(conn_id, attr_handle, val_len, p_val)`: the returned status
and `gatt_cb`. The status is a `tGATT_STATUS`, one byte: the cast
`(tGATT_STATUS)GATT_INVALID_CONN_ID` of line 590 keeps the low byte of the 16-bit constant. -/
def GATTS_HandleValueNotification (P : ServerPlatform) (cb : tGATT_CB)
    (conn_id attr_handle val_len : Nat) (p_val : List Nat) : Nat × tGATT_CB :=
  let gatt_if := GATT_GET_GATT_IF conn_id
  let tcb_idx := GATT_GET_TCB_IDX conn_id
  match gatt_get_regcb cb gatt_if with
  | none => (P.GATT_INVALID_CONN_ID % 256, cb)
  | some p_reg =>
    match gatt_get_tcb_by_idx cb tcb_idx with
    | none => (P.GATT_INVALID_CONN_ID % 256, cb)
    | some p_tcb =>
      if !GATT_HANDLE_IS_VALID attr_handle then (P.GATT_ILLEGAL_PARAMETER, cb)
      else
        let notif := notification_value P conn_id attr_handle val_len p_val
        let lcid := (notification_bearer P cb conn_id p_reg p_tcb).1
        let p_eatt_bcb := (notification_bearer P cb conn_id p_reg p_tcb).2
        let sent :=
          if P.attp_build_sr_msg_built p_tcb lcid P.GATT_HANDLE_VALUE_NOTIF notif then
            attp_send_sr_msg P cb (tATT_SR_SENT.sr_msg tcb_idx lcid P.GATT_HANDLE_VALUE_NOTIF notif)
          else (P.GATT_NO_RESOURCES, cb)
        let cmd_sent := sent.1
        if cmd_sent = P.GATT_NO_CREDITS then
          match p_eatt_bcb with
          | some k =>
            match sent.2.eatt_bcb[k]? with
            | some b =>
              if p_tcb.is_eatt_supported &&
                  (b.notif_no_credits_apps.isEmpty || !b.notif_no_credits_apps.contains conn_id) then
                let cb1 := gatt_notif_enq sent.2 tcb_idx lcid notif
                let cb2 := ebcb_write cb1 k
                  (fun b => { b with notif_no_credits_apps := b.notif_no_credits_apps ++ [conn_id] })
                (P.GATT_CONGESTED, cb2)
              else (cmd_sent, sent.2)
            | none => (cmd_sent, sent.2)
          | none => (cmd_sent, sent.2)
        else (cmd_sent, sent.2)

/-- The loop of `GATTS_MultiHandleValueNotifications` over the first `num_attr` handles (lines
689-695): false when it returns `GATT_ILLEGAL_PARAMETER`. `handles` is the caller's array,
read at the indices below `num_attr`. -/
def multi_ntf_handles_valid (handles : Nat → Nat) (num_attr : Nat) : Bool :=
  (List.range num_attr).all (fun i => GATT_HANDLE_IS_VALID (handles i))

/-- Lines 698-710 of `GATTS_MultiHandleValueNotifications`: the channel `lcid`. -/
def multi_notification_lcid (P : ServerPlatform) (cb : tGATT_CB) (conn_id : Nat)
    (p_reg : tGATT_REG) (p_tcb : tGATT_TCB) : Nat :=
  let gatt_if := GATT_GET_GATT_IF conn_id
  let tcb_idx := GATT_GET_TCB_IDX conn_id
  if p_tcb.is_eatt_supported && p_reg.eatt_support then
    if is_gatt_conn_id_found cb conn_id then
      gatt_get_cid_by_conn_id P.toClientPlatform cb conn_id
    else
      match gatt_find_best_eatt_bcb P cb tcb_idx gatt_if with
      | some k =>
        (match cb.eatt_bcb[k]? with
         | some p_eatt_bcb => p_eatt_bcb.cid
         | none => p_tcb.att_lcid)
      | none => p_tcb.att_lcid
  else p_tcb.att_lcid

/-- The `tGATT_MULTI_NOTIF` that `GATTS_MultiHandleValueNotifications` fills in (lines
685-696). -/
def multi_notification_value (P : ServerPlatform) (conn_id num_attr : Nat)
    (handles lens : Nat → Nat) (values : List (List Nat)) : tGATT_MULTI_NOTIF :=
  { auth_req := P.GATT_AUTH_REQ_NONE, conn_id := conn_id, num_attr := num_attr,
    handles := (List.range num_attr).map handles,
    lens := (List.range num_attr).map lens, values := values }

/-- `GATTS_MultiHandleValueNotifications(conn_id, num_attr, handles, lens, values)`: the
returned status and `gatt_cb`. `handles` and `lens` are the caller's arrays, read at the
indices below `num_attr` (a `uint8_t`). The status is a `tGATT_STATUS`, one byte: the cast
`(tGATT_STATUS)GATT_INVALID_CONN_ID` of line 676 keeps the low byte of the 16-bit constant. -/
def GATTS_MultiHandleValueNotifications (P : ServerPlatform) (cb : tGATT_CB)
    (conn_id num_attr : Nat) (handles lens : Nat → Nat) (values : List (List Nat)) :
    Nat × tGATT_CB :=
  let gatt_if := GATT_GET_GATT_IF conn_id
  let tcb_idx := GATT_GET_TCB_IDX conn_id
  match gatt_get_regcb cb gatt_if with
  | none => (P.GATT_INVALID_CONN_ID % 256, cb)
  | some p_reg =>
    match gatt_get_tcb_by_idx cb tcb_idx with
    | none => (P.GATT_INVALID_CONN_ID % 256, cb)
    | some p_tcb =>
      let cl_supp_feat := P.btif_storage_get_cl_supp_feat p_tcb.peer_bda % 256
      if cl_supp_feat &&& P.CL_MULTI_NOTIF_SUPPORTED ≠ P.CL_MULTI_NOTIF_SUPPORTED then
        (P.GATT_REQ_NOT_SUPPORTED, cb)
      else if !multi_ntf_handles_valid handles num_attr then (P.GATT_ILLEGAL_PARAMETER, cb)
      else
        let multi_ntf := multi_notification_value P conn_id num_attr handles lens values
        let lcid := multi_notification_lcid P cb conn_id p_reg p_tcb
        let payload_size := gatt_get_payload_size cb tcb_idx p_tcb lcid
        if P.attp_build_multi_ntf_cmd_built payload_size multi_ntf then
          attp_send_sr_msg P cb (tATT_SR_SENT.multi_ntf_cmd tcb_idx lcid payload_size multi_ntf)
        else (P.GATT_NO_RESOURCES, cb)

/-- `GATTS_CheckStatusForApp(conn_id, confirm)`: the returned status and `gatt_cb`. The status
is a `tGATT_STATUS`, one byte: the cast `(tGATT_STATUS)GATT_INVALID_CONN_ID` of line 1902
keeps the low byte of the 16-bit constant. -/
def GATTS_CheckStatusForApp (P : ServerPlatform) (cb : tGATT_CB) (conn_id : Nat)
    (confirm : Bool) : Nat × tGATT_CB :=
  let gatt_if := GATT_GET_GATT_IF conn_id
  let tcb_idx := GATT_GET_TCB_IDX conn_id
  let status := P.GATT_SUCCESS
  match gatt_get_regcb cb gatt_if with
  | none => (P.GATT_INVALID_CONN_ID % 256, cb)
  | some p_reg =>
    match gatt_get_tcb_by_idx cb tcb_idx with
    | none => (P.GATT_INVALID_CONN_ID % 256, cb)
    | some p_tcb =>
      if !p_tcb.is_eatt_supported || !p_reg.eatt_support then (status, cb)
      else
        let p_eatt_bcb : Option tGATT_EBCB :=
          if p_tcb.is_eatt_supported && p_reg.eatt_support then
            if is_gatt_conn_id_found cb conn_id then
              match gatt_find_eatt_bcb_by_cid cb tcb_idx
                  (gatt_get_cid_by_conn_id P.toClientPlatform cb conn_id) with
              | some k => cb.eatt_bcb[k]?
              | none => none
            else none
          else none
        match p_eatt_bcb with
        | none => (status, cb)
        | some b =>
          if confirm then
            if p_tcb.is_eatt_supported && b.no_credits && b.ind_no_credits_apps.contains conn_id then
              (P.GATT_BUSY, cb)
            else (status, cb)
          else
            if p_tcb.is_eatt_supported && b.no_credits &&
                b.notif_no_credits_apps.contains conn_id then
              (P.GATT_BUSY, cb)
            else (status, cb)

/-! ## A concrete platform -/

/-- A sample database hash for `stockPlatform`: it folds the start and end handles and the
number of database calls of the started services, in list order. -/
def sample_database_hash (srv_list_info : List tGATT_SRV_LIST_ELEM) : Nat :=
  srv_list_info.foldl
    (fun h el => (h * 65537 + el.s_hdl * 3 + el.e_hdl * 5 + el.p_db.calls.length + 1) % 2 ^ 128) 0

/-- The platform with the stock values of the headers: status codes 0x81 and 0x8C, the
property bits 0x40 and 0x80, the signed-write permission mask 0x180, attribute-type UUIDs
0x2800..0x2803, service classes 0x1801 (GATT) and 0x1800 (GAP), 16-bit UUIDs placed in the
Bluetooth base UUID, a database that hands out handles in order, SDP handles equal to the
start handle, and the service-changed indication enabled. -/
def stockPlatform : Platform where
  GATT_INTERNAL_ERROR := 0x81
  GATT_SERVICE_STARTED := 0x8C
  GATT_CHAR_PROP_BIT_AUTH := 0x40
  GATT_CHAR_PROP_BIT_EXT_PROP := 0x80
  GATT_WRITE_SIGNED_PERM := 0x180
  GATT_UUID_PRI_SERVICE := 0x2800
  GATT_UUID_SEC_SERVICE := 0x2801
  GATT_UUID_INCLUDE_SERVICE := 0x2802
  GATT_UUID_CHAR_DECLARE := 0x2803
  UUID_SERVCLASS_GATT_SERVER := 0x1801
  UUID_SERVCLASS_GAP_SERVER := 0x1800
  From16Bit := fun x => { val := (x % 65536) * 2 ^ 96 + 0x00001000800000805F9B34FB }
  As16Bit := fun u => (u.val / 2 ^ 96) % 65536
  gatts_calculate_database_hash := sample_database_hash
  gatts_get_service_uuid := fun db =>
    match db.calls with
    | DbCall.gatts_init_service_db svc_uuid _ _ _ :: _ => some svc_uuid
    | _ => none
  gatts_attribute_handle := fun db =>
    match db.calls with
    | DbCall.gatts_init_service_db _ _ s_hdl _ :: rest => s_hdl + rest.length
    | _ => 0
  gatt_add_sdp_record := fun _ s_hdl _ => s_hdl
  get_pts_service_chg_indication_disable := false

/-- The client platform over `stockPlatform` with the stock values of the headers: statuses
0x00 (success), 0x80 (no resources), 0x84 (busy), 0x85 (error), 0x86 (command started), 0x87
(illegal parameter); MTU bounds 23 and 517; transports 1 (BR/EDR) and 2 (LE); ATT channel 4;
a transport that accepts every message with the status success, a security check that never
defers, and an MTU exchange pending on a link while a desired MTU is recorded on it. -/
def stockClientPlatform : ClientPlatform :=
  { stockPlatform with
    GATT_SUCCESS := 0x00
    GATT_ILLEGAL_PARAMETER := 0x87
    GATT_NO_RESOURCES := 0x80
    GATT_ERROR := 0x85
    GATT_CMD_STARTED := 0x86
    GATT_BUSY := 0x84
    GATT_DEF_BLE_MTU_SIZE := 23
    GATT_MAX_MTU_SIZE := 517
    BT_TRANSPORT_BR_EDR := 1
    BT_TRANSPORT_LE := 2
    L2CAP_ATT_CID := 4
    GATT_CH_CLOSE := 0
    GATT_REQ_MTU := 0x02
    GATTC_OPTYPE_DISCOVERY := 1
    GATTC_OPTYPE_READ := 2
    GATTC_OPTYPE_WRITE := 3
    GATTC_OPTYPE_EXE_WRITE := 4
    GATTC_OPTYPE_CONFIG := 5
    GATT_DISC_SRVC_BY_UUID := 2
    GATT_DISC_MAX := 6
    GATT_READ_BY_TYPE := 1
    GATT_READ_BY_HANDLE := 2
    GATT_READ_MULTIPLE := 3
    GATT_READ_MULTIPLE_VARIABLE := 4
    GATT_READ_CHAR_VALUE := 5
    GATT_READ_PARTIAL := 6
    GATT_READ_MAX := 7
    GATT_WRITE_NO_RSP := 1
    GATT_WRITE := 2
    GATT_WRITE_PREPARE := 3
    GATT_PREP_WRITE_CANCEL := 0
    GATT_PREP_WRITE_EXEC := 1
    attp_send_cl_msg_status := fun _ _ => 0x00
    gatt_security_check_start_deferred := fun _ => false
    gatt_is_pending_mtu_exchange := fun p_tcb => decide (p_tcb.pending_user_mtu_exchange_value ≠ 0) }

/-- One concrete server platform: the client platform `stockClientPlatform`, the remaining
status codes and opcodes, message buffers that are always built, a transport on which the
channel 0x41 has no credits and every other channel accepts, the first enhanced bearer of the
link (channel other than `L2CAP_ATT_CID`) as the least burdened one, and a store in which the
peer 0xB0 supports multiple-handle-value notifications and no other peer does. -/
def stockServerPlatform : ServerPlatform :=
  { stockClientPlatform with
    GATT_INVALID_CONN_ID := 0xFFFF
    GATT_CONGESTED := 0x8F
    GATT_NO_CREDITS := 0x93
    GATT_REQ_NOT_SUPPORTED := 0x06
    GATT_HANDLE_VALUE_IND := 0x1D
    GATT_HANDLE_VALUE_NOTIF := 0x1B
    GATT_AUTH_REQ_NONE := 0
    CL_MULTI_NOTIF_SUPPORTED := 0x04
    attp_build_sr_msg_built := fun _ _ _ _ => true
    attp_build_multi_ntf_cmd_built := fun _ _ => true
    attp_send_sr_msg_status := fun _ msg =>
      match msg with
      | tATT_SR_SENT.sr_msg _ lcid _ _ => if lcid = 0x41 then 0x93 else 0x00
      | tATT_SR_SENT.multi_ntf_cmd _ lcid _ _ => if lcid = 0x41 then 0x93 else 0x00
    least_burdened_eatt_bcb := fun cb tcb_idx _ =>
      find_first (fun p_eatt_bcb : tGATT_EBCB => decide (p_eatt_bcb.tcb_idx = tcb_idx) &&
        decide (p_eatt_bcb.cid ≠ 4)) cb.eatt_bcb
    btif_storage_get_cl_supp_feat := fun bda => if bda = 0xB0 then 0x07 else 0x01 }

/-! ## Notions used in the statements, and sample inputs -/

/-- The handle list with the element `x` placed where `gatt_add_an_item_to_list l s_handle`
emplaces its new element. -/
def hdl_insert (x : tGATT_HDL_LIST_ELEM) : List tGATT_HDL_LIST_ELEM → Nat → List tGATT_HDL_LIST_ELEM
  | [], _ => [x]
  | it :: rest, s_handle =>
    if s_handle > it.asgn_range.s_handle then x :: it :: rest
    else it :: hdl_insert x rest s_handle

/-- Two handle ranges share a handle: some `h` lies in `[s_handle, e_handle]` of both. -/
def share_handle (a b : tGATTS_HNDL_RANGE) : Prop :=
  ∃ h : Nat, a.s_handle ≤ h ∧ h ≤ a.e_handle ∧ b.s_handle ≤ h ∧ h ≤ b.e_handle

/-- No two ranges of the handle list share a handle. -/
def no_overlap (l : List tGATT_HDL_LIST_ELEM) : Prop :=
  l.Pairwise (fun a b => ¬ share_handle a.asgn_range b.asgn_range)

/-- The handle list is in strictly descending order with every range well formed and
entirely above the ranges after it. -/
def hdl_chain (l : List tGATT_HDL_LIST_ELEM) : Prop :=
  l.Pairwise (fun a b => b.asgn_range.e_handle < a.asgn_range.s_handle) ∧
  ∀ a ∈ l, a.asgn_range.s_handle ≤ a.asgn_range.e_handle ∧ a.asgn_range.e_handle ≤ 0xFFFF

/-- The range that `GATTS_AddService` assigns to a service of `num_handles` handles whose
first element is `first`, for the registered application `p_reg`. -/
def new_asgn_range (P : Platform) (cb : tGATT_CB) (p_reg : tGATT_REG) (first : btgatt_db_element_t)
    (num_handles : Nat) : tGATTS_HNDL_RANGE :=
  { app_uuid128 := p_reg.app_uuid128, svc_uuid := first.uuid,
    s_handle := (select_s_hdl P cb first.uuid).1,
    e_handle := ((select_s_hdl P cb first.uuid).1 + num_handles - 1) % 65536,
    is_primary := decide (first.type = BTGATT_DB_PRIMARY_SERVICE) }

/-- The checks of `GATTS_AddService` before the handle list is touched (lines 207-238) all
pass: the application is registered, the size is not 0, and the handles fit below 0xFFFF. -/
def add_service_admitted (P : Platform) (cb : tGATT_CB) (gatt_if : Nat)
    (service : List btgatt_db_element_t) : Prop :=
  ∃ p_reg first others, gatt_get_regcb cb gatt_if = some p_reg ∧ service = first :: others ∧
    compute_service_size P service ≠ 0 ∧
    ¬ compute_service_size P service > 0xFFFF - (select_s_hdl P cb first.uuid).1 + 1

/-- The result of the element loop of `GATTS_AddService` in a call whose checks before the
handle list have passed: it runs on the freshly initialised database, with the new range
already in the handle list. -/
def add_service_loop (P : Platform) (cb : tGATT_CB) (p_reg : tGATT_REG)
    (first : btgatt_db_element_t) (others : List btgatt_db_element_t) :
    Bool × tGATT_SVC_DB × List btgatt_db_element_t :=
  let num_handles := compute_service_size P (first :: others)
  let db0 : tGATT_SVC_DB :=
    { calls := [DbCall.gatts_init_service_db first.uuid
        (decide (first.type = BTGATT_DB_PRIMARY_SERVICE)) (select_s_hdl P cb first.uuid).1
        num_handles] }
  add_service_elements P
    (hdl_insert { asgn_range := new_asgn_range P cb p_reg first num_handles, svc_db := db0 }
      cb.hdl_list_info (select_s_hdl P cb first.uuid).1) db0 others

/-- The started-service entry that `GATTS_AddService` creates for the range `r` with the
database `svc_db`. -/
def new_srv_elem (P : Platform) (cb : tGATT_CB) (gatt_if : Nat) (r : tGATTS_HNDL_RANGE)
    (svc_db : tGATT_SVC_DB) : tGATT_SRV_LIST_ELEM :=
  let type := if r.is_primary then P.GATT_UUID_PRI_SERVICE else P.GATT_UUID_SEC_SERVICE
  let sdp_uuid : Option Uuid :=
    if type = P.GATT_UUID_PRI_SERVICE ∧ cb.over_br_enabled then
      match P.gatts_get_service_uuid svc_db with
      | some p_uuid => if !is_uuid_le_only_transport P p_uuid then some p_uuid else none
      | none => none
    else none
  { gatt_if := gatt_if, s_hdl := r.s_handle, e_hdl := r.e_handle, p_db := svc_db,
    is_primary := r.is_primary, app_uuid := r.app_uuid128, type := type,
    sdp_handle := match sdp_uuid with
      | some p_uuid => P.gatt_add_sdp_record p_uuid r.s_handle r.e_handle
      | none => 0 }

/-- A public operation of the handle registry. -/
inductive ServiceOp where
  | AddService (gatt_if : Nat) (service : List btgatt_db_element_t)
  | DeleteService (gatt_if : Nat) (p_svc_uuid : Uuid) (svc_inst : Nat)

/-- The control block after one operation (the results returned to the caller dropped). -/
def apply_service_op (P : Platform) (cb : tGATT_CB) : ServiceOp → Option tGATT_CB
  | ServiceOp.AddService gatt_if service => some (GATTS_AddService P cb gatt_if service).2.2
  | ServiceOp.DeleteService gatt_if p_svc_uuid svc_inst =>
    (GATTS_DeleteService P cb gatt_if p_svc_uuid svc_inst).map (fun r => r.2)

/-- The control block after a sequence of operations, run in order. -/
def run_service_ops (P : Platform) : tGATT_CB → List ServiceOp → Option tGATT_CB
  | cb, [] => some cb
  | cb, op :: ops => (apply_service_op P cb op).bind (fun cb1 => run_service_ops P cb1 ops)

/-- The three configured start handles are 16-bit values. -/
def hdl_cfg_16bit (cfg : tGATT_HDL_CFG) : Prop :=
  cfg.gatt_start_hdl ≤ 0xFFFF ∧ cfg.gap_start_hdl ≤ 0xFFFF ∧ cfg.app_start_hdl ≤ 0xFFFF

instance (cfg : tGATT_HDL_CFG) : Decidable (hdl_cfg_16bit cfg) := by
  unfold hdl_cfg_16bit
  exact inferInstance

/-- The service UUID is one of the two reserved ones (GATT server, GAP server). -/
def is_reserved_service (P : Platform) (svc_uuid : Uuid) : Prop :=
  svc_uuid = P.From16Bit P.UUID_SERVCLASS_GATT_SERVER ∨
  svc_uuid = P.From16Bit P.UUID_SERVCLASS_GAP_SERVER

instance (P : Platform) (svc_uuid : Uuid) : Decidable (is_reserved_service P svc_uuid) := by
  unfold is_reserved_service
  exact inferInstance

/-- The condition under which an operation keeps the handle ranges apart. An add of a
reserved (GATT or GAP) service asks for the handles from its configured start handle on, as
many as the service needs, and every allocated range ends below the first or starts above
the last of them; any other add is made while the front range of the handle list, if there
is one, ends below 0xFFFF. A delete is always in scope. -/
def op_in_scope (P : Platform) (cb : tGATT_CB) : ServiceOp → Bool
  | ServiceOp.AddService _ service =>
    match service with
    | [] => true
    | first :: _ =>
      if is_reserved_service P first.uuid then
        cb.hdl_list_info.all (fun r =>
          decide (r.asgn_range.e_handle < (select_s_hdl P cb first.uuid).1 ∨
            (select_s_hdl P cb first.uuid).1 + compute_service_size P service ≤
              r.asgn_range.s_handle))
      else
        match cb.hdl_list_info with
        | [] => true
        | front :: _ => decide (front.asgn_range.e_handle < 0xFFFF)
  | ServiceOp.DeleteService _ _ _ => true

/-- Every operation of the sequence is in scope in the control block it is applied to. -/
def ops_in_scope (P : Platform) : tGATT_CB → List ServiceOp → Bool
  | _, [] => true
  | cb, op :: ops =>
    op_in_scope P cb op &&
      match apply_service_op P cb op with
      | some cb1 => ops_in_scope P cb1 ops
      | none => true

/-- A control block with start handles 1 (GATT), 20 (GAP) and 0x40 (applications), two
registered applications and two free slots, an NV save callback, and empty lists. -/
def sample_cb : tGATT_CB :=
  { hdl_cfg := { gatt_start_hdl := 1, gap_start_hdl := 20, app_start_hdl := 0x40 },
    cl_rcb := [{ in_use := true, gatt_if := 1, app_uuid128 := { val := 0xA1 } },
               { in_use := true, gatt_if := 2, app_uuid128 := { val := 0xA2 } }, {}, {}],
    p_nv_save_callback := true }

/-- A service of one primary-service element and one characteristic without extended
properties. -/
def sample_service : List btgatt_db_element_t :=
  [{ uuid := { val := 0x5001 }, type := BTGATT_DB_PRIMARY_SERVICE },
   { uuid := { val := 0x5002 }, type := BTGATT_DB_CHARACTERISTIC, properties := 0x02,
     permissions := 0x01 }]

/-- A service whose characteristic has the authenticated-signed-write property bit (0x40) but
no signed-write permission bit. -/
def sample_bad_service : List btgatt_db_element_t :=
  [{ uuid := { val := 0x5003 }, type := BTGATT_DB_PRIMARY_SERVICE },
   { uuid := { val := 0x5004 }, type := BTGATT_DB_CHARACTERISTIC, properties := 0x40,
     permissions := 0x01 }]

/-- The GATT server service (UUID 0x1801) as a single primary-service element. -/
def sample_gatt_service : List btgatt_db_element_t :=
  [{ uuid := stockPlatform.From16Bit 0x1801, type := BTGATT_DB_PRIMARY_SERVICE }]

/-- The GAP server service (UUID 0x1800) as a single primary-service element. -/
def sample_gap_service : List btgatt_db_element_t :=
  [{ uuid := stockPlatform.From16Bit 0x1800, type := BTGATT_DB_PRIMARY_SERVICE }]

/-- A sequence of operations on `sample_cb`. -/
def sample_ops : List ServiceOp :=
  [ServiceOp.AddService 1 sample_gatt_service, ServiceOp.AddService 1 sample_gap_service,
   ServiceOp.AddService 2 sample_service, ServiceOp.AddService 2 sample_bad_service,
   ServiceOp.DeleteService 2 { val := 0x5001 } 0x40, ServiceOp.AddService 1 sample_service]

/-- An element that the validation of `GATTS_AddService` is meant to refuse: a characteristic
with exactly one of the authenticated-signed-write property bit and a signed-write permission
bit, or a characteristic or descriptor whose UUID is one of the four reserved attribute-type
UUIDs (primary service, secondary service, include, characteristic declaration). -/
def is_offending_element (P : Platform) (el : btgatt_db_element_t) : Prop :=
  (el.type = BTGATT_DB_CHARACTERISTIC ∧
    ((el.properties &&& P.GATT_CHAR_PROP_BIT_AUTH ≠ 0 ∧
        el.permissions &&& P.GATT_WRITE_SIGNED_PERM = 0) ∨
     (el.properties &&& P.GATT_CHAR_PROP_BIT_AUTH = 0 ∧
        el.permissions &&& P.GATT_WRITE_SIGNED_PERM ≠ 0))) ∨
  ((el.type = BTGATT_DB_CHARACTERISTIC ∨ el.type = BTGATT_DB_DESCRIPTOR) ∧
    (el.uuid = P.From16Bit P.GATT_UUID_PRI_SERVICE ∨ el.uuid = P.From16Bit P.GATT_UUID_SEC_SERVICE ∨
     el.uuid = P.From16Bit P.GATT_UUID_INCLUDE_SERVICE ∨
     el.uuid = P.From16Bit P.GATT_UUID_CHAR_DECLARE))

instance (P : Platform) (el : btgatt_db_element_t) : Decidable (is_offending_element P el) := by
  unfold is_offending_element
  exact inferInstance

/-- The GATT server service (UUID 0x1801) with 69 descriptors after its primary-service
element: 70 handles. -/
def sample_large_gatt_service : List btgatt_db_element_t :=
  { uuid := stockPlatform.From16Bit 0x1801, type := BTGATT_DB_PRIMARY_SERVICE } ::
    List.replicate 69 { uuid := { val := 0x5005 }, type := BTGATT_DB_DESCRIPTOR }

/-- The control block `sample_cb` after application 1 has added the 70-handle GATT service
and the GAP service: the handle list holds the ranges [20, 20] and [1, 70], in this order. -/
def sample_cb_reserved : tGATT_CB :=
  (GATTS_AddService stockPlatform
    (GATTS_AddService stockPlatform sample_cb 1 sample_large_gatt_service).2.2 1
    sample_gap_service).2.2

/-- The start and end handles of the ranges of a handle list, in list order. -/
def handle_ranges (l : List tGATT_HDL_LIST_ELEM) : List (Nat × Nat) :=
  l.map (fun it => (it.asgn_range.s_handle, it.asgn_range.e_handle))

/-- A service description whose first (and only) element is a characteristic with the
authenticated-signed-write property bit (0x40) and no signed-write permission bit. -/
def sample_offending_first : List btgatt_db_element_t :=
  [{ uuid := { val := 0x5006 }, type := BTGATT_DB_CHARACTERISTIC, properties := 0x40,
     permissions := 0x01 }]

/-- The control block `sample_cb` after application 1 has added the GATT service twice: two
handle ranges [1, 1] and two started services with start handle 1. -/
def sample_cb_twice : tGATT_CB :=
  (GATTS_AddService stockPlatform
    (GATTS_AddService stockPlatform sample_cb 1 sample_gatt_service).2.2 1
    sample_gatt_service).2.2

/-- The control block `sample_cb` after application 2 has added `sample_service`: one
started service with the handles [0x40, 0x42]. -/
def sample_cb_started : tGATT_CB :=
  (GATTS_AddService stockPlatform sample_cb 2 sample_service).2.2

/-- The control block `sample_cb` after application 1 has added the GATT service and
application 2 has added `sample_service`: two started services, with the handles [1, 1] and
[0x40, 0x42], in this order. -/
def sample_cb_two_started : tGATT_CB :=
  (GATTS_AddService stockPlatform
    (GATTS_AddService stockPlatform sample_cb 1 sample_gatt_service).2.2 2 sample_service).2.2

/-- The control block `sample_cb` with one allocated range that reaches the top of the handle
space: [0x40, 0xFFFF], owned by application 1. -/
def sample_cb_full : tGATT_CB :=
  { sample_cb with
    hdl_list_info := [{ asgn_range := { app_uuid128 := { val := 0xA1 }, svc_uuid := { val := 0x5007 },
                                        s_handle := 0x40, e_handle := 0xFFFF } }] }

/-- The handle range `it` is the one of (app_uuid, service_uuid, start_handle). -/
def range_matches (app_uuid128 p_svc_uuid : Uuid) (start_handle : Nat)
    (it : tGATT_HDL_LIST_ELEM) : Prop :=
  app_uuid128 = it.asgn_range.app_uuid128 ∧ p_svc_uuid = it.asgn_range.svc_uuid ∧
    start_handle = it.asgn_range.s_handle

instance (app_uuid128 p_svc_uuid : Uuid) (start_handle : Nat) (it : tGATT_HDL_LIST_ELEM) :
    Decidable (range_matches app_uuid128 p_svc_uuid start_handle it) := by
  unfold range_matches
  exact inferInstance

/-- An element kind that takes one handle: primary service, secondary service, descriptor or
included service. -/
def is_simple_kind (t : bt_gatt_db_attribute_type_t) : Bool :=
  decide (t = BTGATT_DB_PRIMARY_SERVICE ∨ t = BTGATT_DB_SECONDARY_SERVICE ∨
    t = BTGATT_DB_DESCRIPTOR ∨ t = BTGATT_DB_INCLUDED_SERVICE)

/-- One of the five known element kinds. -/
def is_known_kind (t : bt_gatt_db_attribute_type_t) : Bool :=
  is_simple_kind t || decide (t = BTGATT_DB_CHARACTERISTIC)

/-- The sizing rule in the words of the specification: one handle per simple element, two per
characteristic, and one more per characteristic that carries the extended-properties bit. -/
def handles_needed (P : Platform) (service : List btgatt_db_element_t) : Nat :=
  service.countP (fun el => is_simple_kind el.type) +
  2 * service.countP (fun el => decide (el.type = BTGATT_DB_CHARACTERISTIC)) +
  service.countP (fun el => decide (el.type = BTGATT_DB_CHARACTERISTIC) &&
    decide (el.properties &&& P.GATT_CHAR_PROP_BIT_EXT_PROP ≠ 0))

/-- A control block for the client functions: the registrations and handle configuration of
`sample_cb`, an LE link to peer 0xB0 at link index 0 and a BR/EDR link to peer 0xB1 at link
index 1, both open and held by applications 1 and 2, and a pool of four free transaction
records. -/
def sample_client_cb : tGATT_CB :=
  { sample_cb with
    tcb := [{ in_use := true, tcb_idx := 0, peer_bda := 0xB0, transport := 2, att_lcid := 4,
              ch_state := 4, payload_size := 23, app_hold_link := [1, 2] },
            { in_use := true, tcb_idx := 1, peer_bda := 0xB1, transport := 1, att_lcid := 0x40,
              ch_state := 4, payload_size := 672, app_hold_link := [1, 2] }]
    clcb := [{}, {}, {}, {}] }

/-- The registration slot that `GATT_Register` writes: zeroed, then the UUID, the id, the
callbacks, the in-use flag and the EATT opt-in. -/
def new_registration (app_uuid128 : Uuid) (p_cb_info : tGATT_CBACK) (eatt_support : Bool)
    (gatt_if : Nat) : tGATT_REG :=
  { app_uuid128 := app_uuid128, gatt_if := gatt_if, app_cb := p_cb_info, in_use := true,
    eatt_support := eatt_support }

/-- A call of the application registry. -/
inductive RegistryOp where
  | Register (app_uuid128 : Uuid) (p_cb_info : tGATT_CBACK) (eatt_support : Bool)
  | Deregister (gatt_if : Nat)

/-- The control block after one call of the application registry (the id returned by
`GATT_Register` dropped). -/
def apply_registry_op (P : ClientPlatform) (cb : tGATT_CB) : RegistryOp → Option tGATT_CB
  | RegistryOp.Register app_uuid128 p_cb_info eatt_support =>
    some (GATT_Register cb app_uuid128 p_cb_info eatt_support).2
  | RegistryOp.Deregister gatt_if => GATT_Deregister P cb gatt_if

/-- The control block after a sequence of calls of the application registry, run in order. -/
def run_registry_ops (P : ClientPlatform) : tGATT_CB → List RegistryOp → Option tGATT_CB
  | cb, [] => some cb
  | cb, op :: ops => (apply_registry_op P cb op).bind (fun cb1 => run_registry_ops P cb1 ops)

/-- No two in-use registration slots have the same `app_uuid128`, and every in-use slot at
index `i` has `gatt_if = i + 1`. -/
def registrations_unique (cb : tGATT_CB) : Prop :=
  (∀ (i j : Nat) (ri rj : tGATT_REG), cb.cl_rcb[i]? = some ri → cb.cl_rcb[j]? = some rj →
    ri.in_use = true → rj.in_use = true → ri.app_uuid128 = rj.app_uuid128 → i = j) ∧
  (∀ (i : Nat) (ri : tGATT_REG), cb.cl_rcb[i]? = some ri → ri.in_use = true →
    ri.gatt_if = i + 1)

/-- The pointers of a transaction record point into the registration table and the link
array. -/
def clcb_points_into (cb : tGATT_CB) (p_clcb : tGATT_CLCB) : Bool :=
  (match p_clcb.p_reg with
   | some r => decide (r < cb.cl_rcb.length)
   | none => false) &&
  (match p_clcb.p_tcb with
   | some t => decide (t < cb.tcb.length)
   | none => false)

/-- Every live transaction record has pointers into the registration table and the link
array. -/
def clcb_pointers_valid (cb : tGATT_CB) : Prop :=
  ∀ p_clcb ∈ cb.clcb, p_clcb.in_use = true → clcb_points_into cb p_clcb = true

instance (cb : tGATT_CB) : Decidable (clcb_pointers_valid cb) := by
  unfold clcb_pointers_valid
  exact inferInstance

/-- A control block with four free registration slots, no service, the two links of
`sample_client_cb` and a pool of four free transaction records. -/
def sample_initial_cb : tGATT_CB :=
  { sample_client_cb with cl_rcb := [{}, {}, {}, {}] }

/-- A sequence of calls of the application registry. -/
def sample_registry_ops : List RegistryOp :=
  [RegistryOp.Register { val := 0xA1 } { id := 1 } false,
   RegistryOp.Register { val := 0xA2 } { id := 2 } true,
   RegistryOp.Register { val := 0xA1 } { id := 3 } false,
   RegistryOp.Deregister 1,
   RegistryOp.Register { val := 0xA3 } { id := 4 } false]

/-- The number of live transaction records of a connection identifier. -/
def live_clcb_count (cb : tGATT_CB) (conn_id : Nat) : Nat :=
  cb.clcb.countP (fun p_clcb => p_clcb.in_use && decide (p_clcb.conn_id = conn_id))

/-- No connection identifier has more than one live transaction record. -/
def clcb_at_most_one (cb : tGATT_CB) : Prop :=
  ∀ conn_id, live_clcb_count cb conn_id ≤ 1

/-- The MTU exchange request that `GATTC_ConfigureMTU` hands to the transport for the
transaction record at position `clcb_idx` on the link at position `tcb_idx`. -/
def mtu_request (P : ClientPlatform) (tcb_idx clcb_idx lcid : Nat) : tATT_CL_SENT :=
  { tcb_idx := tcb_idx, clcb_idx := clcb_idx, lcid := lcid, op_code := P.GATT_REQ_MTU,
    mtu := P.GATT_MAX_MTU_SIZE }

/-- The control block `sample_client_cb` after application 1 has started a read by handle on
the LE link (connection identifier 0x0001): one live transaction record. -/
def sample_cb_reading : tGATT_CB :=
  (GATTC_Read stockClientPlatform sample_client_cb 0x0001 2 (some { by_handle_handle := 0x10 })).2

/-- The control block `sample_cb_reading` with a live transaction record of application 1 on
the BR/EDR link as well (connection identifier 0x0101). -/
def sample_cb_reading_both : tGATT_CB :=
  (GATTC_Read stockClientPlatform sample_cb_reading 0x0101 2 (some { by_handle_handle := 0x10 })).2

/-- A call of one of the five client functions that allocate a transaction record. -/
inductive ClientOp where
  | ConfigureMTU (conn_id mtu : Nat)
  | Discover (conn_id disc_type start_handle end_handle : Nat) (uuid : Uuid)
  | Read (conn_id type : Nat) (p_read : Option tGATT_READ_PARAM)
  | Write (conn_id type : Nat) (p_write : Option tGATT_VALUE)
  | ExecuteWrite (conn_id : Nat) (is_execute : Bool)

/-- The returned status and the control block after one call of a client function. -/
def apply_client_op (P : ClientPlatform) (cb : tGATT_CB) : ClientOp → Nat × tGATT_CB
  | ClientOp.ConfigureMTU conn_id mtu => GATTC_ConfigureMTU P cb conn_id mtu
  | ClientOp.Discover conn_id disc_type start_handle end_handle uuid =>
    GATTC_Discover P cb conn_id disc_type start_handle end_handle uuid
  | ClientOp.Read conn_id type p_read => GATTC_Read P cb conn_id type p_read
  | ClientOp.Write conn_id type p_write => GATTC_Write P cb conn_id type p_write
  | ClientOp.ExecuteWrite conn_id is_execute => GATTC_ExecuteWrite P cb conn_id is_execute

/-- The control block after a sequence of calls of the client functions, run in order. -/
def run_client_ops (P : ClientPlatform) : tGATT_CB → List ClientOp → tGATT_CB
  | cb, [] => cb
  | cb, op :: ops => run_client_ops P (apply_client_op P cb op).2 ops

/-- The transaction pool `clcb1` is the pool of `cb`, or the pool of `cb` with its first free
record made the live record of a connection identifier that had none. -/
def clcb_allocates_one (cb : tGATT_CB) (clcb1 : List tGATT_CLCB) : Prop :=
  clcb1 = cb.clcb ∨
    ∃ (conn_id i : Nat) (c : tGATT_CLCB), gatt_is_clcb_allocated cb conn_id = false ∧
      find_first (fun p_clcb : tGATT_CLCB => !p_clcb.in_use) cb.clcb = some i ∧
      c.in_use = true ∧ c.conn_id = conn_id ∧ clcb1 = cb.clcb.set i c

/-- A sequence of client calls on `sample_client_cb`: a read, then a discovery, a write and an
MTU configuration with the same connection identifier, then a read by the other
application. -/
def sample_client_ops : List ClientOp :=
  [ClientOp.Read 0x0001 2 (some { by_handle_handle := 0x10 }),
   ClientOp.Discover 0x0001 1 1 0xFFFF Uuid.kEmpty,
   ClientOp.Write 0x0001 2 (some { handle := 0x10 }),
   ClientOp.ConfigureMTU 0x0001 100,
   ClientOp.Read 0x0002 2 (some { by_handle_handle := 0x12 })]

/-- A link record with a connection identifier put at the end of its waiter list. -/
def enqueue_waiter (p_tcb : tGATT_TCB) (conn_id : Nat) : tGATT_TCB :=
  { p_tcb with
    conn_ids_waiting_for_mtu_exchange := p_tcb.conn_ids_waiting_for_mtu_exchange ++ [conn_id] }

/-- A link record with its waiter list emptied and every other field as it is. -/
def clear_waiters (p_tcb : tGATT_TCB) : tGATT_TCB :=
  { p_tcb with conn_ids_waiting_for_mtu_exchange := [] }

/-- The control block `sample_client_cb` while an MTU exchange asked for by application 1 is
pending on the LE link and applications 2 and 1 wait for its result. -/
def sample_cb_mtu_pending : tGATT_CB :=
  { sample_client_cb with
    tcb := [{ in_use := true, tcb_idx := 0, peer_bda := 0xB0, transport := 2, att_lcid := 4,
              ch_state := 4, payload_size := 23, app_hold_link := [1, 2],
              pending_user_mtu_exchange_value := 100,
              conn_ids_waiting_for_mtu_exchange := [0x0002, 0x0001] },
            { in_use := true, tcb_idx := 1, peer_bda := 0xB1, transport := 1, att_lcid := 0x40,
              ch_state := 4, payload_size := 672, app_hold_link := [1, 2] }] }

/-- The handle list is in non-increasing order of start handle. -/
def hdl_descending (l : List tGATT_HDL_LIST_ELEM) : Prop :=
  l.Pairwise (fun a b => b.asgn_range.s_handle ≤ a.asgn_range.s_handle)

/-- The started-service list is in non-decreasing order of start handle. -/
def srv_ascending (l : List tGATT_SRV_LIST_ELEM) : Prop :=
  l.Pairwise (fun a b => a.s_hdl ≤ b.s_hdl)

/-- The start handle of the last entry of the started-service list, 0 for the empty list. -/
def last_started_handle (l : List tGATT_SRV_LIST_ELEM) : Nat :=
  match l.getLast? with
  | some el => el.s_hdl
  | none => 0

/-- A handle range [0x50, 0x52] of the service 0x5001 of application 1. -/
def sample_range : tGATTS_HNDL_RANGE :=
  { app_uuid128 := { val := 0xA1 }, svc_uuid := { val := 0x5001 }, s_handle := 0x50,
    e_handle := 0x52, is_primary := true }

/-- A handle list in non-increasing order of start handle: two ranges that start at 0x60 and
one that starts at 0x40. -/
def sample_hdl_list : List tGATT_HDL_LIST_ELEM :=
  [{ asgn_range := { svc_uuid := { val := 0x5005 }, s_handle := 0x60, e_handle := 0x62 } },
   { asgn_range := { svc_uuid := { val := 0x5006 }, s_handle := 0x60, e_handle := 0x61 } },
   { asgn_range := { svc_uuid := { val := 0x5007 }, s_handle := 0x40, e_handle := 0x42 } }]

/-- A link record with its `max_user_mtu` set to `v` and every other field as it is. -/
def with_max_user_mtu (p_tcb : tGATT_TCB) (v : Nat) : tGATT_TCB :=
  { p_tcb with max_user_mtu := v }

/-- The control block `sample_client_cb` after the MTU exchange on the LE link has settled
on a payload size of 185, with a recorded maximum user MTU of 100. -/
def sample_cb_mtu_done : tGATT_CB :=
  { sample_client_cb with
    tcb := [{ in_use := true, tcb_idx := 0, peer_bda := 0xB0, transport := 2, att_lcid := 4,
              ch_state := 4, payload_size := 185, max_user_mtu := 100,
              app_hold_link := [1, 2] },
            { in_use := true, tcb_idx := 1, peer_bda := 0xB1, transport := 1, att_lcid := 0x40,
              ch_state := 4, payload_size := 672, app_hold_link := [1, 2] }] }

/-- The outstanding indication handle of the bearer a call goes on: that of the bearer at the
position `p_eatt_bcb`, or that of the link itself when no bearer is selected (`none`). -/
def outstanding_indicate_handle (cb : tGATT_CB) (tcb_idx : Nat) (p_eatt_bcb : Option Nat) : Nat :=
  match p_eatt_bcb with
  | some k => ebcb_indicate_handle cb k
  | none =>
    match cb.tcb[tcb_idx]? with
    | some p_tcb => p_tcb.indicate_handle
    | none => 0

/-- A bearer with a connection identifier put at the end of its notification credit-blocked
list. -/
def block_notification (b : tGATT_EBCB) (conn_id : Nat) : tGATT_EBCB :=
  { b with notif_no_credits_apps := b.notif_no_credits_apps ++ [conn_id] }

/-- A bearer with the outstanding indication handle set and a connection identifier put at
the end of its indication credit-blocked list. -/
def block_indication (b : tGATT_EBCB) (attr_handle conn_id : Nat) : tGATT_EBCB :=
  { b with
    indicate_handle := attr_handle
    ind_no_credits_apps := b.ind_no_credits_apps ++ [conn_id] }

/-- No credit-blocked list of a bearer holds the same connection identifier twice. -/
def credit_lists_nodup (cb : tGATT_CB) : Prop :=
  ∀ b ∈ cb.eatt_bcb, b.notif_no_credits_apps.Nodup ∧ b.ind_no_credits_apps.Nodup

/-- A call of one of the two functions that put a connection identifier on a credit-blocked
list. -/
inductive MessagingOp where
  | Indication (conn_id attr_handle val_len : Nat) (p_val : List Nat)
  | Notification (conn_id attr_handle val_len : Nat) (p_val : List Nat)

/-- The returned status and the control block after one call of a messaging function. -/
def apply_messaging_op (P : ServerPlatform) (cb : tGATT_CB) : MessagingOp → Nat × tGATT_CB
  | MessagingOp.Indication conn_id attr_handle val_len p_val =>
    GATTS_HandleValueIndication P cb conn_id attr_handle val_len p_val
  | MessagingOp.Notification conn_id attr_handle val_len p_val =>
    GATTS_HandleValueNotification P cb conn_id attr_handle val_len p_val

/-- The control block after a sequence of calls of the messaging functions, run in order. -/
def run_messaging_ops (P : ServerPlatform) : tGATT_CB → List MessagingOp → tGATT_CB
  | cb, [] => cb
  | cb, op :: ops => run_messaging_ops P (apply_messaging_op P cb op).2 ops

/-- A control block for the messaging functions: application 1 registered with the EATT
opt-in and application 2 without it, an LE link to peer 0xB0 at link index 0 that supports
EATT and a BR/EDR link to peer 0xB1 at link index 1 that does not, and three bearers on the
LE link: the channel `L2CAP_ATT_CID` (4), the channel 0x41 that the connection identifier
0x0001 is bound to, and the channel 0x42. -/
def sample_eatt_cb : tGATT_CB :=
  { sample_client_cb with
    cl_rcb := [{ in_use := true, gatt_if := 1, app_uuid128 := { val := 0xA1 },
                 eatt_support := true },
               { in_use := true, gatt_if := 2, app_uuid128 := { val := 0xA2 } }, {}, {}]
    tcb := [{ in_use := true, tcb_idx := 0, peer_bda := 0xB0, transport := 2, att_lcid := 4,
              ch_state := 4, payload_size := 23, app_hold_link := [1, 2],
              is_eatt_supported := true },
            { in_use := true, tcb_idx := 1, peer_bda := 0xB1, transport := 1, att_lcid := 0x40,
              ch_state := 4, payload_size := 672, app_hold_link := [1, 2] }]
    eatt_bcb := [{ cid := 4, tcb_idx := 0, payload_size := 23 },
                 { cid := 0x41, tcb_idx := 0, conn_ids := [0x0001], payload_size := 64 },
                 { cid := 0x42, tcb_idx := 0, payload_size := 64 }] }

/-- The control block `sample_eatt_cb` after application 2 has sent an indication of the
handle 0x30 on the LE link (connection identifier 0x0002): the bearer of the channel
`L2CAP_ATT_CID` awaits its confirmation. -/
def sample_cb_indicated : tGATT_CB :=
  (GATTS_HandleValueIndication stockServerPlatform sample_eatt_cb 0x0002 0x30 1 [7]).2

/-- The control block `sample_eatt_cb` after application 1 has sent a notification of the
handle 0x31 on its bearer 0x41, which has no credits: the notification is queued, the
connection identifier 0x0001 is blocked on notification credits and the bearer is flagged. -/
def sample_cb_blocked : tGATT_CB :=
  ebcb_write
    (GATTS_HandleValueNotification stockServerPlatform sample_eatt_cb 0x0001 0x31 1 [9]).2 1
    (fun b => { b with no_credits := true })

/-- A sequence of messaging calls on `sample_eatt_cb`: application 1 notifies twice and
indicates twice on its bearer without credits, application 2 indicates once. -/
def sample_messaging_ops : List MessagingOp :=
  [MessagingOp.Notification 0x0001 0x31 1 [9], MessagingOp.Notification 0x0001 0x31 1 [10],
   MessagingOp.Indication 0x0001 0x30 1 [7], MessagingOp.Indication 0x0001 0x30 1 [8],
   MessagingOp.Indication 0x0002 0x30 1 [7]]

/-- A bearer with the outstanding indication handle set and every other field as it is. -/
def await_confirmation (b : tGATT_EBCB) (attr_handle : Nat) : tGATT_EBCB :=
  { b with indicate_handle := attr_handle }

/-! ## Theorems -/

theorem gatt_add_an_item_to_list_set (x : tGATT_HDL_LIST_ELEM) (l : List tGATT_HDL_LIST_ELEM)
    (s_handle : Nat) :
    (gatt_add_an_item_to_list l s_handle).2.set (gatt_add_an_item_to_list l s_handle).1 x =
      hdl_insert x l s_handle := by
  induction l with
  | nil => simp [gatt_add_an_item_to_list, hdl_insert]
  | cons it rest ih =>
    unfold gatt_add_an_item_to_list hdl_insert
    by_cases h : s_handle > it.asgn_range.s_handle
    · simp [h]
    · simp [h, ih]

theorem hdl_insert_mem (x : tGATT_HDL_LIST_ELEM) (l : List tGATT_HDL_LIST_ELEM) (s : Nat)
    (a : tGATT_HDL_LIST_ELEM) : a ∈ hdl_insert x l s ↔ a = x ∨ a ∈ l := by
  induction l with
  | nil => simp [hdl_insert]
  | cons it rest ih =>
    unfold hdl_insert
    by_cases h : s > it.asgn_range.s_handle
    · simp [h]
    · simp [h, ih]
      tauto

theorem hdl_insert_length (x : tGATT_HDL_LIST_ELEM) (l : List tGATT_HDL_LIST_ELEM) (s : Nat) :
    (hdl_insert x l s).length = l.length + 1 := by
  induction l with
  | nil => simp [hdl_insert]
  | cons it rest ih =>
    unfold hdl_insert
    by_cases h : s > it.asgn_range.s_handle
    · simp [h]
    · simp [h, ih]

theorem hdl_chain_insert (x : tGATT_HDL_LIST_ELEM) (l : List tGATT_HDL_LIST_ELEM)
    (hl : hdl_chain l)
    (hx : x.asgn_range.s_handle ≤ x.asgn_range.e_handle ∧ x.asgn_range.e_handle ≤ 0xFFFF)
    (hd : ∀ r ∈ l, ¬ share_handle x.asgn_range r.asgn_range) :
    hdl_chain (hdl_insert x l x.asgn_range.s_handle) := by
  induction l with
  | nil =>
    refine ⟨by simp [hdl_insert], ?_⟩
    intro a ha
    simp [hdl_insert] at ha
    subst ha
    exact hx
  | cons it rest ih =>
    obtain ⟨hp, hw⟩ := hl
    have hpc := List.pairwise_cons.1 hp
    have hit := hw it (List.mem_cons_self _ _)
    have hrest : hdl_chain rest := ⟨hpc.2, fun a ha => hw a (List.mem_cons_of_mem _ ha)⟩
    have hdit := hd it (List.mem_cons_self _ _)
    unfold hdl_insert
    by_cases h : x.asgn_range.s_handle > it.asgn_range.s_handle
    · rw [if_pos h]
      have hit_lt : it.asgn_range.e_handle < x.asgn_range.s_handle := by
        by_contra hc
        exact hdit ⟨x.asgn_range.s_handle, le_refl _, hx.1, by omega, by omega⟩
      refine ⟨List.pairwise_cons.2 ⟨?_, hp⟩, ?_⟩
      · intro b hb
        rcases List.mem_cons.1 hb with hb | hb
        · subst hb
          exact hit_lt
        · have h1 := hpc.1 b hb
          have h2 := hw b (List.mem_cons_of_mem _ hb)
          omega
      · intro a ha
        rcases List.mem_cons.1 ha with ha | ha
        · subst ha
          exact hx
        · exact hw a ha
    · rw [if_neg h]
      have ih1 := ih hrest (fun r hr => hd r (List.mem_cons_of_mem _ hr))
      have hx_lt : x.asgn_range.e_handle < it.asgn_range.s_handle := by
        by_contra hc
        exact hdit ⟨it.asgn_range.s_handle, by omega, by omega, le_refl _, hit.1⟩
      refine ⟨List.pairwise_cons.2 ⟨?_, ih1.1⟩, ?_⟩
      · intro b hb
        rcases (hdl_insert_mem x rest _ b).1 hb with hb | hb
        · subst hb
          exact hx_lt
        · exact hpc.1 b hb
      · intro a ha
        rcases List.mem_cons.1 ha with ha | ha
        · subst ha
          exact hit
        · exact ih1.2 a ha

theorem hdl_chain_no_overlap (l : List tGATT_HDL_LIST_ELEM) (hl : hdl_chain l) : no_overlap l := by
  refine List.Pairwise.imp ?_ hl.1
  intro a b hab ⟨h, h1, _, _, h4⟩
  omega

theorem hdl_chain_eraseIdx (l : List tGATT_HDL_LIST_ELEM) (i : Nat) (hl : hdl_chain l) :
    hdl_chain (l.eraseIdx i) :=
  ⟨hl.1.sublist (List.eraseIdx_sublist l i),
   fun a ha => hl.2 a ((List.eraseIdx_sublist l i).subset ha)⟩

@[simp] theorem gatt_update_last_srv_info_hdl (cb : tGATT_CB) :
    (gatt_update_last_srv_info cb).hdl_list_info = cb.hdl_list_info := rfl

@[simp] theorem gatt_update_last_srv_info_srv (cb : tGATT_CB) :
    (gatt_update_last_srv_info cb).srv_list_info = cb.srv_list_info := rfl

@[simp] theorem gatt_update_for_database_change_hdl (P : Platform) (cb : tGATT_CB) :
    (gatt_update_for_database_change P cb).hdl_list_info = cb.hdl_list_info := rfl

@[simp] theorem gatt_update_for_database_change_srv (P : Platform) (cb : tGATT_CB) :
    (gatt_update_for_database_change P cb).srv_list_info = cb.srv_list_info := rfl

@[simp] theorem gatt_update_for_database_change_hash (P : Platform) (cb : tGATT_CB) :
    (gatt_update_for_database_change P cb).database_hash =
      P.gatts_calculate_database_hash cb.srv_list_info := rfl

@[simp] theorem gatt_proc_srv_chg_unless_disabled_hdl (P : Platform) (cb : tGATT_CB) :
    (gatt_proc_srv_chg_unless_disabled P cb).hdl_list_info = cb.hdl_list_info := by
  unfold gatt_proc_srv_chg_unless_disabled
  split <;> rfl

@[simp] theorem gatt_proc_srv_chg_unless_disabled_srv (P : Platform) (cb : tGATT_CB) :
    (gatt_proc_srv_chg_unless_disabled P cb).srv_list_info = cb.srv_list_info := by
  unfold gatt_proc_srv_chg_unless_disabled
  split <;> rfl

@[simp] theorem gatt_proc_srv_chg_unless_disabled_hash (P : Platform) (cb : tGATT_CB) :
    (gatt_proc_srv_chg_unless_disabled P cb).database_hash = cb.database_hash := by
  unfold gatt_proc_srv_chg_unless_disabled
  split <;> rfl

theorem GATTS_AddService_not_admitted (P : Platform) (cb : tGATT_CB) (gatt_if : Nat)
    (service : List btgatt_db_element_t) (h : ¬ add_service_admitted P cb gatt_if service) :
    GATTS_AddService P cb gatt_if service = (P.GATT_INTERNAL_ERROR, service, cb) := by
  unfold GATTS_AddService
  split
  · rfl
  · rename_i p_reg hreg
    dsimp only
    split
    · rfl
    · rename_i hn
      split
      · rfl
      · rename_i first others
        split
        · rfl
        · rename_i hsp
          exact absurd ⟨p_reg, first, others, hreg, rfl, hn, hsp⟩ h

/-- The handle list and the NV save log after `GATTS_AddService` once the checks before the
handle list have passed, whatever the element loop does afterwards. -/
theorem GATTS_AddService_admitted (P : Platform) (cb : tGATT_CB) (gatt_if : Nat)
    (p_reg : tGATT_REG) (first : btgatt_db_element_t) (others : List btgatt_db_element_t)
    (hreg : gatt_get_regcb cb gatt_if = some p_reg)
    (hn : compute_service_size P (first :: others) ≠ 0)
    (hsp : ¬ compute_service_size P (first :: others) >
      0xFFFF - (select_s_hdl P cb first.uuid).1 + 1) :
    (GATTS_AddService P cb gatt_if (first :: others)).2.2.hdl_list_info =
      hdl_insert
        { asgn_range := new_asgn_range P cb p_reg first (compute_service_size P (first :: others)),
          svc_db := (add_service_loop P cb p_reg first others).2.1 }
        cb.hdl_list_info (select_s_hdl P cb first.uuid).1 ∧
    (GATTS_AddService P cb gatt_if (first :: others)).2.2.nv_save_calls =
      (if (select_s_hdl P cb first.uuid).2 = true ∧ cb.p_nv_save_callback = true then
        cb.nv_save_calls ++
          [(true, new_asgn_range P cb p_reg first (compute_service_size P (first :: others)))]
      else cb.nv_save_calls) := by
  unfold GATTS_AddService
  simp only [hreg, hn, hsp, if_false]
  split
  · exact ⟨by simp [gatt_add_an_item_to_list_set, new_asgn_range, add_service_loop],
      by simp [new_asgn_range]⟩
  · refine ⟨?_, ?_⟩
    · simp only [gatt_proc_srv_chg_unless_disabled_hdl, gatt_update_for_database_change_hdl,
        gatt_update_last_srv_info_hdl, gatt_add_an_item_to_list_set, new_asgn_range,
        add_service_loop]
    · unfold gatt_proc_srv_chg_unless_disabled gatt_update_for_database_change
        gatt_update_last_srv_info
      split <;> simp [new_asgn_range]

/-- The status and the started-service list after `GATTS_AddService` when the element loop
returns an error. -/
theorem GATTS_AddService_loop_error (P : Platform) (cb : tGATT_CB) (gatt_if : Nat)
    (p_reg : tGATT_REG) (first : btgatt_db_element_t) (others : List btgatt_db_element_t)
    (hreg : gatt_get_regcb cb gatt_if = some p_reg)
    (hn : compute_service_size P (first :: others) ≠ 0)
    (hsp : ¬ compute_service_size P (first :: others) >
      0xFFFF - (select_s_hdl P cb first.uuid).1 + 1)
    (hloop : (add_service_loop P cb p_reg first others).1 = false) :
    (GATTS_AddService P cb gatt_if (first :: others)).1 = P.GATT_INTERNAL_ERROR ∧
    (GATTS_AddService P cb gatt_if (first :: others)).2.2.srv_list_info = cb.srv_list_info ∧
    (GATTS_AddService P cb gatt_if (first :: others)).2.2.database_hash = cb.database_hash := by
  unfold add_service_loop new_asgn_range at hloop
  unfold GATTS_AddService
  simp only [hreg, hn, hsp, if_false, gatt_add_an_item_to_list_set, hloop]
  simp

/-- The status, the first element, the started-service list and the database hash after
`GATTS_AddService` when the element loop completes. -/
theorem GATTS_AddService_started (P : Platform) (cb : tGATT_CB) (gatt_if : Nat)
    (p_reg : tGATT_REG) (first : btgatt_db_element_t) (others : List btgatt_db_element_t)
    (hreg : gatt_get_regcb cb gatt_if = some p_reg)
    (hn : compute_service_size P (first :: others) ≠ 0)
    (hsp : ¬ compute_service_size P (first :: others) >
      0xFFFF - (select_s_hdl P cb first.uuid).1 + 1)
    (hloop : (add_service_loop P cb p_reg first others).1 = true) :
    (GATTS_AddService P cb gatt_if (first :: others)).1 = P.GATT_SERVICE_STARTED ∧
    (GATTS_AddService P cb gatt_if (first :: others)).2.1.head? =
      some { first with attribute_handle := (select_s_hdl P cb first.uuid).1 } ∧
    (GATTS_AddService P cb gatt_if (first :: others)).2.2.srv_list_info =
      srv_list_emplace
        (new_srv_elem P cb gatt_if
          (new_asgn_range P cb p_reg first (compute_service_size P (first :: others)))
          (add_service_loop P cb p_reg first others).2.1) cb.srv_list_info ∧
    (GATTS_AddService P cb gatt_if (first :: others)).2.2.database_hash =
      P.gatts_calculate_database_hash
        (GATTS_AddService P cb gatt_if (first :: others)).2.2.srv_list_info := by
  unfold add_service_loop new_asgn_range at hloop
  unfold GATTS_AddService
  simp only [hreg, hn, hsp, if_false, gatt_add_an_item_to_list_set, hloop]
  simp [new_srv_elem, new_asgn_range, add_service_loop]

@[simp] theorem gatt_update_for_database_change_hdl_cfg (P : Platform) (cb : tGATT_CB) :
    (gatt_update_for_database_change P cb).hdl_cfg = cb.hdl_cfg := rfl

@[simp] theorem gatt_proc_srv_chg_unless_disabled_hdl_cfg (P : Platform) (cb : tGATT_CB) :
    (gatt_proc_srv_chg_unless_disabled P cb).hdl_cfg = cb.hdl_cfg := by
  unfold gatt_proc_srv_chg_unless_disabled
  split <;> rfl

theorem find_first_none {α : Type} (p : α → Bool) (l : List α) :
    find_first p l = none ↔ ∀ x ∈ l, p x = false := by
  induction l with
  | nil => simp [find_first]
  | cons x xs ih =>
    unfold find_first
    by_cases h : p x = true
    · simp [h]
    · simp only [h, Bool.false_eq_true, if_false, Option.map_eq_none', ih, List.mem_cons,
        forall_eq_or_imp]
      simp [h]

/-- What a successful search returns: the list splits at the returned position into the
elements before it, none of which satisfies `p`, the found element, and the rest. -/
theorem find_first_some {α : Type} (p : α → Bool) (l : List α) (i : Nat)
    (h : find_first p l = some i) :
    ∃ pre x suf, l = pre ++ x :: suf ∧ pre.length = i ∧ p x = true ∧
      (∀ y ∈ pre, p y = false) ∧ l[i]? = some x ∧ l.eraseIdx i = pre ++ suf := by
  induction l generalizing i with
  | nil => simp [find_first] at h
  | cons a as ih =>
    unfold find_first at h
    by_cases hp : p a = true
    · simp only [hp, if_true, Option.some.injEq] at h
      subst h
      exact ⟨[], a, as, rfl, rfl, hp, by simp, by simp, by simp⟩
    · simp only [hp, Bool.false_eq_true, if_false, Option.map_eq_some'] at h
      obtain ⟨j, hj, hji⟩ := h
      obtain ⟨pre, x, suf, hl, hlen, hx, hpre, hget, her⟩ := ih j hj
      subst hji
      refine ⟨a :: pre, x, suf, by simp [hl], by simp [hlen], hx, ?_, by simpa using hget, ?_⟩
      · intro y hy
        rcases List.mem_cons.1 hy with hy | hy
        · subst hy
          simpa using hp
        · exact hpre y hy
      · simp [List.eraseIdx_cons_succ, her]

theorem is_active_service_find (P : Platform) (cb : tGATT_CB) (app_uuid128 p_svc_uuid : Uuid)
    (start_handle : Nat) (h : is_active_service P cb app_uuid128 p_svc_uuid start_handle = true) :
    ∃ it, gatt_sr_find_i_rcb_by_handle cb start_handle = some it := by
  unfold gatt_sr_find_i_rcb_by_handle
  cases hf : find_first (fun it => decide (it.s_hdl = start_handle)) cb.srv_list_info with
  | some it => exact ⟨it, rfl⟩
  | none =>
    exfalso
    rw [find_first_none] at hf
    unfold is_active_service at h
    rw [List.any_eq_true] at h
    obtain ⟨info, hmem, hinfo⟩ := h
    have := hf info hmem
    split at hinfo
    · simp only [Bool.and_eq_true, decide_eq_true_eq] at hinfo
      simp [hinfo.2] at this
    · simp at hinfo

/-- What `GATTS_StopService` does when a started service has the start handle: the first
such entry leaves the list, and nothing but the watermark and the SDP log changes besides. -/
theorem GATTS_StopService_some (cb : tGATT_CB) (service_handle it : Nat)
    (h : gatt_sr_find_i_rcb_by_handle cb service_handle = some it) :
    ∃ cb1, GATTS_StopService cb service_handle = some cb1 ∧
      cb1.srv_list_info = cb.srv_list_info.eraseIdx it ∧
      cb1.hdl_list_info = cb.hdl_list_info ∧ cb1.hdl_cfg = cb.hdl_cfg ∧
      cb1.database_hash = cb.database_hash ∧ cb1.cl_rcb = cb.cl_rcb ∧
      cb1.p_nv_save_callback = cb.p_nv_save_callback ∧ cb1.nv_save_calls = cb.nv_save_calls := by
  obtain ⟨pre, x, suf, _, _, _, _, hget, _⟩ := find_first_some _ _ _ h
  unfold GATTS_StopService
  simp only [h, hget]
  split <;> exact ⟨_, rfl, rfl, rfl, rfl, rfl, rfl, rfl, rfl⟩

/-- `GATTS_DeleteService` when the application is registered and a range matches: it returns
true and the range at the found position leaves the handle list; the started-service list
loses the first entry with that start handle when the service is active and is unchanged
otherwise; the database hash is recomputed afterwards. -/
theorem GATTS_DeleteService_found (P : Platform) (cb : tGATT_CB) (gatt_if : Nat)
    (p_svc_uuid : Uuid) (svc_inst : Nat) (p_reg : tGATT_REG) (it : Nat)
    (hreg : gatt_get_regcb cb gatt_if = some p_reg)
    (hit : gatt_find_hdl_buffer_by_app_id cb p_reg.app_uuid128 p_svc_uuid svc_inst = some it) :
    ∃ cb1, GATTS_DeleteService P cb gatt_if p_svc_uuid svc_inst = some (true, cb1) ∧
      cb1.hdl_list_info = cb.hdl_list_info.eraseIdx it ∧
      cb1.hdl_cfg = cb.hdl_cfg ∧
      (is_active_service P cb p_reg.app_uuid128 p_svc_uuid svc_inst = true →
        ∃ sit, gatt_sr_find_i_rcb_by_handle cb svc_inst = some sit ∧
          cb1.srv_list_info = cb.srv_list_info.eraseIdx sit) ∧
      (is_active_service P cb p_reg.app_uuid128 p_svc_uuid svc_inst = false →
        cb1.srv_list_info = cb.srv_list_info) ∧
      cb1.database_hash = P.gatts_calculate_database_hash cb1.srv_list_info := by
  obtain ⟨pre, x, suf, _, _, hx, _, hget, _⟩ := find_first_some _ _ _ hit
  have hs : x.asgn_range.s_handle = svc_inst := by
    simp only [Bool.and_eq_true, decide_eq_true_eq] at hx
    exact hx.2.symm
  unfold gatt_find_hdl_buffer_by_app_id at hit
  unfold GATTS_DeleteService gatt_find_hdl_buffer_by_app_id
  simp only [hreg, hit, hget, hs]
  by_cases hact : is_active_service P cb p_reg.app_uuid128 p_svc_uuid svc_inst = true
  · obtain ⟨sit, hsit⟩ := is_active_service_find P cb _ _ _ hact
    obtain ⟨cb1, hstop, h1, h2, h3, h4, h5, h6, h7⟩ := GATTS_StopService_some cb svc_inst sit hsit
    simp only [hact, if_true, hstop]
    split
    · refine ⟨_, rfl, by simp [h2], by simp [h3], fun _ => ⟨sit, hsit, by simp [h1]⟩, ?_, by simp⟩
      intro hc
      first | exact hc.elim | simp at hc
    · refine ⟨_, rfl, by simp [h2], by simp [h3], fun _ => ⟨sit, hsit, by simp [h1]⟩, ?_, by simp⟩
      intro hc
      first | exact hc.elim | simp at hc
  · simp only [hact, Bool.false_eq_true, if_false]
    split
    · refine ⟨_, rfl, by simp, by simp, ?_, fun _ => by simp, by simp⟩
      intro hc
      exact hc.elim
    · refine ⟨_, rfl, by simp, by simp, ?_, fun _ => by simp, by simp⟩
      intro hc
      exact hc.elim

theorem GATTS_AddService_hdl_cfg (P : Platform) (cb : tGATT_CB) (gatt_if : Nat)
    (service : List btgatt_db_element_t) :
    (GATTS_AddService P cb gatt_if service).2.2.hdl_cfg = cb.hdl_cfg := by
  unfold GATTS_AddService
  split
  · rfl
  · dsimp only
    split
    · rfl
    · split
      · rfl
      · split
        · rfl
        · split
          · rfl
          · simp [gatt_update_last_srv_info]

theorem GATTS_DeleteService_total (P : Platform) (cb : tGATT_CB) (gatt_if : Nat)
    (p_svc_uuid : Uuid) (svc_inst : Nat) :
    ∃ b cb1, GATTS_DeleteService P cb gatt_if p_svc_uuid svc_inst = some (b, cb1) ∧
      cb1.hdl_cfg = cb.hdl_cfg ∧
      (cb1.hdl_list_info = cb.hdl_list_info ∨
        ∃ it, cb1.hdl_list_info = cb.hdl_list_info.eraseIdx it) := by
  cases hreg : gatt_get_regcb cb gatt_if with
  | none => exact ⟨false, cb, by simp [GATTS_DeleteService, hreg], rfl, Or.inl rfl⟩
  | some p_reg =>
    cases hit : gatt_find_hdl_buffer_by_app_id cb p_reg.app_uuid128 p_svc_uuid svc_inst with
    | none => exact ⟨false, cb, by simp [GATTS_DeleteService, hreg, hit], rfl, Or.inl rfl⟩
    | some it =>
      obtain ⟨cb1, h, h1, h2, _⟩ := GATTS_DeleteService_found P cb gatt_if p_svc_uuid svc_inst
        p_reg it hreg hit
      exact ⟨true, cb1, h, h2, Or.inr ⟨it, h1⟩⟩

theorem select_s_hdl_le (P : Platform) (cb : tGATT_CB) (svc_uuid : Uuid)
    (hcfg : hdl_cfg_16bit cb.hdl_cfg) : (select_s_hdl P cb svc_uuid).1 ≤ 0xFFFF := by
  obtain ⟨h1, h2, h3⟩ := hcfg
  unfold select_s_hdl
  split
  · exact h1
  · split
    · exact h2
    · dsimp only
      split
      · exact h3
      · split
        · omega
        · omega

/-- One operation in scope keeps the handle list a descending chain of well-formed ranges. -/
theorem apply_service_op_chain (P : Platform) (cb : tGATT_CB) (op : ServiceOp)
    (hchain : hdl_chain cb.hdl_list_info) (hcfg : hdl_cfg_16bit cb.hdl_cfg)
    (hscope : op_in_scope P cb op = true) :
    ∃ cb1, apply_service_op P cb op = some cb1 ∧ hdl_chain cb1.hdl_list_info ∧
      hdl_cfg_16bit cb1.hdl_cfg := by
  cases op with
  | DeleteService gatt_if p_svc_uuid svc_inst =>
    obtain ⟨b, cb1, h, hc, hl⟩ := GATTS_DeleteService_total P cb gatt_if p_svc_uuid svc_inst
    refine ⟨cb1, by simp [apply_service_op, h], ?_, by rw [hc]; exact hcfg⟩
    rcases hl with hl | ⟨it, hl⟩
    · rw [hl]; exact hchain
    · rw [hl]; exact hdl_chain_eraseIdx _ _ hchain
  | AddService gatt_if service =>
    refine ⟨_, rfl, ?_, by rw [GATTS_AddService_hdl_cfg]; exact hcfg⟩
    by_cases hadm : add_service_admitted P cb gatt_if service
    · obtain ⟨p_reg, first, others, hreg, hsvc, hn, hsp⟩ := hadm
      subst hsvc
      rw [(GATTS_AddService_admitted P cb gatt_if p_reg first others hreg hn hsp).1]
      have hs := select_s_hdl_le P cb first.uuid hcfg
      have he : ((select_s_hdl P cb first.uuid).1 + compute_service_size P (first :: others) - 1)
          % 65536 = (select_s_hdl P cb first.uuid).1 +
            compute_service_size P (first :: others) - 1 := Nat.mod_eq_of_lt (by omega)
      simp only [op_in_scope] at hscope
      apply hdl_chain_insert _ _ hchain
      · simp only [new_asgn_range, he]
        omega
      · intro r hr ⟨h, h1, h2, h3, h4⟩
        simp only [new_asgn_range, he] at h1 h2
        by_cases hres : is_reserved_service P first.uuid
        · rw [if_pos hres, List.all_eq_true] at hscope
          have := hscope r hr
          simp only [decide_eq_true_eq] at this
          omega
        · rw [if_neg hres] at hscope
          have hsel : ∀ front rest, cb.hdl_list_info = front :: rest →
              front.asgn_range.e_handle + 1 ≤ (select_s_hdl P cb first.uuid).1 := by
            intro front rest hl
            have hf : front.asgn_range.e_handle < 0xFFFF := by
              rw [hl] at hscope
              simpa using hscope
            have hres1 := not_or.1 hres
            unfold select_s_hdl
            rw [if_neg hres1.1, if_neg hres1.2, hl]
            dsimp only
            rw [Nat.mod_eq_of_lt (by omega)]
            split <;> omega
          cases hl : cb.hdl_list_info with
          | nil => rw [hl] at hr; simp at hr
          | cons front rest =>
            have h5 := hsel front rest hl
            rw [hl] at hr hchain
            have hpc := List.pairwise_cons.1 hchain.1
            rcases List.mem_cons.1 hr with hr | hr
            · subst hr
              omega
            · have h6 := hpc.1 r hr
              have h7 := hchain.2 front (List.mem_cons_self _ _)
              omega
    · rw [GATTS_AddService_not_admitted P cb gatt_if service hadm]
      exact hchain

/-- C1 (as amended): starting from an empty handle list with 16-bit configured start handles,
after every finite sequence of GATTS_AddService and GATTS_DeleteService calls in which every
add of a reserved (GATT or GAP) service asks for handles none of which is allocated, and every
other add is made while the front range ends below 0xFFFF, the sequence runs to the end and
no two ranges of the handle list share a handle. -/
theorem handle_ranges_never_overlap (P : Platform) (cb : tGATT_CB) (ops : List ServiceOp)
    (hempty : cb.hdl_list_info = []) (hcfg : hdl_cfg_16bit cb.hdl_cfg)
    (hscope : ops_in_scope P cb ops = true) :
    ∃ cb1, run_service_ops P cb ops = some cb1 ∧ no_overlap cb1.hdl_list_info := by
  have hchain : hdl_chain cb.hdl_list_info := by
    rw [hempty]
    exact ⟨List.Pairwise.nil, by simp⟩
  clear hempty
  induction ops generalizing cb with
  | nil => exact ⟨cb, rfl, hdl_chain_no_overlap _ hchain⟩
  | cons op ops ih =>
    simp only [ops_in_scope, Bool.and_eq_true] at hscope
    obtain ⟨cb1, h1, h2, h3⟩ := apply_service_op_chain P cb op hchain hcfg hscope.1
    obtain ⟨cb2, h4, h5⟩ := ih cb1 h3 (by simpa [h1] using hscope.2) h2
    exact ⟨cb2, by simp [run_service_ops, h1, h4], h5⟩

/-- Witness of C1: on the stock platform with start handles 1, 20 and 0x40, the GATT and GAP
services, an application service, an application service that fails element validation, a
delete of the first application service and one more application service leave ranges that
share no handle. -/
theorem handle_ranges_never_overlap_witness :
    sample_cb.hdl_list_info = [] ∧ hdl_cfg_16bit sample_cb.hdl_cfg ∧
    ops_in_scope stockPlatform sample_cb sample_ops = true ∧
    ∃ cb1, run_service_ops stockPlatform sample_cb sample_ops = some cb1 ∧
      no_overlap cb1.hdl_list_info :=
  ⟨rfl, by decide, by decide,
   handle_ranges_never_overlap stockPlatform sample_cb sample_ops rfl (by decide) (by decide)⟩

theorem add_service_element_offending (P : Platform) (hdl_list_info : List tGATT_HDL_LIST_ELEM)
    (svc_db : tGATT_SVC_DB) (el : btgatt_db_element_t) (h : is_offending_element P el) :
    add_service_element P hdl_list_info svc_db el = none := by
  unfold add_service_element
  rcases h with ⟨hc, hpp⟩ | ⟨hk, hu⟩
  · simp only [hc, if_true]
    rw [if_pos]
    rcases hpp with ⟨h1, h2⟩ | ⟨h1, h2⟩
    · exact Or.inl ⟨h1, by simp [h2]⟩
    · exact Or.inr ⟨h2, by simp [h1]⟩
  · have hattr : is_gatt_attr_type P el.uuid = true := by
      unfold is_gatt_attr_type
      rw [if_pos hu]
    rcases hk with hc | hd
    · simp only [hc, if_true, hattr]
      split <;> rfl
    · simp [hd, hattr]

theorem add_service_elements_offending (P : Platform) (hdl_list_info : List tGATT_HDL_LIST_ELEM)
    (svc_db : tGATT_SVC_DB) (els : List btgatt_db_element_t)
    (h : ∃ el ∈ els, is_offending_element P el) :
    (add_service_elements P hdl_list_info svc_db els).1 = false := by
  induction els generalizing svc_db with
  | nil => simp at h
  | cons el els ih =>
    unfold add_service_elements
    cases hel : add_service_element P hdl_list_info svc_db el with
    | none => rfl
    | some r =>
      obtain ⟨db1, el1⟩ := r
      dsimp only
      apply ih
      obtain ⟨e, he, hoff⟩ := h
      rcases List.mem_cons.1 he with he | he
      · subst he
        rw [add_service_element_offending P hdl_list_info svc_db e hoff] at hel
        cases hel
      · exact ⟨e, he, hoff⟩

/-- A call of `GATTS_AddService` that returns `GATT_SERVICE_STARTED` (a status different from
`GATT_INTERNAL_ERROR`) passed the checks before the handle list and completed the element
loop. -/
theorem GATTS_AddService_started_inv (P : Platform) (cb : tGATT_CB) (gatt_if : Nat)
    (service : List btgatt_db_element_t)
    (hne : P.GATT_INTERNAL_ERROR ≠ P.GATT_SERVICE_STARTED)
    (hok : (GATTS_AddService P cb gatt_if service).1 = P.GATT_SERVICE_STARTED) :
    ∃ p_reg first others, gatt_get_regcb cb gatt_if = some p_reg ∧ service = first :: others ∧
      compute_service_size P service ≠ 0 ∧
      ¬ compute_service_size P service > 0xFFFF - (select_s_hdl P cb first.uuid).1 + 1 ∧
      (add_service_loop P cb p_reg first others).1 = true := by
  by_cases hadm : add_service_admitted P cb gatt_if service
  · obtain ⟨p_reg, first, others, hreg, hsvc, hn, hsp⟩ := hadm
    refine ⟨p_reg, first, others, hreg, hsvc, hn, hsp, ?_⟩
    subst hsvc
    cases hloop : (add_service_loop P cb p_reg first others).1 with
    | true => rfl
    | false =>
      rw [(GATTS_AddService_loop_error P cb gatt_if p_reg first others hreg hn hsp hloop).1] at hok
      exact absurd hok hne
  · rw [GATTS_AddService_not_admitted P cb gatt_if service hadm] at hok
    exact absurd hok hne

theorem compute_service_size_loop_known (P : Platform) (service : List btgatt_db_element_t)
    (hk : ∀ el ∈ service, is_known_kind el.type = true) (db_size : Nat) :
    compute_service_size_loop P service db_size = db_size + handles_needed P service := by
  induction service generalizing db_size with
  | nil => simp [compute_service_size_loop, handles_needed]
  | cons el els ih =>
    have hel := hk el (List.mem_cons_self _ _)
    have ih1 := fun n => ih (fun e he => hk e (List.mem_cons_of_mem _ he)) n
    unfold compute_service_size_loop
    by_cases hs : el.type = BTGATT_DB_PRIMARY_SERVICE ∨ el.type = BTGATT_DB_SECONDARY_SERVICE ∨
        el.type = BTGATT_DB_DESCRIPTOR ∨ el.type = BTGATT_DB_INCLUDED_SERVICE
    · have hnc : el.type ≠ BTGATT_DB_CHARACTERISTIC := by
        rcases hs with h | h | h | h <;> simp [h]
      rw [if_pos hs, ih1]
      simp [handles_needed, List.countP_cons, is_simple_kind, hs, hnc]
      omega
    · have hc : el.type = BTGATT_DB_CHARACTERISTIC := by
        simp only [is_known_kind, is_simple_kind, Bool.or_eq_true, decide_eq_true_eq] at hel
        rcases hel with h | h
        · exact absurd h hs
        · exact h
      rw [if_neg hs, if_pos hc]
      by_cases hx : el.properties &&& P.GATT_CHAR_PROP_BIT_EXT_PROP ≠ 0
      · rw [if_pos hx, ih1]
        simp [handles_needed, List.countP_cons, is_simple_kind, hs, hc, hx]
        omega
      · rw [if_neg hx, ih1]
        simp [handles_needed, List.countP_cons, is_simple_kind, hs, hc, hx]
        omega

theorem compute_service_size_loop_unknown (P : Platform) (service : List btgatt_db_element_t)
    (hu : ∃ el ∈ service, is_known_kind el.type = false) (db_size : Nat) :
    compute_service_size_loop P service db_size = 0 := by
  induction service generalizing db_size with
  | nil => simp at hu
  | cons el els ih =>
    unfold compute_service_size_loop
    by_cases hs : el.type = BTGATT_DB_PRIMARY_SERVICE ∨ el.type = BTGATT_DB_SECONDARY_SERVICE ∨
        el.type = BTGATT_DB_DESCRIPTOR ∨ el.type = BTGATT_DB_INCLUDED_SERVICE
    · rw [if_pos hs]
      apply ih
      obtain ⟨e, he, hek⟩ := hu
      rcases List.mem_cons.1 he with h | h
      · subst h
        simp [is_known_kind, is_simple_kind, hs] at hek
      · exact ⟨e, h, hek⟩
    · rw [if_neg hs]
      by_cases hc : el.type = BTGATT_DB_CHARACTERISTIC
      · rw [if_pos hc]
        have hrest : ∃ e ∈ els, is_known_kind e.type = false := by
          obtain ⟨e, he, hek⟩ := hu
          rcases List.mem_cons.1 he with h | h
          · subst h
            simp [is_known_kind, hc] at hek
          · exact ⟨e, h, hek⟩
        split <;> exact ih hrest _
      · rw [if_neg hc]

/-- C3 (as amended): for every element list made only of known element kinds whose handle
total fits in 16 bits, compute_service_size returns the number of primary-service,
secondary-service, descriptor and included-service elements, plus two per characteristic,
plus one per characteristic with the extended-properties bit; it returns 0 when the list
contains an element of unknown kind; a primary-service element followed by one characteristic
sizes to 3 without the extended-properties bit and to 4 with it. -/
theorem compute_service_size_correct (P : Platform) (service : List btgatt_db_element_t) :
    ((∀ el ∈ service, is_known_kind el.type = true) → handles_needed P service ≤ 0xFFFF →
      compute_service_size P service = handles_needed P service) ∧
    ((∃ el ∈ service, is_known_kind el.type = false) → compute_service_size P service = 0) ∧
    (∀ pri chr : btgatt_db_element_t, pri.type = BTGATT_DB_PRIMARY_SERVICE →
      chr.type = BTGATT_DB_CHARACTERISTIC →
      (chr.properties &&& P.GATT_CHAR_PROP_BIT_EXT_PROP = 0 →
        compute_service_size P [pri, chr] = 3) ∧
      (chr.properties &&& P.GATT_CHAR_PROP_BIT_EXT_PROP ≠ 0 →
        compute_service_size P [pri, chr] = 4)) := by
  refine ⟨?_, ?_, ?_⟩
  · intro hk hfit
    unfold compute_service_size
    rw [compute_service_size_loop_known P service hk, Nat.zero_add]
    exact Nat.mod_eq_of_lt (by omega)
  · intro hu
    unfold compute_service_size
    rw [compute_service_size_loop_unknown P service hu]
  · intro pri chr hp hc
    constructor
    · intro hx
      simp [compute_service_size, compute_service_size_loop, hp, hc, hx]
    · intro hx
      simp [compute_service_size, compute_service_size_loop, hp, hc, hx]

/-- Witness of C3: a primary service, a characteristic with the extended-properties bit and a
descriptor size to 5; a list with an element of unknown kind sizes to 0; the two lists of the
claim size to 3 and 4. -/
theorem compute_service_size_correct_witness :
    compute_service_size stockPlatform
      [{ type := BTGATT_DB_PRIMARY_SERVICE }, { type := BTGATT_DB_CHARACTERISTIC, properties := 0x82 },
       { type := BTGATT_DB_DESCRIPTOR }] = 5 ∧
    compute_service_size stockPlatform
      [{ type := BTGATT_DB_PRIMARY_SERVICE }, { type := unknown 9 }] = 0 ∧
    compute_service_size stockPlatform
      [{ type := BTGATT_DB_PRIMARY_SERVICE }, { type := BTGATT_DB_CHARACTERISTIC, properties := 0x02 }] = 3 ∧
    compute_service_size stockPlatform
      [{ type := BTGATT_DB_PRIMARY_SERVICE }, { type := BTGATT_DB_CHARACTERISTIC, properties := 0x82 }] = 4 :=
  ⟨(compute_service_size_correct stockPlatform _).1 (by decide) (by decide),
   (compute_service_size_correct stockPlatform
      [{ type := BTGATT_DB_PRIMARY_SERVICE }, { type := unknown 9 }]).2.1 (by decide),
   ((compute_service_size_correct stockPlatform []).2.2
      { type := BTGATT_DB_PRIMARY_SERVICE } { type := BTGATT_DB_CHARACTERISTIC, properties := 0x02 }
      rfl rfl).1 (by decide),
   ((compute_service_size_correct stockPlatform []).2.2
      { type := BTGATT_DB_PRIMARY_SERVICE } { type := BTGATT_DB_CHARACTERISTIC, properties := 0x82 }
      rfl rfl).2 (by decide)⟩

/-- A list of `n` descriptor elements is of known kinds, needs `n` handles, and
compute_service_size returns `n % 65536` for it. -/
theorem compute_service_size_descriptors (P : Platform) (n : Nat) :
    (∀ el ∈ List.replicate n ({ type := BTGATT_DB_DESCRIPTOR } : btgatt_db_element_t),
      is_known_kind el.type = true) ∧
    handles_needed P
      (List.replicate n ({ type := BTGATT_DB_DESCRIPTOR } : btgatt_db_element_t)) = n ∧
    compute_service_size P
      (List.replicate n ({ type := BTGATT_DB_DESCRIPTOR } : btgatt_db_element_t)) = n % 65536 := by
  have hk : ∀ el ∈ List.replicate n ({ type := BTGATT_DB_DESCRIPTOR } : btgatt_db_element_t),
      is_known_kind el.type = true := by
    intro el hel
    rw [List.eq_of_mem_replicate hel]
    decide
  have hn : handles_needed P
      (List.replicate n ({ type := BTGATT_DB_DESCRIPTOR } : btgatt_db_element_t)) = n := by
    simp [handles_needed, List.countP_replicate, is_simple_kind]
  refine ⟨hk, hn, ?_⟩
  unfold compute_service_size
  rw [compute_service_size_loop_known _ _ hk, hn, Nat.zero_add]

/-- Counterexample to C3 as stated: 65536 descriptor elements are all of known kind and need
65536 handles, but compute_service_size returns 0, the total cut to 16 bits. -/
theorem compute_service_size_truncates :
    (∀ el ∈ List.replicate 65536 ({ type := BTGATT_DB_DESCRIPTOR } : btgatt_db_element_t),
      is_known_kind el.type = true) ∧
    handles_needed stockPlatform
      (List.replicate 65536 ({ type := BTGATT_DB_DESCRIPTOR } : btgatt_db_element_t)) = 65536 ∧
    compute_service_size stockPlatform
      (List.replicate 65536 ({ type := BTGATT_DB_DESCRIPTOR } : btgatt_db_element_t)) = 0 :=
  ⟨(compute_service_size_descriptors stockPlatform 65536).1,
   (compute_service_size_descriptors stockPlatform 65536).2.1,
   (compute_service_size_descriptors stockPlatform 65536).2.2.trans (Nat.mod_self 65536)⟩

/-- Counterexample to C1 as stated: from the empty handle list, two applications add the
reserved GATT service one after the other; both calls allocate the range [1, 1], so two
ranges of the handle list share handle 1. -/
theorem handle_ranges_overlap_reserved :
    sample_cb.hdl_list_info = [] ∧
    ∃ cb1, run_service_ops stockPlatform sample_cb
        [ServiceOp.AddService 1 sample_gatt_service, ServiceOp.AddService 2 sample_gatt_service]
        = some cb1 ∧
      handle_ranges cb1.hdl_list_info = [(1, 1), (1, 1)] ∧ ¬ no_overlap cb1.hdl_list_info := by
  refine ⟨rfl, _, rfl, by decide, ?_⟩
  have hr : handle_ranges (GATTS_AddService stockPlatform
      (GATTS_AddService stockPlatform sample_cb 1 sample_gatt_service).2.2 2
      sample_gatt_service).2.2.hdl_list_info = [(1, 1), (1, 1)] := by decide
  revert hr
  generalize (GATTS_AddService stockPlatform
      (GATTS_AddService stockPlatform sample_cb 1 sample_gatt_service).2.2 2
      sample_gatt_service).2.2.hdl_list_info = l
  intro hr h
  rcases l with _ | ⟨a, _ | ⟨b, _ | ⟨c, l⟩⟩⟩ <;> simp [handle_ranges] at hr
  obtain ⟨⟨h1, h2⟩, h3, h4⟩ := hr
  exact (List.pairwise_cons.1 h).1 b (by simp) ⟨1, by omega, by omega, by omega, by omega⟩

/-- C2 (code defect, evaluated): for the registered application 2 and a service whose
characteristic has the authenticated-signed-write property without a signed-write permission,
GATTS_AddService returns GATT_INTERNAL_ERROR, yet the handle list, empty before the call, now
holds the range [0x40, 0x42] and the NV save callback has been invoked for it; only the
started-service list is as before. -/
theorem add_service_failure_not_atomic :
    (GATTS_AddService stockPlatform sample_cb 2 sample_bad_service).1 =
      stockPlatform.GATT_INTERNAL_ERROR ∧
    stockPlatform.GATT_INTERNAL_ERROR ≠ stockPlatform.GATT_SERVICE_STARTED ∧
    sample_cb.hdl_list_info = [] ∧ sample_cb.nv_save_calls = [] ∧
    handle_ranges (GATTS_AddService stockPlatform sample_cb 2 sample_bad_service).2.2.hdl_list_info =
      [(0x40, 0x42)] ∧
    (GATTS_AddService stockPlatform sample_cb 2 sample_bad_service).2.2.nv_save_calls =
      [(true, { app_uuid128 := { val := 0xA2 }, svc_uuid := { val := 0x5003 }, s_handle := 0x40,
                e_handle := 0x42, is_primary := true })] ∧
    (GATTS_AddService stockPlatform sample_cb 2 sample_bad_service).2.2.srv_list_info =
      sample_cb.srv_list_info := by
  decide

/-- C4 (as amended): for every successful GATTS_AddService of a service whose UUID is neither
the reserved GATT-server nor the reserved GAP-server UUID, the handle list afterwards is the
previous one with the new range emplaced, the new start handle is not below
hdl_cfg.app_start_hdl, it is strictly greater than the end handle of the front range when
that one ends below 0xFFFF, and then it is strictly greater than the end handle of every
range already in the list provided the list is in descending order with every range above
the ranges after it. -/
theorem add_service_start_handle (P : Platform) (cb : tGATT_CB) (gatt_if : Nat)
    (first : btgatt_db_element_t) (others : List btgatt_db_element_t)
    (hne : P.GATT_INTERNAL_ERROR ≠ P.GATT_SERVICE_STARTED)
    (hok : (GATTS_AddService P cb gatt_if (first :: others)).1 = P.GATT_SERVICE_STARTED)
    (hres : ¬ is_reserved_service P first.uuid) :
    ∃ new_range,
      (GATTS_AddService P cb gatt_if (first :: others)).2.2.hdl_list_info =
        hdl_insert new_range cb.hdl_list_info new_range.asgn_range.s_handle ∧
      cb.hdl_cfg.app_start_hdl ≤ new_range.asgn_range.s_handle ∧
      (∀ front ∈ cb.hdl_list_info.head?, front.asgn_range.e_handle < 0xFFFF →
        front.asgn_range.e_handle < new_range.asgn_range.s_handle) ∧
      (hdl_chain cb.hdl_list_info →
        (∀ front ∈ cb.hdl_list_info.head?, front.asgn_range.e_handle < 0xFFFF) →
        ∀ r ∈ cb.hdl_list_info, r.asgn_range.e_handle < new_range.asgn_range.s_handle) := by
  obtain ⟨p_reg, first1, others1, hreg, hsvc, hn, hsp, _⟩ :=
    GATTS_AddService_started_inv P cb gatt_if _ hne hok
  cases hsvc
  have hres1 := not_or.1 hres
  have hfloor : cb.hdl_cfg.app_start_hdl ≤ (select_s_hdl P cb first.uuid).1 := by
    unfold select_s_hdl
    rw [if_neg hres1.1, if_neg hres1.2]
    dsimp only
    split <;> omega
  have hfront : ∀ front ∈ cb.hdl_list_info.head?, front.asgn_range.e_handle < 0xFFFF →
      front.asgn_range.e_handle < (select_s_hdl P cb first.uuid).1 := by
    intro front hf hlt
    cases hl : cb.hdl_list_info with
    | nil => rw [hl] at hf; simp at hf
    | cons a rest =>
      rw [hl] at hf
      simp only [List.head?_cons, Option.mem_def, Option.some.injEq] at hf
      subst hf
      unfold select_s_hdl
      rw [if_neg hres1.1, if_neg hres1.2, hl]
      dsimp only
      rw [Nat.mod_eq_of_lt (by omega)]
      split <;> omega
  refine ⟨_, (GATTS_AddService_admitted P cb gatt_if p_reg first others hreg hn hsp).1,
    hfloor, hfront, ?_⟩
  intro hchain hall r hr
  cases hl : cb.hdl_list_info with
  | nil => rw [hl] at hr; simp at hr
  | cons a rest =>
    have h1 := hfront a (by simp [hl]) (hall a (by simp [hl]))
    rw [hl] at hr hchain
    rcases List.mem_cons.1 hr with hr | hr
    · subst hr
      exact h1
    · have h2 := (List.pairwise_cons.1 hchain.1).1 r hr
      have h3 := hchain.2 a (List.mem_cons_self _ _)
      show r.asgn_range.e_handle < (select_s_hdl P cb first.uuid).1
      omega

/-- Witness of C4: with floor 0x40, an empty handle list and a service of one primary-service
element and one characteristic without extended properties the new range is exactly
[0x40, 0x42]; the same service added once more gets [0x43, 0x45]. -/
theorem add_service_start_handle_witness :
    handle_ranges (GATTS_AddService stockPlatform sample_cb 2 sample_service).2.2.hdl_list_info =
      [(0x40, 0x42)] ∧
    handle_ranges (GATTS_AddService stockPlatform
      (GATTS_AddService stockPlatform sample_cb 2 sample_service).2.2 1
      sample_service).2.2.hdl_list_info = [(0x43, 0x45), (0x40, 0x42)] ∧
    ∃ new_range,
      (GATTS_AddService stockPlatform (GATTS_AddService stockPlatform sample_cb 2
          sample_service).2.2 1 sample_service).2.2.hdl_list_info =
        hdl_insert new_range (GATTS_AddService stockPlatform sample_cb 2
          sample_service).2.2.hdl_list_info new_range.asgn_range.s_handle ∧
      (GATTS_AddService stockPlatform sample_cb 2 sample_service).2.2.hdl_cfg.app_start_hdl ≤
        new_range.asgn_range.s_handle ∧
      (∀ front ∈ (GATTS_AddService stockPlatform sample_cb 2
          sample_service).2.2.hdl_list_info.head?, front.asgn_range.e_handle < 0xFFFF →
        front.asgn_range.e_handle < new_range.asgn_range.s_handle) ∧
      (hdl_chain (GATTS_AddService stockPlatform sample_cb 2 sample_service).2.2.hdl_list_info →
        (∀ front ∈ (GATTS_AddService stockPlatform sample_cb 2
          sample_service).2.2.hdl_list_info.head?, front.asgn_range.e_handle < 0xFFFF) →
        ∀ r ∈ (GATTS_AddService stockPlatform sample_cb 2 sample_service).2.2.hdl_list_info,
          r.asgn_range.e_handle < new_range.asgn_range.s_handle) :=
  ⟨by decide, by decide,
   add_service_start_handle stockPlatform
     (GATTS_AddService stockPlatform sample_cb 2 sample_service).2.2 1 _ _
     (by decide) (by decide) (by decide)⟩

/-- Counterexample to C4 as stated: after the 70-handle GATT service [1, 70] and the GAP
service [20, 20], a successful add of an application service gets the start handle 0x40, which
is not above the end handle 70 of the GATT range already in the list. -/
theorem add_service_start_handle_inside_reserved :
    handle_ranges sample_cb_reserved.hdl_list_info = [(20, 20), (1, 70)] ∧
    ¬ is_reserved_service stockPlatform { val := 0x5001 } ∧
    (GATTS_AddService stockPlatform sample_cb_reserved 2 sample_service).1 =
      stockPlatform.GATT_SERVICE_STARTED ∧
    handle_ranges (GATTS_AddService stockPlatform sample_cb_reserved 2
      sample_service).2.2.hdl_list_info = [(0x40, 0x42), (20, 20), (1, 70)] ∧
    ¬ (70 < 0x40) := by
  decide

/-- When the front range ends at 0xFFFF the candidate start handle `e_handle + 1` wraps to 0
in 16 bits and is raised to the floor: the add succeeds with the range [0x40, 0x42], inside
the allocated range [0x40, 0xFFFF]. -/
theorem add_service_after_full_range :
    handle_ranges sample_cb_full.hdl_list_info = [(0x40, 0xFFFF)] ∧
    (GATTS_AddService stockPlatform sample_cb_full 2 sample_service).1 =
      stockPlatform.GATT_SERVICE_STARTED ∧
    handle_ranges (GATTS_AddService stockPlatform sample_cb_full 2 sample_service).2.2.hdl_list_info =
      [(0x40, 0xFFFF), (0x40, 0x42)] := by
  decide

/-- C5: whenever the element list contains an element of unknown kind, or is empty, or the
number of handles `num_handles` exceeds `0xFFFF - s_hdl + 1` for the candidate start handle
`s_hdl`, GATTS_AddService returns GATT_INTERNAL_ERROR and leaves the element array and the
whole control block, so the handle list and the started-service list, as they were. -/
theorem add_service_sizing_rejection (P : Platform) (cb : tGATT_CB) (gatt_if : Nat)
    (service : List btgatt_db_element_t)
    (h : (∃ el ∈ service, is_known_kind el.type = false) ∨ service = [] ∨
      (∃ first ∈ service.head?,
        compute_service_size P service > 0xFFFF - (select_s_hdl P cb first.uuid).1 + 1)) :
    GATTS_AddService P cb gatt_if service = (P.GATT_INTERNAL_ERROR, service, cb) := by
  apply GATTS_AddService_not_admitted
  rintro ⟨p_reg, first, others, _, hsvc, hn, hsp⟩
  rcases h with hu | he | ⟨f, hf, hbig⟩
  · apply hn
    unfold compute_service_size
    rw [compute_service_size_loop_unknown P service hu]
  · rw [he] at hsvc
    cases hsvc
  · rw [hsvc] at hf
    simp only [List.head?_cons, Option.mem_def, Option.some.injEq] at hf
    subst hf
    exact hsp hbig

/-- Witness of C5: for the registered application 2, a list with an element of unknown kind,
the empty list, and a three-handle service when the front range ends at 0xFFFD are each
refused with GATT_INTERNAL_ERROR and nothing changes. -/
theorem add_service_sizing_rejection_witness :
    gatt_get_regcb sample_cb 2 = some { in_use := true, gatt_if := 2, app_uuid128 := { val := 0xA2 } } ∧
    GATTS_AddService stockPlatform sample_cb 2
        [{ type := BTGATT_DB_PRIMARY_SERVICE }, { type := unknown 9 }] =
      (stockPlatform.GATT_INTERNAL_ERROR,
        [{ type := BTGATT_DB_PRIMARY_SERVICE }, { type := unknown 9 }], sample_cb) ∧
    GATTS_AddService stockPlatform sample_cb 2 [] =
      (stockPlatform.GATT_INTERNAL_ERROR, [], sample_cb) ∧
    GATTS_AddService stockPlatform
        { sample_cb with hdl_list_info := [{ asgn_range := { s_handle := 0xFFF0, e_handle := 0xFFFD } }] }
        2 sample_service =
      (stockPlatform.GATT_INTERNAL_ERROR, sample_service,
        { sample_cb with hdl_list_info := [{ asgn_range := { s_handle := 0xFFF0, e_handle := 0xFFFD } }] }) :=
  ⟨by decide,
   add_service_sizing_rejection stockPlatform sample_cb 2 _
     (Or.inl ⟨{ type := unknown 9 }, by simp, by decide⟩),
   add_service_sizing_rejection stockPlatform sample_cb 2 [] (Or.inr (Or.inl rfl)),
   add_service_sizing_rejection stockPlatform _ 2 sample_service
     (Or.inr (Or.inr ⟨_, rfl, by decide⟩))⟩

theorem GATTS_AddService_status (P : Platform) (cb : tGATT_CB) (gatt_if : Nat)
    (service : List btgatt_db_element_t) :
    (GATTS_AddService P cb gatt_if service).1 = P.GATT_INTERNAL_ERROR ∨
    (GATTS_AddService P cb gatt_if service).1 = P.GATT_SERVICE_STARTED := by
  by_cases hadm : add_service_admitted P cb gatt_if service
  · obtain ⟨p_reg, first, others, hreg, hsvc, hn, hsp⟩ := hadm
    subst hsvc
    cases hloop : (add_service_loop P cb p_reg first others).1 with
    | true =>
      exact Or.inr (GATTS_AddService_started P cb gatt_if p_reg first others hreg hn hsp hloop).1
    | false =>
      exact Or.inl (GATTS_AddService_loop_error P cb gatt_if p_reg first others hreg hn hsp hloop).1
  · rw [GATTS_AddService_not_admitted P cb gatt_if service hadm]
    exact Or.inl rfl

theorem srv_list_emplace_mem (elem : tGATT_SRV_LIST_ELEM) (l : List tGATT_SRV_LIST_ELEM) :
    elem ∈ srv_list_emplace elem l := by
  induction l with
  | nil => simp [srv_list_emplace]
  | cons it rest ih =>
    unfold srv_list_emplace
    split
    · simp
    · exact List.mem_cons_of_mem _ ih

/-- C6 (as amended): the value GATTS_AddService returns is a status, GATT_INTERNAL_ERROR or
GATT_SERVICE_STARTED; whenever it succeeds (returns GATT_SERVICE_STARTED), the start handle of
the newly allocated range is what it stores in the first element's attribute_handle, and the
started-service list has an entry for that range. -/
theorem add_service_returns_status (P : Platform) (cb : tGATT_CB) (gatt_if : Nat)
    (service : List btgatt_db_element_t) :
    ((GATTS_AddService P cb gatt_if service).1 = P.GATT_INTERNAL_ERROR ∨
      (GATTS_AddService P cb gatt_if service).1 = P.GATT_SERVICE_STARTED) ∧
    (P.GATT_INTERNAL_ERROR ≠ P.GATT_SERVICE_STARTED →
      (GATTS_AddService P cb gatt_if service).1 = P.GATT_SERVICE_STARTED →
      ∃ new_range,
        (GATTS_AddService P cb gatt_if service).2.2.hdl_list_info =
          hdl_insert new_range cb.hdl_list_info new_range.asgn_range.s_handle ∧
        (GATTS_AddService P cb gatt_if service).2.1.head?.map (fun el => el.attribute_handle) =
          some new_range.asgn_range.s_handle ∧
        ∃ elem ∈ (GATTS_AddService P cb gatt_if service).2.2.srv_list_info,
          elem.s_hdl = new_range.asgn_range.s_handle ∧
          elem.e_hdl = new_range.asgn_range.e_handle) := by
  refine ⟨GATTS_AddService_status P cb gatt_if service, ?_⟩
  intro hne hok
  obtain ⟨p_reg, first, others, hreg, hsvc, hn, hsp, hloop⟩ :=
    GATTS_AddService_started_inv P cb gatt_if service hne hok
  subst hsvc
  obtain ⟨_, hhead, hsrv, _⟩ :=
    GATTS_AddService_started P cb gatt_if p_reg first others hreg hn hsp hloop
  refine ⟨_, (GATTS_AddService_admitted P cb gatt_if p_reg first others hreg hn hsp).1, ?_, ?_⟩
  · rw [hhead]
    rfl
  · rw [hsrv]
    exact ⟨_, srv_list_emplace_mem _ _, rfl, rfl⟩

/-- Witness of C6: the add of `sample_service` by application 2 returns the status
GATT_SERVICE_STARTED (0x8C) and stores the start handle 0x40 in the first element. -/
theorem add_service_returns_status_witness :
    (GATTS_AddService stockPlatform sample_cb 2 sample_service).2.1.head?.map
      (fun el => el.attribute_handle) = some 0x40 ∧
    ∃ new_range,
      (GATTS_AddService stockPlatform sample_cb 2 sample_service).2.2.hdl_list_info =
        hdl_insert new_range sample_cb.hdl_list_info new_range.asgn_range.s_handle ∧
      (GATTS_AddService stockPlatform sample_cb 2 sample_service).2.1.head?.map
        (fun el => el.attribute_handle) = some new_range.asgn_range.s_handle ∧
      ∃ elem ∈ (GATTS_AddService stockPlatform sample_cb 2 sample_service).2.2.srv_list_info,
        elem.s_hdl = new_range.asgn_range.s_handle ∧
        elem.e_hdl = new_range.asgn_range.e_handle :=
  ⟨by decide,
   (add_service_returns_status stockPlatform sample_cb 2 sample_service).2 (by decide)
     (by decide)⟩

/-- Counterexample to C6 as stated: the add of `sample_service` succeeds and allocates the
range [0x40, 0x42], but the value returned is 0x8C (GATT_SERVICE_STARTED), not the start
handle 0x40. -/
theorem add_service_return_is_not_start_handle :
    (GATTS_AddService stockPlatform sample_cb 2 sample_service).1 =
      stockPlatform.GATT_SERVICE_STARTED ∧
    handle_ranges (GATTS_AddService stockPlatform sample_cb 2 sample_service).2.2.hdl_list_info =
      [(0x40, 0x42)] ∧
    (GATTS_AddService stockPlatform sample_cb 2 sample_service).1 ≠ 0x40 := by
  decide

/-- C7 (as amended): for every element list in which some element after the first one is a
characteristic with exactly one of the authenticated-signed-write property bit and a
signed-write permission bit, or is a characteristic or descriptor whose UUID is one of the
four reserved attribute-type UUIDs, GATTS_AddService returns GATT_INTERNAL_ERROR and does not
start the service: the started-service list and the database hash are unchanged. -/
theorem add_service_rejects_offending_element (P : Platform) (cb : tGATT_CB) (gatt_if : Nat)
    (first : btgatt_db_element_t) (others : List btgatt_db_element_t)
    (h : ∃ el ∈ others, is_offending_element P el) :
    (GATTS_AddService P cb gatt_if (first :: others)).1 = P.GATT_INTERNAL_ERROR ∧
    (GATTS_AddService P cb gatt_if (first :: others)).2.2.srv_list_info = cb.srv_list_info ∧
    (GATTS_AddService P cb gatt_if (first :: others)).2.2.database_hash = cb.database_hash := by
  by_cases hadm : add_service_admitted P cb gatt_if (first :: others)
  · obtain ⟨p_reg, first1, others1, hreg, hsvc, hn, hsp⟩ := hadm
    cases hsvc
    exact GATTS_AddService_loop_error P cb gatt_if p_reg first others hreg hn hsp
      (add_service_elements_offending P _ _ others h)
  · rw [GATTS_AddService_not_admitted P cb gatt_if _ hadm]
    exact ⟨rfl, rfl, rfl⟩

/-- Witness of C7: `sample_bad_service`, whose second element has the authenticated property
without a signed-write permission, is refused and no service is started. -/
theorem add_service_rejects_offending_element_witness :
    (∃ el ∈ sample_bad_service.tail, is_offending_element stockPlatform el) ∧
    (GATTS_AddService stockPlatform sample_cb 2 sample_bad_service).1 =
      stockPlatform.GATT_INTERNAL_ERROR ∧
    (GATTS_AddService stockPlatform sample_cb 2 sample_bad_service).2.2.srv_list_info =
      sample_cb.srv_list_info ∧
    (GATTS_AddService stockPlatform sample_cb 2 sample_bad_service).2.2.database_hash =
      sample_cb.database_hash :=
  ⟨by decide,
   add_service_rejects_offending_element stockPlatform sample_cb 2 _ _ (by decide)⟩

/-- Counterexample to C7 as stated: when the offending characteristic is the first element of
the list, GATTS_AddService does not look at it: it returns GATT_SERVICE_STARTED and the
started-service list has the new service. -/
theorem add_service_accepts_offending_first :
    (∃ el ∈ sample_offending_first, is_offending_element stockPlatform el) ∧
    (GATTS_AddService stockPlatform sample_cb 2 sample_offending_first).1 =
      stockPlatform.GATT_SERVICE_STARTED ∧
    stockPlatform.GATT_SERVICE_STARTED ≠ stockPlatform.GATT_INTERNAL_ERROR ∧
    sample_cb.srv_list_info = [] ∧
    (GATTS_AddService stockPlatform sample_cb 2 sample_offending_first).2.2.srv_list_info.map
      (fun el => (el.s_hdl, el.e_hdl)) = [(0x40, 0x41)] := by
  decide

theorem countP_le_one_split {α : Type} (p : α → Bool) (pre suf : List α) (x : α)
    (hx : p x = true) (hc : (pre ++ x :: suf).countP p ≤ 1) : ∀ y ∈ suf, p y = false := by
  intro y hy
  by_contra hpy
  have hpy1 : p y = true := by simpa using hpy
  have h1 : 0 < suf.countP p := List.countP_pos_iff.2 ⟨y, hy, hpy1⟩
  rw [List.countP_append, List.countP_cons_of_pos _ _ hx] at hc
  omega

/-- C8 (as amended): GATTS_DeleteService returns false and leaves the control block unchanged
when the application is not registered or no handle range matches (app_uuid, service_uuid,
start_handle); otherwise it returns true and the handle list afterwards is the previous list
with exactly the first matching range removed; the started-service list loses its first entry
with that start handle when is_active_service finds the service started, and is unchanged
otherwise; so no started-service entry with that start handle remains provided that either
none was there, or the service was found started and at most one entry had that start
handle. -/
theorem delete_service_result (P : Platform) (cb : tGATT_CB) (gatt_if : Nat)
    (p_svc_uuid : Uuid) (svc_inst : Nat) :
    (gatt_get_regcb cb gatt_if = none →
      GATTS_DeleteService P cb gatt_if p_svc_uuid svc_inst = some (false, cb)) ∧
    (∀ p_reg, gatt_get_regcb cb gatt_if = some p_reg →
      ((∀ it ∈ cb.hdl_list_info, ¬ range_matches p_reg.app_uuid128 p_svc_uuid svc_inst it) →
        GATTS_DeleteService P cb gatt_if p_svc_uuid svc_inst = some (false, cb)) ∧
      ((∃ it ∈ cb.hdl_list_info, range_matches p_reg.app_uuid128 p_svc_uuid svc_inst it) →
        ∃ cb1 pre x suf,
          GATTS_DeleteService P cb gatt_if p_svc_uuid svc_inst = some (true, cb1) ∧
          cb.hdl_list_info = pre ++ x :: suf ∧
          range_matches p_reg.app_uuid128 p_svc_uuid svc_inst x ∧
          (∀ y ∈ pre, ¬ range_matches p_reg.app_uuid128 p_svc_uuid svc_inst y) ∧
          cb1.hdl_list_info = pre ++ suf ∧
          (is_active_service P cb p_reg.app_uuid128 p_svc_uuid svc_inst = false →
            cb1.srv_list_info = cb.srv_list_info) ∧
          (is_active_service P cb p_reg.app_uuid128 p_svc_uuid svc_inst = true →
            ∃ spre e ssuf, cb.srv_list_info = spre ++ e :: ssuf ∧ e.s_hdl = svc_inst ∧
              (∀ y ∈ spre, y.s_hdl ≠ svc_inst) ∧ cb1.srv_list_info = spre ++ ssuf) ∧
          (((∀ e ∈ cb.srv_list_info, e.s_hdl ≠ svc_inst) ∨
              (is_active_service P cb p_reg.app_uuid128 p_svc_uuid svc_inst = true ∧
                cb.srv_list_info.countP (fun e => decide (e.s_hdl = svc_inst)) ≤ 1)) →
            ∀ e ∈ cb1.srv_list_info, e.s_hdl ≠ svc_inst))) := by
  refine ⟨fun hreg => by simp [GATTS_DeleteService, hreg], ?_⟩
  intro p_reg hreg
  constructor
  · intro hno
    have hnone : gatt_find_hdl_buffer_by_app_id cb p_reg.app_uuid128 p_svc_uuid svc_inst = none := by
      unfold gatt_find_hdl_buffer_by_app_id
      rw [find_first_none]
      intro x hx
      have := hno x hx
      unfold range_matches at this
      simpa [Bool.and_eq_false_iff, not_and_or, or_assoc, imp_iff_not_or] using this
    simp [GATTS_DeleteService, hreg, hnone]
  · rintro ⟨it0, hit0, hm⟩
    cases hfind : gatt_find_hdl_buffer_by_app_id cb p_reg.app_uuid128 p_svc_uuid svc_inst with
    | none =>
      exfalso
      unfold gatt_find_hdl_buffer_by_app_id at hfind
      rw [find_first_none] at hfind
      have := hfind it0 hit0
      unfold range_matches at hm
      simp [hm.1, hm.2.1, hm.2.2] at this
    | some it =>
      obtain ⟨cb1, hdel, hhdl, _, hact, hinact, _⟩ :=
        GATTS_DeleteService_found P cb gatt_if p_svc_uuid svc_inst p_reg it hreg hfind
      unfold gatt_find_hdl_buffer_by_app_id at hfind
      obtain ⟨pre, x, suf, hl, _, hx, hpre, _, her⟩ := find_first_some _ _ _ hfind
      have hsrv : is_active_service P cb p_reg.app_uuid128 p_svc_uuid svc_inst = true →
          ∃ spre e ssuf, cb.srv_list_info = spre ++ e :: ssuf ∧ e.s_hdl = svc_inst ∧
            (∀ y ∈ spre, y.s_hdl ≠ svc_inst) ∧ cb1.srv_list_info = spre ++ ssuf := by
        intro ha
        obtain ⟨sit, hsit, hs1⟩ := hact ha
        unfold gatt_sr_find_i_rcb_by_handle at hsit
        obtain ⟨spre, e, ssuf, hsl, _, he, hspre, _, hser⟩ := find_first_some _ _ _ hsit
        refine ⟨spre, e, ssuf, hsl, by simpa using he, ?_, by rw [hs1, hser]⟩
        intro y hy
        simpa using hspre y hy
      refine ⟨cb1, pre, x, suf, hdel, hl, ?_, ?_, by rw [hhdl, her], hinact, hsrv, ?_⟩
      · simpa [range_matches, and_assoc] using hx
      · intro y hy
        have := hpre y hy
        unfold range_matches
        simpa [Bool.and_eq_false_iff, not_and_or, or_assoc, imp_iff_not_or] using this
      · rintro (hnone | ⟨ha, hcount⟩)
        · have hinactive : is_active_service P cb p_reg.app_uuid128 p_svc_uuid svc_inst = false := by
            cases hv : is_active_service P cb p_reg.app_uuid128 p_svc_uuid svc_inst with
            | false => rfl
            | true =>
              obtain ⟨spre, e, ssuf, hsl, he, _, _⟩ := hsrv hv
              exact absurd he (hnone e (by simp [hsl]))
          rw [hinact hinactive]
          exact hnone
        · obtain ⟨spre, e, ssuf, hsl, he, hspre, hs1⟩ := hsrv ha
          rw [hs1]
          rw [hsl] at hcount
          have hsuf := countP_le_one_split _ spre ssuf e (by simpa using he) hcount
          intro y hy
          rcases List.mem_append.1 hy with hy | hy
          · exact hspre y hy
          · simpa using hsuf y hy

/-- Witness of C8: deleting the started `sample_service` of application 2 returns true,
removes the range [0x40, 0x42] and leaves no started service with start handle 0x40; a delete
by the unregistered application 3 and a delete of an unknown service return false and change
nothing. -/
theorem delete_service_result_witness :
    GATTS_DeleteService stockPlatform sample_cb_started 3 { val := 0x5001 } 0x40 =
      some (false, sample_cb_started) ∧
    GATTS_DeleteService stockPlatform sample_cb_started 2 { val := 0x5009 } 0x40 =
      some (false, sample_cb_started) ∧
    ∃ cb1 pre x suf,
      GATTS_DeleteService stockPlatform sample_cb_started 2 { val := 0x5001 } 0x40 =
        some (true, cb1) ∧
      sample_cb_started.hdl_list_info = pre ++ x :: suf ∧
      range_matches { val := 0xA2 } { val := 0x5001 } 0x40 x ∧
      cb1.hdl_list_info = pre ++ suf ∧
      ∀ e ∈ cb1.srv_list_info, e.s_hdl ≠ 0x40 := by
  have h := delete_service_result stockPlatform sample_cb_started 2 { val := 0x5001 } 0x40
  have h3 := delete_service_result stockPlatform sample_cb_started 3 { val := 0x5001 } 0x40
  have h9 := delete_service_result stockPlatform sample_cb_started 2 { val := 0x5009 } 0x40
  refine ⟨h3.1 (by decide),
    (h9.2 { in_use := true, gatt_if := 2, app_uuid128 := { val := 0xA2 } } (by decide)).1
      (by decide), ?_⟩
  obtain ⟨cb1, pre, x, suf, h1, h2, h3, _, h5, _, _, h8⟩ :=
    (h.2 { in_use := true, gatt_if := 2, app_uuid128 := { val := 0xA2 } } (by decide)).2 (by decide)
  exact ⟨cb1, pre, x, suf, h1, h2, h3, h5, h8 (Or.inr (by decide))⟩

/-- Counterexample to C8 as stated: after application 1 has added the GATT service twice,
its delete of (GATT service, start handle 1) matches a range and returns true, but a started
service with start handle 1 remains. -/
theorem delete_service_leaves_started_entry :
    (∃ it ∈ sample_cb_twice.hdl_list_info,
      range_matches { val := 0xA1 } (stockPlatform.From16Bit 0x1801) 1 it) ∧
    (GATTS_DeleteService stockPlatform sample_cb_twice 1 (stockPlatform.From16Bit 0x1801) 1).map
        (fun r => (r.1, handle_ranges r.2.hdl_list_info, r.2.srv_list_info.map (fun e => e.s_hdl)))
      = some (true, [(1, 1)], [1]) := by
  decide

/-- C9 (code defect, evaluated): after application 2 has added `sample_service` the cached
database hash is the hash of the started-service list; GATTS_StopService of that service
empties the started-service list and leaves the cached hash as it was, which is no longer the
hash of the started-service list. -/
theorem stop_service_leaves_hash_stale :
    sample_cb_started.database_hash =
      stockPlatform.gatts_calculate_database_hash sample_cb_started.srv_list_info ∧
    ∃ cb1, GATTS_StopService sample_cb_started 0x40 = some cb1 ∧
      sample_cb_started.srv_list_info ≠ [] ∧ cb1.srv_list_info = [] ∧
      cb1.database_hash = sample_cb_started.database_hash ∧
      cb1.database_hash ≠ stockPlatform.gatts_calculate_database_hash cb1.srv_list_info :=
  ⟨by decide, _, rfl, by decide, by decide, by decide, by decide⟩

theorem find_first_set_mem {α : Type} (p : α → Bool) (l : List α) (i : Nat) (a : α)
    (h : find_first p l = some i) : a ∈ l.set i a ∧ i < l.length := by
  obtain ⟨pre, x, suf, hl, hlen, _, _, _, _⟩ := find_first_some p l i h
  subst hl
  subst hlen
  constructor
  · rw [List.set_append_right _ _ (le_refl _)]
    simp
  · simp

/-- C10: duplicate registration. If some in-use registration slot already has app_uuid128
equal to the argument, GATT_Register returns 0 and leaves the control block, so every
registration slot, unchanged; consequently, registering a UUID twice in a row on a table with
a free slot returns a non-zero id the first time and 0 the second time, and the second call
changes nothing. The two calls in a row start where no in-use slot has the UUID yet (otherwise
the first sentence already gives 0 for the first call), and the table has at most 255 slots,
the range of the one-byte `tGATT_IF` in which slot `i` gets the id `i + 1`. -/
theorem register_duplicate (cb : tGATT_CB) (app_uuid128 : Uuid) (p_cb_info : tGATT_CBACK)
    (eatt_support : Bool) :
    ((∃ p_reg ∈ cb.cl_rcb, p_reg.in_use = true ∧ p_reg.app_uuid128 = app_uuid128) →
      GATT_Register cb app_uuid128 p_cb_info eatt_support = (0, cb)) ∧
    ((∀ p_reg ∈ cb.cl_rcb, p_reg.in_use = true → p_reg.app_uuid128 ≠ app_uuid128) →
      (∃ p_reg ∈ cb.cl_rcb, p_reg.in_use = false) → cb.cl_rcb.length ≤ 255 →
      (GATT_Register cb app_uuid128 p_cb_info eatt_support).1 ≠ 0 ∧
      ∀ (p_cb_info2 : tGATT_CBACK) (eatt_support2 : Bool),
        GATT_Register (GATT_Register cb app_uuid128 p_cb_info eatt_support).2 app_uuid128
          p_cb_info2 eatt_support2 = (0, (GATT_Register cb app_uuid128 p_cb_info eatt_support).2)) := by
  have hdup : ∀ (cb0 : tGATT_CB) (c : tGATT_CBACK) (e : Bool),
      (∃ p_reg ∈ cb0.cl_rcb, p_reg.in_use = true ∧ p_reg.app_uuid128 = app_uuid128) →
      GATT_Register cb0 app_uuid128 c e = (0, cb0) := by
    intro cb0 c e ⟨p_reg, hmem, huse, hu⟩
    unfold GATT_Register
    rw [if_pos]
    rw [List.any_eq_true]
    exact ⟨p_reg, hmem, by simp [huse, hu]⟩
  refine ⟨hdup cb p_cb_info eatt_support, ?_⟩
  intro hfresh ⟨q, hq, hfree⟩ hlen
  have hany : cb.cl_rcb.any (fun p_reg => p_reg.in_use && decide (p_reg.app_uuid128 = app_uuid128))
      = false := by
    rw [List.any_eq_false]
    intro x hx
    by_cases hu : x.in_use = true
    · simp [hu, hfresh x hx hu]
    · simp [hu]
  cases hfind : find_first (fun p_reg : tGATT_REG => !p_reg.in_use) cb.cl_rcb with
  | none =>
    rw [find_first_none] at hfind
    have := hfind q hq
    simp [hfree] at this
  | some i =>
    obtain ⟨hmem, hi⟩ := find_first_set_mem _ cb.cl_rcb i
      ({ app_uuid128 := app_uuid128, gatt_if := (i + 1) % 256, app_cb := p_cb_info,
         in_use := true, eatt_support := eatt_support } : tGATT_REG) hfind
    generalize hp : ({ app_uuid128 := app_uuid128, gatt_if := (i + 1) % 256,
                       app_cb := p_cb_info, in_use := true,
                       eatt_support := eatt_support } : tGATT_REG) = p at hmem
    have hp1 : p.in_use = true ∧ p.app_uuid128 = app_uuid128 := by
      rw [← hp]
      exact ⟨rfl, rfl⟩
    have hres : GATT_Register cb app_uuid128 p_cb_info eatt_support =
        ((i + 1) % 256, { cb with cl_rcb := cb.cl_rcb.set i p }) := by
      unfold GATT_Register
      simp only [hany, hfind]
      simp [hp]
    rw [hres]
    constructor
    · show (i + 1) % 256 ≠ 0
      rw [Nat.mod_eq_of_lt (by omega)]
      omega
    · intro c2 e2
      exact hdup _ c2 e2 ⟨p, hmem, hp1.1, hp1.2⟩

/-- Witness of C10: on `sample_cb`, whose slots 1 and 2 are in use and whose slots 3 and 4 are
free, registering the in-use UUID 0xA1 returns 0 and changes nothing, and registering the new
UUID 0xB7 returns 3 the first time and 0 the second time. -/
theorem register_duplicate_witness :
    GATT_Register sample_cb { val := 0xA1 } {} false = (0, sample_cb) ∧
    (GATT_Register sample_cb { val := 0xB7 } {} false).1 = 3 ∧
    (GATT_Register sample_cb { val := 0xB7 } {} false).1 ≠ 0 ∧
    ∀ (p_cb_info2 : tGATT_CBACK) (eatt_support2 : Bool),
      GATT_Register (GATT_Register sample_cb { val := 0xB7 } {} false).2 { val := 0xB7 }
        p_cb_info2 eatt_support2 = (0, (GATT_Register sample_cb { val := 0xB7 } {} false).2) :=
  ⟨(register_duplicate sample_cb { val := 0xA1 } {} false).1 (by decide), by decide,
   (register_duplicate sample_cb { val := 0xB7 } {} false).2 (by decide) (by decide) (by decide)⟩

theorem GATT_Register_no_free (cb : tGATT_CB) (app_uuid128 : Uuid) (p_cb_info : tGATT_CBACK)
    (eatt_support : Bool) (hfull : ∀ p_reg ∈ cb.cl_rcb, p_reg.in_use = true) :
    GATT_Register cb app_uuid128 p_cb_info eatt_support = (0, cb) := by
  have hnone : find_first (fun p_reg : tGATT_REG => !p_reg.in_use) cb.cl_rcb = none := by
    rw [find_first_none]
    intro x hx
    simp [hfull x hx]
  unfold GATT_Register
  split
  · rfl
  · simp [hnone]

/-- What `GATT_Register` does when no in-use slot has the UUID and the first free slot is at
position `i`: it returns `(i + 1) % 256` and writes that slot. -/
theorem GATT_Register_fresh (cb : tGATT_CB) (app_uuid128 : Uuid) (p_cb_info : tGATT_CBACK)
    (eatt_support : Bool) (i : Nat)
    (hfresh : ∀ p_reg ∈ cb.cl_rcb, p_reg.in_use = true → p_reg.app_uuid128 ≠ app_uuid128)
    (hfind : find_first (fun p_reg : tGATT_REG => !p_reg.in_use) cb.cl_rcb = some i) :
    GATT_Register cb app_uuid128 p_cb_info eatt_support =
      ((i + 1) % 256,
        { cb with cl_rcb := cb.cl_rcb.set i (new_registration app_uuid128 p_cb_info eatt_support ((i + 1) % 256)) }) := by
  have hany : cb.cl_rcb.any (fun p_reg => p_reg.in_use && decide (p_reg.app_uuid128 = app_uuid128))
      = false := by
    rw [List.any_eq_false]
    intro x hx
    by_cases hu : x.in_use = true
    · simp [hu, hfresh x hx hu]
    · simp [hu]
  unfold GATT_Register
  simp only [hany, hfind]
  simp [new_registration]

/-- C11: when no in-use slot has the given app UUID and at least one slot is free (in a table
of at most 255 slots, the range of tGATT_IF), GATT_Register returns i+1 where i is the lowest
index of a free slot; the result is in 1..GATT_MAX_APPS, that slot afterwards is in use with
gatt_if = i+1, the given UUID, callbacks and EATT opt-in, every other slot and the rest of the
control block are unchanged. When no slot is free it returns 0 and changes nothing. -/
theorem register_allocates_first_free (cb : tGATT_CB) (app_uuid128 : Uuid)
    (p_cb_info : tGATT_CBACK) (eatt_support : Bool) :
    ((∀ p_reg ∈ cb.cl_rcb, p_reg.in_use = true → p_reg.app_uuid128 ≠ app_uuid128) →
      (∃ p_reg ∈ cb.cl_rcb, p_reg.in_use = false) → cb.cl_rcb.length ≤ 255 →
      ∃ i free, cb.cl_rcb[i]? = some free ∧ free.in_use = false ∧
        (∀ j p_reg, j < i → cb.cl_rcb[j]? = some p_reg → p_reg.in_use = true) ∧
        (GATT_Register cb app_uuid128 p_cb_info eatt_support).1 = i + 1 ∧
        1 ≤ (GATT_Register cb app_uuid128 p_cb_info eatt_support).1 ∧
        (GATT_Register cb app_uuid128 p_cb_info eatt_support).1 ≤ cb.cl_rcb.length ∧
        (GATT_Register cb app_uuid128 p_cb_info eatt_support).2.cl_rcb[i]? =
          some { app_uuid128 := app_uuid128, app_cb := p_cb_info, gatt_if := i + 1,
                 in_use := true, eatt_support := eatt_support } ∧
        (∀ j, j ≠ i →
          (GATT_Register cb app_uuid128 p_cb_info eatt_support).2.cl_rcb[j]? = cb.cl_rcb[j]?) ∧
        (GATT_Register cb app_uuid128 p_cb_info eatt_support).2 =
          { cb with cl_rcb := (GATT_Register cb app_uuid128 p_cb_info eatt_support).2.cl_rcb }) ∧
    ((∀ p_reg ∈ cb.cl_rcb, p_reg.in_use = true) →
      GATT_Register cb app_uuid128 p_cb_info eatt_support = (0, cb)) := by
  refine ⟨?_, GATT_Register_no_free cb app_uuid128 p_cb_info eatt_support⟩
  intro hfresh ⟨q, hq, hfree⟩ hlen
  cases hfind : find_first (fun p_reg : tGATT_REG => !p_reg.in_use) cb.cl_rcb with
  | none =>
    rw [find_first_none] at hfind
    have := hfind q hq
    simp [hfree] at this
  | some i =>
    obtain ⟨pre, x, suf, hl, hpl, hx, hpre, hget, _⟩ := find_first_some _ _ _ hfind
    have hi : i < cb.cl_rcb.length := by
      rw [hl, ← hpl]
      simp
    have hmod : (i + 1) % 256 = i + 1 := Nat.mod_eq_of_lt (by omega)
    rw [GATT_Register_fresh cb app_uuid128 p_cb_info eatt_support i hfresh hfind, hmod]
    refine ⟨i, x, hget, by simpa using hx, ?_, rfl, by simp, by simpa using hi, ?_, ?_, rfl⟩
    · intro j p_reg hj hjget
      have hmem : p_reg ∈ pre := by
        rw [hl, List.getElem?_append_left (by omega)] at hjget
        exact List.getElem?_mem hjget
      simpa using hpre p_reg hmem
    · simp [List.getElem?_set, hi, new_registration]
    · intro j hj
      simp [List.getElem?_set, Ne.symm hj]

/-- Witness of C11: on `sample_cb`, whose slots 1 and 2 are in use, registering the new UUID
0xB7 returns 3 and writes the third slot; on a table with no free slot it returns 0. -/
theorem register_allocates_first_free_witness :
    (GATT_Register sample_cb { val := 0xB7 } { id := 5 } true).1 = 3 ∧
    (GATT_Register sample_cb { val := 0xB7 } { id := 5 } true).2.cl_rcb[2]? =
      some { app_uuid128 := { val := 0xB7 }, app_cb := { id := 5 }, gatt_if := 3, in_use := true,
             eatt_support := true } ∧
    (∃ i free, sample_cb.cl_rcb[i]? = some free ∧ free.in_use = false ∧
      (∀ j p_reg, j < i → sample_cb.cl_rcb[j]? = some p_reg → p_reg.in_use = true) ∧
      (GATT_Register sample_cb { val := 0xB7 } { id := 5 } true).1 = i + 1 ∧
      1 ≤ (GATT_Register sample_cb { val := 0xB7 } { id := 5 } true).1 ∧
      (GATT_Register sample_cb { val := 0xB7 } { id := 5 } true).1 ≤ sample_cb.cl_rcb.length ∧
      (GATT_Register sample_cb { val := 0xB7 } { id := 5 } true).2.cl_rcb[i]? =
        some { app_uuid128 := { val := 0xB7 }, app_cb := { id := 5 }, gatt_if := i + 1,
               in_use := true, eatt_support := true } ∧
      (∀ j, j ≠ i →
        (GATT_Register sample_cb { val := 0xB7 } { id := 5 } true).2.cl_rcb[j]? =
          sample_cb.cl_rcb[j]?) ∧
      (GATT_Register sample_cb { val := 0xB7 } { id := 5 } true).2 =
        { sample_cb with
          cl_rcb := (GATT_Register sample_cb { val := 0xB7 } { id := 5 } true).2.cl_rcb }) ∧
    GATT_Register { sample_cb with cl_rcb := [{ in_use := true, gatt_if := 1 }] } { val := 0xB7 }
      { id := 5 } true = (0, { sample_cb with cl_rcb := [{ in_use := true, gatt_if := 1 }] }) :=
  ⟨by decide, by decide,
   (register_allocates_first_free sample_cb { val := 0xB7 } { id := 5 } true).1
     (by decide) (by decide) (by decide),
   (register_allocates_first_free _ { val := 0xB7 } { id := 5 } true).2 (by decide)⟩

@[simp] theorem tcb_write_cl_rcb (cb : tGATT_CB) (i : Nat) (f : tGATT_TCB → tGATT_TCB) :
    (tcb_write cb i f).cl_rcb = cb.cl_rcb := by
  unfold tcb_write
  split <;> rfl

@[simp] theorem tcb_write_clcb (cb : tGATT_CB) (i : Nat) (f : tGATT_TCB → tGATT_TCB) :
    (tcb_write cb i f).clcb = cb.clcb := by
  unfold tcb_write
  split <;> rfl

@[simp] theorem tcb_write_srv (cb : tGATT_CB) (i : Nat) (f : tGATT_TCB → tGATT_TCB) :
    (tcb_write cb i f).srv_list_info = cb.srv_list_info := by
  unfold tcb_write
  split <;> rfl

@[simp] theorem tcb_write_att_cl_sent (cb : tGATT_CB) (i : Nat) (f : tGATT_TCB → tGATT_TCB) :
    (tcb_write cb i f).att_cl_sent = cb.att_cl_sent := by
  unfold tcb_write
  split <;> rfl

@[simp] theorem tcb_write_length (cb : tGATT_CB) (i : Nat) (f : tGATT_TCB → tGATT_TCB) :
    (tcb_write cb i f).tcb.length = cb.tcb.length := by
  unfold tcb_write
  split <;> simp

/-- The link record at a position after a write through the pointer to it. -/
theorem tcb_write_getElem? (cb : tGATT_CB) (i j : Nat) (f : tGATT_TCB → tGATT_TCB) :
    (tcb_write cb i f).tcb[j]? = if j = i then (cb.tcb[i]?).map f else cb.tcb[j]? := by
  unfold tcb_write
  cases h : cb.tcb[i]? with
  | none =>
    by_cases hj : j = i
    · simp [hj, h]
    · simp [hj]
  | some t =>
    have hi : i < cb.tcb.length := (List.getElem?_eq_some.1 h).1
    by_cases hj : j = i
    · simp [hj, hi]
    · simp [hj, List.getElem?_set_ne (Ne.symm hj)]

/-- What `GATTS_StopService` leaves alone: the registration table, the transaction records
and the link records. -/
theorem GATTS_StopService_frame (cb cb1 : tGATT_CB) (service_handle : Nat)
    (h : GATTS_StopService cb service_handle = some cb1) :
    cb1.cl_rcb = cb.cl_rcb ∧ cb1.clcb = cb.clcb ∧ cb1.tcb = cb.tcb := by
  unfold GATTS_StopService at h
  split at h
  · cases h
  · split at h
    · cases h
    · simp only [Option.some.injEq] at h
      subst h
      split <;> exact ⟨rfl, rfl, rfl⟩

theorem deregister_stop_services_total (gatt_if : Nat) (n : Nat) (cb : tGATT_CB) :
    ∃ cb1, deregister_stop_services gatt_if n cb = some cb1 ∧
      cb1.cl_rcb = cb.cl_rcb ∧ cb1.clcb = cb.clcb ∧ cb1.tcb = cb.tcb := by
  induction n generalizing cb with
  | zero => exact ⟨cb, rfl, rfl, rfl, rfl⟩
  | succ n ih =>
    unfold deregister_stop_services
    cases hget : cb.srv_list_info[cb.srv_list_info.length - (n + 1)]? with
    | none => exact ⟨cb, rfl, rfl, rfl, rfl⟩
    | some it =>
      dsimp only
      by_cases hg : it.gatt_if = gatt_if
      · rw [if_pos hg]
        have hfound : ∃ sit, gatt_sr_find_i_rcb_by_handle cb it.s_hdl = some sit := by
          unfold gatt_sr_find_i_rcb_by_handle
          cases hf : find_first (fun e : tGATT_SRV_LIST_ELEM => decide (e.s_hdl = it.s_hdl))
              cb.srv_list_info with
          | some sit => exact ⟨sit, rfl⟩
          | none =>
            rw [find_first_none] at hf
            have := hf it (List.getElem?_mem hget)
            simp at this
        obtain ⟨sit, hsit⟩ := hfound
        obtain ⟨cb1, hstop, _⟩ := GATTS_StopService_some cb it.s_hdl sit hsit
        obtain ⟨h1, h2, h3⟩ := GATTS_StopService_frame cb cb1 it.s_hdl hstop
        rw [hstop]
        obtain ⟨cb2, hrec, h4, h5, h6⟩ := ih cb1
        exact ⟨cb2, hrec, by rw [h4, h1], by rw [h5, h2], by rw [h6, h3]⟩
      · rw [if_neg hg]
        exact ih cb

theorem deregister_find_clcb_total (cb : tGATT_CB) (gatt_if tcb_idx : Nat)
    (l : List tGATT_CLCB) (j : Nat)
    (hl : ∀ p_clcb ∈ l, p_clcb.in_use = true → clcb_points_into cb p_clcb = true) :
    ∃ r, deregister_find_clcb cb gatt_if tcb_idx l j = some r := by
  induction l generalizing j with
  | nil => exact ⟨none, rfl⟩
  | cons c rest ih =>
    unfold deregister_find_clcb
    have hm : ∃ b, deregister_clcb_matches cb gatt_if tcb_idx c = some b := by
      unfold deregister_clcb_matches
      by_cases hu : c.in_use = true
      · have hv := hl c (List.mem_cons_self _ _) hu
        unfold clcb_points_into at hv
        simp only [Bool.and_eq_true] at hv
        obtain ⟨hr, ht⟩ := hv
        cases hpr : c.p_reg with
        | none => rw [hpr] at hr; simp at hr
        | some r =>
          cases hpt : c.p_tcb with
          | none => rw [hpt] at ht; simp at ht
          | some t =>
            rw [hpr] at hr
            rw [hpt] at ht
            simp only [decide_eq_true_eq] at hr ht
            obtain ⟨x, hx⟩ : ∃ x, cb.cl_rcb[r]? = some x :=
              ⟨_, List.getElem?_eq_getElem hr⟩
            obtain ⟨y, hy⟩ : ∃ y, cb.tcb[t]? = some y :=
              ⟨_, List.getElem?_eq_getElem ht⟩
            simp only [hu, Bool.not_true, Bool.false_eq_true, if_false, Option.some_bind, hx, hy]
            by_cases hg : x.gatt_if ≠ gatt_if
            · exact ⟨false, by rw [if_pos hg]⟩
            · exact ⟨_, by rw [if_neg hg]⟩
      · simp [hu]
    obtain ⟨b, hb⟩ := hm
    rw [hb]
    cases b with
    | true => exact ⟨_, rfl⟩
    | false => exact ih (j + 1) (fun p hp => hl p (List.mem_cons_of_mem _ hp))

/-- The control block when the link loop of `GATT_Deregister` has released the hold of the
application on the link at position `i` (lines 1487-1507): only link records, bearers and
the disconnect log can differ from before. -/
theorem deregister_release_frame (cb cb1 : tGATT_CB) (gatt_if i lcid conn_id : Nat) (b : Bool)
    (h : cb1 = gatt_remove_conn
      (if b then gatt_disconnect (gatt_update_app_use_link_flag cb gatt_if i false true) i lcid
        else gatt_update_app_use_link_flag cb gatt_if i false true) conn_id lcid) :
    cb1.cl_rcb = cb.cl_rcb ∧ cb1.clcb = cb.clcb ∧ cb1.tcb.length = cb.tcb.length ∧
      cb1.srv_list_info = cb.srv_list_info := by
  subst h
  cases b <;>
    simp [gatt_remove_conn, gatt_disconnect, gatt_update_app_use_link_flag]

theorem clcb_pointers_valid_of_frame (cb cb1 : tGATT_CB) (h : clcb_pointers_valid cb)
    (h1 : cb1.cl_rcb.length = cb.cl_rcb.length) (h2 : cb1.tcb.length = cb.tcb.length)
    (h3 : ∀ p_clcb ∈ cb1.clcb, p_clcb.in_use = true → p_clcb ∈ cb.clcb) :
    clcb_pointers_valid cb1 := by
  intro c hc hu
  have := h c (h3 c hc hu) hu
  unfold clcb_points_into at this ⊢
  rw [h1, h2]
  exact this

theorem deregister_link_total (P : ClientPlatform) (gatt_if : Nat) (cb : tGATT_CB) (i : Nat)
    (hv : clcb_pointers_valid cb) :
    ∃ cb1, deregister_link P gatt_if cb i = some cb1 ∧ cb1.cl_rcb = cb.cl_rcb ∧
      cb1.tcb.length = cb.tcb.length ∧ clcb_pointers_valid cb1 ∧
      cb1.srv_list_info = cb.srv_list_info := by
  unfold deregister_link
  cases hget : cb.tcb[i]? with
  | none => exact ⟨cb, rfl, rfl, rfl, hv, rfl⟩
  | some p_tcb =>
    dsimp only
    by_cases hu : p_tcb.in_use = true
    · simp only [hu, Bool.not_true, Bool.false_eq_true, if_false]
      generalize hcb1 : (if gatt_get_ch_state p_tcb ≠ P.GATT_CH_CLOSE then _ else cb) = cb1
      have hframe : cb1.cl_rcb = cb.cl_rcb ∧ cb1.clcb = cb.clcb ∧
          cb1.tcb.length = cb.tcb.length ∧ cb1.srv_list_info = cb.srv_list_info := by
        by_cases hs : gatt_get_ch_state p_tcb ≠ P.GATT_CH_CLOSE
        · rw [if_pos hs] at hcb1
          exact deregister_release_frame cb cb1 gatt_if i _ _ _ hcb1.symm
        · rw [if_neg hs] at hcb1
          subst hcb1
          exact ⟨rfl, rfl, rfl, rfl⟩
      obtain ⟨f1, f2, f3, f4⟩ := hframe
      have hv1 : clcb_pointers_valid cb1 :=
        clcb_pointers_valid_of_frame cb cb1 hv (by rw [f1]) f3 (fun c hc _ => by rw [← f2]; exact hc)
      obtain ⟨r, hr⟩ := deregister_find_clcb_total cb1 gatt_if p_tcb.tcb_idx cb1.clcb 0 hv1
      rw [hr]
      cases r with
      | none => exact ⟨cb1, rfl, f1, f3, hv1, f4⟩
      | some j =>
        refine ⟨_, rfl, by simp [gatt_clcb_dealloc, f1], by simp [gatt_clcb_dealloc, f3], ?_,
          by simp [gatt_clcb_dealloc, f4]⟩
        apply clcb_pointers_valid_of_frame cb1 _ hv1 (by simp [gatt_clcb_dealloc])
          (by simp [gatt_clcb_dealloc])
        intro c hc hcu
        simp only [gatt_clcb_dealloc] at hc
        rcases List.mem_or_eq_of_mem_set hc with hc | hc
        · exact hc
        · subst hc
          simp at hcu
    · simp only [hu, Bool.not_false, if_true]
      exact ⟨cb, rfl, rfl, rfl, hv, rfl⟩

theorem deregister_links_total (P : ClientPlatform) (gatt_if : Nat) (idxs : List Nat)
    (cb : tGATT_CB) (hv : clcb_pointers_valid cb) :
    ∃ cb1, deregister_links P gatt_if idxs cb = some cb1 ∧ cb1.cl_rcb = cb.cl_rcb ∧
      cb1.tcb.length = cb.tcb.length ∧ clcb_pointers_valid cb1 ∧
      cb1.srv_list_info = cb.srv_list_info := by
  induction idxs generalizing cb with
  | nil => exact ⟨cb, rfl, rfl, rfl, hv, rfl⟩
  | cons i rest ih =>
    obtain ⟨cb1, h1, h2, h3, h4, h5⟩ := deregister_link_total P gatt_if cb i hv
    obtain ⟨cb2, g1, g2, g3, g4, g5⟩ := ih cb1 h4
    refine ⟨cb2, by simp [deregister_links, h1, g1], by rw [g2, h2], by rw [g3, h3], g4,
      by rw [g5, h5]⟩

/-- `GATT_Deregister` has a defined result whenever the live transaction records have valid
pointers; the registration table afterwards is the one before, or the one before with the
slot of `gatt_if` zeroed. -/
theorem GATT_Deregister_total (P : ClientPlatform) (cb : tGATT_CB) (gatt_if : Nat)
    (hv : clcb_pointers_valid cb) :
    ∃ cb1, GATT_Deregister P cb gatt_if = some cb1 ∧
      (cb1.cl_rcb = cb.cl_rcb ∨ cb1.cl_rcb = cb.cl_rcb.set (gatt_if - 1) {}) ∧
      clcb_pointers_valid cb1 := by
  unfold GATT_Deregister
  cases hreg : gatt_get_regcb cb gatt_if with
  | none => exact ⟨cb, rfl, Or.inl rfl, hv⟩
  | some p_reg =>
    dsimp only
    by_cases h0 : gatt_if = 0
    · rw [if_pos h0]
      exact ⟨cb, rfl, Or.inl rfl, hv⟩
    · rw [if_neg h0]
      by_cases he : cb.srv_list_info.isEmpty = true
      · rw [if_pos he]
        exact ⟨cb, rfl, Or.inl rfl, hv⟩
      · rw [if_neg he]
        obtain ⟨cb1, h1, h2, h3, h4⟩ :=
          deregister_stop_services_total gatt_if cb.srv_list_info.length cb
        rw [h1]
        dsimp only
        have hv2 : clcb_pointers_valid (gatt_free_srvc_db_buffer_app_id cb1 p_reg.app_uuid128) :=
          clcb_pointers_valid_of_frame cb _ hv (by simp [gatt_free_srvc_db_buffer_app_id, h2])
            (by simp [gatt_free_srvc_db_buffer_app_id, h4])
            (fun c hc _ => by
              simp only [gatt_free_srvc_db_buffer_app_id] at hc
              rw [← h3]
              exact hc)
        obtain ⟨cb3, g1, g2, g3, g4, _⟩ := deregister_links_total P gatt_if
          (List.range (gatt_free_srvc_db_buffer_app_id cb1 p_reg.app_uuid128).tcb.length)
          (gatt_free_srvc_db_buffer_app_id cb1 p_reg.app_uuid128) hv2
        rw [g1]
        refine ⟨_, rfl, Or.inr ?_, ?_⟩
        · simp [g2, gatt_free_srvc_db_buffer_app_id, h2]
        · apply clcb_pointers_valid_of_frame cb3 _ g4 (by simp) (by simp)
          intro c hc _
          exact hc

theorem registrations_unique_clear (cb cb1 : tGATT_CB) (k : Nat) (h : registrations_unique cb)
    (hc : cb1.cl_rcb = cb.cl_rcb ∨ cb1.cl_rcb = cb.cl_rcb.set k {}) : registrations_unique cb1 := by
  rcases hc with hc | hc
  · unfold registrations_unique at h ⊢
    rw [hc]
    exact h
  · have hold : ∀ (i : Nat) (r : tGATT_REG), cb1.cl_rcb[i]? = some r → r.in_use = true →
        cb.cl_rcb[i]? = some r := by
      intro i r hget hu
      rw [hc, List.getElem?_set] at hget
      by_cases hki : k = i
      · rw [if_pos hki] at hget
        split at hget
        · simp only [Option.some.injEq] at hget
          subst hget
          simp at hu
        · cases hget
      · rw [if_neg hki] at hget
        exact hget
    refine ⟨?_, ?_⟩
    · intro i j ri rj hi hj hui huj
      exact h.1 i j ri rj (hold i ri hi hui) (hold j rj hj huj) hui huj
    · intro i ri hi hui
      exact h.2 i ri (hold i ri hi hui) hui

theorem registrations_unique_register (cb : tGATT_CB) (app_uuid128 : Uuid)
    (p_cb_info : tGATT_CBACK) (eatt_support : Bool) (h : registrations_unique cb)
    (hlen : cb.cl_rcb.length ≤ 255) :
    registrations_unique (GATT_Register cb app_uuid128 p_cb_info eatt_support).2 ∧
      (GATT_Register cb app_uuid128 p_cb_info eatt_support).2.cl_rcb.length = cb.cl_rcb.length ∧
      (GATT_Register cb app_uuid128 p_cb_info eatt_support).2.clcb = cb.clcb ∧
      (GATT_Register cb app_uuid128 p_cb_info eatt_support).2.tcb = cb.tcb := by
  by_cases hdup : ∃ p_reg ∈ cb.cl_rcb, p_reg.in_use = true ∧ p_reg.app_uuid128 = app_uuid128
  · have hres : GATT_Register cb app_uuid128 p_cb_info eatt_support = (0, cb) := by
      obtain ⟨p, hp, hu, he⟩ := hdup
      unfold GATT_Register
      rw [if_pos]
      rw [List.any_eq_true]
      exact ⟨p, hp, by simp [hu, he]⟩
    rw [hres]
    exact ⟨h, rfl, rfl, rfl⟩
  · have hfresh : ∀ p_reg ∈ cb.cl_rcb, p_reg.in_use = true → p_reg.app_uuid128 ≠ app_uuid128 :=
      fun p hp hu he => hdup ⟨p, hp, hu, he⟩
    cases hfind : find_first (fun p_reg : tGATT_REG => !p_reg.in_use) cb.cl_rcb with
    | none =>
      have hfull : ∀ p_reg ∈ cb.cl_rcb, p_reg.in_use = true := by
        rw [find_first_none] at hfind
        intro p hp
        simpa using hfind p hp
      rw [GATT_Register_no_free cb app_uuid128 p_cb_info eatt_support hfull]
      exact ⟨h, rfl, rfl, rfl⟩
    | some i =>
      obtain ⟨pre, x, suf, hl, hpl, _, _, hget, _⟩ := find_first_some _ _ _ hfind
      have hi : i < cb.cl_rcb.length := (List.getElem?_eq_some.1 hget).1
      rw [GATT_Register_fresh cb app_uuid128 p_cb_info eatt_support i hfresh hfind]
      refine ⟨?_, by simp, rfl, rfl⟩
      have hmod : (i + 1) % 256 = i + 1 := Nat.mod_eq_of_lt (by omega)
      have hnew : ∀ (j : Nat) (r : tGATT_REG),
          (cb.cl_rcb.set i (new_registration app_uuid128 p_cb_info eatt_support ((i + 1) % 256)))[j]?
            = some r →
          (j = i ∧ r = new_registration app_uuid128 p_cb_info eatt_support (i + 1)) ∨
          (j ≠ i ∧ cb.cl_rcb[j]? = some r) := by
        intro j r hj
        rw [List.getElem?_set, hmod] at hj
        by_cases hij : i = j
        · rw [if_pos hij, if_pos hi] at hj
          simp only [Option.some.injEq] at hj
          exact Or.inl ⟨hij.symm, hj.symm⟩
        · rw [if_neg hij] at hj
          exact Or.inr ⟨Ne.symm hij, hj⟩
      refine ⟨?_, ?_⟩
      · intro a b ra rb ha hb hua hub hab
        rcases hnew a ra ha with ⟨ha1, ha2⟩ | ⟨ha1, ha2⟩ <;>
          rcases hnew b rb hb with ⟨hb1, hb2⟩ | ⟨hb1, hb2⟩
        · rw [ha1, hb1]
        · exfalso
          rw [ha2] at hab
          exact hfresh rb (List.getElem?_mem hb2) hub hab.symm
        · exfalso
          rw [hb2] at hab
          exact hfresh ra (List.getElem?_mem ha2) hua hab
        · exact h.1 a b ra rb ha2 hb2 hua hub hab
      · intro a ra ha hua
        rcases hnew a ra ha with ⟨ha1, ha2⟩ | ⟨_, ha2⟩
        · rw [ha2, ha1]
          rfl
        · exact h.2 a ra ha2 hua

/-- C12: starting from an all-free registration table (of at most 255 slots, the range of
tGATT_IF, in a control block whose live transaction records have valid pointers), every
sequence of GATT_Register and GATT_Deregister calls runs to the end, and afterwards no two
in-use registration slots have the same app_uuid128 and every in-use slot at index i has
gatt_if = i+1. -/
theorem registrations_stay_unique (P : ClientPlatform) (cb : tGATT_CB) (ops : List RegistryOp)
    (hfree : ∀ p_reg ∈ cb.cl_rcb, p_reg.in_use = false) (hlen : cb.cl_rcb.length ≤ 255)
    (hvalid : clcb_pointers_valid cb) :
    ∃ cb1, run_registry_ops P cb ops = some cb1 ∧ registrations_unique cb1 := by
  have hinit : registrations_unique cb := by
    refine ⟨?_, ?_⟩
    · intro i j ri rj hi _ hui
      have := hfree ri (List.getElem?_mem hi)
      rw [this] at hui
      cases hui
    · intro i ri hi hui
      have := hfree ri (List.getElem?_mem hi)
      rw [this] at hui
      cases hui
  clear hfree
  induction ops generalizing cb with
  | nil => exact ⟨cb, rfl, hinit⟩
  | cons op ops ih =>
    cases op with
    | Register app_uuid128 p_cb_info eatt_support =>
      obtain ⟨h1, h2, h3, h4⟩ :=
        registrations_unique_register cb app_uuid128 p_cb_info eatt_support hinit hlen
      obtain ⟨cb2, hrun, hu⟩ := ih (GATT_Register cb app_uuid128 p_cb_info eatt_support).2
        (by rw [h2]; exact hlen)
        (clcb_pointers_valid_of_frame cb _ hvalid h2 (by rw [h4])
          (fun c hc _ => by rw [← h3]; exact hc)) h1
      exact ⟨cb2, by simp [run_registry_ops, apply_registry_op, hrun], hu⟩
    | Deregister gatt_if =>
      obtain ⟨cb1, h1, h2, h3⟩ := GATT_Deregister_total P cb gatt_if hvalid
      have hlen1 : cb1.cl_rcb.length ≤ 255 := by
        rcases h2 with h2 | h2 <;> rw [h2] <;> simpa using hlen
      obtain ⟨cb2, hrun, hu⟩ := ih cb1 hlen1 h3
        (registrations_unique_clear cb cb1 (gatt_if - 1) hinit h2)
      exact ⟨cb2, by simp [run_registry_ops, apply_registry_op, h1, hrun], hu⟩

/-- Witness of C12: from four free slots, registering 0xA1 and 0xA2, registering 0xA1 once
more, deregistering application 1 and registering 0xA3 leaves a table without two in-use slots
of the same UUID. -/
theorem registrations_stay_unique_witness :
    (run_registry_ops stockClientPlatform sample_initial_cb sample_registry_ops).map
      (fun cb => cb.cl_rcb.map (fun r => (r.in_use, r.gatt_if, r.app_uuid128.val))) =
      some [(true, 1, 0xA1), (true, 2, 0xA2), (true, 3, 0xA3), (false, 0, 0)] ∧
    ∃ cb1, run_registry_ops stockClientPlatform sample_initial_cb sample_registry_ops = some cb1 ∧
      registrations_unique cb1 :=
  ⟨by decide,
   registrations_stay_unique stockClientPlatform sample_initial_cb sample_registry_ops
     (by decide) (by decide) (by decide)⟩

/-- C13 (code defect, evaluated): application 1 is registered and has a live transaction
record on the LE link, and no service is started; GATT_Deregister(1) returns at the test of
the empty started-service list and leaves the control block as it was: the registration slot
is still in use and the transaction record is still live. -/
theorem deregister_without_services_keeps_registration :
    sample_cb_reading.srv_list_info = [] ∧
    (gatt_get_regcb sample_cb_reading 1).map (fun p_reg => p_reg.app_uuid128.val) = some 0xA1 ∧
    GATT_Deregister stockClientPlatform sample_cb_reading 1 = some sample_cb_reading ∧
    sample_cb_reading.cl_rcb.map (fun p_reg => (p_reg.in_use, p_reg.gatt_if)) =
      [(true, 1), (true, 2), (false, 0), (false, 0)] ∧
    sample_cb_reading.clcb.map (fun p_clcb => (p_clcb.in_use, p_clcb.conn_id)) =
      [(true, 1), (false, 0), (false, 0), (false, 0)] := by
  decide

/-- When a service is started, the application is registered and the live transaction records
have valid pointers, `GATT_Deregister` runs to its last line and zeroes the slot. -/
theorem GATT_Deregister_clears_slot (P : ClientPlatform) (cb : tGATT_CB) (gatt_if : Nat)
    (p_reg : tGATT_REG) (hreg : gatt_get_regcb cb gatt_if = some p_reg)
    (hsrv : cb.srv_list_info ≠ []) (hv : clcb_pointers_valid cb) :
    ∃ cb1, GATT_Deregister P cb gatt_if = some cb1 ∧
      cb1.cl_rcb = cb.cl_rcb.set (gatt_if - 1) {} := by
  have h0 : gatt_if ≠ 0 := by
    intro h0
    rw [h0] at hreg
    simp [gatt_get_regcb] at hreg
  have he : ¬ cb.srv_list_info.isEmpty = true := by
    simpa using hsrv
  unfold GATT_Deregister
  rw [hreg]
  dsimp only
  rw [if_neg h0, if_neg he]
  obtain ⟨cb1, h1, h2, h3, h4⟩ :=
    deregister_stop_services_total gatt_if cb.srv_list_info.length cb
  rw [h1]
  dsimp only
  have hv2 : clcb_pointers_valid (gatt_free_srvc_db_buffer_app_id cb1 p_reg.app_uuid128) :=
    clcb_pointers_valid_of_frame cb _ hv (by simp [gatt_free_srvc_db_buffer_app_id, h2])
      (by simp [gatt_free_srvc_db_buffer_app_id, h4])
      (fun c hc _ => by
        simp only [gatt_free_srvc_db_buffer_app_id] at hc
        rw [← h3]
        exact hc)
  obtain ⟨cb3, g1, g2, _⟩ := deregister_links_total P gatt_if
    (List.range (gatt_free_srvc_db_buffer_app_id cb1 p_reg.app_uuid128).tcb.length)
    (gatt_free_srvc_db_buffer_app_id cb1 p_reg.app_uuid128) hv2
  rw [g1]
  exact ⟨_, rfl, by simp [g2, gatt_free_srvc_db_buffer_app_id, h2]⟩

/-- What a successful `gatt_clcb_alloc` returns: the first record not in use, now the live
record of `conn_id`. -/
theorem gatt_clcb_alloc_some (cb : tGATT_CB) (conn_id i : Nat) (c : tGATT_CLCB) (cb1 : tGATT_CB)
    (h : gatt_clcb_alloc cb conn_id = some (i, c, cb1)) :
    find_first (fun p_clcb : tGATT_CLCB => !p_clcb.in_use) cb.clcb = some i ∧
      c.in_use = true ∧ c.conn_id = conn_id ∧
      c.p_tcb = (gatt_get_tcb_by_idx cb (GATT_GET_TCB_IDX conn_id)).map
        (fun _ => GATT_GET_TCB_IDX conn_id) ∧
      cb1 = { cb with clcb := cb.clcb.set i c } := by
  unfold gatt_clcb_alloc at h
  split at h
  · cases h
  · rename_i j hj
    split at h
    · cases h
    · simp only [Option.some.injEq, Prod.mk.injEq] at h
      obtain ⟨h1, h2, h3⟩ := h
      subst h1
      subst h2
      subst h3
      exact ⟨hj, rfl, rfl, rfl, rfl⟩

/-- `GATTC_ConfigureMTU` on the path where validation passes and a transaction record is
obtained: one MTU exchange request with `GATT_MAX_MTU_SIZE` goes to the transport, the status
of the transport is returned, and the desired MTU is recorded on the link when that status is
`GATT_SUCCESS` or `GATT_CMD_STARTED`. -/
theorem GATTC_ConfigureMTU_sends (P : ClientPlatform) (cb : tGATT_CB) (conn_id mtu : Nat)
    (p_tcb : tGATT_TCB) (p_reg : tGATT_REG) (i : Nat) (c : tGATT_CLCB) (cb1 : tGATT_CB)
    (htcb : gatt_get_tcb_by_idx cb (GATT_GET_TCB_IDX conn_id) = some p_tcb)
    (hreg : gatt_get_regcb cb (GATT_GET_GATT_IF conn_id) = some p_reg)
    (hmtu : ¬ (mtu < P.GATT_DEF_BLE_MTU_SIZE ∨ mtu > P.GATT_MAX_MTU_SIZE))
    (hle : p_tcb.transport = P.BT_TRANSPORT_LE)
    (hfree : gatt_is_clcb_allocated cb conn_id = false)
    (halloc : gatt_clcb_alloc cb conn_id = some (i, c, cb1)) :
    (GATTC_ConfigureMTU P cb conn_id mtu).1 =
      P.attp_send_cl_msg_status cb.att_cl_sent
        (mtu_request P (GATT_GET_TCB_IDX conn_id) i p_tcb.att_lcid) ∧
    (GATTC_ConfigureMTU P cb conn_id mtu).2.att_cl_sent =
      cb.att_cl_sent ++ [mtu_request P (GATT_GET_TCB_IDX conn_id) i p_tcb.att_lcid] ∧
    (GATTC_ConfigureMTU P cb conn_id mtu).2.clcb =
      cb.clcb.set i { c with operation := P.GATTC_OPTYPE_CONFIG } ∧
    (GATTC_ConfigureMTU P cb conn_id mtu).2.cl_rcb = cb.cl_rcb ∧
    (GATTC_ConfigureMTU P cb conn_id mtu).2.tcb =
      (if (GATTC_ConfigureMTU P cb conn_id mtu).1 = P.GATT_SUCCESS ∨
          (GATTC_ConfigureMTU P cb conn_id mtu).1 = P.GATT_CMD_STARTED then
        (tcb_write cb (GATT_GET_TCB_IDX conn_id)
          (fun t => { t with pending_user_mtu_exchange_value := mtu })).tcb
      else cb.tcb) := by
  obtain ⟨_, _, _, hptcb, hcb1⟩ := gatt_clcb_alloc_some cb conn_id i c cb1 halloc
  rw [htcb] at hptcb
  simp only [Option.map_some'] at hptcb
  subst hcb1
  unfold GATTC_ConfigureMTU
  simp only [htcb, hreg, hmtu, hle, hfree, halloc, if_false, ne_eq, not_true_eq_false,
    Bool.false_eq_true, hptcb, attp_send_cl_msg, mtu_request]
  split
  · simp [tcb_write]
    split <;> simp
  · simp

/-- A pool reached by `clcb_allocates_one` keeps at most one live record per connection
identifier. -/
theorem clcb_allocates_one_at_most_one (cb cb1 : tGATT_CB) (hinv : clcb_at_most_one cb)
    (h : clcb_allocates_one cb cb1.clcb) : clcb_at_most_one cb1 := by
  rcases h with h | ⟨conn_id, i, c, hfree, hfind, hin, hconn, hset⟩
  · intro k
    unfold live_clcb_count
    rw [h]
    exact hinv k
  · intro k
    unfold live_clcb_count
    rw [hset]
    obtain ⟨pre, x, suf, hsplit, hlen, hxfree, _, _, _⟩ := find_first_some _ _ _ hfind
    have hset2 : cb.clcb.set i c = pre ++ c :: suf := by
      rw [hsplit, ← hlen]
      simp
    rw [hset2]
    have hold := hinv k
    unfold live_clcb_count at hold
    rw [hsplit] at hold
    simp only [List.countP_append, List.countP_cons] at hold ⊢
    have hxin : x.in_use = false := by simpa using hxfree
    simp only [hxin, Bool.false_and, Bool.false_eq_true, if_false, Nat.add_zero] at hold
    by_cases hk : k = conn_id
    · subst hk
      have hzero : List.countP (fun p_clcb : tGATT_CLCB => p_clcb.in_use && decide (p_clcb.conn_id = k))
          cb.clcb = 0 := by
        rw [List.countP_eq_zero]
        intro a ha
        unfold gatt_is_clcb_allocated at hfree
        have := List.any_eq_false.1 hfree a ha
        simpa using this
      rw [hsplit] at hzero
      simp only [List.countP_append, List.countP_cons, hxin, Bool.false_and, Bool.false_eq_true,
        if_false, Nat.add_zero] at hzero
      split <;> omega
    · have hne : c.conn_id ≠ k := by
        rw [hconn]
        exact fun e => hk e.symm
      simp only [hne, decide_False, Bool.and_false, Bool.false_eq_true, if_false, Nat.add_zero]
      exact hold

/-- The pool after `gatt_clcb_alloc` and a rewrite of the new record that keeps its in-use flag
and its connection identifier. -/
theorem gatt_clcb_alloc_allocates (cb : tGATT_CB) (conn_id i : Nat) (c c1 : tGATT_CLCB)
    (cb1 : tGATT_CB) (hfree : ¬ gatt_is_clcb_allocated cb conn_id = true)
    (h : gatt_clcb_alloc cb conn_id = some (i, c, cb1))
    (hin : c1.in_use = c.in_use) (hconn : c1.conn_id = c.conn_id) :
    clcb_allocates_one cb (cb1.clcb.set i c1) := by
  obtain ⟨hfind, hcin, hcconn, _, hcb1⟩ := gatt_clcb_alloc_some cb conn_id i c cb1 h
  subst hcb1
  refine Or.inr ⟨conn_id, i, c1, by simpa using hfree, hfind, by rw [hin, hcin],
    by rw [hconn, hcconn], ?_⟩
  simp [List.set_set]

@[simp] theorem gattc_start_security_check_clcb (P : ClientPlatform) (cb : tGATT_CB)
    (tcb_idx clcb_idx : Nat) (p_clcb : tGATT_CLCB) :
    (gattc_start_security_check P cb tcb_idx clcb_idx p_clcb).clcb = cb.clcb := by
  unfold gattc_start_security_check gatt_security_check_start
  dsimp only
  split <;> simp

theorem gattc_read_fill_keeps (P : ClientPlatform) (type : Nat) (p_read : tGATT_READ_PARAM)
    (p_clcb : tGATT_CLCB) :
    (gattc_read_fill P type p_read p_clcb).in_use = p_clcb.in_use ∧
      (gattc_read_fill P type p_read p_clcb).conn_id = p_clcb.conn_id := by
  unfold gattc_read_fill
  split
  · exact ⟨rfl, rfl⟩
  · split
    · exact ⟨rfl, rfl⟩
    · split <;> exact ⟨rfl, rfl⟩

theorem GATTC_ConfigureMTU_allocates (P : ClientPlatform) (cb : tGATT_CB) (conn_id mtu : Nat) :
    clcb_allocates_one cb (GATTC_ConfigureMTU P cb conn_id mtu).2.clcb := by
  unfold GATTC_ConfigureMTU
  dsimp only
  split
  · exact Or.inl rfl
  · split
    · exact Or.inl rfl
    · split
      · exact Or.inl rfl
      · split
        · exact Or.inl rfl
        · split
          · exact Or.inl rfl
          · rename_i hfree
            split
            · exact Or.inl rfl
            · rename_i i c cb1 halloc
              have hstep := gatt_clcb_alloc_allocates cb conn_id i c
                { c with operation := P.GATTC_OPTYPE_CONFIG } cb1 hfree halloc rfl rfl
              split
              · exact hstep
              · split
                · simpa [attp_send_cl_msg] using hstep
                · simpa [attp_send_cl_msg] using hstep

theorem GATTC_Discover_allocates (P : ClientPlatform) (cb : tGATT_CB) (conn_id disc_type
    start_handle end_handle : Nat) (uuid : Uuid) :
    clcb_allocates_one cb
      (GATTC_Discover P cb conn_id disc_type start_handle end_handle uuid).2.clcb := by
  unfold GATTC_Discover
  dsimp only
  split
  · exact Or.inl rfl
  · split
    · exact Or.inl rfl
    · split
      · exact Or.inl rfl
      · split
        · exact Or.inl rfl
        · split
          · exact Or.inl rfl
          · rename_i hfree
            split
            · exact Or.inl rfl
            · rename_i i c cb1 halloc
              exact gatt_clcb_alloc_allocates cb conn_id i c _ cb1 hfree halloc rfl rfl

theorem GATTC_Read_allocates (P : ClientPlatform) (cb : tGATT_CB) (conn_id type : Nat)
    (p_read : Option tGATT_READ_PARAM) :
    clcb_allocates_one cb (GATTC_Read P cb conn_id type p_read).2.clcb := by
  unfold GATTC_Read
  dsimp only
  split
  · exact Or.inl rfl
  · split
    · exact Or.inl rfl
    · split
      · exact Or.inl rfl
      · split
        · exact Or.inl rfl
        · split
          · exact Or.inl rfl
          · rename_i hfree
            split
            · exact Or.inl rfl
            · rename_i i c cb1 halloc
              rw [gattc_start_security_check_clcb]
              exact gatt_clcb_alloc_allocates cb conn_id i c _ cb1 hfree halloc
                (gattc_read_fill_keeps _ _ _ _).1 (gattc_read_fill_keeps _ _ _ _).2

theorem GATTC_Write_allocates (P : ClientPlatform) (cb : tGATT_CB) (conn_id type : Nat)
    (p_write : Option tGATT_VALUE) :
    clcb_allocates_one cb (GATTC_Write P cb conn_id type p_write).2.clcb := by
  unfold GATTC_Write
  dsimp only
  split
  · exact Or.inl rfl
  · split
    · exact Or.inl rfl
    · split
      · exact Or.inl rfl
      · split
        · exact Or.inl rfl
        · split
          · exact Or.inl rfl
          · rename_i hfree
            split
            · exact Or.inl rfl
            · rename_i i c cb1 halloc
              rw [gattc_start_security_check_clcb]
              refine gatt_clcb_alloc_allocates cb conn_id i c _ cb1 hfree halloc ?_ ?_
              · split <;> rfl
              · split <;> rfl

theorem GATTC_ExecuteWrite_allocates (P : ClientPlatform) (cb : tGATT_CB) (conn_id : Nat)
    (is_execute : Bool) :
    clcb_allocates_one cb (GATTC_ExecuteWrite P cb conn_id is_execute).2.clcb := by
  unfold GATTC_ExecuteWrite
  dsimp only
  split
  · exact Or.inl rfl
  · split
    · exact Or.inl rfl
    · split
      · exact Or.inl rfl
      · rename_i hfree
        split
        · exact Or.inl rfl
        · rename_i i c cb1 halloc
          have hstep := gatt_clcb_alloc_allocates cb conn_id i c
            { c with operation := P.GATTC_OPTYPE_EXE_WRITE } cb1 hfree halloc rfl rfl
          split
          · exact hstep
          · simpa [gatt_send_queue_write_cancel] using hstep

/-- Every sequence of client calls keeps at most one live transaction record per connection
identifier. -/
theorem run_client_ops_at_most_one (P : ClientPlatform) (ops : List ClientOp) (cb : tGATT_CB)
    (hinv : clcb_at_most_one cb) : clcb_at_most_one (run_client_ops P cb ops) := by
  induction ops generalizing cb with
  | nil => exact hinv
  | cons op ops ih =>
    unfold run_client_ops
    apply ih
    apply clcb_allocates_one_at_most_one cb _ hinv
    cases op with
    | ConfigureMTU conn_id mtu => exact GATTC_ConfigureMTU_allocates P cb conn_id mtu
    | Discover conn_id disc_type start_handle end_handle uuid =>
      exact GATTC_Discover_allocates P cb conn_id disc_type start_handle end_handle uuid
    | Read conn_id type p_read => exact GATTC_Read_allocates P cb conn_id type p_read
    | Write conn_id type p_write => exact GATTC_Write_allocates P cb conn_id type p_write
    | ExecuteWrite conn_id is_execute =>
      exact GATTC_ExecuteWrite_allocates P cb conn_id is_execute

/-- C14. At most one transaction per connection identifier. When the link and the
application of `conn_id` are known and a live transaction record exists for `conn_id`, each of
`GATTC_ConfigureMTU`, `GATTC_Discover`, `GATTC_Read`, `GATTC_Write` and `GATTC_ExecuteWrite`,
called with otherwise valid arguments, returns `GATT_BUSY` and leaves the whole control block
as it was (no record allocated, nothing sent). Hence, from a control block with at most one
live record per connection identifier, every sequence of calls of these five functions
reaches a control block with at most one live record per connection identifier. -/
theorem busy_while_transaction_live (P : ClientPlatform) (cb : tGATT_CB) (conn_id : Nat)
    (p_tcb : tGATT_TCB) (p_reg : tGATT_REG)
    (htcb : gatt_get_tcb_by_idx cb (GATT_GET_TCB_IDX conn_id) = some p_tcb)
    (hreg : gatt_get_regcb cb (GATT_GET_GATT_IF conn_id) = some p_reg)
    (hlive : gatt_is_clcb_allocated cb conn_id = true)
    (hinv : clcb_at_most_one cb) :
    (∀ mtu, P.GATT_DEF_BLE_MTU_SIZE ≤ mtu → mtu ≤ P.GATT_MAX_MTU_SIZE →
      p_tcb.transport = P.BT_TRANSPORT_LE →
      GATTC_ConfigureMTU P cb conn_id mtu = (P.GATT_BUSY, cb)) ∧
    (∀ disc_type start_handle end_handle uuid, disc_type < P.GATT_DISC_MAX →
      start_handle ≠ 0 → end_handle ≠ 0 →
      ¬ (disc_type = P.GATT_DISC_SRVC_BY_UUID ∧ uuid.IsEmpty = true) →
      GATTC_Discover P cb conn_id disc_type start_handle end_handle uuid = (P.GATT_BUSY, cb)) ∧
    (∀ type read, 0 < type → type < P.GATT_READ_MAX →
      GATTC_Read P cb conn_id type (some read) = (P.GATT_BUSY, cb)) ∧
    (∀ type write, type = P.GATT_WRITE ∨ type = P.GATT_WRITE_PREPARE ∨
        type = P.GATT_WRITE_NO_RSP →
      GATTC_Write P cb conn_id type (some write) = (P.GATT_BUSY, cb)) ∧
    (∀ is_execute, GATTC_ExecuteWrite P cb conn_id is_execute = (P.GATT_BUSY, cb)) ∧
    (∀ ops, clcb_at_most_one (run_client_ops P cb ops)) := by
  refine ⟨?_, ?_, ?_, ?_, ?_, ?_⟩
  · intro mtu hlo hhi hle
    unfold GATTC_ConfigureMTU
    have hmtu : ¬ (mtu < P.GATT_DEF_BLE_MTU_SIZE ∨ mtu > P.GATT_MAX_MTU_SIZE) := by omega
    simp only [htcb, hreg, hmtu, hle, hlive, if_false, if_true, ne_eq, not_true_eq_false]
  · intro disc_type start_handle end_handle uuid hdisc hs he huuid
    unfold GATTC_Discover
    have h1 : ¬ disc_type ≥ P.GATT_DISC_MAX := by omega
    have h2 : ¬ ((!GATT_HANDLE_IS_VALID start_handle) = true ∨
        (!GATT_HANDLE_IS_VALID end_handle) = true ∨
        (disc_type = P.GATT_DISC_SRVC_BY_UUID ∧ uuid.IsEmpty = true)) := by
      simp only [GATT_HANDLE_IS_VALID, ne_eq, hs, he, not_false_eq_true, decide_True,
        Bool.not_true, Bool.false_eq_true, false_or]
      exact huuid
    simp only [htcb, hreg, h1, h2, hlive, if_false, if_true]
  · intro type read hpos hmax
    unfold GATTC_Read
    have h1 : ¬ (type ≥ P.GATT_READ_MAX ∨ type = 0) := by omega
    simp only [htcb, hreg, h1, hlive, if_false, if_true]
  · intro type write htype
    unfold GATTC_Write
    have h1 : ¬ (type ≠ P.GATT_WRITE ∧ type ≠ P.GATT_WRITE_PREPARE ∧
        type ≠ P.GATT_WRITE_NO_RSP) := by
      rcases htype with h | h | h <;> simp [h]
    simp only [htcb, hreg, h1, hlive, if_false, if_true]
  · intro is_execute
    unfold GATTC_ExecuteWrite
    simp only [htcb, hreg, hlive, if_true]
  · intro ops
    exact run_client_ops_at_most_one P ops cb hinv

/-- C14, witness: on `sample_cb_reading`, where application 1 has a live read on the LE link
(connection identifier 0x0001), the hypotheses hold and all five functions answer
`GATT_BUSY`. -/
theorem busy_while_transaction_live_witness :
    gatt_is_clcb_allocated sample_cb_reading 0x0001 = true ∧
    GATTC_ConfigureMTU stockClientPlatform sample_cb_reading 0x0001 100 =
      (stockClientPlatform.GATT_BUSY, sample_cb_reading) ∧
    GATTC_Discover stockClientPlatform sample_cb_reading 0x0001 1 1 0xFFFF Uuid.kEmpty =
      (stockClientPlatform.GATT_BUSY, sample_cb_reading) ∧
    GATTC_Read stockClientPlatform sample_cb_reading 0x0001 2 (some { by_handle_handle := 0x12 }) =
      (stockClientPlatform.GATT_BUSY, sample_cb_reading) ∧
    GATTC_Write stockClientPlatform sample_cb_reading 0x0001 2 (some { handle := 0x10 }) =
      (stockClientPlatform.GATT_BUSY, sample_cb_reading) ∧
    GATTC_ExecuteWrite stockClientPlatform sample_cb_reading 0x0001 true =
      (stockClientPlatform.GATT_BUSY, sample_cb_reading) ∧
    clcb_at_most_one (run_client_ops stockClientPlatform sample_cb_reading sample_client_ops) := by
  have hlive : gatt_is_clcb_allocated sample_cb_reading 0x0001 = true := by decide
  have hinv : clcb_at_most_one sample_cb_reading := by
    apply clcb_allocates_one_at_most_one sample_client_cb
    · intro k
      simp [live_clcb_count, sample_client_cb]
    · exact GATTC_Read_allocates _ _ _ _ _
  have h := busy_while_transaction_live stockClientPlatform sample_cb_reading 0x0001
    { in_use := true, tcb_idx := 0, peer_bda := 0xB0, transport := 2, att_lcid := 4,
      ch_state := 4, payload_size := 23, app_hold_link := [1, 2] }
    { app_uuid128 := { val := 0xA1 }, gatt_if := 1, in_use := true }
    (by decide) (by decide) hlive hinv
  exact ⟨hlive, h.1 100 (by decide) (by decide) (by decide),
    h.2.1 1 1 0xFFFF Uuid.kEmpty (by decide) (by decide) (by decide) (by decide),
    h.2.2.1 2 { by_handle_handle := 0x12 } (by decide) (by decide),
    h.2.2.2.1 2 { handle := 0x10 } (by decide),
    h.2.2.2.2.1 true, h.2.2.2.2.2 sample_client_ops⟩

/-- A link record that `gatt_get_tcb_by_idx` returns is the record at that position, in use. -/
theorem gatt_get_tcb_by_idx_some (cb : tGATT_CB) (tcb_idx : Nat) (p_tcb : tGATT_TCB)
    (h : gatt_get_tcb_by_idx cb tcb_idx = some p_tcb) :
    cb.tcb[tcb_idx]? = some p_tcb ∧ p_tcb.in_use = true := by
  unfold gatt_get_tcb_by_idx at h
  cases hx : cb.tcb[tcb_idx]? with
  | none => simp [hx] at h
  | some t =>
    simp only [hx] at h
    by_cases hin : t.in_use = true
    · simp only [hin, if_true, Option.some.injEq] at h
      subst h
      exact ⟨rfl, hin⟩
    · simp [hin] at h

/-- The link records after `GATTC_ConfigureMTU` on the path where a request is sent: the link
of `conn_id` has the desired MTU recorded when the status is `GATT_SUCCESS` or
`GATT_CMD_STARTED` and is as before otherwise; every other link record is as before. -/
theorem GATTC_ConfigureMTU_link (P : ClientPlatform) (cb : tGATT_CB) (conn_id mtu : Nat)
    (p_tcb : tGATT_TCB) (p_reg : tGATT_REG) (i : Nat) (c : tGATT_CLCB) (cb1 : tGATT_CB)
    (htcb : gatt_get_tcb_by_idx cb (GATT_GET_TCB_IDX conn_id) = some p_tcb)
    (hreg : gatt_get_regcb cb (GATT_GET_GATT_IF conn_id) = some p_reg)
    (hmtu : ¬ (mtu < P.GATT_DEF_BLE_MTU_SIZE ∨ mtu > P.GATT_MAX_MTU_SIZE))
    (hle : p_tcb.transport = P.BT_TRANSPORT_LE)
    (hfree : gatt_is_clcb_allocated cb conn_id = false)
    (halloc : gatt_clcb_alloc cb conn_id = some (i, c, cb1)) :
    gatt_get_tcb_by_idx (GATTC_ConfigureMTU P cb conn_id mtu).2 (GATT_GET_TCB_IDX conn_id) =
      some (if (GATTC_ConfigureMTU P cb conn_id mtu).1 = P.GATT_SUCCESS ∨
          (GATTC_ConfigureMTU P cb conn_id mtu).1 = P.GATT_CMD_STARTED then
        { p_tcb with pending_user_mtu_exchange_value := mtu } else p_tcb) ∧
    ∀ j, j ≠ GATT_GET_TCB_IDX conn_id →
      (GATTC_ConfigureMTU P cb conn_id mtu).2.tcb[j]? = cb.tcb[j]? := by
  obtain ⟨_, _, _, _, h5⟩ :=
    GATTC_ConfigureMTU_sends P cb conn_id mtu p_tcb p_reg i c cb1 htcb hreg hmtu hle hfree halloc
  obtain ⟨hget, hin⟩ := gatt_get_tcb_by_idx_some cb _ p_tcb htcb
  by_cases hok : (GATTC_ConfigureMTU P cb conn_id mtu).1 = P.GATT_SUCCESS ∨
      (GATTC_ConfigureMTU P cb conn_id mtu).1 = P.GATT_CMD_STARTED
  · rw [if_pos hok] at h5 ⊢
    constructor
    · unfold gatt_get_tcb_by_idx
      rw [h5, tcb_write_getElem?]
      simp [hget, hin]
    · intro j hj
      rw [h5, tcb_write_getElem?]
      simp [hj]
  · rw [if_neg hok] at h5 ⊢
    constructor
    · unfold gatt_get_tcb_by_idx
      rw [h5]
      simp [hget, hin]
    · intro j _
      rw [h5]

/-- C15. MTU request value. For every call of `GATTC_ConfigureMTU` that passes validation
(known link and application, MTU in range, LE link, no live transaction for `conn_id`) and
obtains a transaction record, exactly one request is handed to the transport, with the MTU
`GATT_MAX_MTU_SIZE` whatever the caller's `mtu`; the function returns the status of that
send; the link record of `conn_id` is the old one with `pending_user_mtu_exchange_value` set
to `mtu` when the status is `GATT_SUCCESS` or `GATT_CMD_STARTED`, and the old one unchanged
otherwise, so its `payload_size` is never modified; no other link record changes. -/
theorem configure_mtu_request_value (P : ClientPlatform) (cb : tGATT_CB) (conn_id mtu : Nat)
    (p_tcb : tGATT_TCB) (p_reg : tGATT_REG) (i : Nat) (c : tGATT_CLCB) (cb1 : tGATT_CB)
    (htcb : gatt_get_tcb_by_idx cb (GATT_GET_TCB_IDX conn_id) = some p_tcb)
    (hreg : gatt_get_regcb cb (GATT_GET_GATT_IF conn_id) = some p_reg)
    (hlo : P.GATT_DEF_BLE_MTU_SIZE ≤ mtu) (hhi : mtu ≤ P.GATT_MAX_MTU_SIZE)
    (hle : p_tcb.transport = P.BT_TRANSPORT_LE)
    (hfree : gatt_is_clcb_allocated cb conn_id = false)
    (halloc : gatt_clcb_alloc cb conn_id = some (i, c, cb1)) :
    (GATTC_ConfigureMTU P cb conn_id mtu).2.att_cl_sent =
      cb.att_cl_sent ++ [mtu_request P (GATT_GET_TCB_IDX conn_id) i p_tcb.att_lcid] ∧
    (mtu_request P (GATT_GET_TCB_IDX conn_id) i p_tcb.att_lcid).mtu = P.GATT_MAX_MTU_SIZE ∧
    (mtu_request P (GATT_GET_TCB_IDX conn_id) i p_tcb.att_lcid).op_code = P.GATT_REQ_MTU ∧
    (GATTC_ConfigureMTU P cb conn_id mtu).1 =
      P.attp_send_cl_msg_status cb.att_cl_sent
        (mtu_request P (GATT_GET_TCB_IDX conn_id) i p_tcb.att_lcid) ∧
    gatt_get_tcb_by_idx (GATTC_ConfigureMTU P cb conn_id mtu).2 (GATT_GET_TCB_IDX conn_id) =
      some (if (GATTC_ConfigureMTU P cb conn_id mtu).1 = P.GATT_SUCCESS ∨
          (GATTC_ConfigureMTU P cb conn_id mtu).1 = P.GATT_CMD_STARTED then
        { p_tcb with pending_user_mtu_exchange_value := mtu } else p_tcb) ∧
    (∀ t, gatt_get_tcb_by_idx (GATTC_ConfigureMTU P cb conn_id mtu).2
        (GATT_GET_TCB_IDX conn_id) = some t → t.payload_size = p_tcb.payload_size) ∧
    (∀ j, j ≠ GATT_GET_TCB_IDX conn_id →
      (GATTC_ConfigureMTU P cb conn_id mtu).2.tcb[j]? = cb.tcb[j]?) := by
  have hmtu : ¬ (mtu < P.GATT_DEF_BLE_MTU_SIZE ∨ mtu > P.GATT_MAX_MTU_SIZE) := by omega
  obtain ⟨h1, h2, _, _, _⟩ :=
    GATTC_ConfigureMTU_sends P cb conn_id mtu p_tcb p_reg i c cb1 htcb hreg hmtu hle hfree halloc
  obtain ⟨h6, h7⟩ :=
    GATTC_ConfigureMTU_link P cb conn_id mtu p_tcb p_reg i c cb1 htcb hreg hmtu hle hfree halloc
  refine ⟨h2, rfl, rfl, h1, h6, ?_, h7⟩
  intro t ht
  rw [h6] at ht
  simp only [Option.some.injEq] at ht
  subst ht
  split <;> rfl

/-- C15, witness: application 1 asks for MTU 100 on the LE link of `sample_client_cb`
(connection identifier 0x0001); the request carries 517 and the link records 100 as the
desired value, with its payload size still 23. -/
theorem configure_mtu_request_value_witness :
    gatt_is_clcb_allocated sample_client_cb 0x0001 = false ∧
    (GATTC_ConfigureMTU stockClientPlatform sample_client_cb 0x0001 100).2.att_cl_sent =
      [{ tcb_idx := 0, clcb_idx := 0, lcid := 4, op_code := 2, mtu := 517 }] ∧
    (GATTC_ConfigureMTU stockClientPlatform sample_client_cb 0x0001 100).1 = 0 ∧
    gatt_get_tcb_by_idx (GATTC_ConfigureMTU stockClientPlatform sample_client_cb 0x0001 100).2 0 =
      some { in_use := true, tcb_idx := 0, peer_bda := 0xB0, transport := 2, att_lcid := 4,
             ch_state := 4, payload_size := 23, app_hold_link := [1, 2],
             pending_user_mtu_exchange_value := 100 } := by
  have hfree : gatt_is_clcb_allocated sample_client_cb 0x0001 = false := by decide
  have h := configure_mtu_request_value stockClientPlatform sample_client_cb 0x0001 100
    { in_use := true, tcb_idx := 0, peer_bda := 0xB0, transport := 2, att_lcid := 4,
      ch_state := 4, payload_size := 23, app_hold_link := [1, 2] }
    { app_uuid128 := { val := 0xA1 }, gatt_if := 1, in_use := true }
    0 { in_use := true, conn_id := 0x0001, p_reg := some 0, p_tcb := some 0 }
    { sample_client_cb with
      clcb := [{ in_use := true, conn_id := 0x0001, p_reg := some 0, p_tcb := some 0 },
               {}, {}, {}] }
    (by decide) (by decide) (by decide) (by decide) (by decide) hfree (by decide)
  exact ⟨hfree, h.1, h.2.2.2.1, h.2.2.2.2.1⟩

/-- C16. MTU configure rejection. With the status constants of the header distinct and a
transport that does not answer `GATT_ILLEGAL_PARAMETER` to an MTU request within the maximum,
`GATTC_ConfigureMTU` returns `GATT_ILLEGAL_PARAMETER` exactly when the link or the
application of `conn_id` is unknown or `mtu` is below `GATT_DEF_BLE_MTU_SIZE` or above
`GATT_MAX_MTU_SIZE`; otherwise it returns `GATT_ERROR` when the link is not LE; otherwise
`GATT_BUSY` when a live transaction exists for `conn_id`; in each of these cases the control
block is left as it was (no record allocated, nothing sent, link record unchanged). The
boundary values `GATT_DEF_BLE_MTU_SIZE` and `GATT_MAX_MTU_SIZE` are not rejected as
illegal. -/
theorem configure_mtu_rejection (P : ClientPlatform) (cb : tGATT_CB) (conn_id mtu : Nat)
    (hconst : P.GATT_ILLEGAL_PARAMETER ≠ P.GATT_ERROR ∧
      P.GATT_ILLEGAL_PARAMETER ≠ P.GATT_BUSY ∧
      P.GATT_ILLEGAL_PARAMETER ≠ P.GATT_NO_RESOURCES)
    (hsend : ∀ log msg, msg.op_code = P.GATT_REQ_MTU → msg.mtu ≤ P.GATT_MAX_MTU_SIZE →
      P.attp_send_cl_msg_status log msg ≠ P.GATT_ILLEGAL_PARAMETER)
    (hrange : P.GATT_DEF_BLE_MTU_SIZE ≤ P.GATT_MAX_MTU_SIZE) :
    ((GATTC_ConfigureMTU P cb conn_id mtu).1 = P.GATT_ILLEGAL_PARAMETER ↔
      (gatt_get_tcb_by_idx cb (GATT_GET_TCB_IDX conn_id) = none ∨
        gatt_get_regcb cb (GATT_GET_GATT_IF conn_id) = none ∨
        mtu < P.GATT_DEF_BLE_MTU_SIZE ∨ mtu > P.GATT_MAX_MTU_SIZE)) ∧
    ((gatt_get_tcb_by_idx cb (GATT_GET_TCB_IDX conn_id) = none ∨
        gatt_get_regcb cb (GATT_GET_GATT_IF conn_id) = none ∨
        mtu < P.GATT_DEF_BLE_MTU_SIZE ∨ mtu > P.GATT_MAX_MTU_SIZE) →
      GATTC_ConfigureMTU P cb conn_id mtu = (P.GATT_ILLEGAL_PARAMETER, cb)) ∧
    (∀ p_tcb p_reg, gatt_get_tcb_by_idx cb (GATT_GET_TCB_IDX conn_id) = some p_tcb →
      gatt_get_regcb cb (GATT_GET_GATT_IF conn_id) = some p_reg →
      P.GATT_DEF_BLE_MTU_SIZE ≤ mtu → mtu ≤ P.GATT_MAX_MTU_SIZE →
      (p_tcb.transport ≠ P.BT_TRANSPORT_LE →
        GATTC_ConfigureMTU P cb conn_id mtu = (P.GATT_ERROR, cb)) ∧
      (p_tcb.transport = P.BT_TRANSPORT_LE → gatt_is_clcb_allocated cb conn_id = true →
        GATTC_ConfigureMTU P cb conn_id mtu = (P.GATT_BUSY, cb))) ∧
    (gatt_get_tcb_by_idx cb (GATT_GET_TCB_IDX conn_id) ≠ none →
      gatt_get_regcb cb (GATT_GET_GATT_IF conn_id) ≠ none →
      (GATTC_ConfigureMTU P cb conn_id P.GATT_DEF_BLE_MTU_SIZE).1 ≠ P.GATT_ILLEGAL_PARAMETER ∧
      (GATTC_ConfigureMTU P cb conn_id P.GATT_MAX_MTU_SIZE).1 ≠ P.GATT_ILLEGAL_PARAMETER) := by
  have hrej : ∀ m, (gatt_get_tcb_by_idx cb (GATT_GET_TCB_IDX conn_id) = none ∨
        gatt_get_regcb cb (GATT_GET_GATT_IF conn_id) = none ∨
        m < P.GATT_DEF_BLE_MTU_SIZE ∨ m > P.GATT_MAX_MTU_SIZE) →
      GATTC_ConfigureMTU P cb conn_id m = (P.GATT_ILLEGAL_PARAMETER, cb) := by
    intro m h
    unfold GATTC_ConfigureMTU
    dsimp only
    rcases h with h | h | h
    · rw [h]
    · rw [h]
      split <;> rfl
    · split
      · rfl
      · split
        · rfl
        · rw [if_pos h]
  have hacc : ∀ m p_tcb p_reg, gatt_get_tcb_by_idx cb (GATT_GET_TCB_IDX conn_id) = some p_tcb →
      gatt_get_regcb cb (GATT_GET_GATT_IF conn_id) = some p_reg →
      P.GATT_DEF_BLE_MTU_SIZE ≤ m → m ≤ P.GATT_MAX_MTU_SIZE →
      (GATTC_ConfigureMTU P cb conn_id m).1 ≠ P.GATT_ILLEGAL_PARAMETER := by
    intro m p_tcb p_reg htcb hreg hlo hhi
    have hmtu : ¬ (m < P.GATT_DEF_BLE_MTU_SIZE ∨ m > P.GATT_MAX_MTU_SIZE) := by omega
    by_cases hle : p_tcb.transport = P.BT_TRANSPORT_LE
    · cases hbusy : gatt_is_clcb_allocated cb conn_id with
      | true =>
        unfold GATTC_ConfigureMTU
        simp only [htcb, hreg, hmtu, hle, hbusy, if_false, if_true, ne_eq, not_true_eq_false]
        exact fun e => hconst.2.1 e.symm
      | false =>
        cases halloc : gatt_clcb_alloc cb conn_id with
        | none =>
          unfold GATTC_ConfigureMTU
          simp only [htcb, hreg, hmtu, hle, hbusy, halloc, if_false, ne_eq, not_true_eq_false,
            Bool.false_eq_true]
          exact fun e => hconst.2.2 e.symm
        | some r =>
          obtain ⟨i, c, cb1⟩ := r
          rw [(GATTC_ConfigureMTU_sends P cb conn_id m p_tcb p_reg i c cb1 htcb hreg hmtu hle
            hbusy halloc).1]
          exact hsend _ _ rfl (Nat.le_refl _)
    · unfold GATTC_ConfigureMTU
      simp only [htcb, hreg, hmtu, hle, if_false, if_true, ne_eq, not_false_eq_true]
      exact fun e => hconst.1 e.symm
  refine ⟨⟨?_, fun h => by rw [hrej mtu h]⟩, hrej mtu, ?_, ?_⟩
  · intro hill
    by_contra hno
    simp only [not_or] at hno
    obtain ⟨h1, h2, h3, h4⟩ := hno
    cases htcb : gatt_get_tcb_by_idx cb (GATT_GET_TCB_IDX conn_id) with
    | none => exact h1 htcb
    | some p_tcb =>
      cases hreg : gatt_get_regcb cb (GATT_GET_GATT_IF conn_id) with
      | none => exact h2 hreg
      | some p_reg => exact hacc mtu p_tcb p_reg htcb hreg (by omega) (by omega) hill
  · intro p_tcb p_reg htcb hreg hlo hhi
    have hmtu : ¬ (mtu < P.GATT_DEF_BLE_MTU_SIZE ∨ mtu > P.GATT_MAX_MTU_SIZE) := by omega
    constructor
    · intro hle
      unfold GATTC_ConfigureMTU
      simp only [htcb, hreg, hmtu, hle, if_false, if_true, ne_eq, not_false_eq_true]
    · intro hle hbusy
      unfold GATTC_ConfigureMTU
      simp only [htcb, hreg, hmtu, hle, hbusy, if_false, if_true, ne_eq, not_true_eq_false]
  · intro htcb hreg
    cases htcb1 : gatt_get_tcb_by_idx cb (GATT_GET_TCB_IDX conn_id) with
    | none => exact absurd htcb1 htcb
    | some p_tcb =>
      cases hreg1 : gatt_get_regcb cb (GATT_GET_GATT_IF conn_id) with
      | none => exact absurd hreg1 hreg
      | some p_reg =>
        exact ⟨hacc _ p_tcb p_reg htcb1 hreg1 (Nat.le_refl _) hrange,
          hacc _ p_tcb p_reg htcb1 hreg1 hrange (Nat.le_refl _)⟩

/-- C16, witness: on `sample_client_cb`, application 1 is refused with
`GATT_ILLEGAL_PARAMETER` for MTU 22 on the LE link, with `GATT_ERROR` on the BR/EDR link
(connection identifier 0x0101), and with `GATT_BUSY` on the LE link while its read is live
(`sample_cb_reading`); the boundary values 23 and 517 are not refused as illegal. -/
theorem configure_mtu_rejection_witness :
    GATTC_ConfigureMTU stockClientPlatform sample_client_cb 0x0001 22 =
      (stockClientPlatform.GATT_ILLEGAL_PARAMETER, sample_client_cb) ∧
    GATTC_ConfigureMTU stockClientPlatform sample_client_cb 0x0101 100 =
      (stockClientPlatform.GATT_ERROR, sample_client_cb) ∧
    GATTC_ConfigureMTU stockClientPlatform sample_cb_reading 0x0001 100 =
      (stockClientPlatform.GATT_BUSY, sample_cb_reading) ∧
    (GATTC_ConfigureMTU stockClientPlatform sample_client_cb 0x0001 23).1 ≠
      stockClientPlatform.GATT_ILLEGAL_PARAMETER ∧
    (GATTC_ConfigureMTU stockClientPlatform sample_client_cb 0x0001 517).1 ≠
      stockClientPlatform.GATT_ILLEGAL_PARAMETER := by
  have hconst : stockClientPlatform.GATT_ILLEGAL_PARAMETER ≠ stockClientPlatform.GATT_ERROR ∧
      stockClientPlatform.GATT_ILLEGAL_PARAMETER ≠ stockClientPlatform.GATT_BUSY ∧
      stockClientPlatform.GATT_ILLEGAL_PARAMETER ≠ stockClientPlatform.GATT_NO_RESOURCES := by
    decide
  have hsend : ∀ (log : List tATT_CL_SENT) (msg : tATT_CL_SENT),
      msg.op_code = stockClientPlatform.GATT_REQ_MTU →
      msg.mtu ≤ stockClientPlatform.GATT_MAX_MTU_SIZE →
      stockClientPlatform.attp_send_cl_msg_status log msg ≠
        stockClientPlatform.GATT_ILLEGAL_PARAMETER := by
    intro log msg _ _
    show (0 : Nat) ≠ stockClientPlatform.GATT_ILLEGAL_PARAMETER
    decide
  have hrange : stockClientPlatform.GATT_DEF_BLE_MTU_SIZE ≤
      stockClientPlatform.GATT_MAX_MTU_SIZE := by decide
  have h1 := configure_mtu_rejection stockClientPlatform sample_client_cb 0x0001 22
    hconst hsend hrange
  have h2 := configure_mtu_rejection stockClientPlatform sample_client_cb 0x0101 100
    hconst hsend hrange
  have h3 := configure_mtu_rejection stockClientPlatform sample_cb_reading 0x0001 100
    hconst hsend hrange
  exact ⟨h1.2.1 (by decide),
    (h2.2.2.1 { in_use := true, tcb_idx := 1, peer_bda := 0xB1, transport := 1,
                att_lcid := 0x40, ch_state := 4, payload_size := 672, app_hold_link := [1, 2] }
      { app_uuid128 := { val := 0xA1 }, gatt_if := 1, in_use := true }
      (by decide) (by decide) (by decide) (by decide)).1 (by decide),
    (h3.2.2.1 { in_use := true, tcb_idx := 0, peer_bda := 0xB0, transport := 2, att_lcid := 4,
                ch_state := 4, payload_size := 23, app_hold_link := [1, 2] }
      { app_uuid128 := { val := 0xA1 }, gatt_if := 1, in_use := true }
      (by decide) (by decide) (by decide) (by decide)).2 (by decide) (by decide),
    h1.2.2.2 (by decide) (by decide)⟩

/-- C17. The MTU probe on a peer without a link record. On `sample_client_cb`, which has no
link record for peer 0xB9, `GATTC_TryMtuRequest` on the LE transport returns
`MTU_EXCHANGE_DEVICE_DISCONNECTED`, not `MTU_EXCHANGE_NOT_ALLOWED`; `current_mtu` is
`GATT_DEF_BLE_MTU_SIZE` and the control block is unchanged. On BR/EDR the same peer gets
`MTU_EXCHANGE_NOT_ALLOWED`. -/
theorem try_mtu_request_unknown_peer_disconnected :
    gatt_find_tcb_by_addr sample_client_cb 0xB9 stockClientPlatform.BT_TRANSPORT_LE = none ∧
    gatt_find_tcb_by_addr sample_client_cb 0xB9 stockClientPlatform.BT_TRANSPORT_BR_EDR = none ∧
    GATTC_TryMtuRequest stockClientPlatform sample_client_cb 0xB9
        stockClientPlatform.BT_TRANSPORT_LE 0x0001 =
      (tGATTC_TryMtuRequestResult.MTU_EXCHANGE_DEVICE_DISCONNECTED,
        stockClientPlatform.GATT_DEF_BLE_MTU_SIZE, sample_client_cb) ∧
    GATTC_TryMtuRequest stockClientPlatform sample_client_cb 0xB9
        stockClientPlatform.BT_TRANSPORT_BR_EDR 0x0001 =
      (tGATTC_TryMtuRequestResult.MTU_EXCHANGE_NOT_ALLOWED,
        stockClientPlatform.GATT_DEF_BLE_MTU_SIZE, sample_client_cb) := by
  decide

/-- The link record that `gatt_find_tcb_by_addr` finds: in use, of the peer, on the
transport. -/
theorem gatt_find_tcb_by_addr_some (cb : tGATT_CB) (bda transport i : Nat)
    (h : gatt_find_tcb_by_addr cb bda transport = some i) :
    ∃ p_tcb, cb.tcb[i]? = some p_tcb ∧ p_tcb.in_use = true ∧ p_tcb.peer_bda = bda ∧
      p_tcb.transport = transport := by
  unfold gatt_find_tcb_by_addr at h
  obtain ⟨_, x, _, _, _, hx, _, hget, _⟩ := find_first_some _ _ _ h
  simp only [Bool.and_eq_true, decide_eq_true_eq] at hx
  exact ⟨x, hget, hx.1.1, hx.1.2, hx.2⟩

/-- C18. MTU probe result. `GATTC_TryMtuRequest` returns `MTU_EXCHANGE_NOT_ALLOWED` when the
transport is BR/EDR; otherwise `MTU_EXCHANGE_DEVICE_DISCONNECTED` when the peer has no link
record; otherwise, with `p_tcb` the link record found at position `i`,
`MTU_EXCHANGE_IN_PROGRESS` when an exchange is pending on the link, after `conn_id` is put at
the end of the waiter list of that link; otherwise `MTU_EXCHANGE_NOT_DONE_YET` when the MTU
of the link is 0 or `GATT_DEF_BLE_MTU_SIZE`; otherwise `MTU_EXCHANGE_ALREADY_DONE`.
`current_mtu` is the MTU of the link in the last case and `GATT_DEF_BLE_MTU_SIZE` in every
other case, and the control block is unchanged in every case but the pending one. -/
theorem try_mtu_request_result (P : ClientPlatform) (cb : tGATT_CB)
    (remote_bda transport conn_id : Nat) :
    (transport = P.BT_TRANSPORT_BR_EDR →
      GATTC_TryMtuRequest P cb remote_bda transport conn_id =
        (tGATTC_TryMtuRequestResult.MTU_EXCHANGE_NOT_ALLOWED, P.GATT_DEF_BLE_MTU_SIZE, cb)) ∧
    (transport ≠ P.BT_TRANSPORT_BR_EDR →
      gatt_find_tcb_by_addr cb remote_bda transport = none →
      GATTC_TryMtuRequest P cb remote_bda transport conn_id =
        (tGATTC_TryMtuRequestResult.MTU_EXCHANGE_DEVICE_DISCONNECTED,
          P.GATT_DEF_BLE_MTU_SIZE, cb)) ∧
    (∀ i, transport ≠ P.BT_TRANSPORT_BR_EDR →
      gatt_find_tcb_by_addr cb remote_bda transport = some i →
      ∃ p_tcb, cb.tcb[i]? = some p_tcb ∧
        (P.gatt_is_pending_mtu_exchange p_tcb = true →
          GATTC_TryMtuRequest P cb remote_bda transport conn_id =
            (tGATTC_TryMtuRequestResult.MTU_EXCHANGE_IN_PROGRESS, P.GATT_DEF_BLE_MTU_SIZE,
              { cb with tcb := cb.tcb.set i (enqueue_waiter p_tcb conn_id) })) ∧
        (P.gatt_is_pending_mtu_exchange p_tcb = false →
          (p_tcb.payload_size = 0 ∨ p_tcb.payload_size = P.GATT_DEF_BLE_MTU_SIZE) →
          GATTC_TryMtuRequest P cb remote_bda transport conn_id =
            (tGATTC_TryMtuRequestResult.MTU_EXCHANGE_NOT_DONE_YET,
              P.GATT_DEF_BLE_MTU_SIZE, cb)) ∧
        (P.gatt_is_pending_mtu_exchange p_tcb = false →
          p_tcb.payload_size ≠ 0 → p_tcb.payload_size ≠ P.GATT_DEF_BLE_MTU_SIZE →
          GATTC_TryMtuRequest P cb remote_bda transport conn_id =
            (tGATTC_TryMtuRequestResult.MTU_EXCHANGE_ALREADY_DONE, p_tcb.payload_size, cb))) := by
  refine ⟨?_, ?_, ?_⟩
  · intro ht
    unfold GATTC_TryMtuRequest
    simp only [ht, if_true]
  · intro ht hfind
    unfold GATTC_TryMtuRequest
    simp only [ht, hfind, if_false]
  · intro i ht hfind
    obtain ⟨p_tcb, hget, _, _, _⟩ := gatt_find_tcb_by_addr_some cb remote_bda transport i hfind
    have hmtu : gatt_get_mtu cb remote_bda transport = p_tcb.payload_size := by
      unfold gatt_get_mtu
      simp only [hfind, hget]
    refine ⟨p_tcb, hget, ?_, ?_, ?_⟩
    · intro hp
      unfold GATTC_TryMtuRequest
      simp only [ht, hfind, hget, hp, if_false, if_true,
        gatt_set_conn_id_waiting_for_mtu_exchange, tcb_write, enqueue_waiter]
    · intro hp hsize
      unfold GATTC_TryMtuRequest
      have hcond : gatt_get_mtu cb remote_bda transport = P.GATT_DEF_BLE_MTU_SIZE ∨
          gatt_get_mtu cb remote_bda transport = 0 := by
        rw [hmtu]
        exact hsize.symm
      simp only [ht, hfind, hget, hp, if_false, Bool.false_eq_true, hcond, if_true]
    · intro hp h0 hdef
      unfold GATTC_TryMtuRequest
      have hcond : ¬ (gatt_get_mtu cb remote_bda transport = P.GATT_DEF_BLE_MTU_SIZE ∨
          gatt_get_mtu cb remote_bda transport = 0) := by
        rw [hmtu]
        exact fun h => h.elim hdef h0
      rw [hmtu] at hcond
      simp only [ht, hfind, hget, hp, if_false, Bool.false_eq_true, hmtu, hcond]

/-- C18, witness: on `sample_cb_mtu_pending` the probe of application 2 for peer 0xB0 on LE
finds the link record at position 0 and, an exchange being pending, returns
`MTU_EXCHANGE_IN_PROGRESS` with `current_mtu` 23 after enqueuing 0x0002; on BR/EDR it
returns `MTU_EXCHANGE_NOT_ALLOWED`. -/
theorem try_mtu_request_result_witness :
    gatt_find_tcb_by_addr sample_cb_mtu_pending 0xB0 2 = some 0 ∧
    (GATTC_TryMtuRequest stockClientPlatform sample_cb_mtu_pending 0xB0 2 0x0002).1 =
      tGATTC_TryMtuRequestResult.MTU_EXCHANGE_IN_PROGRESS ∧
    (GATTC_TryMtuRequest stockClientPlatform sample_cb_mtu_pending 0xB0 2 0x0002).2.1 = 23 ∧
    ((GATTC_TryMtuRequest stockClientPlatform sample_cb_mtu_pending 0xB0 2 0x0002).2.2.tcb.map
      (fun t => t.conn_ids_waiting_for_mtu_exchange)) = [[0x0002, 0x0001, 0x0002], []] ∧
    GATTC_TryMtuRequest stockClientPlatform sample_cb_mtu_pending 0xB0 1 0x0002 =
      (tGATTC_TryMtuRequestResult.MTU_EXCHANGE_NOT_ALLOWED, 23, sample_cb_mtu_pending) := by
  have h := try_mtu_request_result stockClientPlatform sample_cb_mtu_pending 0xB0 2 0x0002
  have h1 := try_mtu_request_result stockClientPlatform sample_cb_mtu_pending 0xB0 1 0x0002
  have hfind : gatt_find_tcb_by_addr sample_cb_mtu_pending 0xB0 2 = some 0 := by decide
  obtain ⟨p_tcb, hget, hpending, _, _⟩ := h.2.2 0 (by decide) hfind
  have hp : p_tcb = (sample_cb_mtu_pending.tcb[0]?).getD {} := by
    rw [hget]
    rfl
  subst hp
  have hres := hpending (by decide)
  refine ⟨hfind, ?_, ?_, ?_, h1.1 (by decide)⟩
  · rw [hres]
  · rw [hres]
    decide
  · rw [hres]
    decide

/-- C19, counterexample. On `sample_client_cb`, applications 1 and 2 call
`GATTC_ConfigureMTU` on the LE link (connection identifiers 0x0001 and 0x0002, MTU 100 and
200, neither with a live transaction) before any result arrives: both calls return
`GATT_SUCCESS` and two MTU exchange requests are handed to the transport. -/
theorem configure_mtu_twice_sends_two_requests :
    gatt_is_clcb_allocated sample_client_cb 0x0001 = false ∧
    gatt_is_clcb_allocated sample_client_cb 0x0002 = false ∧
    (GATTC_ConfigureMTU stockClientPlatform sample_client_cb 0x0001 100).1 =
      stockClientPlatform.GATT_SUCCESS ∧
    (GATTC_ConfigureMTU stockClientPlatform
      (GATTC_ConfigureMTU stockClientPlatform sample_client_cb 0x0001 100).2 0x0002 200).1 =
      stockClientPlatform.GATT_SUCCESS ∧
    (GATTC_ConfigureMTU stockClientPlatform
      (GATTC_ConfigureMTU stockClientPlatform sample_client_cb 0x0001 100).2 0x0002 200).2.att_cl_sent =
      [{ tcb_idx := 0, clcb_idx := 0, lcid := 4, op_code := 2, mtu := 517 },
       { tcb_idx := 0, clcb_idx := 1, lcid := 4, op_code := 2, mtu := 517 }] ∧
    ((GATTC_ConfigureMTU stockClientPlatform
      (GATTC_ConfigureMTU stockClientPlatform sample_client_cb 0x0001 100).2 0x0002 200).2.att_cl_sent.countP
        (fun msg => decide (msg.op_code = stockClientPlatform.GATT_REQ_MTU))) ≠ 1 := by
  decide

/-- A connection identifier without a live transaction has none after a record is made the
live record of another connection identifier. -/
theorem gatt_is_clcb_allocated_set (cb cb1 : tGATT_CB) (conn_id i : Nat) (c : tGATT_CLCB)
    (hfree : gatt_is_clcb_allocated cb conn_id = false) (hc : c.conn_id ≠ conn_id)
    (hclcb : cb1.clcb = cb.clcb.set i c) : gatt_is_clcb_allocated cb1 conn_id = false := by
  unfold gatt_is_clcb_allocated at hfree ⊢
  rw [hclcb, List.any_eq_false]
  intro x hx
  rcases List.mem_or_eq_of_mem_set hx with hx | hx
  · exact List.any_eq_false.1 hfree x hx
  · subst hx
    simp [hc]

/-- C19, amended. For every LE link and every two `GATTC_ConfigureMTU` calls made on that
link by two different connection identifiers with valid MTU values, neither having a live
transaction, each call that obtains a transaction record hands its own MTU exchange request
to the transport: after the two calls the transport has been handed exactly the two requests,
one per call, each with `GATT_MAX_MTU_SIZE`. -/
theorem configure_mtu_one_request_per_call (P : ClientPlatform) (cb : tGATT_CB)
    (conn1 conn2 mtu1 mtu2 : Nat) (p_tcb : tGATT_TCB) (p_reg1 p_reg2 : tGATT_REG)
    (i1 i2 : Nat) (c1 c2 : tGATT_CLCB) (cb1 cb2 : tGATT_CB)
    (hlink : GATT_GET_TCB_IDX conn2 = GATT_GET_TCB_IDX conn1)
    (hne : conn1 ≠ conn2)
    (htcb : gatt_get_tcb_by_idx cb (GATT_GET_TCB_IDX conn1) = some p_tcb)
    (hle : p_tcb.transport = P.BT_TRANSPORT_LE)
    (hreg1 : gatt_get_regcb cb (GATT_GET_GATT_IF conn1) = some p_reg1)
    (hreg2 : gatt_get_regcb cb (GATT_GET_GATT_IF conn2) = some p_reg2)
    (hlo1 : P.GATT_DEF_BLE_MTU_SIZE ≤ mtu1) (hhi1 : mtu1 ≤ P.GATT_MAX_MTU_SIZE)
    (hlo2 : P.GATT_DEF_BLE_MTU_SIZE ≤ mtu2) (hhi2 : mtu2 ≤ P.GATT_MAX_MTU_SIZE)
    (hfree1 : gatt_is_clcb_allocated cb conn1 = false)
    (hfree2 : gatt_is_clcb_allocated cb conn2 = false)
    (halloc1 : gatt_clcb_alloc cb conn1 = some (i1, c1, cb1))
    (halloc2 : gatt_clcb_alloc (GATTC_ConfigureMTU P cb conn1 mtu1).2 conn2 = some (i2, c2, cb2)) :
    (GATTC_ConfigureMTU P (GATTC_ConfigureMTU P cb conn1 mtu1).2 conn2 mtu2).2.att_cl_sent =
      cb.att_cl_sent ++ [mtu_request P (GATT_GET_TCB_IDX conn1) i1 p_tcb.att_lcid,
        mtu_request P (GATT_GET_TCB_IDX conn1) i2 p_tcb.att_lcid] ∧
    (mtu_request P (GATT_GET_TCB_IDX conn1) i1 p_tcb.att_lcid).mtu = P.GATT_MAX_MTU_SIZE ∧
    (mtu_request P (GATT_GET_TCB_IDX conn1) i2 p_tcb.att_lcid).mtu = P.GATT_MAX_MTU_SIZE := by
  have hmtu1 : ¬ (mtu1 < P.GATT_DEF_BLE_MTU_SIZE ∨ mtu1 > P.GATT_MAX_MTU_SIZE) := by omega
  have hmtu2 : ¬ (mtu2 < P.GATT_DEF_BLE_MTU_SIZE ∨ mtu2 > P.GATT_MAX_MTU_SIZE) := by omega
  obtain ⟨_, hsent1, hclcb1, hrcb1, _⟩ :=
    GATTC_ConfigureMTU_sends P cb conn1 mtu1 p_tcb p_reg1 i1 c1 cb1 htcb hreg1 hmtu1 hle hfree1
      halloc1
  obtain ⟨hlink1, _⟩ :=
    GATTC_ConfigureMTU_link P cb conn1 mtu1 p_tcb p_reg1 i1 c1 cb1 htcb hreg1 hmtu1 hle hfree1
      halloc1
  obtain ⟨_, _, hc1, _, _⟩ := gatt_clcb_alloc_some cb conn1 i1 c1 cb1 halloc1
  have hreg2a : gatt_get_regcb (GATTC_ConfigureMTU P cb conn1 mtu1).2 (GATT_GET_GATT_IF conn2) =
      some p_reg2 := by
    rw [← hreg2]
    unfold gatt_get_regcb
    rw [hrcb1]
  have hfree2a : gatt_is_clcb_allocated (GATTC_ConfigureMTU P cb conn1 mtu1).2 conn2 = false :=
    gatt_is_clcb_allocated_set cb _ conn2 i1 _ hfree2 (by simpa [hc1] using hne) hclcb1
  rw [← hlink] at hlink1
  by_cases hok : (GATTC_ConfigureMTU P cb conn1 mtu1).1 = P.GATT_SUCCESS ∨
      (GATTC_ConfigureMTU P cb conn1 mtu1).1 = P.GATT_CMD_STARTED
  · rw [if_pos hok] at hlink1
    obtain ⟨_, hsent2, _⟩ :=
      GATTC_ConfigureMTU_sends P _ conn2 mtu2 _ p_reg2 i2 c2 cb2 hlink1 hreg2a hmtu2 hle hfree2a
        halloc2
    rw [hsent2, hsent1, hlink]
    exact ⟨by simp, rfl, rfl⟩
  · rw [if_neg hok] at hlink1
    obtain ⟨_, hsent2, _⟩ :=
      GATTC_ConfigureMTU_sends P _ conn2 mtu2 _ p_reg2 i2 c2 cb2 hlink1 hreg2a hmtu2 hle hfree2a
        halloc2
    rw [hsent2, hsent1, hlink]
    exact ⟨by simp, rfl, rfl⟩

/-- C19, witness: the two calls of applications 1 and 2 on the LE link of
`sample_client_cb` hand the transport two requests, both with MTU 517. -/
theorem configure_mtu_one_request_per_call_witness :
    gatt_is_clcb_allocated sample_client_cb 0x0001 = false ∧
    gatt_is_clcb_allocated sample_client_cb 0x0002 = false ∧
    (GATTC_ConfigureMTU stockClientPlatform
      (GATTC_ConfigureMTU stockClientPlatform sample_client_cb 0x0001 100).2 0x0002 200).2.att_cl_sent =
      sample_client_cb.att_cl_sent ++ [mtu_request stockClientPlatform 0 0 4,
        mtu_request stockClientPlatform 0 1 4] ∧
    (mtu_request stockClientPlatform 0 0 4).mtu = 517 ∧
    (mtu_request stockClientPlatform 0 1 4).mtu = 517 := by
  have hfree1 : gatt_is_clcb_allocated sample_client_cb 0x0001 = false := by decide
  have hfree2 : gatt_is_clcb_allocated sample_client_cb 0x0002 = false := by decide
  have h := configure_mtu_one_request_per_call stockClientPlatform sample_client_cb
    0x0001 0x0002 100 200 ((sample_client_cb.tcb[0]?).getD {})
    ((sample_client_cb.cl_rcb[0]?).getD {}) ((sample_client_cb.cl_rcb[1]?).getD {}) 0 1
    { in_use := true, conn_id := 0x0001, p_reg := some 0, p_tcb := some 0 }
    { in_use := true, conn_id := 0x0002, p_reg := some 1, p_tcb := some 0 }
    (((gatt_clcb_alloc sample_client_cb 0x0001).map (fun r => r.2.2)).getD {})
    (((gatt_clcb_alloc (GATTC_ConfigureMTU stockClientPlatform sample_client_cb 0x0001 100).2
      0x0002).map (fun r => r.2.2)).getD {})
    (by decide) (by decide) (by decide) (by decide) (by decide) (by decide) (by decide)
    (by decide) (by decide) (by decide) hfree1 hfree2 (by decide) (by decide)
  exact ⟨hfree1, hfree2, h.1, h.2.1, h.2.2⟩

/-- A search is not affected by rewriting an element into one with the same answer to the
test. -/
theorem find_first_set_same {α : Type} (p : α → Bool) (l : List α) (i : Nat) (x y : α)
    (hx : l[i]? = some x) (hp : p y = p x) : find_first p (l.set i y) = find_first p l := by
  induction l generalizing i with
  | nil => simp at hx
  | cons a as ih =>
    cases i with
    | zero =>
      simp only [List.getElem?_cons_zero, Option.some.injEq] at hx
      subst hx
      simp only [List.set_cons_zero, find_first, hp]
    | succ j =>
      simp only [List.getElem?_cons_succ] at hx
      simp only [List.set_cons_succ, find_first, ih j hx]

/-- C20. Waiter drain. For a peer without an LE link record
`GATTC_GetAndRemoveListOfConnIdsWaitingForMtuRequest` returns the empty list and leaves the
control block as it was. For a peer whose LE link record `p_tcb` is found at position `i`, it
returns the waiter list of that record as stored, and leaves the control block with that
record replaced by the same record with an empty waiter list (no other field of the record,
no other link record and nothing else in the control block changes); an immediately repeated
call returns the empty list and changes nothing. -/
theorem waiter_drain (P : ClientPlatform) (cb : tGATT_CB) (remote_bda : Nat) :
    (gatt_find_tcb_by_addr cb remote_bda P.BT_TRANSPORT_LE = none →
      GATTC_GetAndRemoveListOfConnIdsWaitingForMtuRequest P cb remote_bda = ([], cb)) ∧
    (∀ i, gatt_find_tcb_by_addr cb remote_bda P.BT_TRANSPORT_LE = some i →
      ∃ p_tcb, cb.tcb[i]? = some p_tcb ∧
        GATTC_GetAndRemoveListOfConnIdsWaitingForMtuRequest P cb remote_bda =
          (p_tcb.conn_ids_waiting_for_mtu_exchange,
            { cb with tcb := cb.tcb.set i (clear_waiters p_tcb) }) ∧
        GATTC_GetAndRemoveListOfConnIdsWaitingForMtuRequest P
            (GATTC_GetAndRemoveListOfConnIdsWaitingForMtuRequest P cb remote_bda).2 remote_bda =
          ([], (GATTC_GetAndRemoveListOfConnIdsWaitingForMtuRequest P cb remote_bda).2)) := by
  constructor
  · intro hfind
    unfold GATTC_GetAndRemoveListOfConnIdsWaitingForMtuRequest
    simp only [hfind]
  · intro i hfind
    obtain ⟨p_tcb, hget, _, _, _⟩ :=
      gatt_find_tcb_by_addr_some cb remote_bda P.BT_TRANSPORT_LE i hfind
    have hlt : i < cb.tcb.length := (List.getElem?_eq_some.1 hget).1
    have hfirst : GATTC_GetAndRemoveListOfConnIdsWaitingForMtuRequest P cb remote_bda =
        (p_tcb.conn_ids_waiting_for_mtu_exchange,
          { cb with tcb := cb.tcb.set i (clear_waiters p_tcb) }) := by
      unfold GATTC_GetAndRemoveListOfConnIdsWaitingForMtuRequest
      simp only [hfind, hget]
      by_cases hempty : p_tcb.conn_ids_waiting_for_mtu_exchange.isEmpty = true
      · rw [if_pos hempty]
        have hnil : p_tcb.conn_ids_waiting_for_mtu_exchange = [] :=
          List.isEmpty_iff.1 hempty
        have hsame : clear_waiters p_tcb = p_tcb := by
          unfold clear_waiters
          rw [← hnil]
        rw [hsame, hnil]
        have hset : cb.tcb.set i p_tcb = cb.tcb := by
          apply List.ext_getElem?
          intro j
          by_cases hj : i = j
          · subst hj
            simp [hlt, hget]
          · rw [List.getElem?_set_ne hj]
        rw [hset]
      · rw [if_neg hempty]
        simp only [tcb_write, hget, clear_waiters]
    refine ⟨p_tcb, hget, hfirst, ?_⟩
    rw [hfirst]
    have hfind2 : gatt_find_tcb_by_addr { cb with tcb := cb.tcb.set i (clear_waiters p_tcb) }
        remote_bda P.BT_TRANSPORT_LE = some i := by
      unfold gatt_find_tcb_by_addr at hfind ⊢
      dsimp only
      rw [find_first_set_same (fun p_tcb : tGATT_TCB => p_tcb.in_use &&
        decide (p_tcb.peer_bda = remote_bda) && decide (p_tcb.transport = P.BT_TRANSPORT_LE))
        cb.tcb i p_tcb (clear_waiters p_tcb) hget rfl]
      exact hfind
    unfold GATTC_GetAndRemoveListOfConnIdsWaitingForMtuRequest
    simp only [hfind2]
    simp [hlt, clear_waiters]

/-- C20, witness: on `sample_cb_mtu_pending` the drain for peer 0xB0 returns the waiters
0x0002 and 0x0001 in that order and leaves the LE link record with an empty waiter list and
its other fields as they were; a second drain returns the empty list. -/
theorem waiter_drain_witness :
    gatt_find_tcb_by_addr sample_cb_mtu_pending 0xB0 stockClientPlatform.BT_TRANSPORT_LE =
      some 0 ∧
    (GATTC_GetAndRemoveListOfConnIdsWaitingForMtuRequest stockClientPlatform
      sample_cb_mtu_pending 0xB0).1 = [0x0002, 0x0001] ∧
    (GATTC_GetAndRemoveListOfConnIdsWaitingForMtuRequest stockClientPlatform
      sample_cb_mtu_pending 0xB0).2.tcb[0]? =
      (sample_cb_mtu_pending.tcb[0]?).map clear_waiters ∧
    (GATTC_GetAndRemoveListOfConnIdsWaitingForMtuRequest stockClientPlatform
      (GATTC_GetAndRemoveListOfConnIdsWaitingForMtuRequest stockClientPlatform
        sample_cb_mtu_pending 0xB0).2 0xB0).1 = [] := by
  have hfind : gatt_find_tcb_by_addr sample_cb_mtu_pending 0xB0
      stockClientPlatform.BT_TRANSPORT_LE = some 0 := by decide
  obtain ⟨p_tcb, hget, hfirst, hsecond⟩ :=
    (waiter_drain stockClientPlatform sample_cb_mtu_pending 0xB0).2 0 hfind
  have hp : p_tcb = (sample_cb_mtu_pending.tcb[0]?).getD {} := by
    rw [hget]
    rfl
  subst hp
  refine ⟨hfind, ?_, ?_, ?_⟩
  · rw [hfirst]
    decide
  · rw [hfirst]
    decide
  · rw [hsecond]

/-- C26 (code defect, evaluated): `GATTS_AddHandleRange` of the range [0x50, 0x52] of service
0x5001 of application 1 on an empty handle list leaves a list of one value-initialised element,
whose assigned range is not the given one (start and end handle 0, empty UUIDs); on the handle
list that holds the range [0x40, 0x42] the same call puts that element, with start handle 0,
in front of the range that starts at 0x40, so the list is not in descending order. -/
theorem add_handle_range_stores_no_range :
    sample_cb.hdl_list_info = [] ∧
    (GATTS_AddHandleRange sample_cb sample_range).hdl_list_info = [{}] ∧
    (GATTS_AddHandleRange sample_cb sample_range).hdl_list_info.map
      (fun it => decide (it.asgn_range = sample_range)) = [false] ∧
    sample_cb_started.hdl_list_info.map
      (fun it => (it.asgn_range.s_handle, it.asgn_range.e_handle)) = [(0x40, 0x42)] ∧
    (GATTS_AddHandleRange sample_cb_started sample_range).hdl_list_info.map
      (fun it => (it.asgn_range.s_handle, it.asgn_range.e_handle)) = [(0, 0), (0x40, 0x42)] := by
  decide

/-- C27: for every successful `GATTS_AddService` (16-bit configured start handles, and
`GATT_SERVICE_STARTED` a status different from `GATT_INTERNAL_ERROR`), with `num_handles` the
value of `compute_service_size` for the element list, the new range is in the handle list and
has `e_handle = s_handle + num_handles - 1` as a sum of naturals, without wraparound, with
`1 ≤ num_handles` and `s_handle ≤ e_handle ≤ 0xFFFF`. -/
theorem add_service_range_bounds (P : Platform) (cb : tGATT_CB) (gatt_if : Nat)
    (service : List btgatt_db_element_t)
    (hne : P.GATT_INTERNAL_ERROR ≠ P.GATT_SERVICE_STARTED)
    (hcfg : hdl_cfg_16bit cb.hdl_cfg)
    (hok : (GATTS_AddService P cb gatt_if service).1 = P.GATT_SERVICE_STARTED) :
    ∃ list, list ∈ (GATTS_AddService P cb gatt_if service).2.2.hdl_list_info ∧
      (∀ p_reg, gatt_get_regcb cb gatt_if = some p_reg →
        list.asgn_range.app_uuid128 = p_reg.app_uuid128) ∧
      list.asgn_range.svc_uuid = (service.head?.map (fun first => first.uuid)).getD {} ∧
      1 ≤ compute_service_size P service ∧
      list.asgn_range.e_handle =
        list.asgn_range.s_handle + compute_service_size P service - 1 ∧
      list.asgn_range.s_handle ≤ list.asgn_range.e_handle ∧
      list.asgn_range.e_handle ≤ 0xFFFF := by
  obtain ⟨p_reg, first, others, hreg, hsvc, hn, hsp, _⟩ :=
    GATTS_AddService_started_inv P cb gatt_if service hne hok
  subst hsvc
  have hs := select_s_hdl_le P cb first.uuid hcfg
  have hlist := (GATTS_AddService_admitted P cb gatt_if p_reg first others hreg hn hsp).1
  have hmod : ((select_s_hdl P cb first.uuid).1 + compute_service_size P (first :: others) - 1)
      % 65536 = (select_s_hdl P cb first.uuid).1 + compute_service_size P (first :: others) - 1 :=
    Nat.mod_eq_of_lt (by omega)
  rw [hlist]
  refine ⟨⟨new_asgn_range P cb p_reg first (compute_service_size P (first :: others)),
    (add_service_loop P cb p_reg first others).2.1⟩, ?_, ?_, ?_, ?_, ?_, ?_, ?_⟩
  · rw [hdl_insert_mem]
    exact Or.inl rfl
  · intro q hq
    rw [hreg] at hq
    cases hq
    rfl
  · rfl
  · omega
  · show ((select_s_hdl P cb first.uuid).1 + compute_service_size P (first :: others) - 1)
      % 65536 = _
    rw [hmod]
    rfl
  · show (select_s_hdl P cb first.uuid).1 ≤
      ((select_s_hdl P cb first.uuid).1 + compute_service_size P (first :: others) - 1) % 65536
    rw [hmod]
    omega
  · show ((select_s_hdl P cb first.uuid).1 + compute_service_size P (first :: others) - 1)
      % 65536 ≤ 0xFFFF
    rw [hmod]
    omega

/-- Witness of C27: application 2 adds `sample_service` (3 handles) to `sample_cb`; the call
succeeds and the new range is [0x40, 0x42]. -/
theorem add_service_range_bounds_witness :
    (GATTS_AddService stockPlatform sample_cb 2 sample_service).1 =
      stockPlatform.GATT_SERVICE_STARTED ∧
    compute_service_size stockPlatform sample_service = 3 ∧
    (GATTS_AddService stockPlatform sample_cb 2 sample_service).2.2.hdl_list_info.map
      (fun it => (it.asgn_range.s_handle, it.asgn_range.e_handle)) = [(0x40, 0x42)] ∧
    ∃ list, list ∈ (GATTS_AddService stockPlatform sample_cb 2 sample_service).2.2.hdl_list_info ∧
      (∀ p_reg, gatt_get_regcb sample_cb 2 = some p_reg →
        list.asgn_range.app_uuid128 = p_reg.app_uuid128) ∧
      list.asgn_range.svc_uuid = (sample_service.head?.map (fun first => first.uuid)).getD {} ∧
      1 ≤ compute_service_size stockPlatform sample_service ∧
      list.asgn_range.e_handle =
        list.asgn_range.s_handle + compute_service_size stockPlatform sample_service - 1 ∧
      list.asgn_range.s_handle ≤ list.asgn_range.e_handle ∧
      list.asgn_range.e_handle ≤ 0xFFFF :=
  ⟨by decide, by decide, by decide,
    add_service_range_bounds stockPlatform sample_cb 2 sample_service (by decide) (by decide)
      (by decide)⟩

/-- Where `gatt_add_an_item_to_list` puts the new element: after the elements whose start
handle is not below `s_handle`, before the first element whose start handle is below it. -/
theorem gatt_add_an_item_to_list_split (l : List tGATT_HDL_LIST_ELEM) (s_handle : Nat) :
    ∃ pre suf, l = pre ++ suf ∧ (gatt_add_an_item_to_list l s_handle).1 = pre.length ∧
      (gatt_add_an_item_to_list l s_handle).2 = pre ++ {} :: suf ∧
      (∀ y ∈ pre, s_handle ≤ y.asgn_range.s_handle) ∧
      (∀ y, suf.head? = some y → y.asgn_range.s_handle < s_handle) := by
  induction l with
  | nil => exact ⟨[], [], rfl, rfl, rfl, by simp, by simp⟩
  | cons it rest ih =>
    unfold gatt_add_an_item_to_list
    by_cases h : s_handle > it.asgn_range.s_handle
    · rw [if_pos h]
      refine ⟨[], it :: rest, rfl, rfl, rfl, by simp, ?_⟩
      intro y hy
      simp only [List.head?_cons, Option.some.injEq] at hy
      subst hy
      exact h
    · rw [if_neg h]
      obtain ⟨pre, suf, h1, h2, h3, h4, h5⟩ := ih
      refine ⟨it :: pre, suf, by simp [h1], by simp [h2], by simp [h3], ?_, h5⟩
      intro y hy
      rcases List.mem_cons.1 hy with hy | hy
      · subst hy
        omega
      · exact h4 y hy

/-- C28: if the handle list is in non-increasing order of start handle, then after
`gatt_add_an_item_to_list(s_handle)` and the write of an element with start handle `s_handle`
through the returned reference, the list is the old list with that one element put in (the
old elements in their order and unchanged, one element more), after every element whose start
handle is at least `s_handle` and before every element whose start handle is below it, and it
is again in non-increasing order of start handle. -/
theorem handle_list_stays_descending (l : List tGATT_HDL_LIST_ELEM) (s_handle : Nat)
    (x : tGATT_HDL_LIST_ELEM) (hsorted : hdl_descending l)
    (hx : x.asgn_range.s_handle = s_handle) :
    ∃ pre suf, l = pre ++ suf ∧
      (gatt_add_an_item_to_list l s_handle).2 = pre ++ {} :: suf ∧
      (gatt_add_an_item_to_list l s_handle).1 = pre.length ∧
      (gatt_add_an_item_to_list l s_handle).2.set (gatt_add_an_item_to_list l s_handle).1 x =
        pre ++ x :: suf ∧
      (∀ y ∈ pre, s_handle ≤ y.asgn_range.s_handle) ∧
      (∀ y ∈ suf, y.asgn_range.s_handle < s_handle) ∧
      hdl_descending (pre ++ x :: suf) ∧
      (pre ++ x :: suf).length = l.length + 1 := by
  obtain ⟨pre, suf, h1, h2, h3, h4, h5⟩ := gatt_add_an_item_to_list_split l s_handle
  unfold hdl_descending at hsorted ⊢
  rw [h1, List.pairwise_append] at hsorted
  obtain ⟨hpre, hsuf, hcross⟩ := hsorted
  have hsuf_lt : ∀ y ∈ suf, y.asgn_range.s_handle < s_handle := by
    cases suf with
    | nil => simp
    | cons z t =>
      have hz := h5 z rfl
      intro y hy
      rcases List.mem_cons.1 hy with hy | hy
      · subst hy
        exact hz
      · have := (List.pairwise_cons.1 hsuf).1 y hy
        omega
  refine ⟨pre, suf, h1, h3, h2, ?_, h4, hsuf_lt, ?_, ?_⟩
  · rw [h3, h2]
    simp
  · rw [List.pairwise_append]
    refine ⟨hpre, ?_, ?_⟩
    · rw [List.pairwise_cons]
      refine ⟨?_, hsuf⟩
      intro y hy
      have := hsuf_lt y hy
      omega
    · intro a ha b hb
      rcases List.mem_cons.1 hb with hb | hb
      · subst hb
        have := h4 a ha
        omega
      · exact hcross a ha b hb
  · rw [h1]
    simp
    omega

/-- Witness of C28: on a list with start handles 0x60, 0x60, 0x40, an element with start
handle 0x60 goes after the two that start at 0x60 and before the one that starts at 0x40. -/
theorem handle_list_stays_descending_witness :
    hdl_descending sample_hdl_list ∧
    ((gatt_add_an_item_to_list sample_hdl_list 0x60).2.set
      (gatt_add_an_item_to_list sample_hdl_list 0x60).1
      { asgn_range := { svc_uuid := { val := 0x5008 }, s_handle := 0x60, e_handle := 0x60 } }).map
        (fun it => (it.asgn_range.svc_uuid.val, it.asgn_range.s_handle)) =
      [(0x5005, 0x60), (0x5006, 0x60), (0x5008, 0x60), (0x5007, 0x40)] ∧
    ∃ pre suf, sample_hdl_list = pre ++ suf ∧
      (gatt_add_an_item_to_list sample_hdl_list 0x60).2 = pre ++ {} :: suf ∧
      (gatt_add_an_item_to_list sample_hdl_list 0x60).1 = pre.length ∧
      (gatt_add_an_item_to_list sample_hdl_list 0x60).2.set
          (gatt_add_an_item_to_list sample_hdl_list 0x60).1
          { asgn_range := { svc_uuid := { val := 0x5008 }, s_handle := 0x60, e_handle := 0x60 } } =
        pre ++ { asgn_range := { svc_uuid := { val := 0x5008 }, s_handle := 0x60,
                                 e_handle := 0x60 } } :: suf ∧
      (∀ y ∈ pre, 0x60 ≤ y.asgn_range.s_handle) ∧
      (∀ y ∈ suf, y.asgn_range.s_handle < 0x60) ∧
      hdl_descending (pre ++ { asgn_range := { svc_uuid := { val := 0x5008 }, s_handle := 0x60,
                                               e_handle := 0x60 } } :: suf) ∧
      (pre ++ { asgn_range := { svc_uuid := { val := 0x5008 }, s_handle := 0x60,
                                e_handle := 0x60 } } :: suf).length =
        sample_hdl_list.length + 1 := by
  have hsorted : hdl_descending sample_hdl_list := by
    unfold hdl_descending sample_hdl_list
    decide
  exact ⟨hsorted, by decide,
    handle_list_stays_descending sample_hdl_list 0x60 _ hsorted rfl⟩

/-- Where the loop of lines 323-328 puts the new started-service entry: after the entries
whose start handle is not above the new one, before the first entry whose start handle is
above it. -/
theorem srv_list_emplace_split (elem : tGATT_SRV_LIST_ELEM) (l : List tGATT_SRV_LIST_ELEM) :
    ∃ pre suf, l = pre ++ suf ∧ srv_list_emplace elem l = pre ++ elem :: suf ∧
      (∀ y ∈ pre, y.s_hdl ≤ elem.s_hdl) ∧
      (∀ y, suf.head? = some y → elem.s_hdl < y.s_hdl) := by
  induction l with
  | nil => exact ⟨[], [], rfl, rfl, by simp, by simp⟩
  | cons it rest ih =>
    unfold srv_list_emplace
    by_cases h : elem.s_hdl < it.s_hdl
    · rw [if_pos h]
      refine ⟨[], it :: rest, rfl, rfl, by simp, ?_⟩
      intro y hy
      simp only [List.head?_cons, Option.some.injEq] at hy
      subst hy
      exact h
    · rw [if_neg h]
      obtain ⟨pre, suf, h1, h2, h3, h4⟩ := ih
      refine ⟨it :: pre, suf, by simp [h1], by simp [h2], ?_, h4⟩
      intro y hy
      rcases List.mem_cons.1 hy with hy | hy
      · subst hy
        omega
      · exact h3 y hy

/-- A started-service list in non-decreasing order stays so when `srv_list_emplace` puts an
entry in. -/
theorem srv_list_emplace_ascending (elem : tGATT_SRV_LIST_ELEM) (l : List tGATT_SRV_LIST_ELEM)
    (hsorted : srv_ascending l) : srv_ascending (srv_list_emplace elem l) := by
  obtain ⟨pre, suf, h1, h2, h3, h4⟩ := srv_list_emplace_split elem l
  unfold srv_ascending at hsorted ⊢
  rw [h1, List.pairwise_append] at hsorted
  obtain ⟨hpre, hsuf, hcross⟩ := hsorted
  have hsuf_gt : ∀ y ∈ suf, elem.s_hdl < y.s_hdl := by
    cases suf with
    | nil => simp
    | cons z t =>
      have hz := h4 z rfl
      intro y hy
      rcases List.mem_cons.1 hy with hy | hy
      · subst hy
        exact hz
      · have := (List.pairwise_cons.1 hsuf).1 y hy
        omega
  rw [h2, List.pairwise_append]
  refine ⟨hpre, ?_, ?_⟩
  · rw [List.pairwise_cons]
    exact ⟨fun y hy => Nat.le_of_lt (hsuf_gt y hy), hsuf⟩
  · intro a ha b hb
    rcases List.mem_cons.1 hb with hb | hb
    · subst hb
      exact h3 a ha
    · exact hcross a ha b hb

/-- The watermark loop of `gatt_update_last_srv_info` leaves the start handle of the last
entry, or the initial value on the empty list. -/
theorem last_srv_info_foldl (l : List tGATT_SRV_LIST_ELEM) (d : Nat) :
    l.foldl (fun _ el => el.s_hdl) d =
      (match l.getLast? with
       | some el => el.s_hdl
       | none => d) := by
  induction l generalizing d with
  | nil => rfl
  | cons a t ih =>
    cases t with
    | nil => rfl
    | cons b u =>
      rw [List.foldl_cons, ih, List.getLast?_cons_cons]
      cases h : (b :: u).getLast? with
      | none => simp at h
      | some el => rfl

/-- The watermark after `GATTS_AddService` when the element loop completes. -/
theorem GATTS_AddService_started_last (P : Platform) (cb : tGATT_CB) (gatt_if : Nat)
    (p_reg : tGATT_REG) (first : btgatt_db_element_t) (others : List btgatt_db_element_t)
    (hreg : gatt_get_regcb cb gatt_if = some p_reg)
    (hn : compute_service_size P (first :: others) ≠ 0)
    (hsp : ¬ compute_service_size P (first :: others) >
      0xFFFF - (select_s_hdl P cb first.uuid).1 + 1)
    (hloop : (add_service_loop P cb p_reg first others).1 = true) :
    (GATTS_AddService P cb gatt_if (first :: others)).2.2.last_service_handle =
      last_started_handle (GATTS_AddService P cb gatt_if (first :: others)).2.2.srv_list_info := by
  unfold last_started_handle
  rw [← last_srv_info_foldl]
  unfold add_service_loop new_asgn_range at hloop
  dsimp only at hloop
  unfold GATTS_AddService
  simp only [hreg, hn, hsp, if_false, gatt_add_an_item_to_list_set, hloop, Bool.not_true,
    Bool.false_eq_true]
  unfold gatt_proc_srv_chg_unless_disabled gatt_update_for_database_change
    gatt_update_last_srv_info
  split <;> simp

theorem srv_ascending_iff_map (l : List tGATT_SRV_LIST_ELEM) :
    srv_ascending l ↔ (l.map (fun el => el.s_hdl)).Pairwise (fun a b => a ≤ b) := by
  unfold srv_ascending
  rw [List.pairwise_map]

/-- C29: if the started-service list is in non-decreasing order of start handle, then (a) a
successful `GATTS_AddService` leaves it in non-decreasing order, with exactly one new entry
put into the old list, whose start handle, end handle and primary flag are those of the newly
allocated handle range, whose `gatt_if` is the calling application and whose application UUID
is that of the range and of the registration; (b) `GATTS_StopService` of a started service
has a defined result, removes one entry and leaves the list in non-decreasing order; and after
either operation `last_service_handle` is the start handle of the last entry of the list, or 0
when the list is empty. -/
theorem started_list_stays_ascending (P : Platform) (cb : tGATT_CB) (gatt_if : Nat)
    (service : List btgatt_db_element_t)
    (hne : P.GATT_INTERNAL_ERROR ≠ P.GATT_SERVICE_STARTED)
    (hsorted : srv_ascending cb.srv_list_info) :
    ((GATTS_AddService P cb gatt_if service).1 = P.GATT_SERVICE_STARTED →
      ∃ list elem pre suf,
        list ∈ (GATTS_AddService P cb gatt_if service).2.2.hdl_list_info ∧
        cb.srv_list_info = pre ++ suf ∧
        (GATTS_AddService P cb gatt_if service).2.2.srv_list_info = pre ++ elem :: suf ∧
        elem.s_hdl = list.asgn_range.s_handle ∧ elem.e_hdl = list.asgn_range.e_handle ∧
        elem.is_primary = list.asgn_range.is_primary ∧ elem.gatt_if = gatt_if ∧
        elem.app_uuid = list.asgn_range.app_uuid128 ∧
        (∀ p_reg, gatt_get_regcb cb gatt_if = some p_reg →
          list.asgn_range.app_uuid128 = p_reg.app_uuid128) ∧
        srv_ascending (GATTS_AddService P cb gatt_if service).2.2.srv_list_info ∧
        (GATTS_AddService P cb gatt_if service).2.2.last_service_handle =
          last_started_handle (GATTS_AddService P cb gatt_if service).2.2.srv_list_info) ∧
    (∀ service_handle, (∃ el ∈ cb.srv_list_info, el.s_hdl = service_handle) →
      ∃ it cb1, GATTS_StopService cb service_handle = some cb1 ∧
        cb1.srv_list_info = cb.srv_list_info.eraseIdx it ∧
        cb1.srv_list_info.length + 1 = cb.srv_list_info.length ∧
        srv_ascending cb1.srv_list_info ∧
        cb1.last_service_handle = last_started_handle cb1.srv_list_info) := by
  constructor
  · intro hok
    obtain ⟨p_reg, first, others, hreg, hsvc, hn, hsp, hloop⟩ :=
      GATTS_AddService_started_inv P cb gatt_if service hne hok
    subst hsvc
    have hlist := (GATTS_AddService_admitted P cb gatt_if p_reg first others hreg hn hsp).1
    have hsrv := (GATTS_AddService_started P cb gatt_if p_reg first others hreg hn hsp hloop).2.2.1
    have hlast := GATTS_AddService_started_last P cb gatt_if p_reg first others hreg hn hsp hloop
    obtain ⟨pre, suf, h1, h2, _, _⟩ := srv_list_emplace_split
      (new_srv_elem P cb gatt_if
        (new_asgn_range P cb p_reg first (compute_service_size P (first :: others)))
        (add_service_loop P cb p_reg first others).2.1) cb.srv_list_info
    refine ⟨⟨new_asgn_range P cb p_reg first (compute_service_size P (first :: others)),
      (add_service_loop P cb p_reg first others).2.1⟩,
      new_srv_elem P cb gatt_if
        (new_asgn_range P cb p_reg first (compute_service_size P (first :: others)))
        (add_service_loop P cb p_reg first others).2.1,
      pre, suf, ?_, h1, ?_, rfl, rfl, rfl, rfl, rfl, ?_, ?_, hlast⟩
    · rw [hlist, hdl_insert_mem]
      exact Or.inl rfl
    · rw [hsrv, h2]
    · intro q hq
      rw [hreg] at hq
      cases hq
      rfl
    · rw [hsrv]
      exact srv_list_emplace_ascending _ _ hsorted
  · intro service_handle ⟨el, hel, hs⟩
    cases hfind : gatt_sr_find_i_rcb_by_handle cb service_handle with
    | none =>
      unfold gatt_sr_find_i_rcb_by_handle at hfind
      rw [find_first_none] at hfind
      have := hfind el hel
      simp [hs] at this
    | some it =>
      have hfind1 := hfind
      unfold gatt_sr_find_i_rcb_by_handle at hfind1
      obtain ⟨_, x, _, _, _, _, _, hget, _⟩ := find_first_some _ _ _ hfind1
      have hlt : it < cb.srv_list_info.length := (List.getElem?_eq_some.1 hget).1
      have hshape : ∃ cb1, GATTS_StopService cb service_handle = some cb1 ∧
          cb1.srv_list_info = cb.srv_list_info.eraseIdx it ∧
          cb1.last_service_handle =
            (cb.srv_list_info.eraseIdx it).foldl (fun _ el => el.s_hdl) 0 := by
        unfold GATTS_StopService
        simp only [hfind, hget]
        split <;> exact ⟨_, rfl, rfl, rfl⟩
      obtain ⟨cb1, h1, h2, h3⟩ := hshape
      refine ⟨it, cb1, h1, h2, ?_, ?_, ?_⟩
      · rw [h2, List.length_eraseIdx]
        simp only [hlt, if_true]
        omega
      · rw [h2]
        exact List.Pairwise.sublist (List.eraseIdx_sublist _ _) hsorted
      · rw [h3, h2, last_srv_info_foldl]
        rfl

/-- Witness of C29: in `sample_cb_two_started` the started services are [1, 1] (GATT service,
application 1) and [0x40, 0x42] (application 2), in non-decreasing order. Application 1 adds
the GAP service, whose range is [20, 20]: the call returns `GATT_SERVICE_STARTED`, the one new
entry is put between the two old ones, the list [1, 20, 0x40] is in non-decreasing order and
the watermark is 0x40, the start handle of the last entry. Stopping the service at 0x40 in
`sample_cb_two_started` leaves the list [1] and the watermark 1; stopping the service at 1
leaves the list [0x40] and the watermark 0x40. -/
theorem started_list_stays_ascending_witness :
    sample_cb_two_started.srv_list_info.map (fun el => (el.gatt_if, el.s_hdl, el.e_hdl)) =
      [(1, 1, 1), (2, 0x40, 0x42)] ∧
    srv_ascending sample_cb_two_started.srv_list_info ∧
    (GATTS_AddService stockPlatform sample_cb_two_started 1 sample_gap_service).1 =
      stockPlatform.GATT_SERVICE_STARTED ∧
    (∃ list elem pre suf,
      list ∈ (GATTS_AddService stockPlatform sample_cb_two_started 1
        sample_gap_service).2.2.hdl_list_info ∧
      sample_cb_two_started.srv_list_info = pre ++ suf ∧
      (GATTS_AddService stockPlatform sample_cb_two_started 1
        sample_gap_service).2.2.srv_list_info = pre ++ elem :: suf ∧
      elem.s_hdl = list.asgn_range.s_handle ∧ elem.e_hdl = list.asgn_range.e_handle ∧
      elem.is_primary = list.asgn_range.is_primary ∧ elem.gatt_if = 1 ∧
      elem.app_uuid = list.asgn_range.app_uuid128 ∧
      (∀ p_reg, gatt_get_regcb sample_cb_two_started 1 = some p_reg →
        list.asgn_range.app_uuid128 = p_reg.app_uuid128) ∧
      srv_ascending (GATTS_AddService stockPlatform sample_cb_two_started 1
        sample_gap_service).2.2.srv_list_info ∧
      (GATTS_AddService stockPlatform sample_cb_two_started 1
        sample_gap_service).2.2.last_service_handle =
        last_started_handle (GATTS_AddService stockPlatform sample_cb_two_started 1
          sample_gap_service).2.2.srv_list_info) ∧
    (GATTS_AddService stockPlatform sample_cb_two_started 1
      sample_gap_service).2.2.srv_list_info.map
        (fun el => (el.gatt_if, el.s_hdl, el.e_hdl, el.is_primary)) =
      [(1, 1, 1, true), (1, 20, 20, true), (2, 0x40, 0x42, true)] ∧
    (GATTS_AddService stockPlatform sample_cb_two_started 1
      sample_gap_service).2.2.last_service_handle = 0x40 ∧
    (∃ it cb1, GATTS_StopService sample_cb_two_started 0x40 = some cb1 ∧
      cb1.srv_list_info = sample_cb_two_started.srv_list_info.eraseIdx it ∧
      cb1.srv_list_info.length + 1 = sample_cb_two_started.srv_list_info.length ∧
      srv_ascending cb1.srv_list_info ∧
      cb1.last_service_handle = last_started_handle cb1.srv_list_info) ∧
    (GATTS_StopService sample_cb_two_started 0x40).map
      (fun cb1 => (cb1.srv_list_info.map (fun el => el.s_hdl), cb1.last_service_handle)) =
        some ([1], 1) ∧
    (∃ it cb1, GATTS_StopService sample_cb_two_started 1 = some cb1 ∧
      cb1.srv_list_info = sample_cb_two_started.srv_list_info.eraseIdx it ∧
      cb1.srv_list_info.length + 1 = sample_cb_two_started.srv_list_info.length ∧
      srv_ascending cb1.srv_list_info ∧
      cb1.last_service_handle = last_started_handle cb1.srv_list_info) ∧
    (GATTS_StopService sample_cb_two_started 1).map
      (fun cb1 => (cb1.srv_list_info.map (fun el => el.s_hdl), cb1.last_service_handle)) =
        some ([0x40], 0x40) := by
  have hmap : sample_cb_two_started.srv_list_info.map (fun el => el.s_hdl) = [1, 0x40] := by
    decide
  have hsorted : srv_ascending sample_cb_two_started.srv_list_info := by
    rw [srv_ascending_iff_map, hmap]
    decide
  have h := started_list_stays_ascending stockPlatform sample_cb_two_started 1
    sample_gap_service (by decide) hsorted
  exact ⟨by decide, hsorted, by decide, h.1 (by decide), by decide, by decide,
    h.2 0x40 ⟨(sample_cb_two_started.srv_list_info[1]?).getD {}, by decide, by decide⟩,
    by decide,
    h.2 1 ⟨(sample_cb_two_started.srv_list_info[0]?).getD {}, by decide, by decide⟩,
    by decide⟩

/-- C30 (code defect, evaluated): no started service has the start handle 0x40 in `sample_cb`
(the started-service list is empty), nor the start handle 0x50 in `sample_cb_started` (one
started service, at 0x40). In both states `GATTS_StopService` finds `end()`, logs the error
and goes on to read `it->sdp_handle` and to erase `end()`: the call has no defined result. -/
theorem stop_absent_service_undefined :
    sample_cb.srv_list_info = [] ∧
    gatt_sr_find_i_rcb_by_handle sample_cb 0x40 = none ∧
    GATTS_StopService sample_cb 0x40 = none ∧
    sample_cb_started.srv_list_info.map (fun el => el.s_hdl) = [0x40] ∧
    gatt_sr_find_i_rcb_by_handle sample_cb_started 0x50 = none ∧
    GATTS_StopService sample_cb_started 0x50 = none := by
  decide

/-- Writing back the element that is at a position leaves the list as it is. -/
theorem list_set_same {α : Type} (l : List α) (i : Nat) (x : α) (h : l[i]? = some x) :
    l.set i x = l := by
  apply List.ext_getElem?
  intro j
  by_cases hj : i = j
  · subst hj
    have hlt : i < l.length := (List.getElem?_eq_some.1 h).1
    simp [hlt, h]
  · rw [List.getElem?_set_ne hj]

/-- C21: for a peer without a link record on the transport
`GATTC_UpdateUserAttMtuIfNeeded` changes nothing. For the link record `p_tcb` found at
position `i`, with `m = min(user_mtu, payload_size)`: afterwards the record is the old one
with `max_user_mtu = max(old max_user_mtu, m)` (so it never decreases), the controller is
asked for the data length `m` if and only if `m` is above the old `max_user_mtu`, nothing
else changes, and an immediately repeated call with the same `user_mtu` changes nothing and
asks the controller for nothing. -/
theorem update_user_mtu_result (cb : tGATT_CB) (remote_bda transport user_mtu : Nat) :
    (gatt_find_tcb_by_addr cb remote_bda transport = none →
      GATTC_UpdateUserAttMtuIfNeeded cb remote_bda transport user_mtu = cb) ∧
    (∀ i, gatt_find_tcb_by_addr cb remote_bda transport = some i →
      ∃ p_tcb, cb.tcb[i]? = some p_tcb ∧
        GATTC_UpdateUserAttMtuIfNeeded cb remote_bda transport user_mtu =
          { cb with
            tcb := cb.tcb.set i (with_max_user_mtu p_tcb
              (max p_tcb.max_user_mtu (min user_mtu p_tcb.payload_size)))
            ble_data_length_requests :=
              if p_tcb.max_user_mtu < min user_mtu p_tcb.payload_size then
                cb.ble_data_length_requests ++ [(remote_bda, min user_mtu p_tcb.payload_size)]
              else cb.ble_data_length_requests } ∧
        p_tcb.max_user_mtu ≤ max p_tcb.max_user_mtu (min user_mtu p_tcb.payload_size) ∧
        GATTC_UpdateUserAttMtuIfNeeded
            (GATTC_UpdateUserAttMtuIfNeeded cb remote_bda transport user_mtu)
            remote_bda transport user_mtu =
          GATTC_UpdateUserAttMtuIfNeeded cb remote_bda transport user_mtu) := by
  constructor
  · intro hfind
    unfold GATTC_UpdateUserAttMtuIfNeeded
    simp only [hfind]
  · intro i hfind
    obtain ⟨p_tcb, hget, _, _, _⟩ := gatt_find_tcb_by_addr_some cb remote_bda transport i hfind
    have hlt : i < cb.tcb.length := (List.getElem?_eq_some.1 hget).1
    have hclamp : (if p_tcb.payload_size < user_mtu then p_tcb.payload_size else user_mtu) =
        min user_mtu p_tcb.payload_size := by
      split <;> omega
    have hfirst : GATTC_UpdateUserAttMtuIfNeeded cb remote_bda transport user_mtu =
        { cb with
          tcb := cb.tcb.set i (with_max_user_mtu p_tcb
            (max p_tcb.max_user_mtu (min user_mtu p_tcb.payload_size)))
          ble_data_length_requests :=
            if p_tcb.max_user_mtu < min user_mtu p_tcb.payload_size then
              cb.ble_data_length_requests ++ [(remote_bda, min user_mtu p_tcb.payload_size)]
            else cb.ble_data_length_requests } := by
      unfold GATTC_UpdateUserAttMtuIfNeeded
      simp only [hfind, hget, hclamp]
      by_cases hnoop : p_tcb.max_user_mtu ≥ min user_mtu p_tcb.payload_size
      · have hmax : max p_tcb.max_user_mtu (min user_mtu p_tcb.payload_size) =
            p_tcb.max_user_mtu := by omega
        have hnot : ¬ p_tcb.max_user_mtu < min user_mtu p_tcb.payload_size := by omega
        rw [if_pos hnoop, if_neg hnot, hmax]
        have hsame : with_max_user_mtu p_tcb p_tcb.max_user_mtu = p_tcb := rfl
        rw [hsame, list_set_same cb.tcb i p_tcb hget]
      · have hmax : max p_tcb.max_user_mtu (min user_mtu p_tcb.payload_size) =
            min user_mtu p_tcb.payload_size := by omega
        have hlt2 : p_tcb.max_user_mtu < min user_mtu p_tcb.payload_size := by omega
        rw [if_neg hnoop, if_pos hlt2, hmax]
        simp only [BTM_SetBleDataLength, tcb_write, hget, with_max_user_mtu]
    refine ⟨p_tcb, hget, hfirst, by omega, ?_⟩
    rw [hfirst]
    have hfind2 : gatt_find_tcb_by_addr
        { cb with
          tcb := cb.tcb.set i (with_max_user_mtu p_tcb
            (max p_tcb.max_user_mtu (min user_mtu p_tcb.payload_size)))
          ble_data_length_requests :=
            if p_tcb.max_user_mtu < min user_mtu p_tcb.payload_size then
              cb.ble_data_length_requests ++ [(remote_bda, min user_mtu p_tcb.payload_size)]
            else cb.ble_data_length_requests } remote_bda transport = some i := by
      unfold gatt_find_tcb_by_addr at hfind ⊢
      dsimp only
      rw [find_first_set_same (fun p_tcb : tGATT_TCB => p_tcb.in_use &&
        decide (p_tcb.peer_bda = remote_bda) && decide (p_tcb.transport = transport))
        cb.tcb i p_tcb (with_max_user_mtu p_tcb
          (max p_tcb.max_user_mtu (min user_mtu p_tcb.payload_size))) hget rfl]
      exact hfind
    unfold GATTC_UpdateUserAttMtuIfNeeded
    simp only [hfind2]
    simp only [List.getElem?_set, hlt, if_true, with_max_user_mtu]
    rw [if_pos (by split <;> omega)]

/-- Witness of C21: on `sample_cb_mtu_done` (payload size 185, recorded maximum 100) a user MTU
of 247 is clamped to 185, recorded, and asked of the controller; a user MTU of 64 changes
nothing. -/
theorem update_user_mtu_result_witness :
    gatt_find_tcb_by_addr sample_cb_mtu_done 0xB0 2 = some 0 ∧
    (GATTC_UpdateUserAttMtuIfNeeded sample_cb_mtu_done 0xB0 2 247).tcb.map
      (fun t => t.max_user_mtu) = [185, 0] ∧
    (GATTC_UpdateUserAttMtuIfNeeded sample_cb_mtu_done 0xB0 2 247).ble_data_length_requests =
      [(0xB0, 185)] ∧
    GATTC_UpdateUserAttMtuIfNeeded sample_cb_mtu_done 0xB0 2 64 = sample_cb_mtu_done ∧
    GATTC_UpdateUserAttMtuIfNeeded (GATTC_UpdateUserAttMtuIfNeeded sample_cb_mtu_done 0xB0 2 247)
        0xB0 2 247 =
      GATTC_UpdateUserAttMtuIfNeeded sample_cb_mtu_done 0xB0 2 247 := by
  have hfind : gatt_find_tcb_by_addr sample_cb_mtu_done 0xB0 2 = some 0 := by decide
  obtain ⟨_, _, _, _, hrepeat⟩ :=
    (update_user_mtu_result sample_cb_mtu_done 0xB0 2 247).2 0 hfind
  exact ⟨hfind, by decide, by decide, by decide, hrepeat⟩

@[simp] theorem ebcb_write_tcb (cb : tGATT_CB) (k : Nat) (f : tGATT_EBCB → tGATT_EBCB) :
    (ebcb_write cb k f).tcb = cb.tcb := by
  unfold ebcb_write
  split <;> rfl

@[simp] theorem ebcb_write_att_sr_sent (cb : tGATT_CB) (k : Nat) (f : tGATT_EBCB → tGATT_EBCB) :
    (ebcb_write cb k f).att_sr_sent = cb.att_sr_sent := by
  unfold ebcb_write
  split <;> rfl

@[simp] theorem ebcb_write_pending_ind_q (cb : tGATT_CB) (k : Nat) (f : tGATT_EBCB → tGATT_EBCB) :
    (ebcb_write cb k f).pending_ind_q = cb.pending_ind_q := by
  unfold ebcb_write
  split <;> rfl

@[simp] theorem ebcb_write_notif_q (cb : tGATT_CB) (k : Nat) (f : tGATT_EBCB → tGATT_EBCB) :
    (ebcb_write cb k f).notif_q = cb.notif_q := by
  unfold ebcb_write
  split <;> rfl

/-- The bearers after a write through a bearer pointer that is not NULL. -/
theorem ebcb_write_eatt_bcb (cb : tGATT_CB) (k : Nat) (f : tGATT_EBCB → tGATT_EBCB)
    (b : tGATT_EBCB) (hb : cb.eatt_bcb[k]? = some b) :
    (ebcb_write cb k f).eatt_bcb = cb.eatt_bcb.set k (f b) := by
  unfold ebcb_write
  rw [hb]

@[simp] theorem tcb_write_eatt_bcb (cb : tGATT_CB) (i : Nat) (f : tGATT_TCB → tGATT_TCB) :
    (tcb_write cb i f).eatt_bcb = cb.eatt_bcb := by
  unfold tcb_write
  split <;> rfl

@[simp] theorem tcb_write_att_sr_sent (cb : tGATT_CB) (i : Nat) (f : tGATT_TCB → tGATT_TCB) :
    (tcb_write cb i f).att_sr_sent = cb.att_sr_sent := by
  unfold tcb_write
  split <;> rfl

/-- The bearer that `gatt_find_eatt_bcb_by_cid` finds: a bearer of the link with the
channel. -/
theorem gatt_find_eatt_bcb_by_cid_some (cb : tGATT_CB) (tcb_idx lcid k : Nat)
    (h : gatt_find_eatt_bcb_by_cid cb tcb_idx lcid = some k) :
    ∃ b, cb.eatt_bcb[k]? = some b ∧ b.tcb_idx = tcb_idx ∧ b.cid = lcid := by
  unfold gatt_find_eatt_bcb_by_cid at h
  obtain ⟨_, x, _, _, _, hx, _, hget, _⟩ := find_first_some _ _ _ h
  simp only [Bool.and_eq_true, decide_eq_true_eq] at hx
  exact ⟨x, hget, hx.1, hx.2⟩

/-- The bearer that `gatt_find_best_eatt_bcb` selects is a bearer of the link. -/
theorem gatt_find_best_eatt_bcb_some (P : ServerPlatform) (cb : tGATT_CB)
    (tcb_idx gatt_if k : Nat) (h : gatt_find_best_eatt_bcb P cb tcb_idx gatt_if = some k) :
    ∃ b, cb.eatt_bcb[k]? = some b ∧ b.tcb_idx = tcb_idx := by
  unfold gatt_find_best_eatt_bcb at h
  split at h
  · cases h
  · rename_i j _
    split at h
    · cases h
    · rename_i b hb
      split at h
      · simp only [Option.some.injEq] at h
        subst h
        rename_i ht
        exact ⟨b, hb, ht⟩
      · cases h

/-- What lines 501-523 of `GATTS_HandleValueIndication` leave: a bearer pointer that is not
NULL points at a bearer of the link, the link supports EATT, and the handle tested is the
outstanding handle of that bearer; with no bearer the handle tested is that of the link. The
channel is that of the bearer when the application has the EATT opt-in or the channel of the
link is `L2CAP_ATT_CID`. -/
theorem indication_bearer_spec (P : ServerPlatform) (cb : tGATT_CB) (conn_id : Nat)
    (p_reg : tGATT_REG) (p_tcb : tGATT_TCB) :
    (∀ k, (indication_bearer P cb conn_id p_reg p_tcb).2.1 = some k →
      p_tcb.is_eatt_supported = true ∧
      (indication_bearer P cb conn_id p_reg p_tcb).2.2 = ebcb_indicate_handle cb k ∧
      ∃ b, cb.eatt_bcb[k]? = some b ∧ b.tcb_idx = GATT_GET_TCB_IDX conn_id ∧
        (p_reg.eatt_support = true ∨ p_tcb.att_lcid = P.L2CAP_ATT_CID →
          (indication_bearer P cb conn_id p_reg p_tcb).1 = b.cid)) ∧
    ((indication_bearer P cb conn_id p_reg p_tcb).2.1 = none →
      (indication_bearer P cb conn_id p_reg p_tcb).2.2 = p_tcb.indicate_handle) := by
  unfold indication_bearer
  dsimp only
  cases he : p_tcb.is_eatt_supported <;> cases hr : p_reg.eatt_support
  · simp
  · simp
  · simp only [Bool.true_and, Bool.false_eq_true, if_false, Bool.not_false, if_true]
    cases hf : gatt_find_eatt_bcb_by_cid cb (GATT_GET_TCB_IDX conn_id) P.L2CAP_ATT_CID with
    | none => simp
    | some j =>
      obtain ⟨b, hb, ht, hc⟩ := gatt_find_eatt_bcb_by_cid_some cb _ _ j hf
      refine ⟨?_, by simp⟩
      intro k hk
      simp only [Option.some.injEq] at hk
      subst hk
      refine ⟨trivial, rfl, b, hb, ht, ?_⟩
      intro h
      rcases h with h | h
      · cases h
      · show p_tcb.att_lcid = b.cid
        rw [h, hc]
  · simp only [Bool.true_and, if_true]
    cases hfound : is_gatt_conn_id_found cb conn_id with
    | true =>
      simp only [if_true]
      cases hf : gatt_find_eatt_bcb_by_cid cb (GATT_GET_TCB_IDX conn_id)
          (gatt_get_cid_by_conn_id P.toClientPlatform cb conn_id) with
      | none => simp
      | some j =>
        obtain ⟨b, hb, ht, hc⟩ := gatt_find_eatt_bcb_by_cid_some cb _ _ j hf
        refine ⟨?_, by simp⟩
        intro k hk
        simp only [Option.some.injEq] at hk
        subst hk
        exact ⟨trivial, rfl, b, hb, ht, fun _ => hc.symm⟩
    | false =>
      simp only [Bool.false_eq_true, if_false]
      cases hf : gatt_find_best_eatt_bcb P cb (GATT_GET_TCB_IDX conn_id)
          (GATT_GET_GATT_IF conn_id) with
      | none => simp
      | some j =>
        obtain ⟨b, hb, ht⟩ := gatt_find_best_eatt_bcb_some P cb _ _ j hf
        refine ⟨?_, by simp⟩
        intro k hk
        simp only [Option.some.injEq] at hk
        subst hk
        refine ⟨trivial, rfl, b, hb, ht, fun _ => ?_⟩
        simp only [hb]

/-- What lines 603-614 of `GATTS_HandleValueNotification` leave: a bearer pointer that is not
NULL points at a bearer of the link whose channel is the channel of the call, and the link
supports EATT. -/
theorem notification_bearer_spec (P : ServerPlatform) (cb : tGATT_CB) (conn_id : Nat)
    (p_reg : tGATT_REG) (p_tcb : tGATT_TCB) (k : Nat)
    (h : (notification_bearer P cb conn_id p_reg p_tcb).2 = some k) :
    p_tcb.is_eatt_supported = true ∧
    ∃ b, cb.eatt_bcb[k]? = some b ∧ b.tcb_idx = GATT_GET_TCB_IDX conn_id ∧
      (notification_bearer P cb conn_id p_reg p_tcb).1 = b.cid := by
  unfold notification_bearer at h ⊢
  dsimp only at h ⊢
  cases he : p_tcb.is_eatt_supported <;> cases hr : p_reg.eatt_support
  · simp [he, hr] at h
  · simp [he, hr] at h
  · simp [he, hr] at h
  · simp only [he, hr, Bool.true_and, if_true] at h ⊢
    cases hfound : is_gatt_conn_id_found cb conn_id with
    | true =>
      simp only [hfound, if_true] at h ⊢
      obtain ⟨b, hb, ht, hc⟩ := gatt_find_eatt_bcb_by_cid_some cb _ _ k h
      exact ⟨trivial, b, hb, ht, hc.symm⟩
    | false =>
      simp only [hfound, Bool.false_eq_true, if_false] at h ⊢
      cases hf : gatt_find_best_eatt_bcb P cb (GATT_GET_TCB_IDX conn_id)
          (GATT_GET_GATT_IF conn_id) with
      | none => simp [hf] at h
      | some j =>
        simp only [hf, Option.some.injEq] at h ⊢
        subst h
        obtain ⟨b, hb, ht⟩ := gatt_find_best_eatt_bcb_some P cb _ _ j hf
        exact ⟨trivial, b, hb, ht, by simp only [hb]⟩

/-- C22: at most one outstanding indication per bearer. For a call of
`GATTS_HandleValueIndication` with a known connection and a valid attribute handle, the handle
the code tests is the outstanding handle of the selected bearer (the bearer chosen for the
call, or the link itself when none is). If that handle is valid (not 0), nothing is handed
to the transport, the indication is put at the end of the pending-indication queue,
`GATT_SUCCESS` is returned and no link or bearer record changes. A message is handed to the
transport only when that handle is 0; and when the transport then answers `GATT_SUCCESS` or
`GATT_CONGESTED`, that status is returned, the one message handed over is the indication,
and the outstanding handle of the same bearer is the indicated handle. -/
theorem one_outstanding_indication (P : ServerPlatform) (cb : tGATT_CB)
    (conn_id attr_handle val_len : Nat) (p_val : List Nat) (p_reg : tGATT_REG)
    (p_tcb : tGATT_TCB)
    (hreg : gatt_get_regcb cb (GATT_GET_GATT_IF conn_id) = some p_reg)
    (htcb : gatt_get_tcb_by_idx cb (GATT_GET_TCB_IDX conn_id) = some p_tcb)
    (hvalid : attr_handle ≠ 0) :
    outstanding_indicate_handle cb (GATT_GET_TCB_IDX conn_id)
        (indication_bearer P cb conn_id p_reg p_tcb).2.1 =
      (indication_bearer P cb conn_id p_reg p_tcb).2.2 ∧
    ((indication_bearer P cb conn_id p_reg p_tcb).2.2 ≠ 0 →
      GATTS_HandleValueIndication P cb conn_id attr_handle val_len p_val =
        (P.GATT_SUCCESS, gatt_add_pending_ind cb (GATT_GET_TCB_IDX conn_id)
          (indication_bearer P cb conn_id p_reg p_tcb).1
          (indication_value P conn_id attr_handle val_len p_val)) ∧
      (GATTS_HandleValueIndication P cb conn_id attr_handle val_len p_val).2.att_sr_sent =
        cb.att_sr_sent ∧
      (GATTS_HandleValueIndication P cb conn_id attr_handle val_len p_val).2.pending_ind_q =
        cb.pending_ind_q ++ [(GATT_GET_TCB_IDX conn_id,
          (indication_bearer P cb conn_id p_reg p_tcb).1,
          indication_value P conn_id attr_handle val_len p_val)] ∧
      (GATTS_HandleValueIndication P cb conn_id attr_handle val_len p_val).2.tcb = cb.tcb ∧
      (GATTS_HandleValueIndication P cb conn_id attr_handle val_len p_val).2.eatt_bcb =
        cb.eatt_bcb) ∧
    ((GATTS_HandleValueIndication P cb conn_id attr_handle val_len p_val).2.att_sr_sent ≠
        cb.att_sr_sent →
      outstanding_indicate_handle cb (GATT_GET_TCB_IDX conn_id)
        (indication_bearer P cb conn_id p_reg p_tcb).2.1 = 0) ∧
    ((indication_bearer P cb conn_id p_reg p_tcb).2.2 = 0 →
      P.attp_build_sr_msg_built p_tcb (indication_bearer P cb conn_id p_reg p_tcb).1
        P.GATT_HANDLE_VALUE_IND (indication_value P conn_id attr_handle val_len p_val) = true →
      (P.attp_send_sr_msg_status cb.att_sr_sent
          (tATT_SR_SENT.sr_msg (GATT_GET_TCB_IDX conn_id)
            (indication_bearer P cb conn_id p_reg p_tcb).1 P.GATT_HANDLE_VALUE_IND
            (indication_value P conn_id attr_handle val_len p_val)) = P.GATT_SUCCESS ∨
        P.attp_send_sr_msg_status cb.att_sr_sent
          (tATT_SR_SENT.sr_msg (GATT_GET_TCB_IDX conn_id)
            (indication_bearer P cb conn_id p_reg p_tcb).1 P.GATT_HANDLE_VALUE_IND
            (indication_value P conn_id attr_handle val_len p_val)) = P.GATT_CONGESTED) →
      (GATTS_HandleValueIndication P cb conn_id attr_handle val_len p_val).1 =
        P.attp_send_sr_msg_status cb.att_sr_sent
          (tATT_SR_SENT.sr_msg (GATT_GET_TCB_IDX conn_id)
            (indication_bearer P cb conn_id p_reg p_tcb).1 P.GATT_HANDLE_VALUE_IND
            (indication_value P conn_id attr_handle val_len p_val)) ∧
      (GATTS_HandleValueIndication P cb conn_id attr_handle val_len p_val).2.att_sr_sent =
        cb.att_sr_sent ++ [tATT_SR_SENT.sr_msg (GATT_GET_TCB_IDX conn_id)
          (indication_bearer P cb conn_id p_reg p_tcb).1 P.GATT_HANDLE_VALUE_IND
          (indication_value P conn_id attr_handle val_len p_val)] ∧
      outstanding_indicate_handle
          (GATTS_HandleValueIndication P cb conn_id attr_handle val_len p_val).2
          (GATT_GET_TCB_IDX conn_id) (indication_bearer P cb conn_id p_reg p_tcb).2.1 =
        attr_handle) := by
  obtain ⟨hget, hin⟩ := gatt_get_tcb_by_idx_some cb _ p_tcb htcb
  obtain ⟨hsome, hnone⟩ := indication_bearer_spec P cb conn_id p_reg p_tcb
  have hattr : (!GATT_HANDLE_IS_VALID attr_handle) = false := by
    simp [GATT_HANDLE_IS_VALID, hvalid]
  have hout : outstanding_indicate_handle cb (GATT_GET_TCB_IDX conn_id)
      (indication_bearer P cb conn_id p_reg p_tcb).2.1 =
      (indication_bearer P cb conn_id p_reg p_tcb).2.2 := by
    unfold outstanding_indicate_handle
    cases hb : (indication_bearer P cb conn_id p_reg p_tcb).2.1 with
    | none => simp only [hget, hnone hb]
    | some k => exact (hsome k hb).2.1.symm
  have hqueued : (indication_bearer P cb conn_id p_reg p_tcb).2.2 ≠ 0 →
      GATTS_HandleValueIndication P cb conn_id attr_handle val_len p_val =
        (P.GATT_SUCCESS, gatt_add_pending_ind cb (GATT_GET_TCB_IDX conn_id)
          (indication_bearer P cb conn_id p_reg p_tcb).1
          (indication_value P conn_id attr_handle val_len p_val)) := by
    intro hbusy
    have hv : GATT_HANDLE_IS_VALID (indication_bearer P cb conn_id p_reg p_tcb).2.2 = true := by
      simp [GATT_HANDLE_IS_VALID, hbusy]
    unfold GATTS_HandleValueIndication
    simp only [hreg, htcb, hattr, hv, Bool.false_eq_true, if_false, if_true]
  refine ⟨hout, ?_, ?_, ?_⟩
  · intro hbusy
    rw [hqueued hbusy]
    exact ⟨rfl, rfl, rfl, rfl, rfl⟩
  · intro hsent
    rw [hout]
    by_contra hbusy
    rw [hqueued hbusy] at hsent
    exact hsent rfl
  · intro hfree hbuilt hstatus
    have hv : GATT_HANDLE_IS_VALID (indication_bearer P cb conn_id p_reg p_tcb).2.2 = false := by
      simp [GATT_HANDLE_IS_VALID, hfree]
    unfold GATTS_HandleValueIndication
    simp only [hreg, htcb, hattr, hv, hbuilt, Bool.false_eq_true, if_false, Bool.not_true,
      attp_send_sr_msg, hstatus, if_true]
    refine ⟨trivial, ?_, ?_⟩
    · cases hb : (indication_bearer P cb conn_id p_reg p_tcb).2.1 with
      | none => simp [gatt_start_conf_timer]
      | some k =>
        simp only [(hsome k hb).1, if_true]
        simp [gatt_start_conf_timer]
    · unfold outstanding_indicate_handle
      cases hb : (indication_bearer P cb conn_id p_reg p_tcb).2.1 with
      | none =>
        simp only [gatt_start_conf_timer]
        rw [tcb_write_getElem?]
        simp [hget, indication_value]
      | some k =>
        obtain ⟨_, _, b, hbk, _, _⟩ := hsome k hb
        have hlt : k < cb.eatt_bcb.length := (List.getElem?_eq_some.1 hbk).1
        simp only [(hsome k hb).1, if_true, gatt_start_conf_timer, ebcb_indicate_handle,
          ebcb_write, hbk]
        simp [hlt, indication_value]

/-- Witness of C22: on `sample_eatt_cb` the indication of handle 0x30 by application 2 goes
out on the bearer of the channel `L2CAP_ATT_CID`, whose outstanding handle becomes 0x30; on
the resulting `sample_cb_indicated` an indication of handle 0x32 by the same application is
queued, nothing more is handed to the transport and the outstanding handle stays 0x30. -/
theorem one_outstanding_indication_witness :
    (indication_bearer stockServerPlatform sample_eatt_cb 0x0002
      ((sample_eatt_cb.cl_rcb[1]?).getD {}) ((sample_eatt_cb.tcb[0]?).getD {})) = (4, some 0, 0) ∧
    (GATTS_HandleValueIndication stockServerPlatform sample_eatt_cb 0x0002 0x30 1 [7]).1 =
      stockServerPlatform.GATT_SUCCESS ∧
    outstanding_indicate_handle
      (GATTS_HandleValueIndication stockServerPlatform sample_eatt_cb 0x0002 0x30 1 [7]).2 0
      (some 0) = 0x30 ∧
    (indication_bearer stockServerPlatform sample_cb_indicated 0x0002
      ((sample_cb_indicated.cl_rcb[1]?).getD {}) ((sample_cb_indicated.tcb[0]?).getD {})) =
      (4, some 0, 0x30) ∧
    GATTS_HandleValueIndication stockServerPlatform sample_cb_indicated 0x0002 0x32 1 [7] =
      (stockServerPlatform.GATT_SUCCESS, gatt_add_pending_ind sample_cb_indicated 0 4
        (indication_value stockServerPlatform 0x0002 0x32 1 [7])) ∧
    (GATTS_HandleValueIndication stockServerPlatform sample_cb_indicated 0x0002 0x32 1
      [7]).2.att_sr_sent = sample_cb_indicated.att_sr_sent := by
  have h0 := one_outstanding_indication stockServerPlatform sample_eatt_cb 0x0002 0x30 1 [7]
    ((sample_eatt_cb.cl_rcb[1]?).getD {}) ((sample_eatt_cb.tcb[0]?).getD {})
    (by decide) (by decide) (by decide)
  have h1 := one_outstanding_indication stockServerPlatform sample_cb_indicated 0x0002 0x32 1 [7]
    ((sample_cb_indicated.cl_rcb[1]?).getD {}) ((sample_cb_indicated.tcb[0]?).getD {})
    (by decide) (by decide) (by decide)
  have hsel0 : (indication_bearer stockServerPlatform sample_eatt_cb 0x0002
      ((sample_eatt_cb.cl_rcb[1]?).getD {}) ((sample_eatt_cb.tcb[0]?).getD {})) =
      (4, some 0, 0) := by decide
  have hsel1 : (indication_bearer stockServerPlatform sample_cb_indicated 0x0002
      ((sample_cb_indicated.cl_rcb[1]?).getD {}) ((sample_cb_indicated.tcb[0]?).getD {})) =
      (4, some 0, 0x30) := by decide
  have hsent := h0.2.2.2 (by rw [hsel0]) (by decide) (Or.inl (by decide))
  have hqueued := h1.2.1 (by rw [hsel1]; decide)
  rw [hsel0] at hsent
  rw [hsel1] at hqueued
  exact ⟨hsel0, by decide, hsent.2.2, hsel1, hqueued.1, hqueued.2.1⟩

/-- The test of lines 548-550 and 629-632: the list is empty or does not hold the connection
identifier, which is to say that it does not hold it. -/
theorem not_blocked_iff (l : List Nat) (conn_id : Nat) :
    (l.isEmpty || !l.contains conn_id) = true ↔ conn_id ∉ l := by
  cases l with
  | nil => simp
  | cons a t => simp

/-- What `GATTS_HandleValueNotification` does when the transport reports `GATT_NO_CREDITS`
and a bearer is selected. -/
theorem GATTS_HandleValueNotification_no_credits (P : ServerPlatform) (cb : tGATT_CB)
    (conn_id attr_handle val_len : Nat) (p_val : List Nat) (p_reg : tGATT_REG)
    (p_tcb : tGATT_TCB) (k : Nat) (b : tGATT_EBCB)
    (hreg : gatt_get_regcb cb (GATT_GET_GATT_IF conn_id) = some p_reg)
    (htcb : gatt_get_tcb_by_idx cb (GATT_GET_TCB_IDX conn_id) = some p_tcb)
    (hvalid : attr_handle ≠ 0)
    (hsel : (notification_bearer P cb conn_id p_reg p_tcb).2 = some k)
    (hb : cb.eatt_bcb[k]? = some b)
    (hbuilt : P.attp_build_sr_msg_built p_tcb (notification_bearer P cb conn_id p_reg p_tcb).1
      P.GATT_HANDLE_VALUE_NOTIF (notification_value P conn_id attr_handle val_len p_val) = true)
    (hstatus : P.attp_send_sr_msg_status cb.att_sr_sent
      (tATT_SR_SENT.sr_msg (GATT_GET_TCB_IDX conn_id)
        (notification_bearer P cb conn_id p_reg p_tcb).1 P.GATT_HANDLE_VALUE_NOTIF
        (notification_value P conn_id attr_handle val_len p_val)) = P.GATT_NO_CREDITS) :
    (conn_id ∉ b.notif_no_credits_apps →
      (GATTS_HandleValueNotification P cb conn_id attr_handle val_len p_val).1 =
        P.GATT_CONGESTED ∧
      (GATTS_HandleValueNotification P cb conn_id attr_handle val_len p_val).2.notif_q =
        cb.notif_q ++ [(GATT_GET_TCB_IDX conn_id,
          (notification_bearer P cb conn_id p_reg p_tcb).1,
          notification_value P conn_id attr_handle val_len p_val)] ∧
      (GATTS_HandleValueNotification P cb conn_id attr_handle val_len p_val).2.eatt_bcb =
        cb.eatt_bcb.set k (block_notification b conn_id)) ∧
    (conn_id ∈ b.notif_no_credits_apps →
      (GATTS_HandleValueNotification P cb conn_id attr_handle val_len p_val).1 =
        P.GATT_NO_CREDITS ∧
      (GATTS_HandleValueNotification P cb conn_id attr_handle val_len p_val).2.notif_q =
        cb.notif_q ∧
      (GATTS_HandleValueNotification P cb conn_id attr_handle val_len p_val).2.eatt_bcb =
        cb.eatt_bcb) := by
  have hattr : (!GATT_HANDLE_IS_VALID attr_handle) = false := by
    simp [GATT_HANDLE_IS_VALID, hvalid]
  have he := (notification_bearer_spec P cb conn_id p_reg p_tcb k hsel).1
  constructor
  · intro hnot
    have hcond := (not_blocked_iff b.notif_no_credits_apps conn_id).2 hnot
    unfold GATTS_HandleValueNotification
    simp only [hreg, htcb, hattr, hbuilt, Bool.false_eq_true, if_false, if_true,
      attp_send_sr_msg, hstatus, hsel, hb, he, Bool.true_and, hcond]
    refine ⟨trivial, ?_, ?_⟩
    · simp [gatt_notif_enq]
    · simp only [ebcb_write, gatt_notif_enq, hb, block_notification]
  · intro hmem
    have hcond : ¬ (b.notif_no_credits_apps.isEmpty ||
        !b.notif_no_credits_apps.contains conn_id) = true := by
      rw [not_blocked_iff]
      exact fun h => h hmem
    unfold GATTS_HandleValueNotification
    simp only [hreg, htcb, hattr, hbuilt, Bool.false_eq_true, if_false, if_true,
      attp_send_sr_msg, hstatus, hsel, hb, he, Bool.true_and, hcond]
    exact ⟨trivial, trivial, trivial⟩

/-- What `GATTS_HandleValueIndication` does when the transport reports `GATT_NO_CREDITS`
(a status other than `GATT_SUCCESS` and `GATT_CONGESTED`) and a bearer is selected. -/
theorem GATTS_HandleValueIndication_no_credits (P : ServerPlatform) (cb : tGATT_CB)
    (conn_id attr_handle val_len : Nat) (p_val : List Nat) (p_reg : tGATT_REG)
    (p_tcb : tGATT_TCB) (k : Nat) (b : tGATT_EBCB)
    (hconst : P.GATT_NO_CREDITS ≠ P.GATT_SUCCESS ∧ P.GATT_NO_CREDITS ≠ P.GATT_CONGESTED)
    (hreg : gatt_get_regcb cb (GATT_GET_GATT_IF conn_id) = some p_reg)
    (htcb : gatt_get_tcb_by_idx cb (GATT_GET_TCB_IDX conn_id) = some p_tcb)
    (hvalid : attr_handle ≠ 0)
    (hsel : (indication_bearer P cb conn_id p_reg p_tcb).2.1 = some k)
    (hfree : (indication_bearer P cb conn_id p_reg p_tcb).2.2 = 0)
    (hb : cb.eatt_bcb[k]? = some b)
    (hbuilt : P.attp_build_sr_msg_built p_tcb (indication_bearer P cb conn_id p_reg p_tcb).1
      P.GATT_HANDLE_VALUE_IND (indication_value P conn_id attr_handle val_len p_val) = true)
    (hstatus : P.attp_send_sr_msg_status cb.att_sr_sent
      (tATT_SR_SENT.sr_msg (GATT_GET_TCB_IDX conn_id)
        (indication_bearer P cb conn_id p_reg p_tcb).1 P.GATT_HANDLE_VALUE_IND
        (indication_value P conn_id attr_handle val_len p_val)) = P.GATT_NO_CREDITS) :
    (conn_id ∉ b.ind_no_credits_apps →
      (GATTS_HandleValueIndication P cb conn_id attr_handle val_len p_val).1 =
        P.GATT_CONGESTED ∧
      (GATTS_HandleValueIndication P cb conn_id attr_handle val_len p_val).2.pending_ind_q =
        cb.pending_ind_q ++ [(GATT_GET_TCB_IDX conn_id,
          (indication_bearer P cb conn_id p_reg p_tcb).1,
          indication_value P conn_id attr_handle val_len p_val)] ∧
      (GATTS_HandleValueIndication P cb conn_id attr_handle val_len p_val).2.eatt_bcb =
        cb.eatt_bcb.set k (block_indication b attr_handle conn_id)) ∧
    (conn_id ∈ b.ind_no_credits_apps →
      (GATTS_HandleValueIndication P cb conn_id attr_handle val_len p_val).1 =
        P.GATT_NO_CREDITS ∧
      (GATTS_HandleValueIndication P cb conn_id attr_handle val_len p_val).2.pending_ind_q =
        cb.pending_ind_q ∧
      (GATTS_HandleValueIndication P cb conn_id attr_handle val_len p_val).2.eatt_bcb =
        cb.eatt_bcb) := by
  have hattr : (!GATT_HANDLE_IS_VALID attr_handle) = false := by
    simp [GATT_HANDLE_IS_VALID, hvalid]
  have hv : GATT_HANDLE_IS_VALID (indication_bearer P cb conn_id p_reg p_tcb).2.2 = false := by
    simp [GATT_HANDLE_IS_VALID, hfree]
  have he := ((indication_bearer_spec P cb conn_id p_reg p_tcb).1 k hsel).1
  have hlt : k < cb.eatt_bcb.length := (List.getElem?_eq_some.1 hb).1
  have hnok : ¬ (P.GATT_NO_CREDITS = P.GATT_SUCCESS ∨ P.GATT_NO_CREDITS = P.GATT_CONGESTED) :=
    fun h => h.elim hconst.1 hconst.2
  constructor
  · intro hnot
    have hcond := (not_blocked_iff b.ind_no_credits_apps conn_id).2 hnot
    unfold GATTS_HandleValueIndication
    simp only [hreg, htcb, hattr, hv, hbuilt, Bool.false_eq_true, if_false, Bool.not_true,
      attp_send_sr_msg, hstatus, hnok, if_true, hsel, hb, he, Bool.true_and, hcond]
    refine ⟨trivial, ?_, ?_⟩
    · simp [gatt_add_pending_ind]
    · simp only [ebcb_write, gatt_add_pending_ind, hb]
      simp [hlt, block_indication, indication_value]
  · intro hmem
    have hcond : ¬ (b.ind_no_credits_apps.isEmpty ||
        !b.ind_no_credits_apps.contains conn_id) = true := by
      rw [not_blocked_iff]
      exact fun h => h hmem
    unfold GATTS_HandleValueIndication
    simp only [hreg, htcb, hattr, hv, hbuilt, Bool.false_eq_true, if_false, Bool.not_true,
      attp_send_sr_msg, hstatus, hnok, if_true, hsel, hb, he, Bool.true_and, hcond]
    exact ⟨trivial, trivial, trivial⟩

/-- The bearers after any call of `GATTS_HandleValueNotification` (with `GATT_NO_RESOURCES` a
status other than `GATT_NO_CREDITS`): as before, or with the connection identifier put on the
notification credit-blocked list of one bearer that did not hold it. -/
theorem GATTS_HandleValueNotification_eatt_bcb (P : ServerPlatform) (cb : tGATT_CB)
    (conn_id attr_handle val_len : Nat) (p_val : List Nat)
    (hres : P.GATT_NO_RESOURCES ≠ P.GATT_NO_CREDITS) :
    (GATTS_HandleValueNotification P cb conn_id attr_handle val_len p_val).2.eatt_bcb =
        cb.eatt_bcb ∨
    ∃ k b, cb.eatt_bcb[k]? = some b ∧ conn_id ∉ b.notif_no_credits_apps ∧
      (GATTS_HandleValueNotification P cb conn_id attr_handle val_len p_val).2.eatt_bcb =
        cb.eatt_bcb.set k (block_notification b conn_id) := by
  cases hreg : gatt_get_regcb cb (GATT_GET_GATT_IF conn_id) with
  | none =>
    left
    unfold GATTS_HandleValueNotification
    simp only [hreg]
  | some p_reg =>
    cases htcb : gatt_get_tcb_by_idx cb (GATT_GET_TCB_IDX conn_id) with
    | none =>
      left
      unfold GATTS_HandleValueNotification
      simp only [hreg, htcb]
    | some p_tcb =>
      by_cases hvalid : attr_handle = 0
      · left
        unfold GATTS_HandleValueNotification
        simp [hreg, htcb, hvalid, GATT_HANDLE_IS_VALID]
      · have hattr : (!GATT_HANDLE_IS_VALID attr_handle) = false := by
          simp [GATT_HANDLE_IS_VALID, hvalid]
        by_cases hbuilt : P.attp_build_sr_msg_built p_tcb
            (notification_bearer P cb conn_id p_reg p_tcb).1 P.GATT_HANDLE_VALUE_NOTIF
            (notification_value P conn_id attr_handle val_len p_val) = true
        · by_cases hstatus : P.attp_send_sr_msg_status cb.att_sr_sent
              (tATT_SR_SENT.sr_msg (GATT_GET_TCB_IDX conn_id)
                (notification_bearer P cb conn_id p_reg p_tcb).1 P.GATT_HANDLE_VALUE_NOTIF
                (notification_value P conn_id attr_handle val_len p_val)) = P.GATT_NO_CREDITS
          · cases hsel : (notification_bearer P cb conn_id p_reg p_tcb).2 with
            | none =>
              left
              unfold GATTS_HandleValueNotification
              simp only [hreg, htcb, hattr, hbuilt, Bool.false_eq_true, if_false, if_true,
                attp_send_sr_msg, hstatus, hsel]
            | some k =>
              obtain ⟨_, b, hb, _, _⟩ := notification_bearer_spec P cb conn_id p_reg p_tcb k hsel
              by_cases hmem : conn_id ∈ b.notif_no_credits_apps
              · left
                exact ((GATTS_HandleValueNotification_no_credits P cb conn_id attr_handle val_len
                  p_val p_reg p_tcb k b hreg htcb hvalid hsel hb hbuilt hstatus).2 hmem).2.2
              · exact Or.inr ⟨k, b, hb, hmem,
                  ((GATTS_HandleValueNotification_no_credits P cb conn_id attr_handle val_len
                    p_val p_reg p_tcb k b hreg htcb hvalid hsel hb hbuilt hstatus).1 hmem).2.2⟩
          · left
            unfold GATTS_HandleValueNotification
            simp only [hreg, htcb, hattr, hbuilt, Bool.false_eq_true, if_false, if_true,
              attp_send_sr_msg, hstatus]
        · left
          unfold GATTS_HandleValueNotification
          simp only [hreg, htcb, hattr, hbuilt, Bool.false_eq_true, if_false, hres]

/-- The bearers after any call of `GATTS_HandleValueIndication` (with `GATT_NO_CREDITS` a
status other than `GATT_SUCCESS` and `GATT_CONGESTED`): as before, or with the outstanding
handle of one bearer set, or with that and the connection identifier put on the indication
credit-blocked list of a bearer that did not hold it. -/
theorem GATTS_HandleValueIndication_eatt_bcb (P : ServerPlatform) (cb : tGATT_CB)
    (conn_id attr_handle val_len : Nat) (p_val : List Nat)
    (hconst : P.GATT_NO_CREDITS ≠ P.GATT_SUCCESS ∧ P.GATT_NO_CREDITS ≠ P.GATT_CONGESTED) :
    (GATTS_HandleValueIndication P cb conn_id attr_handle val_len p_val).2.eatt_bcb =
        cb.eatt_bcb ∨
    ∃ k b, cb.eatt_bcb[k]? = some b ∧
      ((GATTS_HandleValueIndication P cb conn_id attr_handle val_len p_val).2.eatt_bcb =
          cb.eatt_bcb.set k (await_confirmation b attr_handle) ∨
        (conn_id ∉ b.ind_no_credits_apps ∧
          (GATTS_HandleValueIndication P cb conn_id attr_handle val_len p_val).2.eatt_bcb =
            cb.eatt_bcb.set k (block_indication b attr_handle conn_id))) := by
  cases hreg : gatt_get_regcb cb (GATT_GET_GATT_IF conn_id) with
  | none =>
    left
    unfold GATTS_HandleValueIndication
    simp only [hreg]
  | some p_reg =>
    cases htcb : gatt_get_tcb_by_idx cb (GATT_GET_TCB_IDX conn_id) with
    | none =>
      left
      unfold GATTS_HandleValueIndication
      simp only [hreg, htcb]
    | some p_tcb =>
      by_cases hvalid : attr_handle = 0
      · left
        unfold GATTS_HandleValueIndication
        simp [hreg, htcb, hvalid, GATT_HANDLE_IS_VALID]
      · have hattr : (!GATT_HANDLE_IS_VALID attr_handle) = false := by
          simp [GATT_HANDLE_IS_VALID, hvalid]
        by_cases hfree : (indication_bearer P cb conn_id p_reg p_tcb).2.2 = 0
        · have hv : GATT_HANDLE_IS_VALID (indication_bearer P cb conn_id p_reg p_tcb).2.2 =
              false := by
            simp [GATT_HANDLE_IS_VALID, hfree]
          by_cases hbuilt : P.attp_build_sr_msg_built p_tcb
              (indication_bearer P cb conn_id p_reg p_tcb).1 P.GATT_HANDLE_VALUE_IND
              (indication_value P conn_id attr_handle val_len p_val) = true
          · by_cases hok : P.attp_send_sr_msg_status cb.att_sr_sent
                (tATT_SR_SENT.sr_msg (GATT_GET_TCB_IDX conn_id)
                  (indication_bearer P cb conn_id p_reg p_tcb).1 P.GATT_HANDLE_VALUE_IND
                  (indication_value P conn_id attr_handle val_len p_val)) = P.GATT_SUCCESS ∨
                P.attp_send_sr_msg_status cb.att_sr_sent
                  (tATT_SR_SENT.sr_msg (GATT_GET_TCB_IDX conn_id)
                    (indication_bearer P cb conn_id p_reg p_tcb).1 P.GATT_HANDLE_VALUE_IND
                    (indication_value P conn_id attr_handle val_len p_val)) = P.GATT_CONGESTED
            · cases hsel : (indication_bearer P cb conn_id p_reg p_tcb).2.1 with
              | none =>
                left
                unfold GATTS_HandleValueIndication
                simp only [hreg, htcb, hattr, hv, hbuilt, Bool.false_eq_true, if_false,
                  Bool.not_true, attp_send_sr_msg, hok, if_true, hsel]
                simp [gatt_start_conf_timer]
              | some k =>
                obtain ⟨he, _, b, hb, _, _⟩ :=
                  (indication_bearer_spec P cb conn_id p_reg p_tcb).1 k hsel
                have hlt : k < cb.eatt_bcb.length := (List.getElem?_eq_some.1 hb).1
                refine Or.inr ⟨k, b, hb, Or.inl ?_⟩
                unfold GATTS_HandleValueIndication
                simp only [hreg, htcb, hattr, hv, hbuilt, Bool.false_eq_true, if_false,
                  Bool.not_true, attp_send_sr_msg, hok, if_true, hsel, he]
                simp only [gatt_start_conf_timer, ebcb_write, hb, await_confirmation,
                  indication_value]
            · by_cases hstatus : P.attp_send_sr_msg_status cb.att_sr_sent
                  (tATT_SR_SENT.sr_msg (GATT_GET_TCB_IDX conn_id)
                    (indication_bearer P cb conn_id p_reg p_tcb).1 P.GATT_HANDLE_VALUE_IND
                    (indication_value P conn_id attr_handle val_len p_val)) = P.GATT_NO_CREDITS
              · cases hsel : (indication_bearer P cb conn_id p_reg p_tcb).2.1 with
                | none =>
                  left
                  have hnok : ¬ (P.GATT_NO_CREDITS = P.GATT_SUCCESS ∨
                      P.GATT_NO_CREDITS = P.GATT_CONGESTED) :=
                    fun h => h.elim hconst.1 hconst.2
                  unfold GATTS_HandleValueIndication
                  simp only [hreg, htcb, hattr, hv, hbuilt, Bool.false_eq_true, if_false,
                    Bool.not_true, attp_send_sr_msg, hstatus, hnok, if_true, hsel]
                | some k =>
                  obtain ⟨_, _, b, hb, _, _⟩ :=
                    (indication_bearer_spec P cb conn_id p_reg p_tcb).1 k hsel
                  by_cases hmem : conn_id ∈ b.ind_no_credits_apps
                  · left
                    exact ((GATTS_HandleValueIndication_no_credits P cb conn_id attr_handle
                      val_len p_val p_reg p_tcb k b hconst hreg htcb hvalid hsel hfree hb hbuilt
                      hstatus).2 hmem).2.2
                  · exact Or.inr ⟨k, b, hb, Or.inr ⟨hmem,
                      ((GATTS_HandleValueIndication_no_credits P cb conn_id attr_handle
                        val_len p_val p_reg p_tcb k b hconst hreg htcb hvalid hsel hfree hb
                        hbuilt hstatus).1 hmem).2.2⟩⟩
              · left
                unfold GATTS_HandleValueIndication
                simp only [hreg, htcb, hattr, hv, hbuilt, Bool.false_eq_true, if_false,
                  Bool.not_true, attp_send_sr_msg, hok, hstatus]
          · left
            unfold GATTS_HandleValueIndication
            simp only [hreg, htcb, hattr, hv, hbuilt, Bool.false_eq_true, if_false,
              Bool.not_false, if_true]
        · left
          have hv : GATT_HANDLE_IS_VALID (indication_bearer P cb conn_id p_reg p_tcb).2.2 =
              true := by
            simp [GATT_HANDLE_IS_VALID, hfree]
          unfold GATTS_HandleValueIndication
          simp only [hreg, htcb, hattr, hv, Bool.false_eq_true, if_false, if_true,
            gatt_add_pending_ind]

/-- Duplicate-free credit-blocked lists stay duplicate-free when one bearer is rewritten into
one with duplicate-free lists. -/
theorem credit_lists_nodup_set (cb cb1 : tGATT_CB) (k : Nat) (b1 : tGATT_EBCB)
    (h : credit_lists_nodup cb) (hset : cb1.eatt_bcb = cb.eatt_bcb.set k b1)
    (h1 : b1.notif_no_credits_apps.Nodup ∧ b1.ind_no_credits_apps.Nodup) :
    credit_lists_nodup cb1 := by
  intro x hx
  rw [hset] at hx
  rcases List.mem_or_eq_of_mem_set hx with hx | hx
  · exact h x hx
  · rw [hx]
    exact h1

theorem nodup_append_singleton (l : List Nat) (c : Nat) (hl : l.Nodup) (hc : c ∉ l) :
    (l ++ [c]).Nodup := by
  rw [List.nodup_append]
  refine ⟨hl, List.nodup_singleton c, ?_⟩
  intro a ha hb
  simp only [List.mem_singleton] at hb
  subst hb
  exact hc ha

/-- Every sequence of calls of the two messaging functions keeps the credit-blocked lists
duplicate-free. -/
theorem run_messaging_ops_nodup (P : ServerPlatform) (ops : List MessagingOp) (cb : tGATT_CB)
    (hconst : P.GATT_NO_CREDITS ≠ P.GATT_SUCCESS ∧ P.GATT_NO_CREDITS ≠ P.GATT_CONGESTED)
    (hres : P.GATT_NO_RESOURCES ≠ P.GATT_NO_CREDITS)
    (h : credit_lists_nodup cb) : credit_lists_nodup (run_messaging_ops P cb ops) := by
  induction ops generalizing cb with
  | nil => exact h
  | cons op ops ih =>
    unfold run_messaging_ops
    apply ih
    cases op with
    | Indication conn_id attr_handle val_len p_val =>
      rcases GATTS_HandleValueIndication_eatt_bcb P cb conn_id attr_handle val_len p_val
        hconst with he | ⟨k, b, hb, he | ⟨hnot, he⟩⟩
      · intro x hx
        exact h x (by rw [← he]; exact hx)
      · exact credit_lists_nodup_set cb _ k _ h he (h b (List.getElem?_mem hb))
      · exact credit_lists_nodup_set cb _ k _ h he
          ⟨(h b (List.getElem?_mem hb)).1,
            nodup_append_singleton _ _ (h b (List.getElem?_mem hb)).2 hnot⟩
    | Notification conn_id attr_handle val_len p_val =>
      rcases GATTS_HandleValueNotification_eatt_bcb P cb conn_id attr_handle val_len p_val
        hres with he | ⟨k, b, hb, hnot, he⟩
      · intro x hx
        exact h x (by rw [← he]; exact hx)
      · exact credit_lists_nodup_set cb _ k _ h he
          ⟨nodup_append_singleton _ _ (h b (List.getElem?_mem hb)).1 hnot,
            (h b (List.getElem?_mem hb)).2⟩

/-- C23: no-credits queuing with dedup (status constants of the header distinct). For a known
connection and a valid attribute handle, when the transport reports `GATT_NO_CREDITS` for
`GATTS_HandleValueNotification` (respectively, past the outstanding-indication test, for
`GATTS_HandleValueIndication`) and a bearer `b` at position `k` is selected: if the
notification (respectively indication) credit-blocked list of `b` does not hold `conn_id`,
the payload is put once at the end of the pending queue of the channel of the call, `conn_id`
is put at the end of that list and `GATT_CONGESTED` is returned; if the list holds `conn_id`,
nothing is queued and no bearer changes. The channel of the call is the channel of `b` (for
an indication: when the application has the EATT opt-in or the channel of the link is
`L2CAP_ATT_CID`). Consequently every sequence of calls of the two functions keeps the
credit-blocked lists of every bearer free of duplicates. -/
theorem no_credits_queues_once (P : ServerPlatform) (cb : tGATT_CB)
    (conn_id attr_handle val_len : Nat) (p_val : List Nat) (p_reg : tGATT_REG)
    (p_tcb : tGATT_TCB) (k : Nat) (b : tGATT_EBCB)
    (hconst : P.GATT_NO_CREDITS ≠ P.GATT_SUCCESS ∧ P.GATT_NO_CREDITS ≠ P.GATT_CONGESTED)
    (hres : P.GATT_NO_RESOURCES ≠ P.GATT_NO_CREDITS)
    (hreg : gatt_get_regcb cb (GATT_GET_GATT_IF conn_id) = some p_reg)
    (htcb : gatt_get_tcb_by_idx cb (GATT_GET_TCB_IDX conn_id) = some p_tcb)
    (hvalid : attr_handle ≠ 0)
    (hb : cb.eatt_bcb[k]? = some b) :
    ((notification_bearer P cb conn_id p_reg p_tcb).2 = some k →
      P.attp_build_sr_msg_built p_tcb (notification_bearer P cb conn_id p_reg p_tcb).1
        P.GATT_HANDLE_VALUE_NOTIF (notification_value P conn_id attr_handle val_len p_val) = true →
      P.attp_send_sr_msg_status cb.att_sr_sent
        (tATT_SR_SENT.sr_msg (GATT_GET_TCB_IDX conn_id)
          (notification_bearer P cb conn_id p_reg p_tcb).1 P.GATT_HANDLE_VALUE_NOTIF
          (notification_value P conn_id attr_handle val_len p_val)) = P.GATT_NO_CREDITS →
      p_tcb.is_eatt_supported = true ∧
      (notification_bearer P cb conn_id p_reg p_tcb).1 = b.cid ∧
      (conn_id ∉ b.notif_no_credits_apps →
        (GATTS_HandleValueNotification P cb conn_id attr_handle val_len p_val).1 =
          P.GATT_CONGESTED ∧
        (GATTS_HandleValueNotification P cb conn_id attr_handle val_len p_val).2.notif_q =
          cb.notif_q ++ [(GATT_GET_TCB_IDX conn_id,
            (notification_bearer P cb conn_id p_reg p_tcb).1,
            notification_value P conn_id attr_handle val_len p_val)] ∧
        (GATTS_HandleValueNotification P cb conn_id attr_handle val_len p_val).2.eatt_bcb =
          cb.eatt_bcb.set k (block_notification b conn_id)) ∧
      (conn_id ∈ b.notif_no_credits_apps →
        (GATTS_HandleValueNotification P cb conn_id attr_handle val_len p_val).1 =
          P.GATT_NO_CREDITS ∧
        (GATTS_HandleValueNotification P cb conn_id attr_handle val_len p_val).2.notif_q =
          cb.notif_q ∧
        (GATTS_HandleValueNotification P cb conn_id attr_handle val_len p_val).2.eatt_bcb =
          cb.eatt_bcb)) ∧
    ((indication_bearer P cb conn_id p_reg p_tcb).2.1 = some k →
      (indication_bearer P cb conn_id p_reg p_tcb).2.2 = 0 →
      P.attp_build_sr_msg_built p_tcb (indication_bearer P cb conn_id p_reg p_tcb).1
        P.GATT_HANDLE_VALUE_IND (indication_value P conn_id attr_handle val_len p_val) = true →
      P.attp_send_sr_msg_status cb.att_sr_sent
        (tATT_SR_SENT.sr_msg (GATT_GET_TCB_IDX conn_id)
          (indication_bearer P cb conn_id p_reg p_tcb).1 P.GATT_HANDLE_VALUE_IND
          (indication_value P conn_id attr_handle val_len p_val)) = P.GATT_NO_CREDITS →
      p_tcb.is_eatt_supported = true ∧
      (p_reg.eatt_support = true ∨ p_tcb.att_lcid = P.L2CAP_ATT_CID →
        (indication_bearer P cb conn_id p_reg p_tcb).1 = b.cid) ∧
      (conn_id ∉ b.ind_no_credits_apps →
        (GATTS_HandleValueIndication P cb conn_id attr_handle val_len p_val).1 =
          P.GATT_CONGESTED ∧
        (GATTS_HandleValueIndication P cb conn_id attr_handle val_len p_val).2.pending_ind_q =
          cb.pending_ind_q ++ [(GATT_GET_TCB_IDX conn_id,
            (indication_bearer P cb conn_id p_reg p_tcb).1,
            indication_value P conn_id attr_handle val_len p_val)] ∧
        (GATTS_HandleValueIndication P cb conn_id attr_handle val_len p_val).2.eatt_bcb =
          cb.eatt_bcb.set k (block_indication b attr_handle conn_id)) ∧
      (conn_id ∈ b.ind_no_credits_apps →
        (GATTS_HandleValueIndication P cb conn_id attr_handle val_len p_val).1 =
          P.GATT_NO_CREDITS ∧
        (GATTS_HandleValueIndication P cb conn_id attr_handle val_len p_val).2.pending_ind_q =
          cb.pending_ind_q ∧
        (GATTS_HandleValueIndication P cb conn_id attr_handle val_len p_val).2.eatt_bcb =
          cb.eatt_bcb)) ∧
    (credit_lists_nodup cb → ∀ ops, credit_lists_nodup (run_messaging_ops P cb ops)) := by
  refine ⟨?_, ?_, ?_⟩
  · intro hsel hbuilt hstatus
    obtain ⟨he, b1, hb1, _, hcid⟩ := notification_bearer_spec P cb conn_id p_reg p_tcb k hsel
    rw [hb] at hb1
    cases hb1
    have h := GATTS_HandleValueNotification_no_credits P cb conn_id attr_handle val_len p_val
      p_reg p_tcb k b hreg htcb hvalid hsel hb hbuilt hstatus
    exact ⟨he, hcid, h.1, h.2⟩
  · intro hsel hfree hbuilt hstatus
    obtain ⟨he, _, b1, hb1, _, hcid⟩ := (indication_bearer_spec P cb conn_id p_reg p_tcb).1 k hsel
    rw [hb] at hb1
    cases hb1
    have h := GATTS_HandleValueIndication_no_credits P cb conn_id attr_handle val_len p_val
      p_reg p_tcb k b hconst hreg htcb hvalid hsel hfree hb hbuilt hstatus
    exact ⟨he, hcid, h.1, h.2⟩
  · intro hnodup ops
    exact run_messaging_ops_nodup P ops cb hconst hres hnodup

/-- Witness of C23: on `sample_eatt_cb` application 1 notifies on its bearer 0x41 (position
1), which has no credits: `GATT_CONGESTED`, one queue entry, 0x0001 on the notification
credit-blocked list. On the resulting state (`sample_cb_blocked`) the same call returns
`GATT_NO_CREDITS` and nothing is queued. After `sample_messaging_ops` no list holds a
connection identifier twice. -/
theorem no_credits_queues_once_witness :
    (GATTS_HandleValueNotification stockServerPlatform sample_eatt_cb 0x0001 0x31 1 [9]).1 =
      stockServerPlatform.GATT_CONGESTED ∧
    (GATTS_HandleValueNotification stockServerPlatform sample_eatt_cb 0x0001 0x31 1 [9]).2.notif_q =
      [(0, 0x41, notification_value stockServerPlatform 0x0001 0x31 1 [9])] ∧
    (GATTS_HandleValueNotification stockServerPlatform sample_eatt_cb 0x0001 0x31 1
      [9]).2.eatt_bcb.map (fun b => b.notif_no_credits_apps) = [[], [0x0001], []] ∧
    (GATTS_HandleValueNotification stockServerPlatform sample_cb_blocked 0x0001 0x31 1 [9]).1 =
      stockServerPlatform.GATT_NO_CREDITS ∧
    (GATTS_HandleValueNotification stockServerPlatform sample_cb_blocked 0x0001 0x31 1
      [9]).2.notif_q = sample_cb_blocked.notif_q ∧
    (GATTS_HandleValueNotification stockServerPlatform sample_cb_blocked 0x0001 0x31 1
      [9]).2.eatt_bcb = sample_cb_blocked.eatt_bcb ∧
    (GATTS_HandleValueIndication stockServerPlatform sample_eatt_cb 0x0001 0x30 1 [7]).1 =
      stockServerPlatform.GATT_CONGESTED ∧
    credit_lists_nodup
      (run_messaging_ops stockServerPlatform sample_eatt_cb sample_messaging_ops) := by
  have hconst : stockServerPlatform.GATT_NO_CREDITS ≠ stockServerPlatform.GATT_SUCCESS ∧
      stockServerPlatform.GATT_NO_CREDITS ≠ stockServerPlatform.GATT_CONGESTED := by decide
  have hres : stockServerPlatform.GATT_NO_RESOURCES ≠ stockServerPlatform.GATT_NO_CREDITS := by
    decide
  have h0 := no_credits_queues_once stockServerPlatform sample_eatt_cb 0x0001 0x31 1 [9]
    ((sample_eatt_cb.cl_rcb[0]?).getD {}) ((sample_eatt_cb.tcb[0]?).getD {}) 1
    ((sample_eatt_cb.eatt_bcb[1]?).getD {}) hconst hres (by decide) (by decide) (by decide)
    (by decide)
  have h1 := no_credits_queues_once stockServerPlatform sample_cb_blocked 0x0001 0x31 1 [9]
    ((sample_cb_blocked.cl_rcb[0]?).getD {}) ((sample_cb_blocked.tcb[0]?).getD {}) 1
    ((sample_cb_blocked.eatt_bcb[1]?).getD {}) hconst hres (by decide) (by decide) (by decide)
    (by decide)
  have h2 := no_credits_queues_once stockServerPlatform sample_eatt_cb 0x0001 0x30 1 [7]
    ((sample_eatt_cb.cl_rcb[0]?).getD {}) ((sample_eatt_cb.tcb[0]?).getD {}) 1
    ((sample_eatt_cb.eatt_bcb[1]?).getD {}) hconst hres (by decide) (by decide) (by decide)
    (by decide)
  have hn0 := (h0.1 (by decide) (by decide) (by decide)).2.2.1 (by decide)
  have hn1 := (h1.1 (by decide) (by decide) (by decide)).2.2.2 (by decide)
  have hi0 := (h2.2.1 (by decide) (by decide) (by decide) (by decide)).2.2.1 (by decide)
  have hnodup : credit_lists_nodup sample_eatt_cb := by
    unfold credit_lists_nodup
    decide
  exact ⟨hn0.1, by decide, by decide, hn1.1, hn1.2.1, hn1.2.2, hi0.1,
    h0.2.2 hnodup sample_messaging_ops⟩

/-- C24 (as amended): busy on repeat while blocked (`GATT_BUSY` a status other than
`GATT_SUCCESS`). `GATTS_CheckStatusForApp` never changes the control block. For an unknown
application or link it returns `GATT_INVALID_CONN_ID` cast to the one-byte `tGATT_STATUS`,
that is the low byte of the constant. For a known connection it returns `GATT_BUSY` if and
only if the link and the application both support EATT, a bearer is bound to `conn_id` (the
connection identifier is found and the link has a bearer with its channel), the no-credits
flag of that bearer is set, and `conn_id` is on its indication credit-blocked list
(`confirm = true`) or notification credit-blocked list (`confirm = false`); in every other
case with a known connection it returns `GATT_SUCCESS`. -/
theorem check_status_busy (P : ServerPlatform) (cb : tGATT_CB) (conn_id : Nat) (confirm : Bool)
    (hconst : P.GATT_BUSY ≠ P.GATT_SUCCESS) :
    (GATTS_CheckStatusForApp P cb conn_id confirm).2 = cb ∧
    ((gatt_get_regcb cb (GATT_GET_GATT_IF conn_id) = none ∨
        gatt_get_tcb_by_idx cb (GATT_GET_TCB_IDX conn_id) = none) →
      (GATTS_CheckStatusForApp P cb conn_id confirm).1 = P.GATT_INVALID_CONN_ID % 256) ∧
    (∀ p_reg p_tcb, gatt_get_regcb cb (GATT_GET_GATT_IF conn_id) = some p_reg →
      gatt_get_tcb_by_idx cb (GATT_GET_TCB_IDX conn_id) = some p_tcb →
      ((GATTS_CheckStatusForApp P cb conn_id confirm).1 = P.GATT_BUSY ↔
        (p_tcb.is_eatt_supported = true ∧ p_reg.eatt_support = true ∧
          is_gatt_conn_id_found cb conn_id = true ∧
          ∃ k b, gatt_find_eatt_bcb_by_cid cb (GATT_GET_TCB_IDX conn_id)
              (gatt_get_cid_by_conn_id P.toClientPlatform cb conn_id) = some k ∧
            cb.eatt_bcb[k]? = some b ∧ b.no_credits = true ∧
            conn_id ∈ (if confirm = true then b.ind_no_credits_apps
              else b.notif_no_credits_apps))) ∧
      ((GATTS_CheckStatusForApp P cb conn_id confirm).1 ≠ P.GATT_BUSY →
        (GATTS_CheckStatusForApp P cb conn_id confirm).1 = P.GATT_SUCCESS)) := by
  refine ⟨?_, ?_, ?_⟩
  · unfold GATTS_CheckStatusForApp
    dsimp only
    split
    · rfl
    · split
      · rfl
      · split
        · rfl
        · split
          · rfl
          · split
            · split <;> rfl
            · split <;> rfl
  · intro h
    unfold GATTS_CheckStatusForApp
    dsimp only
    rcases h with h | h
    · rw [h]
    · rw [h]
      split <;> rfl
  · intro p_reg p_tcb hreg htcb
    have hne : P.GATT_SUCCESS ≠ P.GATT_BUSY := fun e => hconst e.symm
    unfold GATTS_CheckStatusForApp
    simp only [hreg, htcb]
    cases he : p_tcb.is_eatt_supported <;> cases hr : p_reg.eatt_support
    · simp [hne]
    · simp [hne]
    · simp [hne]
    · simp only [Bool.not_true, Bool.or_self, Bool.false_eq_true, if_false, Bool.and_self,
        if_true, Bool.true_and, true_and]
      cases hfound : is_gatt_conn_id_found cb conn_id with
      | false => simp [hne]
      | true =>
        simp only [if_true, true_and]
        cases hf : gatt_find_eatt_bcb_by_cid cb (GATT_GET_TCB_IDX conn_id)
            (gatt_get_cid_by_conn_id P.toClientPlatform cb conn_id) with
        | none => simp [hne]
        | some k =>
          obtain ⟨b, hb, _, _⟩ := gatt_find_eatt_bcb_by_cid_some cb _ _ k hf
          simp only [hb, Option.some.injEq, exists_eq_left']
          cases hc : confirm <;> cases hn : b.no_credits
          · simp [hne, hb, hn]
          · by_cases hm : conn_id ∈ b.notif_no_credits_apps
            · simp [hm, hb, hn]
            · simp [hm, hne, hb, hn]
          · simp [hne, hb, hn]
          · by_cases hm : conn_id ∈ b.ind_no_credits_apps
            · simp [hm, hb, hn]
            · simp [hm, hne, hb, hn]

/-- Witness of C24: on `sample_cb_blocked`, where the bearer of connection identifier 0x0001
is flagged and 0x0001 is on its notification credit-blocked list, the check answers
`GATT_BUSY` for a notification and `GATT_SUCCESS` for an indication; application 2, without
the EATT opt-in, gets `GATT_SUCCESS`; the unregistered application 3 and the unknown link 5
get 0xFF, the low byte of `GATT_INVALID_CONN_ID`; the control block is never changed. -/
theorem check_status_busy_witness :
    (GATTS_CheckStatusForApp stockServerPlatform sample_cb_blocked 0x0001 false).1 =
      stockServerPlatform.GATT_BUSY ∧
    (GATTS_CheckStatusForApp stockServerPlatform sample_cb_blocked 0x0001 true).1 =
      stockServerPlatform.GATT_SUCCESS ∧
    (GATTS_CheckStatusForApp stockServerPlatform sample_cb_blocked 0x0002 false).1 =
      stockServerPlatform.GATT_SUCCESS ∧
    (GATTS_CheckStatusForApp stockServerPlatform sample_cb_blocked 0x0003 false).1 = 0xFF ∧
    (GATTS_CheckStatusForApp stockServerPlatform sample_cb_blocked 0x0501 true).1 = 0xFF ∧
    (GATTS_CheckStatusForApp stockServerPlatform sample_cb_blocked 0x0001 false).2 =
      sample_cb_blocked := by
  have hconst : stockServerPlatform.GATT_BUSY ≠ stockServerPlatform.GATT_SUCCESS := by decide
  have h1 := check_status_busy stockServerPlatform sample_cb_blocked 0x0001 false hconst
  have h2 := check_status_busy stockServerPlatform sample_cb_blocked 0x0001 true hconst
  have h3 := check_status_busy stockServerPlatform sample_cb_blocked 0x0002 false hconst
  have h4 := check_status_busy stockServerPlatform sample_cb_blocked 0x0003 false hconst
  have h5 := check_status_busy stockServerPlatform sample_cb_blocked 0x0501 true hconst
  refine ⟨?_, ?_, ?_, h4.2.1 (Or.inl (by decide)), h5.2.1 (Or.inr (by decide)), h1.1⟩
  · exact ((h1.2.2 ((sample_cb_blocked.cl_rcb[0]?).getD {}) ((sample_cb_blocked.tcb[0]?).getD {})
      (by decide) (by decide)).1).2
      ⟨by decide, by decide, by decide, 1, (sample_cb_blocked.eatt_bcb[1]?).getD {}, by decide,
        by decide, by decide, by decide⟩
  · exact (h2.2.2 ((sample_cb_blocked.cl_rcb[0]?).getD {}) ((sample_cb_blocked.tcb[0]?).getD {})
      (by decide) (by decide)).2 (by decide)
  · exact (h3.2.2 ((sample_cb_blocked.cl_rcb[1]?).getD {}) ((sample_cb_blocked.tcb[0]?).getD {})
      (by decide) (by decide)).2 (by decide)

/-- Counterexample to C24 as stated: in `sample_cb_blocked` the application 3 is not registered
and there is no link 5. For the connection identifiers 0x0003 (unknown application) and 0x0501
(unknown link) `GATTS_CheckStatusForApp` returns 0xFF, the low byte that the cast to
`tGATT_STATUS` of line 1902 keeps of `GATT_INVALID_CONN_ID` = 0xFFFF: the status returned is
not `GATT_INVALID_CONN_ID`. -/
theorem check_status_unknown_connection_low_byte :
    gatt_get_regcb sample_cb_blocked (GATT_GET_GATT_IF 0x0003) = none ∧
    gatt_get_tcb_by_idx sample_cb_blocked (GATT_GET_TCB_IDX 0x0501) = none ∧
    stockServerPlatform.GATT_INVALID_CONN_ID = 0xFFFF ∧
    (GATTS_CheckStatusForApp stockServerPlatform sample_cb_blocked 0x0003 false).1 = 0xFF ∧
    (GATTS_CheckStatusForApp stockServerPlatform sample_cb_blocked 0x0501 true).1 = 0xFF ∧
    (GATTS_CheckStatusForApp stockServerPlatform sample_cb_blocked 0x0003 false).1 ≠
      stockServerPlatform.GATT_INVALID_CONN_ID ∧
    (GATTS_CheckStatusForApp stockServerPlatform sample_cb_blocked 0x0501 true).1 ≠
      stockServerPlatform.GATT_INVALID_CONN_ID := by
  decide

/-- C25: multi-value notification capability. For a known connection, if the stored client
supported features of the peer (a `uint8_t`) lack the bit `CL_MULTI_NOTIF_SUPPORTED`,
`GATTS_MultiHandleValueNotifications` returns `GATT_REQ_NOT_SUPPORTED` and the control block
is unchanged (no message built or sent). When the capability is present, the handles are
valid and the message is built, the one message is handed to the transport and the status of
the transport is returned as it is, `GATT_NO_CREDITS` included. In every case the pending
queues and the bearer and link records are unchanged: nothing is queued. -/
theorem multi_notification_capability (P : ServerPlatform) (cb : tGATT_CB)
    (conn_id num_attr : Nat) (handles lens : Nat → Nat) (values : List (List Nat))
    (p_reg : tGATT_REG) (p_tcb : tGATT_TCB)
    (hreg : gatt_get_regcb cb (GATT_GET_GATT_IF conn_id) = some p_reg)
    (htcb : gatt_get_tcb_by_idx cb (GATT_GET_TCB_IDX conn_id) = some p_tcb) :
    ((P.btif_storage_get_cl_supp_feat p_tcb.peer_bda % 256) &&& P.CL_MULTI_NOTIF_SUPPORTED ≠
        P.CL_MULTI_NOTIF_SUPPORTED →
      GATTS_MultiHandleValueNotifications P cb conn_id num_attr handles lens values =
        (P.GATT_REQ_NOT_SUPPORTED, cb)) ∧
    ((P.btif_storage_get_cl_supp_feat p_tcb.peer_bda % 256) &&& P.CL_MULTI_NOTIF_SUPPORTED =
        P.CL_MULTI_NOTIF_SUPPORTED →
      multi_ntf_handles_valid handles num_attr = true →
      P.attp_build_multi_ntf_cmd_built
        (gatt_get_payload_size cb (GATT_GET_TCB_IDX conn_id) p_tcb
          (multi_notification_lcid P cb conn_id p_reg p_tcb))
        (multi_notification_value P conn_id num_attr handles lens values) = true →
      (GATTS_MultiHandleValueNotifications P cb conn_id num_attr handles lens values).1 =
        P.attp_send_sr_msg_status cb.att_sr_sent
          (tATT_SR_SENT.multi_ntf_cmd (GATT_GET_TCB_IDX conn_id)
            (multi_notification_lcid P cb conn_id p_reg p_tcb)
            (gatt_get_payload_size cb (GATT_GET_TCB_IDX conn_id) p_tcb
              (multi_notification_lcid P cb conn_id p_reg p_tcb))
            (multi_notification_value P conn_id num_attr handles lens values)) ∧
      (GATTS_MultiHandleValueNotifications P cb conn_id num_attr handles lens values).2.att_sr_sent =
        cb.att_sr_sent ++ [tATT_SR_SENT.multi_ntf_cmd (GATT_GET_TCB_IDX conn_id)
          (multi_notification_lcid P cb conn_id p_reg p_tcb)
          (gatt_get_payload_size cb (GATT_GET_TCB_IDX conn_id) p_tcb
            (multi_notification_lcid P cb conn_id p_reg p_tcb))
          (multi_notification_value P conn_id num_attr handles lens values)] ∧
      (P.attp_send_sr_msg_status cb.att_sr_sent
          (tATT_SR_SENT.multi_ntf_cmd (GATT_GET_TCB_IDX conn_id)
            (multi_notification_lcid P cb conn_id p_reg p_tcb)
            (gatt_get_payload_size cb (GATT_GET_TCB_IDX conn_id) p_tcb
              (multi_notification_lcid P cb conn_id p_reg p_tcb))
            (multi_notification_value P conn_id num_attr handles lens values)) =
          P.GATT_NO_CREDITS →
        (GATTS_MultiHandleValueNotifications P cb conn_id num_attr handles lens values).1 =
          P.GATT_NO_CREDITS)) ∧
    ((GATTS_MultiHandleValueNotifications P cb conn_id num_attr handles lens values).2.notif_q =
        cb.notif_q ∧
      (GATTS_MultiHandleValueNotifications P cb conn_id num_attr handles lens
        values).2.pending_ind_q = cb.pending_ind_q ∧
      (GATTS_MultiHandleValueNotifications P cb conn_id num_attr handles lens
        values).2.eatt_bcb = cb.eatt_bcb ∧
      (GATTS_MultiHandleValueNotifications P cb conn_id num_attr handles lens
        values).2.tcb = cb.tcb) := by
  refine ⟨?_, ?_, ?_⟩
  · intro hlack
    unfold GATTS_MultiHandleValueNotifications
    simp only [hreg, htcb, hlack, ne_eq, not_false_eq_true, if_true]
  · intro hcap hvalid hbuilt
    have hsent : GATTS_MultiHandleValueNotifications P cb conn_id num_attr handles lens values =
        attp_send_sr_msg P cb (tATT_SR_SENT.multi_ntf_cmd (GATT_GET_TCB_IDX conn_id)
          (multi_notification_lcid P cb conn_id p_reg p_tcb)
          (gatt_get_payload_size cb (GATT_GET_TCB_IDX conn_id) p_tcb
            (multi_notification_lcid P cb conn_id p_reg p_tcb))
          (multi_notification_value P conn_id num_attr handles lens values)) := by
      unfold GATTS_MultiHandleValueNotifications
      simp only [hreg, htcb, hcap, ne_eq, not_true_eq_false, if_false, hvalid, Bool.not_true,
        Bool.false_eq_true, hbuilt, if_true]
    rw [hsent]
    exact ⟨rfl, rfl, fun h => h⟩
  · unfold GATTS_MultiHandleValueNotifications
    simp only [hreg, htcb]
    split
    · exact ⟨rfl, rfl, rfl, rfl⟩
    · split
      · exact ⟨rfl, rfl, rfl, rfl⟩
      · split
        · exact ⟨rfl, rfl, rfl, rfl⟩
        · exact ⟨rfl, rfl, rfl, rfl⟩

/-- Witness of C25: on `sample_eatt_cb` the peer 0xB1 of the BR/EDR link lacks the capability
and application 1 gets `GATT_REQ_NOT_SUPPORTED` with nothing sent; the peer 0xB0 has it, and
on the bearer 0x41 without credits application 1 gets `GATT_NO_CREDITS` with nothing
queued. -/
theorem multi_notification_capability_witness :
    GATTS_MultiHandleValueNotifications stockServerPlatform sample_eatt_cb 0x0101 2
        (fun i => 0x30 + i) (fun _ => 1) [[1], [2]] =
      (stockServerPlatform.GATT_REQ_NOT_SUPPORTED, sample_eatt_cb) ∧
    (GATTS_MultiHandleValueNotifications stockServerPlatform sample_eatt_cb 0x0001 2
        (fun i => 0x30 + i) (fun _ => 1) [[1], [2]]).1 = stockServerPlatform.GATT_NO_CREDITS ∧
    (GATTS_MultiHandleValueNotifications stockServerPlatform sample_eatt_cb 0x0001 2
        (fun i => 0x30 + i) (fun _ => 1) [[1], [2]]).2.notif_q = sample_eatt_cb.notif_q ∧
    (GATTS_MultiHandleValueNotifications stockServerPlatform sample_eatt_cb 0x0001 2
        (fun i => 0x30 + i) (fun _ => 1) [[1], [2]]).2.eatt_bcb = sample_eatt_cb.eatt_bcb := by
  have h0 := multi_notification_capability stockServerPlatform sample_eatt_cb 0x0101 2
    (fun i => 0x30 + i) (fun _ => 1) [[1], [2]]
    ((sample_eatt_cb.cl_rcb[0]?).getD {}) ((sample_eatt_cb.tcb[1]?).getD {})
    (by decide) (by decide)
  have h1 := multi_notification_capability stockServerPlatform sample_eatt_cb 0x0001 2
    (fun i => 0x30 + i) (fun _ => 1) [[1], [2]]
    ((sample_eatt_cb.cl_rcb[0]?).getD {}) ((sample_eatt_cb.tcb[0]?).getD {})
    (by decide) (by decide)
  exact ⟨h0.1 (by decide),
    (h1.2.1 (by decide) (by decide) (by decide)).2.2 (by decide), h1.2.2.1, h1.2.2.2.2.1⟩

end Gatt
